import Mathlib

/-!
# pmk: key-resolution pipeline of a hall-effect keyboard firmware

Shallow embedding of the key-resolution code of `api/main.c`, `api/hallscan.c`
and `api/features/socd/socd.c`, of the raw HID handler `api/hid_reports.c` and
of the keymap profiles `api/profiles.c`, and theorems about it.

Conventions of the embedding:
* C arrays are total functions from the index (`Nat → α`); only the indices
  below the declared length are meaningful, an in-place store is `upd`.
* `uint8_t` / `uint16_t` / `uint32_t` values are `Nat`, reduced with `%` where
  the C arithmetic can wrap. `int8_t` values are `Int`.
* Hardware reads (ADC samples, the millisecond clock) are inputs.
-/

set_option maxRecDepth 20000

namespace Pmk

/-! ## Constants -/

/-- The sensor enum of `boards/example_60/config.h` has 64 entries before
`SENSOR_COUNT_PLUS_1`; `SENSOR_COUNT` is `SENSOR_COUNT_PLUS_1 - 1`. -/
def SENSOR_COUNT : Nat := 64

/-- Number of keymap layers, `#define MAX_LAYERS 4` in main.c. -/
def MAX_LAYERS : Nat := 4

/-- In-place store into an array: `a[i] = v`. -/
def upd {α : Type} (a : Nat → α) (i : Nat) (v : α) : Nat → α :=
  fun j => if j = i then v else a j

/-! ## Keycode resolution (main.c, `get_keycode`) -/

/-- The function `get_keycode` of main.c. `keymap` is the runtime table
`keymap[MAX_LAYERS][SENSOR_COUNT]`; `layer1_keycodes` and `default_keycodes` are
the compiled-in board tables (`sizeof` of a `uint8_t` array is its length). -/
def get_keycode (keymap : Nat → Nat → Nat) (layer1_keycodes default_keycodes : List Nat)
    (layer sensor_idx : Nat) : Nat :=
  if sensor_idx ≥ SENSOR_COUNT then 0
  else
    let layer := if layer ≥ MAX_LAYERS then 0 else layer
    if keymap layer sensor_idx ≠ 0 then keymap layer sensor_idx
    else if layer = 1 ∧ sensor_idx < layer1_keycodes.length
        ∧ layer1_keycodes.getD sensor_idx 0 ≠ 0 then
      layer1_keycodes.getD sensor_idx 0
    else if layer > 0 ∧ keymap 0 sensor_idx ≠ 0 then keymap 0 sensor_idx
    else if sensor_idx < default_keycodes.length then default_keycodes.getD sensor_idx 0
    else 0

/-- First non-zero entry of a list of candidates, `0` when there is none. -/
def firstNonzero : List Nat → Nat
  | [] => 0
  | x :: xs => if x ≠ 0 then x else firstNonzero xs

/-- The fallthrough order as the specification words it: the runtime entry of
the layer, the compiled layer-1 default (only on layer 1), the runtime entry of
layer 0, the compiled base default. -/
def keycode_fallthrough (keymap : Nat → Nat → Nat) (layer1_keycodes default_keycodes : List Nat)
    (layer sensor_idx : Nat) : Nat :=
  firstNonzero
    ([keymap layer sensor_idx]
      ++ (if layer = 1 then [layer1_keycodes.getD sensor_idx 0] else [])
      ++ [keymap 0 sensor_idx, default_keycodes.getD sensor_idx 0])

/-! ## Layer handling (main.c, the MO/TG block of the scan loop) -/

/-- Momentary-layer keycode, `#define MO(n) (0xA7 + (n))` in keycodes.h. -/
def MO (n : Nat) : Nat := 0xA7 + n

/-- Toggle-layer keycode, `#define TG(n) (0xAA + (n))` in keycodes.h. -/
def TG (n : Nat) : Nat := 0xAA + n

/-- The predicate `is_mo_keycode` of main.c. -/
def is_mo_keycode (kc : Nat) : Bool := decide (kc ≥ 0xA8) && decide (kc ≤ 0xAA)

/-- The predicate `is_tg_keycode` of main.c. -/
def is_tg_keycode (kc : Nat) : Bool := decide (kc ≥ 0xAB) && decide (kc ≤ 0xAD)

/-- Conversion of an `int` to `int8_t`, as in `(int8_t)(i - 1)`. -/
def int8_cast (n : Int) : Int := (n + 128) % 256 - 128

/-- The layer state of the main loop: `current_layer` and `mo_held_sensors`
(`-1` in a slot means no holder). -/
structure LayerState where
  current_layer : Nat
  mo_held_sensors : Nat → Int

/-- The loop `for (layer = 1; layer < MAX_LAYERS; layer++)` of the release
branch: clears the first slot holding `v` and stops; the flag is `was_mo`.
The first argument counts the iterations left. -/
def release_holder : Nat → Nat → Int → (Nat → Int) → (Nat → Int) × Bool
  | 0, _, _, mo => (mo, false)
  | n + 1, layer, v, mo =>
    if mo layer = v then (upd mo layer (-1), true)
    else release_holder n (layer + 1) v mo

/-- The loop `for (layer = MAX_LAYERS - 1; layer >= 1; layer--)`: the highest
layer whose slot is not `-1`, `0` when there is none. -/
def highest_held (mo : Nat → Int) : Nat → Nat
  | 0 => 0
  | layer + 1 => if mo (layer + 1) ≠ -1 then layer + 1 else highest_held mo layer

/-- Body of the layer-handling loop for the 1-based sensor `i`. -/
def layer_step (keymap : Nat → Nat → Nat) (l1 dflt : List Nat)
    (cur_pressed prev_pressed : Nat → Bool) (st : LayerState) (i : Nat) : LayerState :=
  let pressed := cur_pressed i
  let was_pressed := prev_pressed i
  if pressed = was_pressed then st
  else
    let kc := get_keycode keymap l1 dflt st.current_layer (i - 1)
    if pressed && is_mo_keycode kc then
      let target := (kc - 0xA8 + 1) % 256
      { current_layer := target
        mo_held_sensors := upd st.mo_held_sensors target (int8_cast ((i : Int) - 1)) }
    else
      let r := if !pressed then
          release_holder (MAX_LAYERS - 1) 1 (int8_cast ((i : Int) - 1)) st.mo_held_sensors
        else (st.mo_held_sensors, false)
      if !pressed && r.2 then
        { current_layer := highest_held r.1 (MAX_LAYERS - 1), mo_held_sensors := r.1 }
      else if pressed && is_tg_keycode kc then
        let target := (kc - 0xAB + 1) % 256
        { current_layer := if st.current_layer = target then 0 else target
          mo_held_sensors := r.1 }
      else { current_layer := st.current_layer, mo_held_sensors := r.1 }

/-- The loop `for (int i = 1; i <= SENSOR_COUNT; i++)` of the layer handling,
run for the sensors `1..n` in ascending order. -/
def layer_loop (keymap : Nat → Nat → Nat) (l1 dflt : List Nat)
    (cur_pressed prev_pressed : Nat → Bool) (st : LayerState) : Nat → LayerState
  | 0 => st
  | n + 1 =>
    layer_step keymap l1 dflt cur_pressed prev_pressed
      (layer_loop keymap l1 dflt cur_pressed prev_pressed st n) (n + 1)

/-- The layer handling of one tick. -/
def layer_handling (keymap : Nat → Nat → Nat) (l1 dflt : List Nat)
    (cur_pressed prev_pressed : Nat → Bool) (st : LayerState) : LayerState :=
  layer_loop keymap l1 dflt cur_pressed prev_pressed st SENSOR_COUNT

/-- The layer state at boot: layer 0, `mo_held_sensors = {-1, -1, -1, -1}`. -/
def layer_init : LayerState := { current_layer := 0, mo_held_sensors := fun _ => -1 }

/-- Example board tables for the layer scenario, as in
`boards/example_60/keymap.c`: the base table has `KC_FN = MO(1)` at sensor
index 58 and the layer-1 table has `MO(2)` at sensor index 57 (other entries
left transparent here). -/
def example_default_keycodes : List Nat := List.replicate 58 0 ++ [MO 1] ++ List.replicate 5 0

/-- See `example_default_keycodes`. -/
def example_layer1_keycodes : List Nat := List.replicate 57 0 ++ [MO 2] ++ List.replicate 6 0

/-! ## Board wiring and tuning constants -/

/-- Number of multiplexers, `#define MUX_COUNT 4` in config.h. -/
def MUX_COUNT : Nat := 4

/-- Default of hallscan_config.h: `#define SENSOR_THRESHOLD 7`. -/
def SENSOR_THRESHOLD : Nat := 7

/-- Default of hallscan_config.h: `#define DEBOUNCE_MS 50`. -/
def DEBOUNCE_MS : Nat := 50

/-- Default of hallscan_config.h: `#define CALIBRATION_SAMPLES 8`. -/
def CALIBRATION_SAMPLES : Nat := 8

/-- Default of hallscan_config.h: `#define ADC_MIN_VALID 200`. -/
def ADC_MIN_VALID : Nat := 200

/-- Default of hallscan_config.h: `#define HALLSCAN_HYSTERESIS_PERCENT 6`. -/
def HALLSCAN_HYSTERESIS_PERCENT : Nat := 6

/-- The channel tables `mux1_channels .. mux4_channels` of
`boards/example_60/hallscan_keymap.h`, as sensor ids (the enum of config.h
numbers the sensors from `S_ESC = 1` to `S_RCTL = 64`). -/
def example_mux_channels : List (List Nat) :=
  [ [1, 2, 3, 4, 5, 6, 7, 8, 9, 10, 11, 12, 13, 14, 15, 16],
    [17, 18, 19, 20, 21, 22, 23, 24, 25, 26, 27, 28, 29, 30, 31, 32],
    [33, 34, 35, 36, 37, 38, 39, 40, 41, 42, 43, 44, 45, 46, 47, 48],
    [49, 50, 51, 52, 53, 54, 55, 56, 57, 58, 59, 60, 61, 62, 63, 64] ]

/-- Lookup `mux_maps[m][ch].sensor` in the example board tables. -/
def example_mux_maps (m ch : Nat) : Nat := (example_mux_channels.getD m []).getD ch 0

/-- The (mux, channel) pairs visited by `for m < muxes` / `for ch < 16`, in the
order of the nested loops. -/
def mux_positions (muxes : Nat) : List (Nat × Nat) :=
  List.product (List.range muxes) (List.range 16)

/-! ## Calibration (main.c `mcp3208_hallscan_calibrate`, hallscan.c `hallscan_calibrate`) -/

/-- The summing loop of `sample_adc_avg_for_adc` / `sample_adc_for_pin`:
`sum += read()` in a `uint32_t`, for the reads `0 .. n-1` (each a `uint16_t`). -/
def sample_sum (read : Nat → Nat) : Nat → Nat
  | 0 => 0
  | n + 1 => (sample_sum read n + read n % 65536) % 2 ^ 32

/-- The averaged sample: `(uint16_t)(sum / CALIBRATION_SAMPLES)`. -/
def sample_adc_avg (read : Nat → Nat) : Nat :=
  (sample_sum read CALIBRATION_SAMPLES / CALIBRATION_SAMPLES) % 65536

/-- The threshold computed from a baseline and a percentage:
`thr = ((uint32_t)baseline * (100 - (uint32_t)percent)) / 100`, clamped to
`0xFFFF` and stored in a `uint16_t`. -/
def threshold_from (baseline percent : Nat) : Nat :=
  let thr := (baseline * ((100 + 2 ^ 32 - percent % 2 ^ 32) % 2 ^ 32)) % 2 ^ 32 / 100
  (if thr > 0xFFFF then 0xFFFF else thr) % 65536

/-- The calibration tables `sensor_baseline` and `sensor_thresholds`. -/
structure CalState where
  sensor_baseline : Nat → Nat
  sensor_thresholds : Nat → Nat

/-- Body of the calibration loops for mux `m`, channel `ch`; `reads m ch i` is
the `i`-th raw ADC read taken while that channel is selected. -/
def calibrate_channel (mux_maps : Nat → Nat → Nat) (reads : Nat → Nat → Nat → Nat)
    (st : CalState) (pos : Nat × Nat) : CalState :=
  let sensor := mux_maps pos.1 pos.2
  if sensor = 0 ∨ sensor > SENSOR_COUNT then st
  else
    let sample := sample_adc_avg (reads pos.1 pos.2)
    if sample < ADC_MIN_VALID then st
    else
      let sidx := (sensor - 1) % 256
      { sensor_baseline := upd st.sensor_baseline sidx sample
        sensor_thresholds := upd st.sensor_thresholds sidx (threshold_from sample SENSOR_THRESHOLD) }

/-- The first loop of a calibration run: both tables are zeroed for the
indices below `SENSOR_COUNT`. -/
def calibrate_clear (st : CalState) : CalState :=
  { sensor_baseline := fun i => if i < SENSOR_COUNT then 0 else st.sensor_baseline i
    sensor_thresholds := fun i => if i < SENSOR_COUNT then 0 else st.sensor_thresholds i }

/-- The function `mcp3208_hallscan_calibrate` of main.c. -/
def mcp3208_hallscan_calibrate (mux_maps : Nat → Nat → Nat) (reads : Nat → Nat → Nat → Nat)
    (st : CalState) : CalState :=
  (mux_positions MUX_COUNT).foldl (calibrate_channel mux_maps reads) (calibrate_clear st)

/-- The function `hallscan_calibrate` of hallscan.c (four multiplexers). -/
def hallscan_calibrate (mux_tables : Nat → Nat → Nat) (reads : Nat → Nat → Nat → Nat)
    (st : CalState) : CalState :=
  (mux_positions 4).foldl (calibrate_channel mux_tables reads) (calibrate_clear st)

/-! ## Press-state computation of the main loop (main.c) -/

/-- Body of the loops over `m` and `s` that fill `cur_pressed` from the raw
values `mux_vals[m][s]`. -/
def scan_channel (mux_maps : Nat → Nat → Nat) (cal : CalState) (mux_vals : Nat → Nat → Nat)
    (prev_pressed : Nat → Bool) (cur_pressed : Nat → Bool) (pos : Nat × Nat) : Nat → Bool :=
  let sid := mux_maps pos.1 pos.2
  if sid ≠ 0 then
    let sidx := (sid - 1) % 256
    let thr := cal.sensor_thresholds sidx
    let val := mux_vals pos.1 pos.2
    if thr = 0 then cur_pressed
    else
      let delta := (cal.sensor_baseline sidx * HALLSCAN_HYSTERESIS_PERCENT) % 2 ^ 32 / 100
      let release_thr := (thr + delta) % 2 ^ 32
      if prev_pressed sid then
        if val ≤ release_thr then upd cur_pressed sid true else upd cur_pressed sid false
      else if val < thr then upd cur_pressed sid true
      else cur_pressed
  else cur_pressed

/-- The vector `cur_pressed` of one tick of the main loop: cleared, then filled
by the loops over the multiplexer channels. -/
def scan_cur_pressed (mux_maps : Nat → Nat → Nat) (cal : CalState) (mux_vals : Nat → Nat → Nat)
    (prev_pressed : Nat → Bool) : Nat → Bool :=
  (mux_positions MUX_COUNT).foldl (scan_channel mux_maps cal mux_vals prev_pressed)
    (fun _ => false)

/-! ## Debounced matrix scan (hallscan.c `matrix_scan_custom`) -/

/-- State of `matrix_scan_custom`: the statics `key_pressed` and `key_timer`,
the output rows `current_matrix` (a row is modelled by its bits, so
`current_matrix[row] |= (1 << col)` sets bit `col` of row `row`), and the
local `changed`. -/
structure MatrixState where
  key_pressed : Nat → Bool
  key_timer : Nat → Nat
  current_matrix : Nat → Nat → Bool
  changed : Bool

/-- Body of the scan loops for mux `mux_idx`, channel `ch`. `MATRIX_ROWS` and
`MATRIX_COLS` come from a header that is not part of the sources; `now` is the
value of `timer_read32()` at the start of the scan, `adc` the ADC reads and
`timer_elapsed32 mux_idx ch t` the value the timer library returns for the
stored time `t` when the debounce check of that channel runs. -/
def matrix_scan_channel (MATRIX_ROWS MATRIX_COLS : Nat) (mux_tables : Nat → Nat → Nat)
    (sensor_thresholds : Nat → Nat) (now : Nat) (adc : Nat → Nat → Nat)
    (timer_elapsed32 : Nat → Nat → Nat → Nat) (st : MatrixState) (pos : Nat × Nat) :
    MatrixState :=
  let adc_val := adc pos.1 pos.2
  let sensor := mux_tables pos.1 pos.2
  if sensor = 0 ∨ sensor > SENSOR_COUNT then st
  else
    let sensor_idx := (sensor - 1) % 256
    let matrix_row := (sensor_idx / MATRIX_COLS) % 256
    let matrix_col := (sensor_idx % MATRIX_COLS) % 256
    if matrix_row ≥ MATRIX_ROWS ∨ matrix_col ≥ MATRIX_COLS then st
    else
      let key_idx := sensor_idx
      let thr := sensor_thresholds sensor_idx
      let should_press := decide (adc_val < thr)
      let st1 : MatrixState :=
        if timer_elapsed32 pos.1 pos.2 (st.key_timer key_idx) > DEBOUNCE_MS
            ∧ should_press ≠ st.key_pressed key_idx then
          { st with
            key_pressed := upd st.key_pressed key_idx should_press
            key_timer := upd st.key_timer key_idx now
            changed := true }
        else st
      if st1.key_pressed key_idx then
        { st1 with
          current_matrix := upd st1.current_matrix matrix_row
            (upd (st1.current_matrix matrix_row) matrix_col true) }
      else st1

/-- The function `matrix_scan_custom` of hallscan.c: the matrix is cleared,
`changed` starts false, and the four multiplexers are scanned. -/
def matrix_scan_custom (MATRIX_ROWS MATRIX_COLS : Nat) (mux_tables : Nat → Nat → Nat)
    (sensor_thresholds : Nat → Nat) (now : Nat) (adc : Nat → Nat → Nat)
    (timer_elapsed32 : Nat → Nat → Nat → Nat) (st : MatrixState) : MatrixState :=
  (mux_positions 4).foldl
    (matrix_scan_channel MATRIX_ROWS MATRIX_COLS mux_tables sensor_thresholds now adc
      timer_elapsed32)
    { st with
      current_matrix := fun row => if row < MATRIX_ROWS then (fun _ => false)
        else st.current_matrix row
      changed := false }

/-- A state of `matrix_scan_custom` in which key index 0 is stored as pressed
with its last transition at time 1000 (used in the examples). -/
def example_matrix_state : MatrixState :=
  { key_pressed := fun i => decide (i = 0)
    key_timer := fun _ => 1000
    current_matrix := fun _ _ => false
    changed := false }

/-! ## SOCD resolver (features/socd/socd.c) -/

/-- Number of pair slots, `#define SOCD_MAX_PAIRS 8` in socd.h. -/
def SOCD_MAX_PAIRS : Nat := 8

/-- Resolution mode `SOCD_MODE_LAST_WINS = 0` of socd.h. -/
def SOCD_MODE_LAST_WINS : Nat := 0

/-- Resolution mode `SOCD_MODE_NEUTRAL = 1` of socd.h. -/
def SOCD_MODE_NEUTRAL : Nat := 1

/-- Resolution mode `SOCD_MODE_FIRST_WINS = 2` of socd.h. -/
def SOCD_MODE_FIRST_WINS : Nat := 2

/-- The struct `socd_pair_t` of socd.h. -/
structure socd_pair_t where
  key1_idx : Nat
  key2_idx : Nat
  mode : Nat
  valid : Bool

/-- The statics of socd.c. -/
structure SocdState where
  socd_enabled : Bool
  socd_state_changed : Bool
  socd_global_mode : Nat
  socd_pairs : Nat → socd_pair_t
  key_timestamps : Nat → Nat
  key_raw_states : Nat → Bool

/-- The function `socd_update_key`; `now` is the value `now_ms()` returns when
it is called. -/
def socd_update_key (now : Nat) (st : SocdState) (key_idx : Nat) (pressed : Bool) : SocdState :=
  if key_idx ≥ SENSOR_COUNT then st
  else
    { st with
      key_timestamps :=
        if pressed && !st.key_raw_states key_idx then upd st.key_timestamps key_idx now
        else st.key_timestamps
      key_raw_states := upd st.key_raw_states key_idx pressed }

/-- The first loop of `socd_process_keys`, for the keys `0 .. n-1`;
`now_ms i` is the clock value read while key `i` is updated. -/
def socd_update_loop (now_ms : Nat → Nat) (key_states : Nat → Bool) :
    Nat → SocdState → SocdState
  | 0, st => st
  | n + 1, st =>
    socd_update_key (now_ms n) (socd_update_loop now_ms key_states n st) n (key_states n)

/-- Body of the pair loop of `socd_process_keys` for one slot. -/
def socd_resolve_pair (key_timestamps : Nat → Nat) (count : Int) (pair : socd_pair_t)
    (key_states : Nat → Bool) : Nat → Bool :=
  if !pair.valid then key_states
  else
    let k1 := pair.key1_idx
    let k2 := pair.key2_idx
    if (k1 : Int) ≥ count ∨ (k2 : Int) ≥ count then key_states
    else if !key_states k1 || !key_states k2 then key_states
    else if pair.mode = SOCD_MODE_LAST_WINS then
      if key_timestamps k1 ≥ key_timestamps k2 then upd key_states k2 false
      else upd key_states k1 false
    else if pair.mode = SOCD_MODE_NEUTRAL then upd (upd key_states k1 false) k2 false
    else if pair.mode = SOCD_MODE_FIRST_WINS then
      if key_timestamps k1 ≤ key_timestamps k2 then upd key_states k2 false
      else upd key_states k1 false
    else key_states

/-- The pair loop of `socd_process_keys`, for the slots `0 .. n-1` in slot order. -/
def socd_pair_loop (st : SocdState) (count : Int) : Nat → (Nat → Bool) → (Nat → Bool)
  | 0, key_states => key_states
  | n + 1, key_states =>
    socd_resolve_pair st.key_timestamps count (st.socd_pairs n)
      (socd_pair_loop st count n key_states)

/-- The function `socd_process_keys`: returns the new statics and the array
`key_states` after the in-place resolution. -/
def socd_process_keys (now_ms : Nat → Nat) (st : SocdState) (key_states : Nat → Bool)
    (count : Int) : SocdState × (Nat → Bool) :=
  if !st.socd_enabled then (st, key_states)
  else
    let st1 := socd_update_loop now_ms key_states (min count.toNat SENSOR_COUNT) st
    (st1, socd_pair_loop st1 count SOCD_MAX_PAIRS key_states)

/-- The statics after a sequence of calls of `socd_process_keys`, each with its
own clock readings and a fresh input vector. -/
def socd_run (count : Int) (st : SocdState) : List ((Nat → Nat) × (Nat → Bool)) → SocdState
  | [] => st
  | call :: calls => socd_run count (socd_process_keys call.1 st call.2 count).1 calls

/-- A pair table with slot 0 = (1, 0, LastWins) and slot 1 = (0, 2, Neutral),
the other slots empty; both slots are accepted by `socd_add_pair`. -/
def example_pairs_overlap_neutral (q : Nat) : socd_pair_t :=
  if q = 0 then { key1_idx := 1, key2_idx := 0, mode := SOCD_MODE_LAST_WINS, valid := true }
  else if q = 1 then { key1_idx := 0, key2_idx := 2, mode := SOCD_MODE_NEUTRAL, valid := true }
  else { key1_idx := 0, key2_idx := 0, mode := 0, valid := false }

/-- The statics of socd.c right after the memsets of `socd_init`, with the
given pair table installed and SOCD enabled. -/
def socd_state_with (pairs : Nat → socd_pair_t) : SocdState :=
  { socd_enabled := true
    socd_state_changed := false
    socd_global_mode := SOCD_MODE_LAST_WINS
    socd_pairs := pairs
    key_timestamps := fun _ => 0
    key_raw_states := fun _ => false }

/-- The two keys of a LastWins pair are held, the second pressed later than
the first, in statics whose pair table is `pairs`: the raw states of both keys
are set and the timestamp of `k1` is older than that of `k2`. -/
def socd_held_after (pairs : Nat → socd_pair_t) (k1 k2 : Nat) (s : SocdState) : Prop :=
  s.socd_enabled = true ∧ s.socd_pairs = pairs
  ∧ s.key_raw_states k1 = true ∧ s.key_raw_states k2 = true
  ∧ s.key_timestamps k1 < s.key_timestamps k2

/-- A pair table with slot 0 = (0, 1, LastWins) and slot 1 = (0, 2, Neutral),
the other slots empty; both slots are accepted by `socd_add_pair`. -/
def example_pairs_overlap_last (q : Nat) : socd_pair_t :=
  if q = 0 then { key1_idx := 0, key2_idx := 1, mode := SOCD_MODE_LAST_WINS, valid := true }
  else if q = 1 then { key1_idx := 0, key2_idx := 2, mode := SOCD_MODE_NEUTRAL, valid := true }
  else { key1_idx := 0, key2_idx := 0, mode := 0, valid := false }

/-- A pair table with slot 0 = (0, 1, FirstWins) and slot 1 = (0, 2, Neutral),
the other slots empty; both slots are accepted by `socd_add_pair`. -/
def example_pairs_overlap_first (q : Nat) : socd_pair_t :=
  if q = 0 then { key1_idx := 0, key2_idx := 1, mode := SOCD_MODE_FIRST_WINS, valid := true }
  else if q = 1 then { key1_idx := 0, key2_idx := 2, mode := SOCD_MODE_NEUTRAL, valid := true }
  else { key1_idx := 0, key2_idx := 0, mode := 0, valid := false }

/-- A pair table whose only pair is (0, 1) in slot 0, with the given mode. -/
def example_pairs_single (mode : Nat) (q : Nat) : socd_pair_t :=
  if q = 0 then { key1_idx := 0, key2_idx := 1, mode := mode, valid := true }
  else { key1_idx := 0, key2_idx := 0, mode := 0, valid := false }

/-! ## SOCD configuration API (features/socd/socd.c) -/

/-- Conversion of an `int` argument to a `uint8_t` parameter, as in
`socd_add_pair(0, S_A - 1, ...)`. -/
def uint8_of_int (n : Int) : Nat := (n % 256).toNat

/-- The function `socd_add_pair`: the result flag and the statics afterwards. -/
def socd_add_pair (st : SocdState) (pair_idx key1_idx key2_idx mode : Nat) :
    Bool × SocdState :=
  if pair_idx ≥ SOCD_MAX_PAIRS then (false, st)
  else if key1_idx ≥ SENSOR_COUNT ∨ key2_idx ≥ SENSOR_COUNT then (false, st)
  else if key1_idx = key2_idx then (false, st)
  else
    (true,
      { st with
        socd_pairs := upd st.socd_pairs pair_idx
          { key1_idx := key1_idx, key2_idx := key2_idx, mode := mode, valid := true } })

/-- The function `socd_delete_pair`. -/
def socd_delete_pair (st : SocdState) (pair_idx : Nat) : Bool × SocdState :=
  if pair_idx ≥ SOCD_MAX_PAIRS then (false, st)
  else
    (true,
      { st with
        socd_pairs := upd st.socd_pairs pair_idx
          { st.socd_pairs pair_idx with valid := false } })

/-- The function `socd_set_global_mode`: the mode is clamped to LastWins when
above FirstWins, stored, and written into every valid slot. -/
def socd_set_global_mode (st : SocdState) (mode : Nat) : SocdState :=
  let mode := if mode > SOCD_MODE_FIRST_WINS then SOCD_MODE_LAST_WINS else mode
  { st with
    socd_global_mode := mode
    socd_pairs := fun i =>
      if i < SOCD_MAX_PAIRS ∧ (st.socd_pairs i).valid = true then
        { st.socd_pairs i with mode := mode }
      else st.socd_pairs i }

/-- The function `socd_clear_all_pairs`. -/
def socd_clear_all_pairs (st : SocdState) : SocdState :=
  { st with
    socd_pairs := fun i =>
      if i < SOCD_MAX_PAIRS then { st.socd_pairs i with valid := false }
      else st.socd_pairs i }

/-- The function `socd_set_all_pairs`: a `memcpy` of the eight slots. -/
def socd_set_all_pairs (st : SocdState) (pairs : Nat → socd_pair_t) : SocdState :=
  { st with
    socd_pairs := fun i => if i < SOCD_MAX_PAIRS then pairs i else st.socd_pairs i }

/-- The function `socd_add_wasd_preset`; `S_A`, `S_D`, `S_W`, `S_S` are the
1-based sensor ids of the board enum. -/
def socd_add_wasd_preset (S_A S_D S_W S_S : Nat) (st : SocdState) : SocdState :=
  let st1 := (socd_add_pair st 0 (uint8_of_int ((S_A : Int) - 1))
    (uint8_of_int ((S_D : Int) - 1)) st.socd_global_mode).2
  (socd_add_pair st1 1 (uint8_of_int ((S_W : Int) - 1))
    (uint8_of_int ((S_S : Int) - 1)) st1.socd_global_mode).2

/-- The function `socd_add_arrows_preset`, with the sensor ids of the board. -/
def socd_add_arrows_preset (S_LEFT S_RGHT S_UP S_DOWN : Nat) (st : SocdState) : SocdState :=
  let st1 := (socd_add_pair st 2 (uint8_of_int ((S_LEFT : Int) - 1))
    (uint8_of_int ((S_RGHT : Int) - 1)) st.socd_global_mode).2
  (socd_add_pair st1 3 (uint8_of_int ((S_UP : Int) - 1))
    (uint8_of_int ((S_DOWN : Int) - 1)) st1.socd_global_mode).2

/-- The function `socd_init`: the statics are reset (the three `memset`s) and
the WASD preset is added. -/
def socd_init (S_A S_D S_W S_S : Nat) (st : SocdState) : SocdState :=
  socd_add_wasd_preset S_A S_D S_W S_S
    { st with
      socd_enabled := true
      socd_global_mode := SOCD_MODE_LAST_WINS
      socd_pairs := fun i =>
        if i < SOCD_MAX_PAIRS then { key1_idx := 0, key2_idx := 0, mode := 0, valid := false }
        else st.socd_pairs i
      key_timestamps := fun i => if i < SENSOR_COUNT then 0 else st.key_timestamps i
      key_raw_states := fun i => if i < SENSOR_COUNT then false else st.key_raw_states i }

/-- The pair-table invariant: every valid slot has two distinct keys, both
valid sensor indices. -/
def socd_pairs_ok (pairs : Nat → socd_pair_t) : Prop :=
  ∀ q, q < SOCD_MAX_PAIRS → (pairs q).valid = true →
    (pairs q).key1_idx ≠ (pairs q).key2_idx
    ∧ (pairs q).key1_idx < SENSOR_COUNT ∧ (pairs q).key2_idx < SENSOR_COUNT

/-- The statics of socd.c before `socd_init` runs (zero-initialised, with the
initialisers of the three scalar statics). -/
def socd_boot : SocdState :=
  { socd_enabled := true
    socd_state_changed := false
    socd_global_mode := SOCD_MODE_LAST_WINS
    socd_pairs := fun _ => { key1_idx := 0, key2_idx := 0, mode := 0, valid := false }
    key_timestamps := fun _ => 0
    key_raw_states := fun _ => false }

/-! ## The layer state across ticks (main.c, main loop) -/

/-- The layer state together with the static `prev_pressed` of the main loop. -/
structure LayerSys where
  st : LayerState
  prev_pressed : Nat → Bool

/-- What changes the layer state in one pass of the main loop: the layer
handling of a scan tick (with the runtime keymap of that moment and the
computed `cur_pressed`), or a pending set-layer request
(`current_layer = (uint8_t)new_layer`). -/
inductive LayerEvent where
  | tick (keymap : Nat → Nat → Nat) (cur_pressed : Nat → Bool)
  | set_layer (new_layer : Nat)

/-- One event: a tick runs the layer handling and then copies
`cur_pressed[1..SENSOR_COUNT]` into `prev_pressed`. -/
def layer_sys_step (l1 dflt : List Nat) (sys : LayerSys) : LayerEvent → LayerSys
  | LayerEvent.tick keymap cur_pressed =>
    { st := layer_handling keymap l1 dflt cur_pressed sys.prev_pressed sys.st
      prev_pressed := fun i =>
        if 1 ≤ i ∧ i ≤ SENSOR_COUNT then cur_pressed i else sys.prev_pressed i }
  | LayerEvent.set_layer new_layer =>
    { st := { current_layer := new_layer % 256, mo_held_sensors := sys.st.mo_held_sensors }
      prev_pressed := sys.prev_pressed }

/-- A sequence of events, oldest first. -/
def layer_sys_run (l1 dflt : List Nat) (sys : LayerSys) (evs : List LayerEvent) : LayerSys :=
  evs.foldl (layer_sys_step l1 dflt) sys

/-- The state when the main loop is entered: layer 0, no holders, no key pressed. -/
def layer_sys_boot : LayerSys := { st := layer_init, prev_pressed := fun _ => false }

/-- The sensor with index `s` is recorded in no momentary-holder slot. -/
def not_holder (st : LayerState) (s : Nat) : Prop :=
  ∀ L, 1 ≤ L → L ≤ 3 → st.mo_held_sensors L ≠ (s : Int)

/-- Holder-table invariant, relative to a pressed vector: every sensor recorded
as a holder is pressed, and no sensor is recorded in two slots. -/
def holders_ok (st : LayerState) (pressed : Nat → Bool) : Prop :=
  (∀ s, s < SENSOR_COUNT → ∀ L, 1 ≤ L → L ≤ 3 →
      st.mo_held_sensors L = (s : Int) → pressed (s + 1) = true)
  ∧ (∀ s, s < SENSOR_COUNT → ∀ L L', 1 ≤ L → L ≤ 3 → 1 ≤ L' → L' ≤ 3 →
      st.mo_held_sensors L = (s : Int) → st.mo_held_sensors L' = (s : Int) → L = L')

/-- The pressed vector seen by the layer loop after the sensors `1 .. n` have
been processed: their new state, and the previous state of the others. -/
def pressed_upto (cur_pressed prev_pressed : Nat → Bool) (n : Nat) : Nat → Bool :=
  fun i => if 1 ≤ i ∧ i ≤ n then cur_pressed i else prev_pressed i

/-- The event keeps the sensor with index `s` pressed (a set-layer request
does not touch the keys). -/
def event_keeps_pressed (s : Nat) : LayerEvent → Prop
  | LayerEvent.tick _ cur_pressed => cur_pressed (s + 1) = true
  | LayerEvent.set_layer _ => True

/-- The layer state of a tick at the moment the loop reaches the sensor with
index `s`: the sensors with a lower index have been processed. -/
def layer_state_at (keymap : Nat → Nat → Nat) (l1 dflt : List Nat) (cur_pressed : Nat → Bool)
    (sys : LayerSys) (s : Nat) : LayerState :=
  layer_loop keymap l1 dflt cur_pressed sys.prev_pressed sys.st s

/-- A runtime keymap for the same-tick example: sensor index 0 is MO(1) on
layer 0; sensor index 1 is the plain key 0x04 on layer 0 and MO(2) on layer 1. -/
def example_keymap_same_tick (layer sensor_idx : Nat) : Nat :=
  if layer = 0 ∧ sensor_idx = 0 then MO 1
  else if layer = 0 ∧ sensor_idx = 1 then 0x04
  else if layer = 1 ∧ sensor_idx = 1 then MO 2
  else 0

/-! ## Threshold overrides and persisted settings (main.c) -/

/-- The block of the main loop that drains a pending set-actuation request
`(act_key_idx, act_threshold)` (two bytes taken from the HID report). -/
def apply_actuation_set (cal : CalState) (act_key_idx act_threshold : Nat) : CalState :=
  if act_key_idx < SENSOR_COUNT then
    { cal with
      sensor_thresholds := upd cal.sensor_thresholds act_key_idx
        (threshold_from (cal.sensor_baseline act_key_idx) act_threshold) }
  else cal

/-- The threshold-restore loop of `load_settings_from_flash` (the same in the
three version branches); `actuations` is the stored `uint16_t` array. -/
def restore_thresholds (cal : CalState) (actuations : Nat → Nat) : CalState :=
  { cal with
    sensor_thresholds := fun i =>
      if i < SENSOR_COUNT ∧ cal.sensor_baseline i > 0 ∧ actuations i > 0 then
        threshold_from (cal.sensor_baseline i) (actuations i)
      else cal.sensor_thresholds i }

/-- What writes the calibration tables of main.c: a calibration run (with the
ADC reads of that run), a drained set-actuation request, and the threshold
restore of a settings load. -/
inductive CalEvent where
  | calibrate (reads : Nat → Nat → Nat → Nat)
  | set_actuation (key_idx percent : Nat)
  | load (actuations : Nat → Nat)

/-- One event on the calibration tables. -/
def cal_step (mux_maps : Nat → Nat → Nat) (cal : CalState) : CalEvent → CalState
  | CalEvent.calibrate reads => mcp3208_hallscan_calibrate mux_maps reads cal
  | CalEvent.set_actuation key_idx percent => apply_actuation_set cal key_idx percent
  | CalEvent.load actuations => restore_thresholds cal actuations

/-- A sequence of events on the calibration tables, oldest first. -/
def cal_run (mux_maps : Nat → Nat → Nat) (cal : CalState) (evs : List CalEvent) : CalState :=
  evs.foldl (cal_step mux_maps) cal

/-- The calibration tables at program start (zero-initialised globals). -/
def cal_boot : CalState := { sensor_baseline := fun _ => 0, sensor_thresholds := fun _ => 0 }

/-- Two table states agree on the array entries `0 .. SENSOR_COUNT-1`. -/
def cal_agree (a b : CalState) : Prop :=
  ∀ i, i < SENSOR_COUNT →
    a.sensor_baseline i = b.sensor_baseline i ∧ a.sensor_thresholds i = b.sensor_thresholds i

/-- The magic number of the settings blob, `#define SETTINGS_MAGIC 0x4D494E41`. -/
def SETTINGS_MAGIC : Nat := 0x4D494E41

/-- The current blob version, `#define SETTINGS_VERSION 3`. -/
def SETTINGS_VERSION : Nat := 3

/-- The flash sector read through one of the struct types `settings_v1_t`,
`settings_v2_t`, `settings_t`: the fields the loader uses, and `bytes`, the
bytes that precede the `checksum` field in that layout
(`data[0 .. offsetof(checksum))`). The v1 layout has no advanced-calibration
fields; they are not read in that branch. -/
structure settings_view where
  magic : Nat
  version : Nat
  keymap : Nat → Nat → Nat
  actuations : Nat → Nat
  adv_cal_enabled : Bool
  adv_cal_release : Nat → Nat
  adv_cal_press : Nat → Nat
  socd_enabled : Bool
  leds_enabled : Bool
  checksum : Nat
  bytes : List Nat

/-- The byte sum of `calculate_checksum`, `calculate_checksum_v2` and the
inline v1 loop: `sum += data[i]` in a `uint32_t`. -/
def checksum_bytes (bytes : List Nat) : Nat :=
  bytes.foldl (fun sum b => (sum + b % 256) % 2 ^ 32) 0

/-- The state of main.c that `load_settings_from_flash` writes (the lighting
module is left out). -/
structure MainState where
  keymap : Nat → Nat → Nat
  cal : CalState
  adv_cal_enabled : Bool
  adv_cal_release : Nat → Nat
  adv_cal_press : Nat → Nat
  socd : SocdState
  leds_enabled : Bool

/-- The function `socd_set_enabled` of socd.c. -/
def socd_set_enabled (st : SocdState) (enabled : Bool) : SocdState :=
  { st with socd_enabled := enabled, socd_state_changed := true }

/-- `memcpy(keymap, v->keymap, sizeof(keymap))`. -/
def copy_keymap (old new : Nat → Nat → Nat) : Nat → Nat → Nat :=
  fun l i => if l < MAX_LAYERS ∧ i < SENSOR_COUNT then new l i else old l i

/-- `memcpy` of a per-sensor array. -/
def copy_sensors (old new : Nat → Nat) : Nat → Nat :=
  fun i => if i < SENSOR_COUNT then new i else old i

/-- The function `load_settings_from_flash`. `v1`, `v2`, `v3` are the flash
sector read through the three struct types; magic and version are read through
the current type (`flash_settings`). -/
def load_settings_from_flash (v1 v2 v3 : settings_view) (st : MainState) : Bool × MainState :=
  if v3.magic ≠ SETTINGS_MAGIC then (false, st)
  else if v3.version = 1 then
    if v1.checksum ≠ checksum_bytes v1.bytes then (false, st)
    else
      (true,
        { keymap := copy_keymap st.keymap v1.keymap
          cal := restore_thresholds st.cal v1.actuations
          adv_cal_enabled := false
          adv_cal_release := copy_sensors st.adv_cal_release (fun _ => 0)
          adv_cal_press := copy_sensors st.adv_cal_press (fun _ => 0)
          socd := socd_set_enabled st.socd v1.socd_enabled
          leds_enabled := v1.leds_enabled })
  else if v3.version = 2 then
    if v2.checksum ≠ checksum_bytes v2.bytes then (false, st)
    else
      (true,
        { keymap := copy_keymap st.keymap v2.keymap
          cal := restore_thresholds st.cal v2.actuations
          adv_cal_enabled := v2.adv_cal_enabled
          adv_cal_release := copy_sensors st.adv_cal_release v2.adv_cal_release
          adv_cal_press := copy_sensors st.adv_cal_press v2.adv_cal_press
          socd := socd_set_enabled st.socd v2.socd_enabled
          leds_enabled := v2.leds_enabled })
  else if v3.version ≠ SETTINGS_VERSION then (false, st)
  else if v3.checksum ≠ checksum_bytes v3.bytes then (false, st)
  else
    (true,
      { keymap := copy_keymap st.keymap v3.keymap
        cal := restore_thresholds st.cal v3.actuations
        adv_cal_enabled := v3.adv_cal_enabled
        adv_cal_release := copy_sensors st.adv_cal_release v3.adv_cal_release
        adv_cal_press := copy_sensors st.adv_cal_press v3.adv_cal_press
        socd := socd_set_enabled st.socd v3.socd_enabled
        leds_enabled := v3.leds_enabled })

/-- A flash view for the examples: the given magic, version and stored
checksum over a three-byte image `[1, 2, 3]` (byte sum 6), empty tables. -/
def example_view (magic version checksum : Nat) : settings_view :=
  { magic := magic
    version := version
    keymap := fun _ _ => 0
    actuations := fun _ => 0
    adv_cal_enabled := false
    adv_cal_release := fun _ => 0
    adv_cal_press := fun _ => 0
    socd_enabled := true
    leds_enabled := true
    checksum := checksum
    bytes := [1, 2, 3] }

/-- The state of main.c at program start, for the examples. -/
def example_main_state : MainState :=
  { keymap := fun _ _ => 0
    cal := cal_boot
    adv_cal_enabled := false
    adv_cal_release := fun _ => 0
    adv_cal_press := fun _ => 0
    socd := socd_boot
    leds_enabled := true }

/-- The function `save_settings_to_flash`: the blob it programs into the flash
sector, as the loader reads it back through `settings_t`. `image` is the
memory image of the local `settings` struct before its `checksum` field (the
bytes `calculate_checksum` sums); the lighting fields are left out. The
percentage of a sensor is `((baseline - threshold) * 100) / baseline` in
`uint32_t`, stored as `uint16_t`, and 16 for a sensor with baseline 0. -/
def save_settings_to_flash (image : List Nat) (st : MainState) : settings_view :=
  { magic := SETTINGS_MAGIC
    version := SETTINGS_VERSION
    keymap := fun l i => if l < MAX_LAYERS ∧ i < SENSOR_COUNT then st.keymap l i else 0
    actuations := fun i =>
      if i < SENSOR_COUNT then
        if st.cal.sensor_baseline i > 0 then
          let drop := (st.cal.sensor_baseline i + 2 ^ 32 - st.cal.sensor_thresholds i) % 2 ^ 32
          let pct := (drop * 100) % 2 ^ 32 / st.cal.sensor_baseline i
          pct % 65536
        else 16
      else 0
    adv_cal_enabled := st.adv_cal_enabled
    adv_cal_release := fun i => if i < SENSOR_COUNT then st.adv_cal_release i else 0
    adv_cal_press := fun i => if i < SENSOR_COUNT then st.adv_cal_press i else 0
    socd_enabled := st.socd.socd_enabled
    leds_enabled := st.leds_enabled
    checksum := checksum_bytes image
    bytes := image }

/-- The state of main.c for the round-trip examples: the example board after a
calibration in which every sensor reads 1000, with the given SOCD statics. -/
def example_calibrated_state (socd : SocdState) : MainState :=
  { keymap := fun _ _ => 0
    cal := mcp3208_hallscan_calibrate example_mux_maps (fun _ _ _ => 1000) cal_boot
    adv_cal_enabled := false
    adv_cal_release := fun _ => 0
    adv_cal_press := fun _ => 0
    socd := socd
    leds_enabled := true }

/-- The example state after a drained set-actuation request `(0, percent)` for
sensor 0 and a drained request `(1, 0)` for sensor 1. -/
def example_state_with_actuation (percent : Nat) : MainState :=
  { example_calibrated_state socd_boot with
    cal := apply_actuation_set
      (apply_actuation_set (example_calibrated_state socd_boot).cal 0 percent) 1 0 }

/-! ## Report assembly (main.c, main loop) -/

/-- Special keycode `#define KC_BOOTLOADER 0xF8`. -/
def KC_BOOTLOADER : Nat := 0xF8

/-- Special keycode `#define KC_REBOOT 0xEC`. -/
def KC_REBOOT : Nat := 0xEC

/-- Special keycode `#define KC_CALIBRATE 0xF9`. -/
def KC_CALIBRATE : Nat := 0xF9

/-- Special keycode `#define KC_LED_TOG 0xFA`. -/
def KC_LED_TOG : Nat := 0xFA

/-- Special keycode `#define KC_SOCD_TOG 0xFB`. -/
def KC_SOCD_TOG : Nat := 0xFB

/-- The constants of the USB stack header (`hid.h` of TinyUSB, not part of the
sources) that the report code of main.c names. -/
structure hid_constants where
  HID_KEY_CONTROL_LEFT : Nat
  HID_KEY_GUI_RIGHT : Nat
  HID_USAGE_CONSUMER_SCAN_NEXT : Nat
  HID_USAGE_CONSUMER_SCAN_PREVIOUS : Nat
  HID_USAGE_CONSUMER_PLAY_PAUSE : Nat
  HID_USAGE_CONSUMER_MUTE : Nat
  HID_USAGE_CONSUMER_VOLUME_INCREMENT : Nat
  HID_USAGE_CONSUMER_VOLUME_DECREMENT : Nat
  HID_USAGE_CONSUMER_BRIGHTNESS_INCREMENT : Nat
  HID_USAGE_CONSUMER_BRIGHTNESS_DECREMENT : Nat

/-- The values of these constants in the USB HID usage tables: the modifier
keys are 0xE0 .. 0xE7 (as the comment on `is_modifier_keycode` says), the
consumer usages are those of the consumer page. -/
def usb_hid_constants : hid_constants :=
  { HID_KEY_CONTROL_LEFT := 0xE0
    HID_KEY_GUI_RIGHT := 0xE7
    HID_USAGE_CONSUMER_SCAN_NEXT := 0xB5
    HID_USAGE_CONSUMER_SCAN_PREVIOUS := 0xB6
    HID_USAGE_CONSUMER_PLAY_PAUSE := 0xCD
    HID_USAGE_CONSUMER_MUTE := 0xE2
    HID_USAGE_CONSUMER_VOLUME_INCREMENT := 0xE9
    HID_USAGE_CONSUMER_VOLUME_DECREMENT := 0xEA
    HID_USAGE_CONSUMER_BRIGHTNESS_INCREMENT := 0x6F
    HID_USAGE_CONSUMER_BRIGHTNESS_DECREMENT := 0x70 }

/-- The predicate `is_modifier_keycode` of main.c. -/
def is_modifier_keycode (hc : hid_constants) (kc : Nat) : Bool :=
  decide (kc ≥ hc.HID_KEY_CONTROL_LEFT) && decide (kc ≤ hc.HID_KEY_GUI_RIGHT)

/-- The function `get_modifier_bit` of main.c:
`1 << (kc - HID_KEY_CONTROL_LEFT)`, returned as `uint8_t`. -/
def get_modifier_bit (hc : hid_constants) (kc : Nat) : Nat :=
  (1 <<< (kc - hc.HID_KEY_CONTROL_LEFT)) % 256

/-- The function `keycode_to_consumer_usage` of main.c: the usage written to
`*usage_out` when it returns true, `none` when it returns false. -/
def keycode_to_consumer_usage (hc : hid_constants) (code : Nat) : Option Nat :=
  if code = 0xB5 then some hc.HID_USAGE_CONSUMER_SCAN_NEXT
  else if code = 0xB6 then some hc.HID_USAGE_CONSUMER_SCAN_PREVIOUS
  else if code = 0xCD then some hc.HID_USAGE_CONSUMER_PLAY_PAUSE
  else if code = 0x7F then some hc.HID_USAGE_CONSUMER_MUTE
  else if code = 0x80 then some hc.HID_USAGE_CONSUMER_VOLUME_INCREMENT
  else if code = 0x81 then some hc.HID_USAGE_CONSUMER_VOLUME_DECREMENT
  else if code = 0x6F then some hc.HID_USAGE_CONSUMER_BRIGHTNESS_INCREMENT
  else if code = 0x70 then some hc.HID_USAGE_CONSUMER_BRIGHTNESS_DECREMENT
  else none

/-- The locals of the report block: `keys[6]`, `ki`, `modifiers`,
`new_consumer_usage`; `fired` lists the special keycodes whose one-shot action
ran in the loop (reboot, recalibration, LED toggle, SOCD toggle), in order. None
of these actions writes the keymap, the layer or `key_states_0idx`. -/
structure ReportAcc where
  keys : Nat → Nat
  ki : Nat
  modifiers : Nat
  new_consumer_usage : Nat
  fired : List Nat

/-- The locals before the loop: `keys = {0}`, `modifiers = 0`, `ki = 0`,
`new_consumer_usage = 0`. -/
def report_acc_init : ReportAcc :=
  { keys := fun _ => 0, ki := 0, modifiers := 0, new_consumer_usage := 0, fired := [] }

/-- Body of the loop `for (int i = 0; i < SENSOR_COUNT; i++)` of the report
block. The result is `none` when the press edge of `KC_BOOTLOADER` calls
`reset_usb_boot`, which does not return: no report is built in that tick. -/
def report_step (hc : hid_constants) (keymap : Nat → Nat → Nat) (l1 dflt : List Nat)
    (current_layer : Nat) (key_states_0idx prev_pressed : Nat → Bool)
    (acc : ReportAcc) (i : Nat) : Option ReportAcc :=
  if !key_states_0idx i then some acc
  else
    let hidk := get_keycode keymap l1 dflt current_layer i
    if hidk = 0 then some acc
    else if is_mo_keycode hidk || is_tg_keycode hidk then some acc
    else if is_modifier_keycode hc hidk then
      some { acc with modifiers := (acc.modifiers ||| get_modifier_bit hc hidk) % 256 }
    else
      match keycode_to_consumer_usage hc hidk with
      | some consumer_usage =>
        some { acc with
          new_consumer_usage :=
            if acc.new_consumer_usage = 0 then consumer_usage else acc.new_consumer_usage }
      | none =>
        if !prev_pressed (i + 1) && decide (hidk = KC_BOOTLOADER) then none
        else
          let acc1 :=
            if !prev_pressed (i + 1)
                && (decide (hidk = KC_REBOOT) || decide (hidk = KC_CALIBRATE)
                  || decide (hidk = KC_LED_TOG) || decide (hidk = KC_SOCD_TOG)) then
              { acc with fired := acc.fired ++ [hidk] }
            else acc
          if hidk = KC_BOOTLOADER ∨ hidk = KC_REBOOT ∨ hidk = KC_CALIBRATE
              ∨ hidk = KC_LED_TOG ∨ hidk = KC_SOCD_TOG then some acc1
          else if acc1.ki < 6 then
            some { acc1 with keys := upd acc1.keys acc1.ki hidk, ki := acc1.ki + 1 }
          else some acc1

/-- The report loop for the sensor indices `0 .. n-1`, in ascending order. -/
def report_loop (hc : hid_constants) (keymap : Nat → Nat → Nat) (l1 dflt : List Nat)
    (current_layer : Nat) (key_states_0idx prev_pressed : Nat → Bool) : Nat → Option ReportAcc
  | 0 => some report_acc_init
  | n + 1 =>
    match report_loop hc keymap l1 dflt current_layer key_states_0idx prev_pressed n with
    | none => none
    | some acc =>
      report_step hc keymap l1 dflt current_layer key_states_0idx prev_pressed acc n

/-- The loop that sets `changed`: some sensor `1 .. SENSOR_COUNT` differs
between `cur_pressed` and `prev_pressed`. -/
def scan_changed (cur_pressed prev_pressed : Nat → Bool) : Bool :=
  (List.range SENSOR_COUNT).any (fun k => cur_pressed (k + 1) != prev_pressed (k + 1))

/-- The array `key_states_0idx` of a tick: `cur_pressed` shifted to 0-based
indices. -/
def key_states_of (cur_pressed : Nat → Bool) : Nat → Bool :=
  fun i => if i < SENSOR_COUNT then cur_pressed (i + 1) else false

/-- The array `key_states_0idx` after the SOCD block of the report branch. -/
def post_socd_states (now_ms : Nat → Nat) (socd : SocdState) (cur_pressed : Nat → Bool) :
    Nat → Bool :=
  if socd.socd_enabled then
    (socd_process_keys now_ms socd (key_states_of cur_pressed) SENSOR_COUNT).2
  else key_states_of cur_pressed

/-- One tick of the main loop from the layer handling to the report locals:
`none` when no report is built (nothing changed, or the bootloader was
entered), otherwise the locals from which `kbd_report` is filled. -/
def report_tick (hc : hid_constants) (keymap : Nat → Nat → Nat) (l1 dflt : List Nat)
    (now_ms : Nat → Nat) (socd : SocdState) (st : LayerState)
    (cur_pressed prev_pressed : Nat → Bool) : Option ReportAcc :=
  if scan_changed cur_pressed prev_pressed then
    report_loop hc keymap l1 dflt
      (layer_handling keymap l1 dflt cur_pressed prev_pressed st).current_layer
      (post_socd_states now_ms socd cur_pressed) prev_pressed SENSOR_COUNT
  else none

/-- The eight bytes of `kbd_report`: the modifier byte, a zero, the six keys. -/
def kbd_report (acc : ReportAcc) : List Nat :=
  [acc.modifiers, 0] ++ (List.range 6).map acc.keys

/-- A keycode that takes no slot of the key list, in the words of the
specification: 0, a layer key, a modifier, a consumer-control keycode or one of
the five special keycodes. -/
def report_excluded (hc : hid_constants) (kc : Nat) : Bool :=
  decide (kc = 0) || is_mo_keycode kc || is_tg_keycode kc || is_modifier_keycode hc kc
    || (keycode_to_consumer_usage hc kc).isSome
    || decide (kc = 0xF8) || decide (kc = 0xEC) || decide (kc = 0xF9) || decide (kc = 0xFA)
    || decide (kc = 0xFB)

/-- The key list as the specification words it, for the sensor indices below
`n`: the keycodes of the pressed sensors in ascending order, without the
excluded ones, truncated to six. -/
def report_keys_spec (hc : hid_constants) (kc : Nat → Nat) (pressed : Nat → Bool) (n : Nat) :
    List Nat :=
  ((((List.range n).filter pressed).map kc).filter (fun k => !report_excluded hc k)).take 6

/-- The modifier byte as the specification words it, for the sensor indices
below `n`: the bitwise OR of `1 << (kc - 0xE0)` over the pressed sensors whose
keycode is a modifier. -/
def report_modifiers_spec (hc : hid_constants) (kc : Nat → Nat) (pressed : Nat → Bool)
    (n : Nat) : Nat :=
  (((List.range n).filter pressed).map kc).foldl
    (fun m k => if is_modifier_keycode hc k then m ||| (1 <<< (k - 0xE0)) else m) 0

/-- A runtime keymap with the media keycode `kc` on sensor index 0 of layer 0
and the plain key 0x04 on sensor index 1. -/
def example_keymap_media (kc : Nat) (layer sensor_idx : Nat) : Nat :=
  if layer = 0 ∧ sensor_idx = 0 then kc
  else if layer = 0 ∧ sensor_idx = 1 then 0x04
  else 0

/-- The report locals describe the untruncated key list `F` and the modifier
byte `M`. -/
def report_inv (acc : ReportAcc) (F : List Nat) (M : Nat) : Prop :=
  acc.ki = min 6 F.length ∧ (∀ j, acc.keys j = ((F.take 6)[j]?).getD 0)
  ∧ acc.modifiers = M ∧ M < 256

/-! ## Keymap profiles (profiles.c) -/

/-- Number of profile slots, `#define PROFILE_COUNT 10`. -/
def PROFILE_COUNT : Nat := 10

/-- The magic number of the profile sector, `#define PROFILES_MAGIC 0x50524F46u`. -/
def PROFILES_MAGIC : Nat := 0x50524F46

/-- The version of the profile sector, `#define PROFILES_VERSION 2u`. -/
def PROFILES_VERSION : Nat := 2

/-- The statics of profiles.c. -/
structure ProfileState where
  g_current_slot : Nat
  g_valid_mask : Nat
  g_colors : Nat → Nat → Nat
  g_static_indicator : Bool
  g_keymaps : Nat → Nat → Nat → Nat
  g_dirty : Bool

/-- The profile flash sector read through `profiles_flash_t`: its fields, and
`bytes`, the bytes that precede the `checksum` field. -/
structure profiles_view where
  magic : Nat
  version : Nat
  current_slot : Nat
  valid_mask : Nat
  colors : Nat → Nat → Nat
  static_indicator_enabled : Nat
  keymaps : Nat → Nat → Nat → Nat
  checksum : Nat
  bytes : List Nat

/-- The statics of profiles.c at program start (their initialisers). -/
def profiles_boot : ProfileState :=
  { g_current_slot := 0
    g_valid_mask := 0x0001
    g_colors := fun _ _ => 0
    g_static_indicator := false
    g_keymaps := fun _ _ _ => 0
    g_dirty := false }

/-- The function `slot_valid` of profiles.c. -/
def slot_valid (ps : ProfileState) (slot : Nat) : Bool :=
  if slot ≥ PROFILE_COUNT then false
  else if slot = 0 then true
  else decide ((ps.g_valid_mask &&& (1 <<< slot) % 2 ^ 32) ≠ 0)

/-- The function `profiles_get_valid_mask`. -/
def profiles_get_valid_mask (ps : ProfileState) : Nat := (ps.g_valid_mask ||| 0x0001) % 65536

/-- The function `profiles_slot_valid`. -/
def profiles_slot_valid (ps : ProfileState) (slot : Nat) : Bool := slot_valid ps slot

/-- The function `profiles_get_current_slot`. -/
def profiles_get_current_slot (ps : ProfileState) : Nat := ps.g_current_slot

/-- `memcpy` of one keymap (`MAX_LAYERS * SENSOR_COUNT` bytes). -/
def copy_layers (old new : Nat → Nat → Nat) : Nat → Nat → Nat :=
  fun l i => if l < MAX_LAYERS ∧ i < SENSOR_COUNT then new l i else old l i

/-- Store into `g_keymaps[slot]`. -/
def set_slot_keymap (g : Nat → Nat → Nat → Nat) (slot : Nat) (km : Nat → Nat → Nat) :
    Nat → Nat → Nat → Nat :=
  fun s => if s = slot then copy_layers (g s) km else g s

/-- Store into `g_colors[slot]` (three bytes). -/
def set_slot_color (c : Nat → Nat → Nat) (slot r g b : Nat) : Nat → Nat → Nat :=
  fun s k =>
    if s = slot then (if k = 0 then r else if k = 1 then g else if k = 2 then b else c s k)
    else c s k

/-- The function `profiles_load_from_flash`. -/
def profiles_load_from_flash (v : profiles_view) (ps : ProfileState) : Bool × ProfileState :=
  if v.magic ≠ PROFILES_MAGIC then (false, ps)
  else if v.version ≠ PROFILES_VERSION then (false, ps)
  else if v.checksum ≠ checksum_bytes v.bytes then (false, ps)
  else
    (true,
      { g_current_slot := v.current_slot % 256
        g_valid_mask := (v.valid_mask % 65536 ||| 0x0001) % 65536
        g_colors := fun s k => if s < PROFILE_COUNT ∧ k < 3 then v.colors s k else ps.g_colors s k
        g_static_indicator := decide (v.static_indicator_enabled ≠ 0)
        g_keymaps := fun s =>
          if s < PROFILE_COUNT then copy_layers (ps.g_keymaps s) (v.keymaps s) else ps.g_keymaps s
        g_dirty := false })

/-- The function `profiles_init`; `v` is the content of the profile sector and
`km` the live keymap of main.c (the pointer `get_keymap_ptr()` returns, never
NULL). The result is the statics and the live keymap afterwards. -/
def profiles_init (v : profiles_view) (ps : ProfileState) (km : Nat → Nat → Nat) :
    ProfileState × (Nat → Nat → Nat) :=
  let ps1 : ProfileState :=
    { g_current_slot := 0
      g_valid_mask := 0x0001
      g_colors := fun s k => if s < PROFILE_COUNT ∧ k < 3 then 0 else ps.g_colors s k
      g_static_indicator := false
      g_keymaps := fun s =>
        if s < PROFILE_COUNT then copy_layers (ps.g_keymaps s) (fun _ _ => 0) else ps.g_keymaps s
      g_dirty := ps.g_dirty }
  let ps2 := (profiles_load_from_flash v ps1).2
  let ps3 := { ps2 with g_keymaps := set_slot_keymap ps2.g_keymaps 0 km }
  if slot_valid ps3 ps3.g_current_slot then
    (ps3, copy_layers km (ps3.g_keymaps ps3.g_current_slot))
  else ({ ps3 with g_current_slot := 0 }, km)

/-- The function `profiles_save_slot`. -/
def profiles_save_slot (ps : ProfileState) (km : Nat → Nat → Nat) (slot r g b : Nat)
    (static_indicator : Bool) : Bool × ProfileState :=
  if slot ≥ PROFILE_COUNT then (false, ps)
  else
    (true,
      { g_keymaps := set_slot_keymap ps.g_keymaps slot km
        g_colors := set_slot_color ps.g_colors slot r g b
        g_static_indicator := static_indicator
        g_valid_mask := (ps.g_valid_mask ||| ((1 <<< slot) % 2 ^ 32) % 65536) % 65536
        g_current_slot := slot
        g_dirty := true })

/-- The function `profiles_load_slot`: the result flag, the statics and the
live keymap afterwards. -/
def profiles_load_slot (ps : ProfileState) (km : Nat → Nat → Nat) (slot : Nat) :
    Bool × ProfileState × (Nat → Nat → Nat) :=
  if slot ≥ PROFILE_COUNT then (false, ps, km)
  else if !slot_valid ps slot then (false, ps, km)
  else (true, { ps with g_current_slot := slot, g_dirty := true },
    copy_layers km (ps.g_keymaps slot))

/-- The function `profiles_delete_slot`. -/
def profiles_delete_slot (ps : ProfileState) (km : Nat → Nat → Nat) (slot : Nat) :
    Bool × ProfileState × (Nat → Nat → Nat) :=
  if slot = 0 then (false, ps, km)
  else if slot ≥ PROFILE_COUNT then (false, ps, km)
  else
    let ps1 : ProfileState :=
      { ps with
        g_keymaps := set_slot_keymap ps.g_keymaps slot (fun _ _ => 0)
        g_colors := set_slot_color ps.g_colors slot 0 0 0
        g_valid_mask :=
          (ps.g_valid_mask &&& ((2 ^ 32 - 1 - (1 <<< slot) % 2 ^ 32) % 65536)) % 65536 }
    if ps1.g_current_slot = slot then
      (true, { ps1 with g_current_slot := 0, g_dirty := true }, copy_layers km (ps1.g_keymaps 0))
    else (true, { ps1 with g_dirty := true }, km)

/-- The function `profiles_create_blank_slot`. -/
def profiles_create_blank_slot (ps : ProfileState) (km : Nat → Nat → Nat) (slot : Nat) :
    Bool × ProfileState × (Nat → Nat → Nat) :=
  if slot = 0 then (false, ps, km)
  else if slot ≥ PROFILE_COUNT then (false, ps, km)
  else
    (true,
      { ps with
        g_keymaps := set_slot_keymap ps.g_keymaps slot (fun _ _ => 0)
        g_valid_mask := (ps.g_valid_mask ||| ((1 <<< slot) % 2 ^ 32) % 65536) % 65536
        g_colors := set_slot_color ps.g_colors slot 0 0 0
        g_current_slot := slot
        g_dirty := true },
      copy_layers km (fun _ _ => 0))

/-- The function `profiles_set_slot_color`. -/
def profiles_set_slot_color (ps : ProfileState) (slot r g b : Nat) : Bool × ProfileState :=
  if slot ≥ PROFILE_COUNT then (false, ps)
  else (true, { ps with g_colors := set_slot_color ps.g_colors slot r g b, g_dirty := true })

/-- The function `profiles_set_static_indicator`. -/
def profiles_set_static_indicator (ps : ProfileState) (enabled : Bool) : Bool × ProfileState :=
  (true, { ps with g_static_indicator := enabled, g_dirty := true })

/-- The function `profiles_task`: a dirty state is flushed to flash, which
clears `g_dirty`. -/
def profiles_task (ps : ProfileState) : ProfileState :=
  if ps.g_dirty then { ps with g_dirty := false } else ps

/-- A call of the public API of profiles.c after `profiles_init`. -/
inductive ProfileCall where
  | save_slot (slot r g b : Nat) (static_indicator : Bool)
  | load_slot (slot : Nat)
  | delete_slot (slot : Nat)
  | create_blank_slot (slot : Nat)
  | set_slot_color (slot r g b : Nat)
  | set_static_indicator (enabled : Bool)
  | task

/-- The statics and the live keymap after one call. -/
def profile_step (x : ProfileState × (Nat → Nat → Nat)) :
    ProfileCall → ProfileState × (Nat → Nat → Nat)
  | ProfileCall.save_slot slot r g b si => ((profiles_save_slot x.1 x.2 slot r g b si).2, x.2)
  | ProfileCall.load_slot slot => (profiles_load_slot x.1 x.2 slot).2
  | ProfileCall.delete_slot slot => (profiles_delete_slot x.1 x.2 slot).2
  | ProfileCall.create_blank_slot slot => (profiles_create_blank_slot x.1 x.2 slot).2
  | ProfileCall.set_slot_color slot r g b => ((profiles_set_slot_color x.1 slot r g b).2, x.2)
  | ProfileCall.set_static_indicator enabled => ((profiles_set_static_indicator x.1 enabled).2, x.2)
  | ProfileCall.task => (profiles_task x.1, x.2)

/-- The statics and the live keymap after a sequence of calls, oldest first. -/
def profile_run (x : ProfileState × (Nat → Nat → Nat)) (calls : List ProfileCall) :
    ProfileState × (Nat → Nat → Nat) :=
  calls.foldl profile_step x

/-- A profile sector for the examples: valid magic, version and checksum (byte
image `[1, 2, 3]`), the given current slot and valid mask. -/
def example_profiles_view (current_slot valid_mask : Nat) : profiles_view :=
  { magic := PROFILES_MAGIC
    version := PROFILES_VERSION
    current_slot := current_slot
    valid_mask := valid_mask
    colors := fun _ _ => 0
    static_indicator_enabled := 0
    keymaps := fun _ _ _ => 0
    checksum := 6
    bytes := [1, 2, 3] }

/-! ## The raw HID handler (hid_reports.c) -/

/-- Number of LEDs, `#define LED_COUNT 64` in `boards/example_60/config.h`. -/
def LED_COUNT : Nat := 64

/-- Report id of the raw interface, `REPORT_ID_RAW = 2` in usb_descriptors.h. -/
def REPORT_ID_RAW : Nat := 2

/-- Command byte `#define CMD_SET_ALL_LEDS 0x02` of hid_reports.h. -/
def CMD_SET_ALL_LEDS : Nat := 0x02

/-- Command byte `#define CMD_TOGGLE_LED_POWER 0x03` of hid_reports.h. -/
def CMD_TOGGLE_LED_POWER : Nat := 0x03

/-- Command byte `#define CMD_SET_LED_POWER 0x04` of hid_reports.h. -/
def CMD_SET_LED_POWER : Nat := 0x04

/-- Command byte `#define CMD_TOGGLE_SOCD 0x06` of hid_reports.h. -/
def CMD_TOGGLE_SOCD : Nat := 0x06

/-- Command byte `#define CMD_SET_SOCD 0x07` of hid_reports.h. -/
def CMD_SET_SOCD : Nat := 0x07

/-- Command byte `#define CMD_SET_ACTUATION 0x08` of hid_reports.h. -/
def CMD_SET_ACTUATION : Nat := 0x08

/-- Command byte `#define CMD_SET_KEYMAP_LEGACY 0x0A` of hid_reports.h. -/
def CMD_SET_KEYMAP_LEGACY : Nat := 0x0A

/-- Command byte `#define CMD_SET_LAYER_LEGACY 0x0C` of hid_reports.h. -/
def CMD_SET_LAYER_LEGACY : Nat := 0x0C

/-- Command byte `#define CMD_SAVE_PROFILE_LEGACY 0x0E` of hid_reports.h. -/
def CMD_SAVE_PROFILE_LEGACY : Nat := 0x0E

/-- Command byte `#define CMD_LOAD_PROFILE_LEGACY 0x0F` of hid_reports.h. -/
def CMD_LOAD_PROFILE_LEGACY : Nat := 0x0F

/-- Command byte `#define CMD_SET_BRIGHTNESS 0x10` of hid_reports.h. -/
def CMD_SET_BRIGHTNESS : Nat := 0x10

/-- Command byte `#define CMD_SET_LED_CHUNK 0x13` of hid_reports.h. -/
def CMD_SET_LED_CHUNK : Nat := 0x13

/-- Command byte `#define CMD_LED_CHUNK_DONE 0x14` of hid_reports.h. -/
def CMD_LED_CHUNK_DONE : Nat := 0x14

/-- Command byte `#define CMD_SET_LED_EFFECT 0x15` of hid_reports.h. -/
def CMD_SET_LED_EFFECT : Nat := 0x15

/-- Command byte `#define CMD_SET_EFFECT_SPEED 0x16` of hid_reports.h. -/
def CMD_SET_EFFECT_SPEED : Nat := 0x16

/-- Command byte `#define CMD_SET_EFFECT_DIR 0x17` of hid_reports.h. -/
def CMD_SET_EFFECT_DIR : Nat := 0x17

/-- Command byte `#define CMD_SET_EFFECT_COLOR1 0x18` of hid_reports.h. -/
def CMD_SET_EFFECT_COLOR1 : Nat := 0x18

/-- Command byte `#define CMD_SET_EFFECT_COLOR2 0x19` of hid_reports.h. -/
def CMD_SET_EFFECT_COLOR2 : Nat := 0x19

/-- Command byte `#define CMD_SET_GRADIENT 0x1A` of hid_reports.h. -/
def CMD_SET_GRADIENT : Nat := 0x1A

/-- Command byte `#define CMD_SET_GRADIENT_PARAMS 0x36` of hid_reports.h. -/
def CMD_SET_GRADIENT_PARAMS : Nat := 0x36

/-- Command byte `#define CMD_SET_ZONE_LED_EFFECT 0x37` of hid_reports.h. -/
def CMD_SET_ZONE_LED_EFFECT : Nat := 0x37

/-- Command byte `#define CMD_SET_ZONE_EFFECT_SPEED 0x38` of hid_reports.h. -/
def CMD_SET_ZONE_EFFECT_SPEED : Nat := 0x38

/-- Command byte `#define CMD_SET_ZONE_EFFECT_DIR 0x39` of hid_reports.h. -/
def CMD_SET_ZONE_EFFECT_DIR : Nat := 0x39

/-- Command byte `#define CMD_SET_ZONE_EFFECT_COLOR1 0x3A` of hid_reports.h. -/
def CMD_SET_ZONE_EFFECT_COLOR1 : Nat := 0x3A

/-- Command byte `#define CMD_SET_ZONE_EFFECT_COLOR2 0x3B` of hid_reports.h. -/
def CMD_SET_ZONE_EFFECT_COLOR2 : Nat := 0x3B

/-- Command byte `#define CMD_SET_ZONE_GRADIENT 0x3C` of hid_reports.h. -/
def CMD_SET_ZONE_GRADIENT : Nat := 0x3C

/-- Command byte `#define CMD_SET_ZONE_GRADIENT_PARAMS 0x3D` of hid_reports.h. -/
def CMD_SET_ZONE_GRADIENT_PARAMS : Nat := 0x3D

/-- Command byte `#define CMD_CALIBRATE 0x1F` of hid_reports.h. -/
def CMD_CALIBRATE : Nat := 0x1F

/-- Command byte `#define CMD_BOOTLOADER 0x20` of hid_reports.h. -/
def CMD_BOOTLOADER : Nat := 0x20

/-- Command byte `#define CMD_SET_ADC_STREAM 0x55` of hid_reports.h. -/
def CMD_SET_ADC_STREAM : Nat := 0x55

/-- Command byte `#define CMD_GET_KEY_ADC 0x56` of hid_reports.h. -/
def CMD_GET_KEY_ADC : Nat := 0x56

/-- Command byte `#define CMD_SET_ADV_CAL_ENABLED 0x61` of hid_reports.h. -/
def CMD_SET_ADV_CAL_ENABLED : Nat := 0x61

/-- Command byte `#define CMD_SET_ADV_CAL_KEY 0x62` of hid_reports.h. -/
def CMD_SET_ADV_CAL_KEY : Nat := 0x62

/-- Command byte `#define CMD_GET_ADV_CAL_KEY 0x63` of hid_reports.h. -/
def CMD_GET_ADV_CAL_KEY : Nat := 0x63

/-- Command byte `#define CMD_SET_LAYER 0x23` of hid_reports.h. -/
def CMD_SET_LAYER : Nat := 0x23

/-- Command byte `#define CMD_SET_KEYCODE 0x25` of hid_reports.h. -/
def CMD_SET_KEYCODE : Nat := 0x25

/-- Command byte `#define CMD_SET_KEYMAP 0x28` of hid_reports.h. -/
def CMD_SET_KEYMAP : Nat := 0x28

/-- Command byte `#define CMD_SET_SOCD_PAIR 0x6A` of hid_reports.h. -/
def CMD_SET_SOCD_PAIR : Nat := 0x6A

/-- Command byte `#define CMD_DELETE_SOCD_PAIR 0x6C` of hid_reports.h. -/
def CMD_DELETE_SOCD_PAIR : Nat := 0x6C

/-- Command byte `#define CMD_SET_SOCD_MODE 0x6E` of hid_reports.h. -/
def CMD_SET_SOCD_MODE : Nat := 0x6E

/-- Command byte `#define CMD_SAVE_PROFILE 0x70` of hid_reports.h. -/
def CMD_SAVE_PROFILE : Nat := 0x70

/-- Command byte `#define CMD_LOAD_PROFILE 0x71` of hid_reports.h. -/
def CMD_LOAD_PROFILE : Nat := 0x71

/-- Command byte `#define CMD_DELETE_PROFILE 0x72` of hid_reports.h. -/
def CMD_DELETE_PROFILE : Nat := 0x72

/-- Command byte `#define CMD_SET_PROFILE_COLOR 0x75` of hid_reports.h. -/
def CMD_SET_PROFILE_COLOR : Nat := 0x75

/-- Command byte `#define CMD_SET_STATIC_INDICATOR 0x76` of hid_reports.h. -/
def CMD_SET_STATIC_INDICATOR : Nat := 0x76

/-- Command byte `#define CMD_CREATE_BLANK_PROFILE 0x7A` of hid_reports.h. -/
def CMD_CREATE_BLANK_PROFILE : Nat := 0x7A

/-- Command byte `#define CMD_SET_LAYER_COLOR 0x7B` of hid_reports.h. -/
def CMD_SET_LAYER_COLOR : Nat := 0x7B

/-- The statics of hid_reports.c that the handler and the consume functions
write (the status copy written by `hid_set_status_flags` and
`hid_set_key_states` is left out). -/
structure HidState where
  flag_led_power_toggle : Bool
  flag_led_power_set : Int
  flag_socd_toggle : Bool
  flag_socd_set : Int
  flag_brightness_set : Int
  flag_actuation_set : Bool
  actuation_key_idx : Nat
  actuation_threshold : Nat
  flag_layer_set : Int
  flag_keymap_set : Bool
  keymap_layer : Nat
  keymap_key_idx : Nat
  keymap_keycode : Nat
  flag_calibrate : Bool
  flag_bootloader : Bool
  flag_save_profile : Bool
  flag_load_profile : Bool
  flag_settings_changed : Bool
  flag_led_update : Bool
  led_update_buffer : Nat → Nat
  flag_profile_save : Bool
  flag_profile_load : Bool
  flag_profile_delete : Bool
  flag_profile_blank : Bool
  profile_slot : Nat
  led_chunk_buffer : Nat → Nat
  led_chunking_active : Bool
  flag_adc_stream_enable : Bool
  adc_stream_enabled : Bool
  flag_get_key_adc : Bool
  get_key_adc_idx : Nat
  flag_set_adv_cal_enabled : Bool
  adv_cal_enabled_req : Bool
  flag_set_adv_cal_key : Bool
  adv_cal_key_idx : Nat
  adv_cal_release_adc : Nat
  adv_cal_press_adc : Nat
  flag_get_adv_cal_key : Bool
  get_adv_cal_key_idx : Nat
  last_raw_instance : Nat

/-- The statics of hid_reports.c at program start (their initialisers). -/
def hid_boot : HidState :=
  { flag_led_power_toggle := false
    flag_led_power_set := -1
    flag_socd_toggle := false
    flag_socd_set := -1
    flag_brightness_set := -1
    flag_actuation_set := false
    actuation_key_idx := 0
    actuation_threshold := 0
    flag_layer_set := -1
    flag_keymap_set := false
    keymap_layer := 0
    keymap_key_idx := 0
    keymap_keycode := 0
    flag_calibrate := false
    flag_bootloader := false
    flag_save_profile := false
    flag_load_profile := false
    flag_settings_changed := false
    flag_led_update := false
    led_update_buffer := fun _ => 0
    flag_profile_save := false
    flag_profile_load := false
    flag_profile_delete := false
    flag_profile_blank := false
    profile_slot := 0
    led_chunk_buffer := fun _ => 0
    led_chunking_active := false
    flag_adc_stream_enable := false
    adc_stream_enabled := false
    flag_get_key_adc := false
    get_key_adc_idx := 0
    flag_set_adv_cal_enabled := false
    adv_cal_enabled_req := false
    flag_set_adv_cal_key := false
    adv_cal_key_idx := 0
    adv_cal_release_adc := 0
    adv_cal_press_adc := 0
    flag_get_adv_cal_key := false
    get_adv_cal_key_idx := 0
    last_raw_instance := 2 }

/-- What `hid_raw_receive` can write: its own statics, the live keymap of
main.c (through `get_keymap_ptr`), the statics of socd.c and of profiles.c.
The lighting module and the responses sent to the host are left out. -/
structure HidWorld where
  hid : HidState
  keymap : Nat → Nat → Nat
  socd : SocdState
  prof : ProfileState

/-- The byte `data[k]` of a report (0 past its end). -/
def byte_at (data : List Nat) (k : Nat) : Nat := data.getD k 0 % 256

/-- `flag_settings_changed = true`. -/
def mark_settings_changed (w : HidWorld) : HidWorld :=
  { w with hid := { w.hid with flag_settings_changed := true } }

/-- The loop of `CMD_SET_KEYMAP`: `km[layer][i] = data[1 + i]` for `i < count`. -/
def write_keymap_row (km : Nat → Nat → Nat) (layer count : Nat) (data : List Nat) :
    Nat → Nat → Nat :=
  fun l i => if l = layer ∧ i < count then byte_at data (1 + i) else km l i

/-- The loop of `CMD_SET_LED_CHUNK` for `i < n`: three bytes per LED are copied
into `led_chunk_buffer` while `start + i < LED_COUNT`. -/
def write_led_chunk (start : Nat) (data : List Nat) (buf : Nat → Nat) : Nat → Nat → Nat
  | 0 => buf
  | n + 1 =>
    let b := write_led_chunk start data buf n
    if start + n < LED_COUNT then
      let idx := (start + n) % 256
      upd (upd (upd b (idx * 3 + 0) (byte_at data (2 + n * 3 + 0)))
        (idx * 3 + 1) (byte_at data (2 + n * 3 + 1)))
        (idx * 3 + 2) (byte_at data (2 + n * 3 + 2))
    else b

/-- The `switch (cmd)` of `hid_raw_receive`; `data` is the report after the
command byte and its length is `data_len`. Commands that only answer the host
or only drive the lighting module leave the modelled state as it is. -/
def hid_command (cmd : Nat) (data : List Nat) (w : HidWorld) : HidWorld :=
  let data_len := data.length
  if cmd = CMD_TOGGLE_LED_POWER then
    { w with hid := { w.hid with flag_led_power_toggle := true } }
  else if cmd = CMD_SET_LED_POWER then
    if data_len ≥ 1 then
      { w with hid := { w.hid with flag_led_power_set := if byte_at data 0 ≠ 0 then 1 else 0 } }
    else w
  else if cmd = CMD_TOGGLE_SOCD then
    { w with hid := { w.hid with flag_socd_toggle := true } }
  else if cmd = CMD_SET_SOCD then
    if data_len ≥ 1 then
      { w with hid := { w.hid with flag_socd_set := if byte_at data 0 ≠ 0 then 1 else 0 } }
    else w
  else if cmd = CMD_SET_SOCD_PAIR then
    if data_len ≥ 4 then
      mark_settings_changed
        { w with
          socd := (socd_add_pair w.socd (byte_at data 0) (byte_at data 1) (byte_at data 2)
            (byte_at data 3)).2 }
    else w
  else if cmd = CMD_DELETE_SOCD_PAIR then
    if data_len ≥ 1 then
      mark_settings_changed { w with socd := (socd_delete_pair w.socd (byte_at data 0)).2 }
    else w
  else if cmd = CMD_SET_SOCD_MODE then
    if data_len ≥ 1 then
      mark_settings_changed { w with socd := socd_set_global_mode w.socd (byte_at data 0) }
    else w
  else if cmd = CMD_SET_ACTUATION then
    if data_len ≥ 2 then
      { w with
        hid := { w.hid with
          actuation_key_idx := byte_at data 0
          actuation_threshold := byte_at data 1
          flag_actuation_set := true } }
    else w
  else if cmd = CMD_SET_KEYMAP_LEGACY then
    if data_len ≥ 3 then
      { w with
        hid := { w.hid with
          keymap_layer := byte_at data 0
          keymap_key_idx := byte_at data 1
          keymap_keycode := byte_at data 2
          flag_keymap_set := true } }
    else w
  else if cmd = CMD_SET_KEYMAP then
    if data_len ≥ 2 then
      let layer := byte_at data 0
      if layer < MAX_LAYERS then
        let count := if data_len - 1 > SENSOR_COUNT then SENSOR_COUNT else data_len - 1
        mark_settings_changed { w with keymap := write_keymap_row w.keymap layer count data }
      else w
    else w
  else if cmd = CMD_SET_KEYCODE then
    if data_len ≥ 3 then
      { w with
        hid := { w.hid with
          keymap_layer := byte_at data 0
          keymap_key_idx := byte_at data 1
          keymap_keycode := byte_at data 2
          flag_keymap_set := true
          flag_settings_changed := true } }
    else w
  else if cmd = CMD_SET_LAYER ∨ cmd = CMD_SET_LAYER_LEGACY then
    if data_len ≥ 1 ∧ byte_at data 0 < 4 then
      { w with hid := { w.hid with flag_layer_set := (byte_at data 0 : Int) } }
    else w
  else if cmd = CMD_SAVE_PROFILE_LEGACY then
    { w with hid := { w.hid with flag_save_profile := true } }
  else if cmd = CMD_LOAD_PROFILE_LEGACY then
    { w with hid := { w.hid with flag_load_profile := true } }
  else if cmd = CMD_SAVE_PROFILE then
    if data_len ≥ 1 then
      { w with hid := { w.hid with profile_slot := byte_at data 0, flag_profile_save := true } }
    else w
  else if cmd = CMD_LOAD_PROFILE then
    if data_len ≥ 1 then
      { w with hid := { w.hid with profile_slot := byte_at data 0, flag_profile_load := true } }
    else w
  else if cmd = CMD_DELETE_PROFILE then
    if data_len ≥ 1 then
      { w with hid := { w.hid with profile_slot := byte_at data 0, flag_profile_delete := true } }
    else w
  else if cmd = CMD_CREATE_BLANK_PROFILE then
    if data_len ≥ 1 then
      { w with hid := { w.hid with profile_slot := byte_at data 0, flag_profile_blank := true } }
    else w
  else if cmd = CMD_SET_PROFILE_COLOR then
    if data_len ≥ 4 then
      { w with
        prof := (profiles_set_slot_color w.prof (byte_at data 0) (byte_at data 1)
          (byte_at data 2) (byte_at data 3)).2 }
    else w
  else if cmd = CMD_SET_STATIC_INDICATOR then
    if data_len ≥ 1 then
      { w with prof := (profiles_set_static_indicator w.prof (decide (byte_at data 0 ≠ 0))).2 }
    else w
  else if cmd = CMD_SET_BRIGHTNESS then
    if data_len ≥ 1 then
      mark_settings_changed
        { w with
          hid := { w.hid with
            flag_brightness_set := if byte_at data 0 > 100 then 100 else (byte_at data 0 : Int) } }
    else w
  else if cmd = CMD_SET_LED_CHUNK then
    if data_len ≥ 3 then
      { w with
        hid := { w.hid with
          led_chunking_active := true
          led_chunk_buffer :=
            write_led_chunk (byte_at data 0) data w.hid.led_chunk_buffer (byte_at data 1) } }
    else w
  else if cmd = CMD_LED_CHUNK_DONE then
    if w.hid.led_chunking_active then
      { w with
        hid := { w.hid with
          led_update_buffer := fun k =>
            if k < LED_COUNT * 3 then w.hid.led_chunk_buffer k else w.hid.led_update_buffer k
          flag_led_update := true
          led_chunking_active := false
          flag_settings_changed := true } }
    else w
  else if cmd = CMD_SET_LED_EFFECT ∨ cmd = CMD_SET_EFFECT_SPEED ∨ cmd = CMD_SET_EFFECT_DIR then
    if data_len ≥ 1 then mark_settings_changed w else w
  else if cmd = CMD_SET_EFFECT_COLOR1 ∨ cmd = CMD_SET_EFFECT_COLOR2
      ∨ cmd = CMD_SET_GRADIENT_PARAMS then
    if data_len ≥ 3 then mark_settings_changed w else w
  else if cmd = CMD_SET_GRADIENT then
    if data_len ≥ 1 then
      let num := if byte_at data 0 > 8 then 8 else byte_at data 0
      if data_len ≥ (1 + num * 3) % 65536 then mark_settings_changed w else w
    else w
  else if cmd = CMD_SET_ZONE_LED_EFFECT ∨ cmd = CMD_SET_ZONE_EFFECT_SPEED
      ∨ cmd = CMD_SET_ZONE_EFFECT_DIR then
    if data_len ≥ 2 then mark_settings_changed w else w
  else if cmd = CMD_SET_ZONE_EFFECT_COLOR1 ∨ cmd = CMD_SET_ZONE_EFFECT_COLOR2
      ∨ cmd = CMD_SET_ZONE_GRADIENT_PARAMS ∨ cmd = CMD_SET_LAYER_COLOR then
    if data_len ≥ 4 then mark_settings_changed w else w
  else if cmd = CMD_SET_ZONE_GRADIENT then
    if data_len ≥ 2 then
      let num := if byte_at data 1 > 8 then 8 else byte_at data 1
      if data_len ≥ (2 + num * 3) % 65536 then mark_settings_changed w else w
    else w
  else if cmd = CMD_SET_ALL_LEDS then
    if data_len ≥ 3 then
      let copy_len := if data_len > LED_COUNT * 3 then LED_COUNT * 3 else data_len
      { w with
        hid := { w.hid with
          led_update_buffer := fun k =>
            if k < copy_len then byte_at data k else w.hid.led_update_buffer k
          flag_led_update := true } }
    else w
  else if cmd = CMD_CALIBRATE then
    { w with hid := { w.hid with flag_calibrate := true } }
  else if cmd = CMD_BOOTLOADER then
    { w with hid := { w.hid with flag_bootloader := true } }
  else if cmd = CMD_SET_ADC_STREAM then
    if data_len ≥ 1 then
      { w with
        hid := { w.hid with
          adc_stream_enabled := decide (byte_at data 0 ≠ 0)
          flag_adc_stream_enable := true } }
    else w
  else if cmd = CMD_GET_KEY_ADC then
    if data_len ≥ 1 then
      { w with hid := { w.hid with get_key_adc_idx := byte_at data 0, flag_get_key_adc := true } }
    else w
  else if cmd = CMD_SET_ADV_CAL_ENABLED then
    if data_len ≥ 1 then
      { w with
        hid := { w.hid with
          adv_cal_enabled_req := decide (byte_at data 0 ≠ 0)
          flag_set_adv_cal_enabled := true
          flag_settings_changed := true } }
    else w
  else if cmd = CMD_SET_ADV_CAL_KEY then
    if data_len ≥ 5 then
      { w with
        hid := { w.hid with
          adv_cal_key_idx := byte_at data 0
          adv_cal_release_adc := (byte_at data 1 ||| (byte_at data 2 <<< 8)) % 65536
          adv_cal_press_adc := (byte_at data 3 ||| (byte_at data 4 <<< 8)) % 65536
          flag_set_adv_cal_key := true
          flag_settings_changed := true } }
    else w
  else if cmd = CMD_GET_ADV_CAL_KEY then
    if data_len ≥ 1 then
      { w with
        hid := { w.hid with get_adv_cal_key_idx := byte_at data 0, flag_get_adv_cal_key := true } }
    else w
  else w

/-- The command byte of a report, as `hid_raw_receive` finds it: `none` for an
empty report and for a report that holds only the report id. -/
def hid_report_cmd (buffer : List Nat) : Option Nat :=
  if buffer.length = 0 then none
  else if byte_at buffer 0 = REPORT_ID_RAW then
    (if buffer.length ≤ 1 then none else some (byte_at buffer 1))
  else some (byte_at buffer 0)

/-- The bytes after the command byte of a report (`data`, of length
`data_len`). -/
def hid_report_data (buffer : List Nat) : List Nat :=
  buffer.drop ((if byte_at buffer 0 = REPORT_ID_RAW then 1 else 0) + 1)

/-- The function `hid_raw_receive`; `inst` is the HID interface number and
`buffer` the received bytes (`len` is their number). -/
def hid_raw_receive (inst : Nat) (buffer : List Nat) (w : HidWorld) : HidWorld :=
  let w0 := { w with hid := { w.hid with last_raw_instance := inst % 256 } }
  if buffer.length = 0 then w0
  else
    let offset := if byte_at buffer 0 = REPORT_ID_RAW then 1 else 0
    if offset = 1 ∧ buffer.length ≤ 1 then w0
    else hid_command (byte_at buffer offset) (buffer.drop (offset + 1)) w0

/-- The function `hid_consume_layer_set`: the returned `int` and the statics. -/
def hid_consume_layer_set (h : HidState) : Int × HidState :=
  (h.flag_layer_set, { h with flag_layer_set := -1 })

/-- The function `hid_consume_keymap_set`: the three outputs when it returns
true, and the statics. -/
def hid_consume_keymap_set (h : HidState) : Option (Nat × Nat × Nat) × HidState :=
  if h.flag_keymap_set then
    (some (h.keymap_layer, h.keymap_key_idx, h.keymap_keycode), { h with flag_keymap_set := false })
  else (none, h)

/-- The function `hid_consume_actuation_set`: the two outputs when it returns
true, and the statics. -/
def hid_consume_actuation_set (h : HidState) : Option (Nat × Nat) × HidState :=
  if h.flag_actuation_set then
    (some (h.actuation_key_idx, h.actuation_threshold), { h with flag_actuation_set := false })
  else (none, h)

/-- The function `hid_consume_profile_save`: the slot when it returns true. -/
def hid_consume_profile_save (h : HidState) : Option Nat × HidState :=
  if !h.flag_profile_save then (none, h)
  else (some h.profile_slot, { h with flag_profile_save := false })

/-- The function `hid_consume_profile_load`: the slot when it returns true. -/
def hid_consume_profile_load (h : HidState) : Option Nat × HidState :=
  if !h.flag_profile_load then (none, h)
  else (some h.profile_slot, { h with flag_profile_load := false })

/-- The function `hid_consume_profile_delete`: the slot when it returns true. -/
def hid_consume_profile_delete (h : HidState) : Option Nat × HidState :=
  if !h.flag_profile_delete then (none, h)
  else (some h.profile_slot, { h with flag_profile_delete := false })

/-- The function `hid_consume_profile_blank`: the slot when it returns true. -/
def hid_consume_profile_blank (h : HidState) : Option Nat × HidState :=
  if !h.flag_profile_blank then (none, h)
  else (some h.profile_slot, { h with flag_profile_blank := false })

/-- The function `profiles_get_slot_color`: the three outputs. -/
def profiles_get_slot_color (ps : ProfileState) (slot : Nat) : Nat × Nat × Nat :=
  if slot ≥ PROFILE_COUNT then (0, 0, 0)
  else (ps.g_colors slot 0, ps.g_colors slot 1, ps.g_colors slot 2)

/-- The function `profiles_static_indicator_enabled`. -/
def profiles_static_indicator_enabled (ps : ProfileState) : Bool := ps.g_static_indicator

/-- The block "Modern profile commands" of the main loop: the four profile
mailboxes are drained in the order save, load, delete, blank, each into the
same local `slot`, and the drained request is carried out. -/
def drain_profile_commands (w : HidWorld) : HidWorld :=
  let r1 := hid_consume_profile_save w.hid
  let w1 : HidWorld :=
    match r1.1 with
    | some slot =>
      { w with
        hid := r1.2
        prof := (profiles_save_slot w.prof w.keymap slot
          (profiles_get_slot_color w.prof slot).1 (profiles_get_slot_color w.prof slot).2.1
          (profiles_get_slot_color w.prof slot).2.2
          (profiles_static_indicator_enabled w.prof)).2 }
    | none => { w with hid := r1.2 }
  let r2 := hid_consume_profile_load w1.hid
  let w2 : HidWorld :=
    match r2.1 with
    | some slot =>
      { w1 with
        hid := r2.2
        prof := (profiles_load_slot w1.prof w1.keymap slot).2.1
        keymap := (profiles_load_slot w1.prof w1.keymap slot).2.2 }
    | none => { w1 with hid := r2.2 }
  let r3 := hid_consume_profile_delete w2.hid
  let w3 : HidWorld :=
    match r3.1 with
    | some slot =>
      { w2 with
        hid := r3.2
        prof := (profiles_delete_slot w2.prof w2.keymap slot).2.1
        keymap := (profiles_delete_slot w2.prof w2.keymap slot).2.2 }
    | none => { w2 with hid := r3.2 }
  let r4 := hid_consume_profile_blank w3.hid
  match r4.1 with
  | some slot =>
    { w3 with
      hid := r4.2
      prof := (profiles_create_blank_slot w3.prof w3.keymap slot).2.1
      keymap := (profiles_create_blank_slot w3.prof w3.keymap slot).2.2 }
  | none => { w3 with hid := r4.2 }

/-- The handler run on a sequence of reports, oldest first. -/
def hid_receive_all (inst : Nat) (w : HidWorld) (reports : List (List Nat)) : HidWorld :=
  reports.foldl (fun x buffer => hid_raw_receive inst buffer x) w

/-- The world at program start for the examples: the statics of hid_reports.c
with their initialisers, an empty keymap, the SOCD statics after `socd_init`
(example board ids), the profile statics with their initialisers. -/
def example_hid_world : HidWorld :=
  { hid := hid_boot
    keymap := fun _ _ => 0
    socd := socd_init 30 32 17 31 socd_boot
    prof := profiles_boot }

/-! ## The main loop: handler, drains and scan ticks (main.c) -/

/-- The layer state of the main loop together with what the HID handler can
write. -/
structure MainSys where
  world : HidWorld
  layer : LayerSys

/-- What happens in the main loop, as far as the layer is concerned: a report
reaches `hid_raw_receive` (from `tud_task`), the block "Handle layer change
from HID" drains a pending set-layer request, or a scan tick runs the layer
handling. The keymap of a tick is left arbitrary, which covers every writer of
the keymap. -/
inductive MainEvent where
  | receive (inst : Nat) (buffer : List Nat)
  | drain_layer_set
  | tick (keymap : Nat → Nat → Nat) (cur_pressed : Nat → Bool)

/-- One event of the main loop. The drain is
`new_layer = hid_consume_layer_set(); if (new_layer >= 0) current_layer = (uint8_t)new_layer;`. -/
def main_sys_step (l1 dflt : List Nat) (s : MainSys) : MainEvent → MainSys
  | MainEvent.receive inst buffer => { s with world := hid_raw_receive inst buffer s.world }
  | MainEvent.drain_layer_set =>
    { world := { s.world with hid := (hid_consume_layer_set s.world.hid).2 }
      layer :=
        if (hid_consume_layer_set s.world.hid).1 ≥ 0 then
          layer_sys_step l1 dflt s.layer
            (LayerEvent.set_layer (hid_consume_layer_set s.world.hid).1.toNat)
        else s.layer }
  | MainEvent.tick keymap cur_pressed =>
    { s with layer := layer_sys_step l1 dflt s.layer (LayerEvent.tick keymap cur_pressed) }

/-- A sequence of events of the main loop, oldest first. -/
def main_sys_run (l1 dflt : List Nat) (s : MainSys) (evs : List MainEvent) : MainSys :=
  evs.foldl (main_sys_step l1 dflt) s

/-- The set-layer mailbox holds nothing or a layer 0..3. -/
def layer_flag_ok (h : HidState) : Prop :=
  h.flag_layer_set = -1 ∨ (0 ≤ h.flag_layer_set ∧ h.flag_layer_set ≤ 3)

/-! ## The main-loop scan with its array bounds (main.c) -/

/-- Body of the scan loops over `m` and `s`, with the array bounds tracked:
`sensor_thresholds`, `sensor_baseline` and `adc_cached_values` have
`SENSOR_COUNT` elements, `prev_pressed` and `cur_pressed` have
`SENSOR_COUNT + 1`. The result is `none` once an access falls outside its
array (the code performs the access; its effect is not defined). -/
def scan_channel_checked (mux_maps : Nat → Nat → Nat) (cal : CalState)
    (mux_vals : Nat → Nat → Nat) (prev_pressed : Nat → Bool)
    (acc : Option (Nat → Bool)) (pos : Nat × Nat) : Option (Nat → Bool) :=
  match acc with
  | none => none
  | some cur_pressed =>
    let sid := mux_maps pos.1 pos.2
    if sid ≠ 0 then
      let sidx := (sid - 1) % 256
      if sidx ≥ SENSOR_COUNT then none
      else
        let thr := cal.sensor_thresholds sidx
        let val := mux_vals pos.1 pos.2
        if thr = 0 then some cur_pressed
        else
          let delta := (cal.sensor_baseline sidx * HALLSCAN_HYSTERESIS_PERCENT) % 2 ^ 32 / 100
          let release_thr := (thr + delta) % 2 ^ 32
          if sid ≥ SENSOR_COUNT + 1 then none
          else if prev_pressed sid then
            if val ≤ release_thr then some (upd cur_pressed sid true)
            else some (upd cur_pressed sid false)
          else if val < thr then some (upd cur_pressed sid true)
          else some cur_pressed
    else some cur_pressed

/-- The vector `cur_pressed` of one tick with the array bounds tracked. -/
def scan_cur_pressed_checked (mux_maps : Nat → Nat → Nat) (cal : CalState)
    (mux_vals : Nat → Nat → Nat) (prev_pressed : Nat → Bool) : Option (Nat → Bool) :=
  (mux_positions MUX_COUNT).foldl (scan_channel_checked mux_maps cal mux_vals prev_pressed)
    (some (fun _ => false))

/-- The wiring of the example board with the entry of multiplexer 0, channel 0
replaced by the sensor id `SENSOR_COUNT + 1`. -/
def example_mux_maps_stale (m ch : Nat) : Nat :=
  if m = 0 ∧ ch = 0 then SENSOR_COUNT + 1 else example_mux_maps m ch

/-- The current slot is a valid slot. -/
def profile_inv (ps : ProfileState) : Prop := slot_valid ps ps.g_current_slot = true

/-- The wiring of the example board with the entry of multiplexer 0, channel 1
replaced by the sensor id 1: sensor 1 is wired to two channels. -/
def example_mux_maps_double (m ch : Nat) : Nat :=
  if m = 0 ∧ ch = 1 then 1 else example_mux_maps m ch

/-- The wiring of the example board with the entry of multiplexer 3, channel 15
replaced by 0 (no sensor): sensor 64 is wired to no channel. -/
def example_mux_maps_unwired (m ch : Nat) : Nat :=
  if m = 3 ∧ ch = 15 then 0 else example_mux_maps m ch

/-! ## Theorems -/

theorem getD_zero_of_length_le (l : List Nat) (i : Nat) (h : ¬ i < l.length) :
    l.getD i 0 = 0 := by
  simp [List.getD_eq_getElem?_getD, List.getElem?_eq_none (Nat.le_of_not_lt h)]

theorem get_keycode_eq_fallthrough (keymap : Nat → Nat → Nat) (l1 dflt : List Nat)
    (layer s : Nat) (hl : layer < 4) (hs : s < SENSOR_COUNT) :
    get_keycode keymap l1 dflt layer s = keycode_fallthrough keymap l1 dflt layer s := by
  have hs' : ¬ s ≥ SENSOR_COUNT := Nat.not_le.mpr hs
  have hl' : ¬ layer ≥ MAX_LAYERS := by simp [MAX_LAYERS]; omega
  have ha := getD_zero_of_length_le l1 s
  have hd := getD_zero_of_length_le dflt s
  unfold get_keycode keycode_fallthrough
  simp only [hs', hl', if_false]
  generalize l1.getD s 0 = a at ha ⊢
  generalize dflt.getD s 0 = d at hd ⊢
  generalize hk : keymap layer s = k
  by_cases hone : layer = 1
  · subst hone
    generalize keymap 0 s = k0
    simp only [firstNonzero, if_true, List.cons_append, List.nil_append, true_and]
    split_ifs <;> simp_all
  · rcases Nat.eq_zero_or_pos layer with hz | hz
    · subst hz
      rw [hk]
      simp only [firstNonzero, if_false, List.cons_append, List.nil_append, false_and,
        List.append_nil]
      split_ifs <;> simp_all
    · generalize keymap 0 s = k0
      simp only [firstNonzero, hone, if_false, List.cons_append, List.nil_append, false_and,
        List.append_nil]
      split_ifs <;> simp_all

/-- C1. For layer < 4 and sensor < SENSOR_COUNT, `get_keycode` is the first
non-zero value among: the runtime entry of the layer, the compiled layer-1
default (consulted only on layer 1), the runtime entry of layer 0, the compiled
base default. On layer 1 a sensor with runtime entry 0 and a non-zero compiled
layer-1 default resolves to that default whatever the layer-0 runtime entry is.
A sensor index >= SENSOR_COUNT gives 0 and a layer >= 4 resolves as layer 0. -/
theorem C1_get_keycode_fallthrough (keymap : Nat → Nat → Nat) (l1 dflt : List Nat)
    (layer s s1 sBig layerBig : Nat)
    (hl : layer < 4) (hs : s < SENSOR_COUNT)
    (hs1 : s1 < SENSOR_COUNT) (hrun : keymap 1 s1 = 0) (hdef : l1.getD s1 0 ≠ 0)
    (hbig : SENSOR_COUNT ≤ sBig) (hlbig : 4 ≤ layerBig) :
    get_keycode keymap l1 dflt layer s = keycode_fallthrough keymap l1 dflt layer s
    ∧ get_keycode keymap l1 dflt 1 s1 = l1.getD s1 0
    ∧ (∀ l, get_keycode keymap l1 dflt l sBig = 0)
    ∧ (∀ i, get_keycode keymap l1 dflt layerBig i = get_keycode keymap l1 dflt 0 i) := by
  refine ⟨get_keycode_eq_fallthrough keymap l1 dflt layer s hl hs, ?_, ?_, ?_⟩
  · rw [get_keycode_eq_fallthrough keymap l1 dflt 1 s1 (by omega) hs1]
    unfold keycode_fallthrough
    generalize l1.getD s1 0 = a at hdef ⊢
    simp [firstNonzero, hrun, hdef]
  · intro l
    simp [get_keycode, hbig]
  · intro i
    unfold get_keycode
    simp only [MAX_LAYERS, ge_iff_le, hlbig, if_true]
    simp

/-- C1 at a concrete keymap: sensor 1 has runtime layer-0 entry 0x04, no
layer-1 runtime entry and compiled layer-1 default 0x3A. -/
theorem C1_get_keycode_fallthrough_witness :
    get_keycode (fun l i => if l = 0 ∧ i = 1 then 0x04 else 0)
        (0x35 :: 0x3A :: List.replicate 62 0) (0x29 :: 0x1E :: List.replicate 62 0) 1 1
      = keycode_fallthrough (fun l i => if l = 0 ∧ i = 1 then 0x04 else 0)
        (0x35 :: 0x3A :: List.replicate 62 0) (0x29 :: 0x1E :: List.replicate 62 0) 1 1
    ∧ get_keycode (fun l i => if l = 0 ∧ i = 1 then 0x04 else 0)
        (0x35 :: 0x3A :: List.replicate 62 0) (0x29 :: 0x1E :: List.replicate 62 0) 1 1
      = (0x35 :: 0x3A :: List.replicate 62 0).getD 1 0
    ∧ (∀ l, get_keycode (fun l i => if l = 0 ∧ i = 1 then 0x04 else 0)
        (0x35 :: 0x3A :: List.replicate 62 0) (0x29 :: 0x1E :: List.replicate 62 0) l 64 = 0)
    ∧ (∀ i, get_keycode (fun l i => if l = 0 ∧ i = 1 then 0x04 else 0)
        (0x35 :: 0x3A :: List.replicate 62 0) (0x29 :: 0x1E :: List.replicate 62 0) 7 i
      = get_keycode (fun l i => if l = 0 ∧ i = 1 then 0x04 else 0)
        (0x35 :: 0x3A :: List.replicate 62 0) (0x29 :: 0x1E :: List.replicate 62 0) 0 i) :=
  C1_get_keycode_fallthrough (fun l i => if l = 0 ∧ i = 1 then 0x04 else 0)
    (0x35 :: 0x3A :: List.replicate 62 0) (0x29 :: 0x1E :: List.replicate 62 0)
    1 1 1 64 7 (by decide) (by decide) (by decide) (by decide) (by decide)
    (by decide) (by decide)

/-! ### Layer handling -/

theorem upd_same {α : Type} (a : Nat → α) (i : Nat) (v : α) : upd a i v i = v := by
  simp [upd]

theorem upd_other {α : Type} (a : Nat → α) (i j : Nat) (v : α) (h : j ≠ i) :
    upd a i v j = a j := by
  simp [upd, h]

theorem int8_cast_small (n : Int) (h0 : 0 ≤ n) (h1 : n < 128) : int8_cast n = n := by
  unfold int8_cast
  omega

theorem highest_held_spec (mo : Nat → Int) (n : Nat) :
    (highest_held mo n = 0 ∧ ∀ L, 1 ≤ L → L ≤ n → mo L = -1)
    ∨ (1 ≤ highest_held mo n ∧ highest_held mo n ≤ n ∧ mo (highest_held mo n) ≠ -1
        ∧ ∀ L, highest_held mo n < L → L ≤ n → mo L = -1) := by
  induction n with
  | zero =>
    left
    exact ⟨rfl, fun L h1 h2 => by omega⟩
  | succ n ih =>
    unfold highest_held
    by_cases h : mo (n + 1) = -1
    · simp only [h, ne_eq, not_true_eq_false, if_false]
      rcases ih with ⟨h0, hall⟩ | ⟨h1, h2, h3, h4⟩
      · left
        refine ⟨h0, fun L hL1 hL2 => ?_⟩
        rcases Nat.lt_or_ge L (n + 1) with hlt | hge
        · exact hall L hL1 (by omega)
        · have : L = n + 1 := by omega
          rw [this]; exact h
      · right
        refine ⟨h1, by omega, h3, fun L hL1 hL2 => ?_⟩
        rcases Nat.lt_or_ge L (n + 1) with hlt | hge
        · exact h4 L hL1 (by omega)
        · have : L = n + 1 := by omega
          rw [this]; exact h
    · rw [if_pos h]
      right
      exact ⟨by omega, le_refl _, h, fun L hL1 hL2 => by omega⟩

theorem release_holder_found (mo : Nat → Int) (v : Int)
    (h : ∃ L, 1 ≤ L ∧ L ≤ 3 ∧ mo L = v) :
    ∃ L, 1 ≤ L ∧ L ≤ 3 ∧ mo L = v ∧ (∀ L', 1 ≤ L' → L' < L → mo L' ≠ v)
      ∧ release_holder 3 1 v mo = (upd mo L (-1), true) := by
  by_cases h1 : mo 1 = v
  · exact ⟨1, le_refl _, by omega, h1, fun L' a b => by omega, by simp [release_holder, h1]⟩
  · by_cases h2 : mo 2 = v
    · refine ⟨2, by omega, by omega, h2, fun L' a b => ?_, by simp [release_holder, h1, h2]⟩
      have : L' = 1 := by omega
      rw [this]; exact h1
    · by_cases h3 : mo 3 = v
      · refine ⟨3, by omega, by omega, h3, fun L' a b => ?_,
          by simp [release_holder, h1, h2, h3]⟩
        have : L' = 1 ∨ L' = 2 := by omega
        rcases this with e | e <;> rw [e] <;> assumption
      · exfalso
        obtain ⟨L, hL1, hL3, hL⟩ := h
        have : L = 1 ∨ L = 2 ∨ L = 3 := by omega
        rcases this with e | e | e <;> subst e <;> contradiction

/-- The release edge of a sensor recorded as a holder. -/
theorem layer_step_release (keymap : Nat → Nat → Nat) (l1 dflt : List Nat)
    (cur prev : Nat → Bool) (st : LayerState) (s : Nat)
    (hs : s < SENSOR_COUNT) (hcur : cur (s + 1) = false) (hprev : prev (s + 1) = true)
    (hold : ∃ L, 1 ≤ L ∧ L ≤ 3 ∧ st.mo_held_sensors L = (s : Int)) :
    ∃ L, 1 ≤ L ∧ L ≤ 3 ∧ st.mo_held_sensors L = (s : Int)
      ∧ (∀ L', 1 ≤ L' → L' < L → st.mo_held_sensors L' ≠ (s : Int))
      ∧ layer_step keymap l1 dflt cur prev st (s + 1)
        = { current_layer := highest_held (upd st.mo_held_sensors L (-1)) 3
            mo_held_sensors := upd st.mo_held_sensors L (-1) } := by
  obtain ⟨L, hL1, hL3, hL, hfirst, hrel⟩ := release_holder_found st.mo_held_sensors (s : Int) hold
  refine ⟨L, hL1, hL3, hL, hfirst, ?_⟩
  have hc : int8_cast (((s + 1 : Nat) : Int) - 1) = (s : Int) := by
    have : (((s + 1 : Nat) : Int) - 1) = (s : Int) := by push_cast; ring
    rw [this]
    apply int8_cast_small
    · omega
    · unfold SENSOR_COUNT at hs; omega
  unfold layer_step
  simp only [hcur, hprev, hc, MAX_LAYERS, hrel]
  simp

theorem layer_loop_single_edge (keymap : Nat → Nat → Nat) (l1 dflt : List Nat)
    (cur prev : Nat → Bool) (st : LayerState) (j : Nat)
    (hedge : ∀ i, i ≠ j → cur i = prev i) (n : Nat) :
    layer_loop keymap l1 dflt cur prev st n
      = if 1 ≤ j ∧ j ≤ n then layer_step keymap l1 dflt cur prev st j else st := by
  induction n with
  | zero =>
    have : ¬ (1 ≤ j ∧ j ≤ 0) := by omega
    rw [if_neg this]
    rfl
  | succ n ih =>
    unfold layer_loop
    rw [ih]
    by_cases hj : j = n + 1
    · have h1 : ¬ (1 ≤ j ∧ j ≤ n) := by omega
      have h2 : (1 ≤ j ∧ j ≤ n + 1) := by omega
      rw [if_neg h1, if_pos h2, hj]
    · have hne : n + 1 ≠ j := fun h => hj h.symm
      have hstep : ∀ st', layer_step keymap l1 dflt cur prev st' (n + 1) = st' := by
        intro st'
        unfold layer_step
        simp [hedge (n + 1) hne]
      rw [hstep]
      by_cases h1 : 1 ≤ j ∧ j ≤ n
      · have h2 : (1 ≤ j ∧ j ≤ n + 1) := by omega
        rw [if_pos h1, if_pos h2]
      · have h2 : ¬ (1 ≤ j ∧ j ≤ n + 1) := by omega
        rw [if_neg h1, if_neg h2]

/-- A tick in which only the sensor with index `s` changes runs the loop body
once, for that sensor. -/
theorem layer_handling_single_edge (keymap : Nat → Nat → Nat) (l1 dflt : List Nat)
    (prev : Nat → Bool) (st : LayerState) (s : Nat) (v : Bool) (hs : s < SENSOR_COUNT) :
    layer_handling keymap l1 dflt (upd prev (s + 1) v) prev st
      = layer_step keymap l1 dflt (upd prev (s + 1) v) prev st (s + 1) := by
  unfold layer_handling
  rw [layer_loop_single_edge keymap l1 dflt _ prev st (s + 1)
    (fun i hi => upd_other prev (s + 1) i v hi)]
  have : 1 ≤ s + 1 ∧ s + 1 ≤ SENSOR_COUNT := ⟨by omega, hs⟩
  rw [if_pos this]

/-- The press edge of a sensor whose keycode on the current layer is `MO(n)`. -/
theorem layer_step_mo_press (keymap : Nat → Nat → Nat) (l1 dflt : List Nat)
    (cur prev : Nat → Bool) (st : LayerState) (s n : Nat)
    (hs : s < SENSOR_COUNT) (hn1 : 1 ≤ n) (hn3 : n ≤ 3)
    (hcur : cur (s + 1) = true) (hprev : prev (s + 1) = false)
    (hkc : get_keycode keymap l1 dflt st.current_layer s = MO n) :
    layer_step keymap l1 dflt cur prev st (s + 1)
      = { current_layer := n, mo_held_sensors := upd st.mo_held_sensors n (s : Int) } := by
  have hc : int8_cast (((s + 1 : Nat) : Int) - 1) = (s : Int) := by
    have : (((s + 1 : Nat) : Int) - 1) = (s : Int) := by push_cast; ring
    rw [this]
    apply int8_cast_small
    · omega
    · unfold SENSOR_COUNT at hs; omega
  have hmo : is_mo_keycode (MO n) = true := by
    unfold is_mo_keycode MO
    simp
    omega
  have ht : (MO n - 0xA8 + 1) % 256 = n := by
    unfold MO
    omega
  unfold layer_step
  simp only [hcur, hprev, hc, Nat.add_sub_cancel, hkc, hmo, ht]
  simp

/-- C2. On the release edge of a sensor recorded as the holder of a momentary
layer, the loop body clears that holder slot (the first slot naming the sensor)
and sets current_layer to the highest layer 1..3 that still has a holder, or 0
when none has. From layer 0 with no holders: pressing a sensor `a` whose layer-0
keycode is MO(1), then a different sensor `b` whose layer-1 keycode is MO(2),
gives layer 2; releasing `b` while `a` is held gives layer 1. -/
theorem C2_momentary_release_restores_layer (keymap : Nat → Nat → Nat) (l1 dflt : List Nat)
    (cur prev : Nat → Bool) (st : LayerState) (s : Nat) (prev0 : Nat → Bool) (a b : Nat)
    (hs : s < SENSOR_COUNT) (hcur : cur (s + 1) = false) (hprev : prev (s + 1) = true)
    (hold : ∃ L, 1 ≤ L ∧ L ≤ 3 ∧ st.mo_held_sensors L = (s : Int))
    (ha : a < SENSOR_COUNT) (hb : b < SENSOR_COUNT) (hab : a ≠ b)
    (hpa : prev0 (a + 1) = false) (hpb : prev0 (b + 1) = false)
    (hka : get_keycode keymap l1 dflt 0 a = MO 1)
    (hkb : get_keycode keymap l1 dflt 1 b = MO 2) :
    (∃ L, 1 ≤ L ∧ L ≤ 3 ∧ st.mo_held_sensors L = (s : Int)
      ∧ (layer_step keymap l1 dflt cur prev st (s + 1)).mo_held_sensors
          = upd st.mo_held_sensors L (-1))
    ∧ (((layer_step keymap l1 dflt cur prev st (s + 1)).current_layer = 0
        ∧ ∀ L, 1 ≤ L → L ≤ 3 →
            (layer_step keymap l1 dflt cur prev st (s + 1)).mo_held_sensors L = -1)
      ∨ (1 ≤ (layer_step keymap l1 dflt cur prev st (s + 1)).current_layer
        ∧ (layer_step keymap l1 dflt cur prev st (s + 1)).current_layer ≤ 3
        ∧ (layer_step keymap l1 dflt cur prev st (s + 1)).mo_held_sensors
            (layer_step keymap l1 dflt cur prev st (s + 1)).current_layer ≠ -1
        ∧ ∀ L, (layer_step keymap l1 dflt cur prev st (s + 1)).current_layer < L → L ≤ 3 →
            (layer_step keymap l1 dflt cur prev st (s + 1)).mo_held_sensors L = -1))
    ∧ (layer_handling keymap l1 dflt (upd prev0 (a + 1) true) prev0 layer_init).current_layer = 1
    ∧ (layer_handling keymap l1 dflt (upd (upd prev0 (a + 1) true) (b + 1) true)
        (upd prev0 (a + 1) true)
        (layer_handling keymap l1 dflt (upd prev0 (a + 1) true) prev0 layer_init)).current_layer = 2
    ∧ (layer_handling keymap l1 dflt
        (upd (upd (upd prev0 (a + 1) true) (b + 1) true) (b + 1) false)
        (upd (upd prev0 (a + 1) true) (b + 1) true)
        (layer_handling keymap l1 dflt (upd (upd prev0 (a + 1) true) (b + 1) true)
          (upd prev0 (a + 1) true)
          (layer_handling keymap l1 dflt (upd prev0 (a + 1) true) prev0
            layer_init))).current_layer = 1 := by
  obtain ⟨L, hL1, hL3, hL, -, hstep⟩ :=
    layer_step_release keymap l1 dflt cur prev st s hs hcur hprev hold
  refine ⟨⟨L, hL1, hL3, hL, by rw [hstep]⟩, ?_, ?_⟩
  · rw [hstep]
    exact highest_held_spec (upd st.mo_held_sensors L (-1)) 3
  · -- tick 1: press a on layer 0
    have h1 : layer_handling keymap l1 dflt (upd prev0 (a + 1) true) prev0 layer_init
        = { current_layer := 1, mo_held_sensors := upd (fun _ => -1) 1 (a : Int) } := by
      rw [layer_handling_single_edge keymap l1 dflt prev0 layer_init a true ha]
      exact layer_step_mo_press keymap l1 dflt _ prev0 layer_init a 1 ha (le_refl _) (by omega)
        (upd_same _ _ _) hpa hka
    -- tick 2: press b on layer 1
    have hne : b + 1 ≠ a + 1 := fun h => hab (by omega)
    have h2 : layer_handling keymap l1 dflt (upd (upd prev0 (a + 1) true) (b + 1) true)
        (upd prev0 (a + 1) true)
        { current_layer := 1, mo_held_sensors := upd (fun _ => -1) 1 (a : Int) }
        = { current_layer := 2
            mo_held_sensors := upd (upd (fun _ => -1) 1 (a : Int)) 2 (b : Int) } := by
      rw [layer_handling_single_edge keymap l1 dflt _ _ b true hb]
      exact layer_step_mo_press keymap l1 dflt _ _ _ b 2 hb (by omega) (by omega)
        (upd_same _ _ _) (by rw [upd_other _ _ _ _ hne]; exact hpb) hkb
    -- tick 3: release b while a is held
    have h3 : layer_handling keymap l1 dflt
        (upd (upd (upd prev0 (a + 1) true) (b + 1) true) (b + 1) false)
        (upd (upd prev0 (a + 1) true) (b + 1) true)
        { current_layer := 2
          mo_held_sensors := upd (upd (fun _ => -1) 1 (a : Int)) 2 (b : Int) }
        = { current_layer := 1
            mo_held_sensors := upd (upd (upd (fun _ => -1) 1 (a : Int)) 2 (b : Int)) 2 (-1) } := by
      rw [layer_handling_single_edge keymap l1 dflt _ _ b false hb]
      obtain ⟨L', hL1', hL3', hL', -, hrel⟩ :=
        layer_step_release keymap l1 dflt
          (upd (upd (upd prev0 (a + 1) true) (b + 1) true) (b + 1) false)
          (upd (upd prev0 (a + 1) true) (b + 1) true)
          { current_layer := 2
            mo_held_sensors := upd (upd (fun _ => -1) 1 (a : Int)) 2 (b : Int) }
          b hb (upd_same _ _ _) (upd_same _ _ _)
          ⟨2, by omega, by omega, upd_same (upd (fun _ => -1) 1 (a : Int)) 2 (b : Int)⟩
      have hL2 : L' = 2 := by
        have hc : L' = 1 ∨ L' = 2 ∨ L' = 3 := by omega
        rcases hc with e | e | e
        · subst e
          simp only [upd] at hL'
          simp at hL'
          try omega
        · exact e
        · subst e
          simp only [upd] at hL'
          simp at hL'
          try omega
      subst hL2
      rw [hrel]
      have ha' : ¬ ((a : Int) = -1) := by omega
      simp [highest_held, upd, ha']
    refine ⟨by rw [h1], by rw [h1, h2], by rw [h1, h2, h3]⟩

/-- C2 on the example board tables: Fn (sensor index 58, MO(1)) then the
layer-1 MO(2) key (sensor index 57). -/
theorem C2_momentary_release_restores_layer_witness :
    (layer_handling (fun _ _ => 0) example_layer1_keycodes example_default_keycodes
        (upd (upd (upd (fun _ => false) (58 + 1) true) (57 + 1) true) (57 + 1) false)
        (upd (upd (fun _ => false) (58 + 1) true) (57 + 1) true)
        (layer_handling (fun _ _ => 0) example_layer1_keycodes example_default_keycodes
          (upd (upd (fun _ => false) (58 + 1) true) (57 + 1) true)
          (upd (fun _ => false) (58 + 1) true)
          (layer_handling (fun _ _ => 0) example_layer1_keycodes example_default_keycodes
            (upd (fun _ => false) (58 + 1) true) (fun _ => false)
            layer_init))).current_layer = 1 :=
  (C2_momentary_release_restores_layer (fun _ _ => 0) example_layer1_keycodes
    example_default_keycodes (upd (fun _ => true) (57 + 1) false) (fun _ => true)
    { current_layer := 2, mo_held_sensors := upd (upd (fun _ => -1) 1 58) 2 57 } 57
    (fun _ => false) 58 57 (by decide) (by decide) (by decide)
    ⟨2, by decide, by decide, by decide⟩ (by decide) (by decide) (by decide) (by decide)
    (by decide) (by decide) (by decide)).2.2.2.2

/-! ### Loops over the multiplexer channels -/

theorem foldl_obs_none {σ β P : Type} (f : σ → P → σ) (obs : σ → β) :
    ∀ (l : List P) (init : σ), (∀ q ∈ l, ∀ st, obs (f st q) = obs st) →
      obs (l.foldl f init) = obs init := by
  intro l
  induction l with
  | nil => intro init _; rfl
  | cons q l ih =>
    intro init h
    rw [List.foldl_cons, ih (f init q) (fun q' hq' st => h q' (List.mem_cons_of_mem _ hq') st)]
    exact h q (List.mem_cons_self _ _) init

theorem foldl_obs_unique {σ β P : Type} (f : σ → P → σ) (obs : σ → β) (g : β → β) (p : P) :
    ∀ (l : List P) (init : σ), l.Nodup → p ∈ l →
      (∀ q ∈ l, q ≠ p → ∀ st, obs (f st q) = obs st) →
      (∀ st, obs (f st p) = g (obs st)) →
      obs (l.foldl f init) = g (obs init) := by
  intro l
  induction l with
  | nil => intro init _ hp; cases hp
  | cons q l ih =>
    intro init hnd hp hother hself
    rw [List.foldl_cons]
    rw [List.nodup_cons] at hnd
    by_cases hq : q = p
    · subst hq
      rw [foldl_obs_none f obs l (f init q)
        (fun q' hq' st => hother q' (List.mem_cons_of_mem _ hq')
          (fun e => hnd.1 (e ▸ hq')) st)]
      exact hself init
    · have hpl : p ∈ l := by
        rcases List.mem_cons.mp hp with e | e
        · exact absurd e.symm hq
        · exact e
      rw [ih (f init q) hnd.2 hpl
        (fun q' hq' hne st => hother q' (List.mem_cons_of_mem _ hq') hne st) hself]
      rw [hother q (List.mem_cons_self _ _) hq init]

theorem mux_positions_nodup (n : Nat) : (mux_positions n).Nodup :=
  List.Nodup.product (List.nodup_range n) (List.nodup_range 16)

theorem mem_mux_positions (n m ch : Nat) : (m, ch) ∈ mux_positions n ↔ m < n ∧ ch < 16 := by
  unfold mux_positions
  rw [List.pair_mem_product, List.mem_range, List.mem_range]

/-! ### Calibration -/

theorem sample_adc_avg_lt (read : Nat → Nat) : sample_adc_avg read < 65536 := by
  unfold sample_adc_avg
  exact Nat.mod_lt _ (by decide)

theorem threshold_from_default (s : Nat) (hs : s < 65536) :
    threshold_from s SENSOR_THRESHOLD = s * (100 - 7) / 100 := by
  unfold threshold_from SENSOR_THRESHOLD
  have h1 : (100 + 2 ^ 32 - 7 % 2 ^ 32) % 2 ^ 32 = 93 := by decide
  rw [h1]
  have h2 : s * 93 % 2 ^ 32 = s * 93 := Nat.mod_eq_of_lt (by omega)
  rw [h2]
  have h3 : s * 93 / 100 < 65536 := by omega
  have h4 : ¬ (s * 93 / 100 > 0xFFFF) := by omega
  simp only [h4, if_false]
  exact Nat.mod_eq_of_lt h3

theorem calibrate_channel_other (mux_maps : Nat → Nat → Nat) (reads : Nat → Nat → Nat → Nat)
    (idx : Nat) (st : CalState) (q : Nat × Nat) (hq : mux_maps q.1 q.2 ≠ idx + 1) :
    ((calibrate_channel mux_maps reads st q).sensor_baseline idx,
      (calibrate_channel mux_maps reads st q).sensor_thresholds idx)
    = (st.sensor_baseline idx, st.sensor_thresholds idx) := by
  unfold calibrate_channel
  by_cases h1 : mux_maps q.1 q.2 = 0 ∨ mux_maps q.1 q.2 > SENSOR_COUNT
  · simp only [h1, if_true]
  · simp only [h1, if_false]
    by_cases h2 : sample_adc_avg (reads q.1 q.2) < ADC_MIN_VALID
    · simp only [h2, if_true]
    · simp only [h2, if_false]
      have hne : idx ≠ (mux_maps q.1 q.2 - 1) % 256 := by
        unfold SENSOR_COUNT at h1
        omega
      rw [upd_other _ _ _ _ hne, upd_other _ _ _ _ hne]

theorem calibrate_channel_self (mux_maps : Nat → Nat → Nat) (reads : Nat → Nat → Nat → Nat)
    (idx : Nat) (hidx : idx < SENSOR_COUNT) (st : CalState) (p : Nat × Nat)
    (hp : mux_maps p.1 p.2 = idx + 1) :
    ((calibrate_channel mux_maps reads st p).sensor_baseline idx,
      (calibrate_channel mux_maps reads st p).sensor_thresholds idx)
    = (fun o : Nat × Nat =>
        if sample_adc_avg (reads p.1 p.2) < ADC_MIN_VALID then o
        else (sample_adc_avg (reads p.1 p.2),
          threshold_from (sample_adc_avg (reads p.1 p.2)) SENSOR_THRESHOLD))
      (st.sensor_baseline idx, st.sensor_thresholds idx) := by
  unfold calibrate_channel
  have h1 : ¬ (mux_maps p.1 p.2 = 0 ∨ mux_maps p.1 p.2 > SENSOR_COUNT) := by
    rw [hp]; omega
  simp only [h1, if_false]
  by_cases h2 : sample_adc_avg (reads p.1 p.2) < ADC_MIN_VALID
  · simp only [h2, if_true]
  · simp only [h2, if_false]
    have he : (mux_maps p.1 p.2 - 1) % 256 = idx := by
      rw [hp]
      unfold SENSOR_COUNT at hidx
      omega
    rw [he, upd_same, upd_same]

/-- A calibration run over `n` multiplexers, at a sensor wired to exactly one
channel. -/
theorem calibrate_run_mapped (n : Nat) (mux_maps : Nat → Nat → Nat)
    (reads : Nat → Nat → Nat → Nat) (st : CalState) (idx m ch : Nat)
    (hidx : idx < SENSOR_COUNT) (hm : m < n) (hch : ch < 16)
    (hmap : mux_maps m ch = idx + 1)
    (huniq : ∀ m2 c2, m2 < n → c2 < 16 → mux_maps m2 c2 = idx + 1 → m2 = m ∧ c2 = ch) :
    (((mux_positions n).foldl (calibrate_channel mux_maps reads)
        (calibrate_clear st)).sensor_baseline idx,
      ((mux_positions n).foldl (calibrate_channel mux_maps reads)
        (calibrate_clear st)).sensor_thresholds idx)
    = if sample_adc_avg (reads m ch) < ADC_MIN_VALID then (0, 0)
      else (sample_adc_avg (reads m ch),
        threshold_from (sample_adc_avg (reads m ch)) SENSOR_THRESHOLD) := by
  have h := foldl_obs_unique (calibrate_channel mux_maps reads)
    (fun s : CalState => (s.sensor_baseline idx, s.sensor_thresholds idx))
    (fun o : Nat × Nat =>
        if sample_adc_avg (reads m ch) < ADC_MIN_VALID then o
        else (sample_adc_avg (reads m ch),
          threshold_from (sample_adc_avg (reads m ch)) SENSOR_THRESHOLD))
    (m, ch) (mux_positions n) (calibrate_clear st) (mux_positions_nodup n)
    ((mem_mux_positions n m ch).mpr ⟨hm, hch⟩)
    (fun q hq hne s => by
      apply calibrate_channel_other
      intro e
      have hq' := (mem_mux_positions n q.1 q.2).mp hq
      have := huniq q.1 q.2 hq'.1 hq'.2 e
      exact hne (Prod.ext this.1 this.2))
    (fun s => calibrate_channel_self mux_maps reads idx hidx s (m, ch) hmap)
  simp only at h
  rw [h]
  simp [calibrate_clear, hidx]

/-- A calibration run over `n` multiplexers, at a sensor that no channel maps to. -/
theorem calibrate_run_unmapped (n : Nat) (mux_maps : Nat → Nat → Nat)
    (reads : Nat → Nat → Nat → Nat) (st : CalState) (idx : Nat)
    (hidx : idx < SENSOR_COUNT)
    (hnone : ∀ m2 c2, m2 < n → c2 < 16 → mux_maps m2 c2 ≠ idx + 1) :
    (((mux_positions n).foldl (calibrate_channel mux_maps reads)
        (calibrate_clear st)).sensor_baseline idx,
      ((mux_positions n).foldl (calibrate_channel mux_maps reads)
        (calibrate_clear st)).sensor_thresholds idx) = (0, 0) := by
  have h := foldl_obs_none (calibrate_channel mux_maps reads)
    (fun s : CalState => (s.sensor_baseline idx, s.sensor_thresholds idx))
    (mux_positions n) (calibrate_clear st)
    (fun q hq s => by
      apply calibrate_channel_other
      have hq' := (mem_mux_positions n q.1 q.2).mp hq
      exact hnone q.1 q.2 hq'.1 hq'.2)
  simp only at h
  rw [h]
  simp [calibrate_clear, hidx]

theorem sample_sum_eight (read : Nat → Nat) (hread : ∀ i, read i < 65536) :
    sample_sum read 8
      = read 0 + read 1 + read 2 + read 3 + read 4 + read 5 + read 6 + read 7 := by
  have h0 := hread 0
  have h1 := hread 1
  have h2 := hread 2
  have h3 := hread 3
  have h4 := hread 4
  have h5 := hread 5
  have h6 := hread 6
  have h7 := hread 7
  simp only [sample_sum]
  omega

theorem sample_adc_avg_eq (read : Nat → Nat) (hread : ∀ i, read i < 65536) :
    sample_adc_avg read
      = (read 0 + read 1 + read 2 + read 3 + read 4 + read 5 + read 6 + read 7) / 8 := by
  unfold sample_adc_avg CALIBRATION_SAMPLES
  rw [sample_sum_eight read hread]
  have h0 := hread 0
  have h1 := hread 1
  have h2 := hread 2
  have h3 := hread 3
  have h4 := hread 4
  have h5 := hread 5
  have h6 := hread 6
  have h7 := hread 7
  omega

theorem calibrate_run_valid (n : Nat) (mux_maps : Nat → Nat → Nat)
    (reads : Nat → Nat → Nat → Nat) (st : CalState) (idx m ch : Nat)
    (hidx : idx < SENSOR_COUNT) (hm : m < n) (hch : ch < 16)
    (hmap : mux_maps m ch = idx + 1)
    (huniq : ∀ m2 c2, m2 < n → c2 < 16 → mux_maps m2 c2 = idx + 1 → m2 = m ∧ c2 = ch)
    (hvalid : ADC_MIN_VALID ≤ sample_adc_avg (reads m ch)) :
    ((mux_positions n).foldl (calibrate_channel mux_maps reads)
        (calibrate_clear st)).sensor_baseline idx = sample_adc_avg (reads m ch)
    ∧ ((mux_positions n).foldl (calibrate_channel mux_maps reads)
        (calibrate_clear st)).sensor_thresholds idx
        = sample_adc_avg (reads m ch) * (100 - 7) / 100
    ∧ 0 < ((mux_positions n).foldl (calibrate_channel mux_maps reads)
        (calibrate_clear st)).sensor_thresholds idx
    ∧ ((mux_positions n).foldl (calibrate_channel mux_maps reads)
        (calibrate_clear st)).sensor_thresholds idx
      < ((mux_positions n).foldl (calibrate_channel mux_maps reads)
        (calibrate_clear st)).sensor_baseline idx := by
  have h := calibrate_run_mapped n mux_maps reads st idx m ch hidx hm hch hmap huniq
  have hnot : ¬ sample_adc_avg (reads m ch) < ADC_MIN_VALID := Nat.not_lt.mpr hvalid
  rw [if_neg hnot, threshold_from_default _ (sample_adc_avg_lt _)] at h
  have hb := congrArg Prod.fst h
  have ht := congrArg Prod.snd h
  simp only at hb ht
  rw [hb, ht]
  unfold ADC_MIN_VALID at hvalid
  refine ⟨rfl, rfl, ?_, ?_⟩ <;> omega

theorem calibrate_run_floating (n : Nat) (mux_maps : Nat → Nat → Nat)
    (reads : Nat → Nat → Nat → Nat) (st : CalState) (idx m ch : Nat)
    (hidx : idx < SENSOR_COUNT) (hm : m < n) (hch : ch < 16)
    (hmap : mux_maps m ch = idx + 1)
    (huniq : ∀ m2 c2, m2 < n → c2 < 16 → mux_maps m2 c2 = idx + 1 → m2 = m ∧ c2 = ch)
    (hlow : sample_adc_avg (reads m ch) < ADC_MIN_VALID) :
    ((mux_positions n).foldl (calibrate_channel mux_maps reads)
        (calibrate_clear st)).sensor_baseline idx = 0
    ∧ ((mux_positions n).foldl (calibrate_channel mux_maps reads)
        (calibrate_clear st)).sensor_thresholds idx = 0 := by
  have h := calibrate_run_mapped n mux_maps reads st idx m ch hidx hm hch hmap huniq
  rw [if_pos hlow] at h
  exact ⟨congrArg Prod.fst h, congrArg Prod.snd h⟩

/-- C5 (amended). After a calibration run (`mcp3208_hallscan_calibrate` of
main.c and `hallscan_calibrate` of hallscan.c alike), a sensor wired to exactly
one mux channel whose averaged sample s (the sum of the 8 raw reads divided by
8) is at least ADC_MIN_VALID = 200 has baseline s and threshold
floor(s * (100 - 7) / 100), with 0 < threshold < baseline; a sensor wired to
exactly one mux channel whose averaged sample is below 200, and every sensor
that no mux channel maps to, has baseline 0 and threshold 0. -/
theorem C5_calibration_baseline_threshold (mux_maps : Nat → Nat → Nat)
    (reads : Nat → Nat → Nat → Nat) (st : CalState) (idx m ch : Nat)
    (hidx : idx < SENSOR_COUNT) (hm : m < MUX_COUNT) (hch : ch < 16)
    (hmap : mux_maps m ch = idx + 1)
    (huniq : ∀ m2, m2 < MUX_COUNT → ∀ c2, c2 < 16 →
      mux_maps m2 c2 = idx + 1 → m2 = m ∧ c2 = ch)
    (hread : ∀ i, reads m ch i < 65536) :
    sample_adc_avg (reads m ch)
      = (reads m ch 0 + reads m ch 1 + reads m ch 2 + reads m ch 3 + reads m ch 4
          + reads m ch 5 + reads m ch 6 + reads m ch 7) / 8
    ∧ (ADC_MIN_VALID ≤ sample_adc_avg (reads m ch) →
        ((mcp3208_hallscan_calibrate mux_maps reads st).sensor_baseline idx
            = sample_adc_avg (reads m ch)
          ∧ (mcp3208_hallscan_calibrate mux_maps reads st).sensor_thresholds idx
            = sample_adc_avg (reads m ch) * (100 - 7) / 100
          ∧ 0 < (mcp3208_hallscan_calibrate mux_maps reads st).sensor_thresholds idx
          ∧ (mcp3208_hallscan_calibrate mux_maps reads st).sensor_thresholds idx
            < (mcp3208_hallscan_calibrate mux_maps reads st).sensor_baseline idx)
        ∧ ((hallscan_calibrate mux_maps reads st).sensor_baseline idx
            = sample_adc_avg (reads m ch)
          ∧ (hallscan_calibrate mux_maps reads st).sensor_thresholds idx
            = sample_adc_avg (reads m ch) * (100 - 7) / 100
          ∧ 0 < (hallscan_calibrate mux_maps reads st).sensor_thresholds idx
          ∧ (hallscan_calibrate mux_maps reads st).sensor_thresholds idx
            < (hallscan_calibrate mux_maps reads st).sensor_baseline idx))
    ∧ (sample_adc_avg (reads m ch) < ADC_MIN_VALID →
        ((mcp3208_hallscan_calibrate mux_maps reads st).sensor_baseline idx = 0
          ∧ (mcp3208_hallscan_calibrate mux_maps reads st).sensor_thresholds idx = 0)
        ∧ ((hallscan_calibrate mux_maps reads st).sensor_baseline idx = 0
          ∧ (hallscan_calibrate mux_maps reads st).sensor_thresholds idx = 0))
    ∧ (∀ idxU, idxU < SENSOR_COUNT →
        (∀ m2, m2 < MUX_COUNT → ∀ c2, c2 < 16 → mux_maps m2 c2 ≠ idxU + 1) →
        ((mcp3208_hallscan_calibrate mux_maps reads st).sensor_baseline idxU = 0
          ∧ (mcp3208_hallscan_calibrate mux_maps reads st).sensor_thresholds idxU = 0)
        ∧ ((hallscan_calibrate mux_maps reads st).sensor_baseline idxU = 0
          ∧ (hallscan_calibrate mux_maps reads st).sensor_thresholds idxU = 0)) := by
  have hu : ∀ m2 c2, m2 < 4 → c2 < 16 → mux_maps m2 c2 = idx + 1 → m2 = m ∧ c2 = ch :=
    fun m2 c2 h1 h2 => huniq m2 h1 c2 h2
  have hm4 : m < 4 := hm
  refine ⟨sample_adc_avg_eq _ hread, fun hv => ?_, fun hl => ?_, ?_⟩
  · exact ⟨calibrate_run_valid 4 mux_maps reads st idx m ch hidx hm4 hch hmap hu hv,
      calibrate_run_valid 4 mux_maps reads st idx m ch hidx hm4 hch hmap hu hv⟩
  · exact ⟨calibrate_run_floating 4 mux_maps reads st idx m ch hidx hm4 hch hmap hu hl,
      calibrate_run_floating 4 mux_maps reads st idx m ch hidx hm4 hch hmap hu hl⟩
  · intro idxU hidxU hnone
    have hn : ∀ m2 c2, m2 < 4 → c2 < 16 → mux_maps m2 c2 ≠ idxU + 1 :=
      fun m2 c2 h1 h2 => hnone m2 h1 c2 h2
    have hU := calibrate_run_unmapped 4 mux_maps reads st idxU hidxU hn
    exact ⟨⟨congrArg Prod.fst hU, congrArg Prod.snd hU⟩,
      ⟨congrArg Prod.fst hU, congrArg Prod.snd hU⟩⟩

/-- C5 (amended) on the example board, where every sensor is wired to one
channel: sensor index 0 reads 2000 eight times and gets baseline 2000 and
threshold 1860; and on the same board with the last channel left unconnected:
sensor index 63 is wired to no channel and gets baseline 0 and threshold 0. -/
theorem C5_calibration_baseline_threshold_witness :
    ((mcp3208_hallscan_calibrate example_mux_maps (fun _ _ _ => 2000)
          { sensor_baseline := fun _ => 5, sensor_thresholds := fun _ => 9 }
        ).sensor_baseline 0 = sample_adc_avg (fun _ => 2000)
      ∧ (mcp3208_hallscan_calibrate example_mux_maps (fun _ _ _ => 2000)
          { sensor_baseline := fun _ => 5, sensor_thresholds := fun _ => 9 }
        ).sensor_thresholds 0 = sample_adc_avg (fun _ => 2000) * (100 - 7) / 100)
    ∧ ((mcp3208_hallscan_calibrate example_mux_maps_unwired (fun _ _ _ => 2000)
          { sensor_baseline := fun _ => 5, sensor_thresholds := fun _ => 9 }
        ).sensor_baseline 63 = 0
      ∧ (mcp3208_hallscan_calibrate example_mux_maps_unwired (fun _ _ _ => 2000)
          { sensor_baseline := fun _ => 5, sensor_thresholds := fun _ => 9 }
        ).sensor_thresholds 63 = 0) :=
  ⟨⟨((C5_calibration_baseline_threshold example_mux_maps
        (fun _ _ _ => 2000) { sensor_baseline := fun _ => 5, sensor_thresholds := fun _ => 9 }
        0 0 0 (by decide) (by decide) (by decide) (by decide) (by decide)
        (fun _ => (by decide : 2000 < 65536))).2.1 (by decide)).1.1,
      ((C5_calibration_baseline_threshold example_mux_maps
        (fun _ _ _ => 2000) { sensor_baseline := fun _ => 5, sensor_thresholds := fun _ => 9 }
        0 0 0 (by decide) (by decide) (by decide) (by decide) (by decide)
        (fun _ => (by decide : 2000 < 65536))).2.1 (by decide)).1.2.1⟩,
   ((C5_calibration_baseline_threshold example_mux_maps_unwired
      (fun _ _ _ => 2000) { sensor_baseline := fun _ => 5, sensor_thresholds := fun _ => 9 }
      0 0 0 (by decide) (by decide) (by decide) (by decide) (by decide)
      (fun _ => (by decide : 2000 < 65536))).2.2.2 63 (by decide) (by decide)).1⟩

/-- C5 as stated fails for a sensor wired to two channels: each channel with a
valid sample overwrites the tables, so the last valid sample wins. Example
wiring with channel 1 of multiplexer 0 also wired to sensor 1. First run:
channel 0 averages 1000 (at least 200) and channel 1 averages 2000; the
baseline of sensor index 0 is 2000, not 1000. Second run: channel 1 averages
100 (below 200); the baseline is 1000 and the threshold 930, not 0. -/
theorem C5_counterexample :
    example_mux_maps_double 0 0 = 0 + 1
    ∧ example_mux_maps_double 0 1 = 0 + 1
    ∧ ADC_MIN_VALID ≤ sample_adc_avg
        ((fun (m ch : Nat) (_ : Nat) => if m = 0 ∧ ch = 1 then 2000 else 1000) 0 0)
    ∧ sample_adc_avg
        ((fun (m ch : Nat) (_ : Nat) => if m = 0 ∧ ch = 1 then 2000 else 1000) 0 0) = 1000
    ∧ (mcp3208_hallscan_calibrate example_mux_maps_double
        (fun m ch _ => if m = 0 ∧ ch = 1 then 2000 else 1000)
        { sensor_baseline := fun _ => 0, sensor_thresholds := fun _ => 0 }
      ).sensor_baseline 0 = 2000
    ∧ sample_adc_avg
        ((fun (m ch : Nat) (_ : Nat) => if m = 0 ∧ ch = 1 then 100 else 1000) 0 1)
      < ADC_MIN_VALID
    ∧ (mcp3208_hallscan_calibrate example_mux_maps_double
        (fun m ch _ => if m = 0 ∧ ch = 1 then 100 else 1000)
        { sensor_baseline := fun _ => 0, sensor_thresholds := fun _ => 0 }
      ).sensor_baseline 0 = 1000
    ∧ (mcp3208_hallscan_calibrate example_mux_maps_double
        (fun m ch _ => if m = 0 ∧ ch = 1 then 100 else 1000)
        { sensor_baseline := fun _ => 0, sensor_thresholds := fun _ => 0 }
      ).sensor_thresholds 0 = 930 := by
  decide

/-! ### Press-state computation of the main loop -/

theorem scan_channel_other (mux_maps : Nat → Nat → Nat) (cal : CalState)
    (mux_vals : Nat → Nat → Nat) (prev cur : Nat → Bool) (sid : Nat) (q : Nat × Nat)
    (hq : mux_maps q.1 q.2 ≠ sid) :
    scan_channel mux_maps cal mux_vals prev cur q sid = cur sid := by
  have hne : sid ≠ mux_maps q.1 q.2 := fun e => hq e.symm
  unfold scan_channel
  simp only
  split_ifs <;> first | rfl | exact upd_other _ _ _ _ hne

/-- The transition function of one sensor in the main loop: from the previous
state and the raw value, with threshold `thr` and baseline `base`. -/
theorem scan_channel_self (mux_maps : Nat → Nat → Nat) (cal : CalState)
    (mux_vals : Nat → Nat → Nat) (prev cur : Nat → Bool) (sid : Nat) (p : Nat × Nat)
    (hp : mux_maps p.1 p.2 = sid) (hsid : sid ≠ 0)
    (hpos : 0 < cal.sensor_thresholds ((sid - 1) % 256))
    (hT : cal.sensor_thresholds ((sid - 1) % 256) < 65536)
    (hB : cal.sensor_baseline ((sid - 1) % 256) < 65536) :
    scan_channel mux_maps cal mux_vals prev cur p sid
      = if prev sid then
          decide (mux_vals p.1 p.2 ≤ cal.sensor_thresholds ((sid - 1) % 256)
            + cal.sensor_baseline ((sid - 1) % 256) * 6 / 100)
        else (decide (mux_vals p.1 p.2 < cal.sensor_thresholds ((sid - 1) % 256)) || cur sid) := by
  unfold scan_channel
  simp only [hp, ne_eq, hsid, not_false_eq_true, if_true, HALLSCAN_HYSTERESIS_PERCENT]
  have h0 : ¬ cal.sensor_thresholds ((sid - 1) % 256) = 0 := by omega
  have h1 : cal.sensor_baseline ((sid - 1) % 256) * 6 % 2 ^ 32
      = cal.sensor_baseline ((sid - 1) % 256) * 6 := Nat.mod_eq_of_lt (by omega)
  have h2 : (cal.sensor_thresholds ((sid - 1) % 256)
      + cal.sensor_baseline ((sid - 1) % 256) * 6 / 100) % 2 ^ 32
      = cal.sensor_thresholds ((sid - 1) % 256)
        + cal.sensor_baseline ((sid - 1) % 256) * 6 / 100 := Nat.mod_eq_of_lt (by omega)
  simp only [h0, if_false, h1, h2]
  by_cases hprev : prev sid = true
  · simp only [hprev, if_true]
    by_cases hv : mux_vals p.1 p.2 ≤ cal.sensor_thresholds ((sid - 1) % 256)
        + cal.sensor_baseline ((sid - 1) % 256) * 6 / 100
    · simp [hv, upd_same]
    · simp [hv, upd_same]
  · simp only [hprev, if_false]
    by_cases hv : mux_vals p.1 p.2 < cal.sensor_thresholds ((sid - 1) % 256)
    · simp [hv, upd_same]
    · simp [hv]

/-- One tick of the main loop at a sensor wired to exactly one channel, with a
non-zero threshold: the new state is a function of the previous state and the
raw value only. -/
theorem scan_cur_pressed_mapped (mux_maps : Nat → Nat → Nat) (cal : CalState)
    (mux_vals : Nat → Nat → Nat) (prev : Nat → Bool) (sid m ch : Nat)
    (hm : m < MUX_COUNT) (hch : ch < 16) (hmap : mux_maps m ch = sid) (hsid : sid ≠ 0)
    (huniq : ∀ m2, m2 < MUX_COUNT → ∀ c2, c2 < 16 → mux_maps m2 c2 = sid → m2 = m ∧ c2 = ch)
    (hpos : 0 < cal.sensor_thresholds ((sid - 1) % 256))
    (hT : cal.sensor_thresholds ((sid - 1) % 256) < 65536)
    (hB : cal.sensor_baseline ((sid - 1) % 256) < 65536) :
    scan_cur_pressed mux_maps cal mux_vals prev sid
      = if prev sid then
          decide (mux_vals m ch ≤ cal.sensor_thresholds ((sid - 1) % 256)
            + cal.sensor_baseline ((sid - 1) % 256) * 6 / 100)
        else decide (mux_vals m ch < cal.sensor_thresholds ((sid - 1) % 256)) := by
  unfold scan_cur_pressed
  have h := foldl_obs_unique (scan_channel mux_maps cal mux_vals prev)
    (fun c : Nat → Bool => c sid)
    (fun b : Bool => if prev sid then
          decide (mux_vals m ch ≤ cal.sensor_thresholds ((sid - 1) % 256)
            + cal.sensor_baseline ((sid - 1) % 256) * 6 / 100)
        else (decide (mux_vals m ch < cal.sensor_thresholds ((sid - 1) % 256)) || b))
    (m, ch) (mux_positions MUX_COUNT) (fun _ => false) (mux_positions_nodup _)
    ((mem_mux_positions _ m ch).mpr ⟨hm, hch⟩)
    (fun q hq hne c => by
      apply scan_channel_other
      intro e
      have hq' := (mem_mux_positions _ q.1 q.2).mp hq
      have := huniq q.1 hq'.1 q.2 hq'.2 e
      exact hne (Prod.ext this.1 this.2))
    (fun c => scan_channel_self mux_maps cal mux_vals prev c sid (m, ch) hmap hsid hpos hT hB)
  simp only at h
  rw [h]
  simp

/-- C3. In the main-loop scan, for a sensor wired to one mux channel with
threshold T > 0 and baseline B, H = B * 6 / 100: released in the previous tick,
it is pressed in this tick iff raw < T; pressed in the previous tick, it is
released in this tick iff raw > T + H. Hence, when T <= B, starting released,
the raw sequence B, T-1, T+H+1 yields Released, Pressed, Released and
B, T-1, T+H-1 yields Released, Pressed, Pressed. -/
theorem C3_hysteresis_transitions (mux_maps : Nat → Nat → Nat) (cal : CalState)
    (v v1 v2 v3 v4 : Nat → Nat → Nat) (prev prev0 : Nat → Bool) (sid m ch T B : Nat)
    (hm : m < MUX_COUNT) (hch : ch < 16) (hmap : mux_maps m ch = sid) (hsid : sid ≠ 0)
    (huniq : ∀ m2, m2 < MUX_COUNT → ∀ c2, c2 < 16 → mux_maps m2 c2 = sid → m2 = m ∧ c2 = ch)
    (hTdef : cal.sensor_thresholds ((sid - 1) % 256) = T)
    (hBdef : cal.sensor_baseline ((sid - 1) % 256) = B)
    (hpos : 0 < T) (hT : T < 65536) (hB : B < 65536) (hle : T ≤ B)
    (h0 : prev0 sid = false)
    (hv1 : v1 m ch = B) (hv2 : v2 m ch = T - 1)
    (hv3 : v3 m ch = T + B * 6 / 100 + 1) (hv4 : v4 m ch = T + B * 6 / 100 - 1) :
    (prev sid = false → (scan_cur_pressed mux_maps cal v prev sid = true ↔ v m ch < T))
    ∧ (prev sid = true →
        (scan_cur_pressed mux_maps cal v prev sid = false ↔ v m ch > T + B * 6 / 100))
    ∧ scan_cur_pressed mux_maps cal v1 prev0 sid = false
    ∧ scan_cur_pressed mux_maps cal v2 (scan_cur_pressed mux_maps cal v1 prev0) sid = true
    ∧ scan_cur_pressed mux_maps cal v3
        (scan_cur_pressed mux_maps cal v2 (scan_cur_pressed mux_maps cal v1 prev0)) sid = false
    ∧ scan_cur_pressed mux_maps cal v4
        (scan_cur_pressed mux_maps cal v2 (scan_cur_pressed mux_maps cal v1 prev0)) sid = true := by
  have key : ∀ (w : Nat → Nat → Nat) (pr : Nat → Bool),
      scan_cur_pressed mux_maps cal w pr sid
        = if pr sid then decide (w m ch ≤ T + B * 6 / 100) else decide (w m ch < T) := by
    intro w pr
    have h := scan_cur_pressed_mapped mux_maps cal w pr sid m ch hm hch hmap hsid huniq
      (by rw [hTdef]; exact hpos) (by rw [hTdef]; exact hT) (by rw [hBdef]; exact hB)
    rw [hTdef, hBdef] at h
    exact h
  have c1 : scan_cur_pressed mux_maps cal v1 prev0 sid = false := by
    rw [key, h0, hv1]
    simpa using hle
  have c2 : scan_cur_pressed mux_maps cal v2 (scan_cur_pressed mux_maps cal v1 prev0) sid
      = true := by
    rw [key, c1, hv2]
    simp
    omega
  refine ⟨fun hp => ?_, fun hp => ?_, c1, c2, ?_, ?_⟩
  · rw [key, hp]
    simp
  · rw [key, hp]
    simp
  · rw [key, c2, hv3]
    simp
  · rw [key, c2, hv4]
    simp

/-- C3 on the example board: sensor 1 with baseline 1000 and threshold 930. -/
theorem C3_hysteresis_transitions_witness :
    scan_cur_pressed example_mux_maps
      { sensor_baseline := fun _ => 1000, sensor_thresholds := fun _ => 930 } (fun _ _ => 991)
      (scan_cur_pressed example_mux_maps
        { sensor_baseline := fun _ => 1000, sensor_thresholds := fun _ => 930 } (fun _ _ => 929)
        (scan_cur_pressed example_mux_maps
          { sensor_baseline := fun _ => 1000, sensor_thresholds := fun _ => 930 }
          (fun _ _ => 1000) (fun _ => false))) 1 = false :=
  (C3_hysteresis_transitions example_mux_maps
    { sensor_baseline := fun _ => 1000, sensor_thresholds := fun _ => 930 }
    (fun _ _ => 0) (fun _ _ => 1000) (fun _ _ => 929) (fun _ _ => 991) (fun _ _ => 989)
    (fun _ => false) (fun _ => false) 1 0 0 930 1000
    (by decide) (by decide) (by decide) (by decide) (by decide) (by decide) (by decide)
    (by decide) (by decide) (by decide) (by decide) (by decide) (by decide) (by decide)
    (by decide) (by decide)).2.2.2.2.1

/-- C3 as stated fails without T <= B: a sensor with baseline 1000 whose
threshold was set by the actuation formula with percentage 101 has threshold
0xFFFF > 0, and starting released the raw value B = 1000 yields Pressed. -/
theorem C3_counterexample :
    threshold_from 1000 101 = 65535
    ∧ scan_cur_pressed example_mux_maps
        { sensor_baseline := fun _ => 1000
          sensor_thresholds := fun _ => threshold_from 1000 101 }
        (fun _ _ => 1000) (fun _ => false) 1 = true := by
  decide

/-! ### Debounced matrix scan -/

theorem upd2_other (cm : Nat → Nat → Bool) (r' c' r c : Nat) (h : ¬ (r = r' ∧ c = c')) :
    upd cm r' (upd (cm r') c' true) r c = cm r c := by
  unfold upd
  by_cases hr : r = r'
  · subst hr
    have hc : ¬ c = c' := fun e => h ⟨rfl, e⟩
    simp [hc]
  · simp [hr]

theorem upd2_same (cm : Nat → Nat → Bool) (r c : Nat) :
    upd cm r (upd (cm r) c true) r c = true := by
  simp [upd]

/-- The observation of one key in the matrix scan: stored state, stored timer
and the reported matrix bit. -/
theorem matrix_scan_channel_other (R C : Nat) (mux_tables : Nat → Nat → Nat)
    (thr : Nat → Nat) (now : Nat) (adc : Nat → Nat → Nat) (el : Nat → Nat → Nat → Nat)
    (idx : Nat) (hidx : idx < SENSOR_COUNT) (st : MatrixState) (q : Nat × Nat)
    (hq : mux_tables q.1 q.2 ≠ idx + 1) :
    ((matrix_scan_channel R C mux_tables thr now adc el st q).key_pressed idx,
      (matrix_scan_channel R C mux_tables thr now adc el st q).key_timer idx,
      (matrix_scan_channel R C mux_tables thr now adc el st q).current_matrix
        (idx / C) (idx % C))
    = (st.key_pressed idx, st.key_timer idx, st.current_matrix (idx / C) (idx % C)) := by
  unfold matrix_scan_channel
  by_cases h1 : mux_tables q.1 q.2 = 0 ∨ mux_tables q.1 q.2 > SENSOR_COUNT
  · simp only [h1, if_true]
  · simp only [h1, if_false]
    unfold SENSOR_COUNT at h1 hidx
    have hlt : (mux_tables q.1 q.2 - 1) % 256 < 64 := by omega
    have hne : idx ≠ (mux_tables q.1 q.2 - 1) % 256 := by omega
    generalize (mux_tables q.1 q.2 - 1) % 256 = j at hlt hne ⊢
    have hrow : j / C % 256 = j / C := by
      apply Nat.mod_eq_of_lt
      have := Nat.div_le_self j C
      omega
    have hcol : j % C % 256 = j % C := by
      apply Nat.mod_eq_of_lt
      have := Nat.mod_le j C
      omega
    rw [hrow, hcol]
    have hpos : ¬ (idx / C = j / C ∧ idx % C = j % C) := by
      rintro ⟨e1, e2⟩
      apply hne
      rw [← Nat.div_add_mod idx C, ← Nat.div_add_mod j C, e1, e2]
    by_cases h2 : j / C ≥ R ∨ j % C ≥ C
    · simp only [h2, if_true]
    · simp only [h2, if_false]
      by_cases h3 : el q.1 q.2 (st.key_timer j) > DEBOUNCE_MS
          ∧ decide (adc q.1 q.2 < thr j) ≠ st.key_pressed j
      · simp only [if_pos h3]
        split_ifs <;>
          simp only [upd_other _ _ _ _ hne, upd2_other _ _ _ _ _ hpos]
      · simp only [if_neg h3]
        split_ifs <;>
          simp only [upd2_other _ _ _ _ _ hpos]

theorem matrix_scan_channel_self (R C : Nat) (mux_tables : Nat → Nat → Nat)
    (thr : Nat → Nat) (now : Nat) (adc : Nat → Nat → Nat) (el : Nat → Nat → Nat → Nat)
    (idx : Nat) (hidx : idx < SENSOR_COUNT) (hrow : idx / C < R) (hcol : idx % C < C)
    (st : MatrixState) (p : Nat × Nat) (hp : mux_tables p.1 p.2 = idx + 1) :
    ((matrix_scan_channel R C mux_tables thr now adc el st p).key_pressed idx,
      (matrix_scan_channel R C mux_tables thr now adc el st p).key_timer idx,
      (matrix_scan_channel R C mux_tables thr now adc el st p).current_matrix
        (idx / C) (idx % C))
    = (fun o : Bool × Nat × Bool =>
        if el p.1 p.2 o.2.1 > DEBOUNCE_MS ∧ decide (adc p.1 p.2 < thr idx) ≠ o.1 then
          (decide (adc p.1 p.2 < thr idx), now, o.2.2 || decide (adc p.1 p.2 < thr idx))
        else (o.1, o.2.1, o.2.2 || o.1))
      (st.key_pressed idx, st.key_timer idx, st.current_matrix (idx / C) (idx % C)) := by
  unfold matrix_scan_channel
  have h1 : ¬ (mux_tables p.1 p.2 = 0 ∨ mux_tables p.1 p.2 > SENSOR_COUNT) := by
    rw [hp]; omega
  simp only [h1, if_false]
  have hj : (mux_tables p.1 p.2 - 1) % 256 = idx := by
    rw [hp]
    unfold SENSOR_COUNT at hidx
    omega
  rw [hj]
  unfold SENSOR_COUNT at hidx
  have hrow' : idx / C % 256 = idx / C := by
    apply Nat.mod_eq_of_lt
    have := Nat.div_le_self idx C
    omega
  have hcol' : idx % C % 256 = idx % C := by
    apply Nat.mod_eq_of_lt
    have := Nat.mod_le idx C
    omega
  rw [hrow', hcol']
  have h2 : ¬ (idx / C ≥ R ∨ idx % C ≥ C) := by omega
  simp only [h2, if_false]
  by_cases h3 : el p.1 p.2 (st.key_timer idx) > DEBOUNCE_MS
      ∧ decide (adc p.1 p.2 < thr idx) ≠ st.key_pressed idx
  · simp only [if_pos h3, upd_same]
    by_cases h4 : decide (adc p.1 p.2 < thr idx) = true
    · simp only [h4, if_true, upd2_same, Bool.or_true, upd_same]
    · simp only [h4, if_false]
      simp only [Bool.not_eq_true] at h4
      simp [h4, upd_same]
  · simp only [if_neg h3]
    by_cases h4 : st.key_pressed idx = true
    · simp only [h4, if_true, upd2_same, Bool.or_true]
    · simp only [h4, if_false]
      simp only [Bool.not_eq_true] at h4
      simp [h4]

/-- C7 (amended). The main loop's press-state computation applies no debounce
interval: for a sensor wired to one channel with threshold T > 0, the reported
state is determined by the previous tick's state and the current raw value
alone (from released: pressed iff raw < T; from pressed: pressed iff
raw <= T + H), so a press and the release that follows it are both accepted
in consecutive ticks. -/
theorem C7_main_loop_no_debounce (mux_maps : Nat → Nat → Nat) (cal : CalState)
    (v v1 v2 : Nat → Nat → Nat) (prev prev0 : Nat → Bool) (sid m ch T B : Nat)
    (hm : m < MUX_COUNT) (hch : ch < 16) (hmap : mux_maps m ch = sid) (hsid : sid ≠ 0)
    (huniq : ∀ m2, m2 < MUX_COUNT → ∀ c2, c2 < 16 → mux_maps m2 c2 = sid → m2 = m ∧ c2 = ch)
    (hTdef : cal.sensor_thresholds ((sid - 1) % 256) = T)
    (hBdef : cal.sensor_baseline ((sid - 1) % 256) = B)
    (hpos : 0 < T) (hT : T < 65536) (hB : B < 65536)
    (h0 : prev0 sid = false) (hv1 : v1 m ch < T) (hv2 : T + B * 6 / 100 < v2 m ch) :
    scan_cur_pressed mux_maps cal v prev sid
        = (if prev sid then decide (v m ch ≤ T + B * 6 / 100) else decide (v m ch < T))
    ∧ scan_cur_pressed mux_maps cal v1 prev0 sid = true
    ∧ scan_cur_pressed mux_maps cal v2 (scan_cur_pressed mux_maps cal v1 prev0) sid = false := by
  have key : ∀ (w : Nat → Nat → Nat) (pr : Nat → Bool),
      scan_cur_pressed mux_maps cal w pr sid
        = if pr sid then decide (w m ch ≤ T + B * 6 / 100) else decide (w m ch < T) := by
    intro w pr
    have h := scan_cur_pressed_mapped mux_maps cal w pr sid m ch hm hch hmap hsid huniq
      (by rw [hTdef]; exact hpos) (by rw [hTdef]; exact hT) (by rw [hBdef]; exact hB)
    rw [hTdef, hBdef] at h
    exact h
  have c1 : scan_cur_pressed mux_maps cal v1 prev0 sid = true := by
    rw [key, h0]
    simpa using hv1
  refine ⟨key v prev, c1, ?_⟩
  rw [key, c1]
  simpa using hv2

/-- C7 on the example board: sensor 1, baseline 1000, threshold 930, raw 900
then raw 1000. -/
theorem C7_main_loop_no_debounce_witness :
    scan_cur_pressed example_mux_maps
      { sensor_baseline := fun _ => 1000, sensor_thresholds := fun _ => 930 } (fun _ _ => 1000)
      (scan_cur_pressed example_mux_maps
        { sensor_baseline := fun _ => 1000, sensor_thresholds := fun _ => 930 }
        (fun _ _ => 900) (fun _ => false)) 1 = false :=
  (C7_main_loop_no_debounce example_mux_maps
    { sensor_baseline := fun _ => 1000, sensor_thresholds := fun _ => 930 }
    (fun _ _ => 0) (fun _ _ => 900) (fun _ _ => 1000) (fun _ => false) (fun _ => false)
    1 0 0 930 1000
    (by decide) (by decide) (by decide) (by decide) (by decide) (by decide) (by decide)
    (by decide) (by decide) (by decide) (by decide) (by decide) (by decide)).2.2

/-- C7 as stated fails: in the main loop a press is accepted in one tick and
the opposite transition in the very next tick (ticks are about 5 ms apart, the
computation reads no clock), so the state differs from the previous tick's
state although the last accepted transition is one tick old. Example board,
sensor 3, baseline 2000, threshold 1860. -/
theorem C7_counterexample :
    scan_cur_pressed example_mux_maps
        { sensor_baseline := fun _ => 2000, sensor_thresholds := fun _ => 1860 }
        (fun _ _ => 1500) (fun _ => false) 3 = true
    ∧ scan_cur_pressed example_mux_maps
        { sensor_baseline := fun _ => 2000, sensor_thresholds := fun _ => 1860 }
        (fun _ _ => 2000)
        (scan_cur_pressed example_mux_maps
          { sensor_baseline := fun _ => 2000, sensor_thresholds := fun _ => 1860 }
          (fun _ _ => 1500) (fun _ => false)) 3 = false := by
  decide

theorem foldl_obs_keep {σ β P : Type} (f : σ → P → σ) (obs : σ → β) (b : β) :
    ∀ (l : List P) (init : σ), (∀ q ∈ l, ∀ st, obs st = b → obs (f st q) = b) →
      obs init = b → obs (l.foldl f init) = b := by
  intro l
  induction l with
  | nil => intro init _ h; exact h
  | cons q l ih =>
    intro init h h0
    rw [List.foldl_cons]
    exact ih (f init q) (fun q2 hq2 st => h q2 (List.mem_cons_of_mem _ hq2) st)
      (h q (List.mem_cons_self _ _) init h0)

theorem foldl_obs_reach {σ β P : Type} (f : σ → P → σ) (obs : σ → β) (S : P → Prop)
    (a b : β) :
    ∀ (l : List P) (init : σ),
      (∀ q ∈ l, ¬ S q → ∀ st, obs (f st q) = obs st) →
      (∀ q ∈ l, S q → ∀ st, obs st = a → obs (f st q) = b) →
      (∀ q ∈ l, ∀ st, obs st = b → obs (f st q) = b) →
      obs init = a → (∃ q ∈ l, S q) → obs (l.foldl f init) = b := by
  intro l
  induction l with
  | nil => intro init _ _ _ _ hex; obtain ⟨q, hq, _⟩ := hex; cases hq
  | cons q l ih =>
    intro init hother hhit hkeep h0 hex
    rw [List.foldl_cons]
    by_cases hs : S q
    · exact foldl_obs_keep f obs b l (f init q)
        (fun q2 hq2 st => hkeep q2 (List.mem_cons_of_mem _ hq2) st)
        (hhit q (List.mem_cons_self _ _) hs init h0)
    · apply ih (f init q)
        (fun q2 hq2 => hother q2 (List.mem_cons_of_mem _ hq2))
        (fun q2 hq2 => hhit q2 (List.mem_cons_of_mem _ hq2))
        (fun q2 hq2 => hkeep q2 (List.mem_cons_of_mem _ hq2))
      · rw [hother q (List.mem_cons_self _ _) hs init]; exact h0
      · obtain ⟨q2, hq2, hs2⟩ := hex
        rcases List.mem_cons.mp hq2 with e | hmem
        · exact absurd (e ▸ hs2) hs
        · exact ⟨q2, hmem, hs2⟩

theorem matrix_scan_channel_other_key (R C : Nat) (mux_tables : Nat → Nat → Nat)
    (thr : Nat → Nat) (now : Nat) (adc : Nat → Nat → Nat) (el : Nat → Nat → Nat → Nat)
    (idx : Nat) (hidx : idx < SENSOR_COUNT) (st : MatrixState) (q : Nat × Nat)
    (hq : mux_tables q.1 q.2 ≠ idx + 1) :
    ((matrix_scan_channel R C mux_tables thr now adc el st q).key_pressed idx,
      (matrix_scan_channel R C mux_tables thr now adc el st q).key_timer idx)
    = (st.key_pressed idx, st.key_timer idx) := by
  have h := matrix_scan_channel_other R C mux_tables thr now adc el idx hidx st q hq
  have h1 := congrArg Prod.fst h
  have h2 := congrArg (fun t : Bool × Nat × Bool => t.2.1) h
  simp only at h1 h2
  rw [h1, h2]

theorem matrix_scan_channel_self_key (R C : Nat) (mux_tables : Nat → Nat → Nat)
    (thr : Nat → Nat) (now : Nat) (adc : Nat → Nat → Nat) (el : Nat → Nat → Nat → Nat)
    (idx : Nat) (hidx : idx < SENSOR_COUNT) (hrow : idx / C < R) (hcol : idx % C < C)
    (st : MatrixState) (p : Nat × Nat) (hp : mux_tables p.1 p.2 = idx + 1) :
    ((matrix_scan_channel R C mux_tables thr now adc el st p).key_pressed idx,
      (matrix_scan_channel R C mux_tables thr now adc el st p).key_timer idx)
    = if el p.1 p.2 (st.key_timer idx) > DEBOUNCE_MS
          ∧ decide (adc p.1 p.2 < thr idx) ≠ st.key_pressed idx then
        (decide (adc p.1 p.2 < thr idx), now)
      else (st.key_pressed idx, st.key_timer idx) := by
  have h := matrix_scan_channel_self R C mux_tables thr now adc el idx hidx hrow hcol st p hp
  have h1 := congrArg Prod.fst h
  have h2 := congrArg (fun t : Bool × Nat × Bool => t.2.1) h
  simp only at h1 h2
  rw [h1, h2]
  split_ifs <;> rfl

/-- A channel whose sensor lies outside the matrix is skipped: the scan state
is left as it was. -/
theorem matrix_scan_channel_outside (R C : Nat) (mux_tables : Nat → Nat → Nat)
    (thr : Nat → Nat) (now : Nat) (adc : Nat → Nat → Nat) (el : Nat → Nat → Nat → Nat)
    (idx : Nat) (hidx : idx < SENSOR_COUNT) (hout : R ≤ idx / C ∨ C ≤ idx % C)
    (st : MatrixState) (p : Nat × Nat) (hp : mux_tables p.1 p.2 = idx + 1) :
    matrix_scan_channel R C mux_tables thr now adc el st p = st := by
  unfold matrix_scan_channel
  have h1 : ¬ (mux_tables p.1 p.2 = 0 ∨ mux_tables p.1 p.2 > SENSOR_COUNT) := by
    rw [hp]; omega
  simp only [h1, if_false]
  have hj : (mux_tables p.1 p.2 - 1) % 256 = idx := by
    rw [hp]
    unfold SENSOR_COUNT at hidx
    omega
  rw [hj]
  unfold SENSOR_COUNT at hidx
  have hrow : idx / C % 256 = idx / C := by
    apply Nat.mod_eq_of_lt
    have := Nat.div_le_self idx C
    omega
  have hcol : idx % C % 256 = idx % C := by
    apply Nat.mod_eq_of_lt
    have := Nat.mod_le idx C
    omega
  rw [hrow, hcol]
  have h2 : idx / C ≥ R ∨ idx % C ≥ C := hout
  simp only [h2, if_true]

/-- A scan leaves the stored state and timer of a key alone when the debounce
interval has not elapsed at any channel wired to its sensor. -/
theorem matrix_scan_custom_rejects (R C : Nat) (mux_tables : Nat → Nat → Nat)
    (thr : Nat → Nat) (now : Nat) (adc : Nat → Nat → Nat) (el : Nat → Nat → Nat → Nat)
    (st : MatrixState) (idx : Nat)
    (hidx : idx < SENSOR_COUNT) (hrow : idx / C < R) (hcol : idx % C < C)
    (hle : ∀ m2, m2 < 4 → ∀ c2, c2 < 16 → mux_tables m2 c2 = idx + 1 →
      el m2 c2 (st.key_timer idx) ≤ DEBOUNCE_MS) :
    ((matrix_scan_custom R C mux_tables thr now adc el st).key_pressed idx,
      (matrix_scan_custom R C mux_tables thr now adc el st).key_timer idx)
    = (st.key_pressed idx, st.key_timer idx) := by
  unfold matrix_scan_custom
  apply foldl_obs_keep (matrix_scan_channel R C mux_tables thr now adc el)
    (fun s : MatrixState => (s.key_pressed idx, s.key_timer idx))
    (st.key_pressed idx, st.key_timer idx) (mux_positions 4)
  · intro q hq s hs
    have hq2 := (mem_mux_positions _ q.1 q.2).mp hq
    by_cases hS : mux_tables q.1 q.2 = idx + 1
    · have h := matrix_scan_channel_self_key R C mux_tables thr now adc el idx hidx hrow hcol
        s q hS
      have ht : s.key_timer idx = st.key_timer idx := congrArg Prod.snd hs
      have hn : ¬ (el q.1 q.2 (s.key_timer idx) > DEBOUNCE_MS
          ∧ decide (adc q.1 q.2 < thr idx) ≠ s.key_pressed idx) := by
        rw [ht]
        intro c
        have := hle q.1 hq2.1 q.2 hq2.2 hS
        omega
      rw [if_neg hn] at h
      exact h.trans hs
    · exact (matrix_scan_channel_other_key R C mux_tables thr now adc el idx hidx s q hS).trans hs
  · rfl

/-- A scan accepts a transition of a key inside the matrix when every channel
wired to its sensor presents the same differing input after the debounce
interval has elapsed: the state follows the input and the timer is set to the
timestamp of the scan. -/
theorem matrix_scan_custom_accepts (R C : Nat) (mux_tables : Nat → Nat → Nat)
    (thr : Nat → Nat) (now : Nat) (adc : Nat → Nat → Nat) (el : Nat → Nat → Nat → Nat)
    (st : MatrixState) (idx m ch : Nat) (p : Bool)
    (hidx : idx < SENSOR_COUNT) (hrow : idx / C < R) (hcol : idx % C < C)
    (hm : m < 4) (hch : ch < 16) (hmap : mux_tables m ch = idx + 1)
    (hgt : ∀ m2, m2 < 4 → ∀ c2, c2 < 16 → mux_tables m2 c2 = idx + 1 →
      DEBOUNCE_MS < el m2 c2 (st.key_timer idx) ∧ decide (adc m2 c2 < thr idx) = p)
    (hne : p ≠ st.key_pressed idx) :
    ((matrix_scan_custom R C mux_tables thr now adc el st).key_pressed idx,
      (matrix_scan_custom R C mux_tables thr now adc el st).key_timer idx)
    = (p, now) := by
  unfold matrix_scan_custom
  apply foldl_obs_reach (matrix_scan_channel R C mux_tables thr now adc el)
    (fun s : MatrixState => (s.key_pressed idx, s.key_timer idx))
    (fun q : Nat × Nat => mux_tables q.1 q.2 = idx + 1)
    (st.key_pressed idx, st.key_timer idx) (p, now) (mux_positions 4)
  · intro q _ hS s
    exact matrix_scan_channel_other_key R C mux_tables thr now adc el idx hidx s q hS
  · intro q hq hS s hs
    have hq2 := (mem_mux_positions _ q.1 q.2).mp hq
    have h := matrix_scan_channel_self_key R C mux_tables thr now adc el idx hidx hrow hcol
      s q hS
    have hk : s.key_pressed idx = st.key_pressed idx := congrArg Prod.fst hs
    have ht : s.key_timer idx = st.key_timer idx := congrArg Prod.snd hs
    obtain ⟨h1, h2⟩ := hgt q.1 hq2.1 q.2 hq2.2 hS
    have hc : el q.1 q.2 (s.key_timer idx) > DEBOUNCE_MS
        ∧ decide (adc q.1 q.2 < thr idx) ≠ s.key_pressed idx := by
      rw [ht, hk, h2]
      exact ⟨h1, hne⟩
    rw [if_pos hc, h2] at h
    exact h
  · intro q hq s hs
    have hq2 := (mem_mux_positions _ q.1 q.2).mp hq
    by_cases hS : mux_tables q.1 q.2 = idx + 1
    · have h := matrix_scan_channel_self_key R C mux_tables thr now adc el idx hidx hrow hcol
        s q hS
      have hk : s.key_pressed idx = p := congrArg Prod.fst hs
      have hn : ¬ (el q.1 q.2 (s.key_timer idx) > DEBOUNCE_MS
          ∧ decide (adc q.1 q.2 < thr idx) ≠ s.key_pressed idx) := by
        rw [hk, (hgt q.1 hq2.1 q.2 hq2.2 hS).2]
        exact fun c => c.2 rfl
      rw [if_neg hn] at h
      exact h.trans hs
    · exact (matrix_scan_channel_other_key R C mux_tables thr now adc el idx hidx s q hS).trans hs
  · rfl
  · exact ⟨(m, ch), (mem_mux_positions _ m ch).mpr ⟨hm, hch⟩, hmap⟩

/-- A scan never touches the stored state and timer of a sensor that lies
outside the matrix. -/
theorem matrix_scan_custom_outside (R C : Nat) (mux_tables : Nat → Nat → Nat)
    (thr : Nat → Nat) (now : Nat) (adc : Nat → Nat → Nat) (el : Nat → Nat → Nat → Nat)
    (st : MatrixState) (idx : Nat)
    (hidx : idx < SENSOR_COUNT) (hout : R ≤ idx / C ∨ C ≤ idx % C) :
    ((matrix_scan_custom R C mux_tables thr now adc el st).key_pressed idx,
      (matrix_scan_custom R C mux_tables thr now adc el st).key_timer idx)
    = (st.key_pressed idx, st.key_timer idx) := by
  unfold matrix_scan_custom
  apply foldl_obs_keep (matrix_scan_channel R C mux_tables thr now adc el)
    (fun s : MatrixState => (s.key_pressed idx, s.key_timer idx))
    (st.key_pressed idx, st.key_timer idx) (mux_positions 4)
  · intro q _ s hs
    by_cases hS : mux_tables q.1 q.2 = idx + 1
    · rw [matrix_scan_channel_outside R C mux_tables thr now adc el idx hidx hout s q hS]
      exact hs
    · exact (matrix_scan_channel_other_key R C mux_tables thr now adc el idx hidx s q hS).trans hs
  · rfl

/-- C8 (amended). In `matrix_scan_custom`, for every mapped sensor that lies
inside the matrix (row `sensor_idx / MATRIX_COLS` below MATRIX_ROWS, column
below MATRIX_COLS), the stored pressed state changes during a scan only if
more than DEBOUNCE_MS ms have elapsed since the sensor's last accepted
transition (the elapsed time is the one the scan reads at a channel wired to
the sensor); when the elapsed time is at most DEBOUNCE_MS the state and the
transition timer are unchanged whatever the ADC value; when the elapsed time
exceeds DEBOUNCE_MS a differing input is accepted and the timer is set to the
scan's timestamp, in particular when the same input is presented in a later
scan after a scan that ignored it. A sensor outside the matrix is skipped
before the debounce check: its stored state and timer never change. -/
theorem C8_matrix_scan_debounce (R C : Nat) (mux_tables : Nat → Nat → Nat)
    (thr : Nat → Nat) (now now2 : Nat) (adc adc2 : Nat → Nat → Nat)
    (el el2 : Nat → Nat → Nat → Nat) (st : MatrixState) (idx m ch : Nat) (p : Bool)
    (hidx : idx < SENSOR_COUNT) (hrow : idx / C < R) (hcol : idx % C < C)
    (hm : m < 4) (hch : ch < 16) (hmap : mux_tables m ch = idx + 1) :
    ((∀ m2, m2 < 4 → ∀ c2, c2 < 16 → mux_tables m2 c2 = idx + 1 →
          el m2 c2 (st.key_timer idx) ≤ DEBOUNCE_MS) →
        (matrix_scan_custom R C mux_tables thr now adc el st).key_pressed idx
          = st.key_pressed idx
        ∧ (matrix_scan_custom R C mux_tables thr now adc el st).key_timer idx
          = st.key_timer idx)
    ∧ ((matrix_scan_custom R C mux_tables thr now adc el st).key_pressed idx
          ≠ st.key_pressed idx →
        ∃ m2 c2, m2 < 4 ∧ c2 < 16 ∧ mux_tables m2 c2 = idx + 1
          ∧ DEBOUNCE_MS < el m2 c2 (st.key_timer idx))
    ∧ ((∀ m2, m2 < 4 → ∀ c2, c2 < 16 → mux_tables m2 c2 = idx + 1 →
          DEBOUNCE_MS < el m2 c2 (st.key_timer idx)
          ∧ decide (adc m2 c2 < thr idx) = p) →
        p ≠ st.key_pressed idx →
        (matrix_scan_custom R C mux_tables thr now adc el st).key_pressed idx = p
        ∧ (matrix_scan_custom R C mux_tables thr now adc el st).key_timer idx = now)
    ∧ ((∀ m2, m2 < 4 → ∀ c2, c2 < 16 → mux_tables m2 c2 = idx + 1 →
          el m2 c2 (st.key_timer idx) ≤ DEBOUNCE_MS) →
        (∀ m2, m2 < 4 → ∀ c2, c2 < 16 → mux_tables m2 c2 = idx + 1 →
          DEBOUNCE_MS < el2 m2 c2 (st.key_timer idx)
          ∧ adc2 m2 c2 = adc m2 c2 ∧ decide (adc m2 c2 < thr idx) = p) →
        p ≠ st.key_pressed idx →
        (matrix_scan_custom R C mux_tables thr now2 adc2 el2
            (matrix_scan_custom R C mux_tables thr now adc el st)).key_pressed idx = p
        ∧ (matrix_scan_custom R C mux_tables thr now2 adc2 el2
            (matrix_scan_custom R C mux_tables thr now adc el st)).key_timer idx = now2)
    ∧ (∀ idxO, idxO < SENSOR_COUNT → (R ≤ idxO / C ∨ C ≤ idxO % C) →
        (matrix_scan_custom R C mux_tables thr now adc el st).key_pressed idxO
          = st.key_pressed idxO
        ∧ (matrix_scan_custom R C mux_tables thr now adc el st).key_timer idxO
          = st.key_timer idxO) := by
  have rej : (∀ m2, m2 < 4 → ∀ c2, c2 < 16 → mux_tables m2 c2 = idx + 1 →
        el m2 c2 (st.key_timer idx) ≤ DEBOUNCE_MS) →
      (matrix_scan_custom R C mux_tables thr now adc el st).key_pressed idx
          = st.key_pressed idx
        ∧ (matrix_scan_custom R C mux_tables thr now adc el st).key_timer idx
          = st.key_timer idx := by
    intro hle
    have h := matrix_scan_custom_rejects R C mux_tables thr now adc el st idx hidx hrow hcol hle
    exact ⟨congrArg Prod.fst h, congrArg Prod.snd h⟩
  refine ⟨rej, ?_, ?_, ?_, ?_⟩
  · intro hchg
    by_contra hc
    apply hchg
    refine (rej ?_).1
    intro m2 h1 c2 h2 h3
    by_contra hgt
    exact hc ⟨m2, c2, h1, h2, h3, by omega⟩
  · intro hgt hne
    have h := matrix_scan_custom_accepts R C mux_tables thr now adc el st idx m ch p
      hidx hrow hcol hm hch hmap hgt hne
    exact ⟨congrArg Prod.fst h, congrArg Prod.snd h⟩
  · intro hle hgt hne
    obtain ⟨hp, ht⟩ := rej hle
    have h := matrix_scan_custom_accepts R C mux_tables thr now2 adc2 el2
      (matrix_scan_custom R C mux_tables thr now adc el st) idx m ch p
      hidx hrow hcol hm hch hmap
      (fun m2 h1 c2 h2 h3 => by
        obtain ⟨a1, a2, a3⟩ := hgt m2 h1 c2 h2 h3
        rw [ht, a2]
        exact ⟨a1, a3⟩)
      (by rw [hp]; exact hne)
    exact ⟨congrArg Prod.fst h, congrArg Prod.snd h⟩
  · intro idxO hO hout
    have h := matrix_scan_custom_outside R C mux_tables thr now adc el st idxO hO hout
    exact ⟨congrArg Prod.fst h, congrArg Prod.snd h⟩

/-- C8 (amended) on the example board with the 4 x 12 matrix the scan is
written for: key index 0 is stored as pressed since time 1000; a release read
at time 1010 is ignored, the same read at time 1060 is accepted and stamps the
timer; key index 48 lies outside the matrix and keeps its state and timer. -/
theorem C8_matrix_scan_debounce_witness :
    ((matrix_scan_custom 4 12 example_mux_maps (fun _ => 1860) 1060 (fun _ _ => 2000)
        (fun _ _ t => 1060 - t)
        (matrix_scan_custom 4 12 example_mux_maps (fun _ => 1860) 1010 (fun _ _ => 2000)
          (fun _ _ t => 1010 - t) example_matrix_state)).key_pressed 0 = false
      ∧ (matrix_scan_custom 4 12 example_mux_maps (fun _ => 1860) 1060 (fun _ _ => 2000)
        (fun _ _ t => 1060 - t)
        (matrix_scan_custom 4 12 example_mux_maps (fun _ => 1860) 1010 (fun _ _ => 2000)
          (fun _ _ t => 1010 - t) example_matrix_state)).key_timer 0 = 1060)
    ∧ ((matrix_scan_custom 4 12 example_mux_maps (fun _ => 1860) 1010 (fun _ _ => 2000)
          (fun _ _ t => 1010 - t) example_matrix_state).key_pressed 48
        = example_matrix_state.key_pressed 48
      ∧ (matrix_scan_custom 4 12 example_mux_maps (fun _ => 1860) 1010 (fun _ _ => 2000)
          (fun _ _ t => 1010 - t) example_matrix_state).key_timer 48
        = example_matrix_state.key_timer 48) :=
  ⟨(C8_matrix_scan_debounce 4 12 example_mux_maps (fun _ => 1860) 1010 1060
      (fun _ _ => 2000) (fun _ _ => 2000) (fun _ _ t => 1010 - t) (fun _ _ t => 1060 - t)
      example_matrix_state 0 0 0 false
      (by decide) (by decide) (by decide) (by decide) (by decide) (by decide)).2.2.2.1
      (by decide) (by decide) (by decide),
   (C8_matrix_scan_debounce 4 12 example_mux_maps (fun _ => 1860) 1010 1060
      (fun _ _ => 2000) (fun _ _ => 2000) (fun _ _ t => 1010 - t) (fun _ _ t => 1060 - t)
      example_matrix_state 0 0 0 false
      (by decide) (by decide) (by decide) (by decide) (by decide) (by decide)).2.2.2.2
      48 (by decide) (by decide)⟩

/-- C8 as stated fails for a mapped sensor outside the matrix. Example board,
4 x 12 matrix: sensor 49 (key index 48, row 4) is wired to multiplexer 3,
channel 0, stored as released since time 1000. The scan at time 1060 reads
1000 < threshold 1860 on every channel, 60 ms after the last transition, yet
the stored state and timer of key 48 are unchanged, while key 47 (row 3,
inside the matrix) accepts the same transition. -/
theorem C8_counterexample :
    example_mux_maps 3 0 = 48 + 1
    ∧ DEBOUNCE_MS < 1060 - 1000
    ∧ decide (1000 < 1860) ≠ false
    ∧ (matrix_scan_custom 4 12 example_mux_maps (fun _ => 1860) 1060 (fun _ _ => 1000)
        (fun _ _ t => 1060 - t)
        { key_pressed := fun _ => false, key_timer := fun _ => 1000,
          current_matrix := fun _ _ => false, changed := false }).key_pressed 48 = false
    ∧ (matrix_scan_custom 4 12 example_mux_maps (fun _ => 1860) 1060 (fun _ _ => 1000)
        (fun _ _ t => 1060 - t)
        { key_pressed := fun _ => false, key_timer := fun _ => 1000,
          current_matrix := fun _ _ => false, changed := false }).key_timer 48 = 1000
    ∧ (matrix_scan_custom 4 12 example_mux_maps (fun _ => 1860) 1060 (fun _ _ => 1000)
        (fun _ _ t => 1060 - t)
        { key_pressed := fun _ => false, key_timer := fun _ => 1000,
          current_matrix := fun _ _ => false, changed := false }).key_pressed 47 = true
    ∧ (matrix_scan_custom 4 12 example_mux_maps (fun _ => 1860) 1060 (fun _ _ => 1000)
        (fun _ _ t => 1060 - t)
        { key_pressed := fun _ => false, key_timer := fun _ => 1000,
          current_matrix := fun _ _ => false, changed := false }).key_timer 47 = 1060 := by
  decide

/-! ### SOCD resolver -/

theorem socd_resolve_pair_invalid (ts : Nat → Nat) (count : Int) (pair : socd_pair_t)
    (ks : Nat → Bool) (h : pair.valid = false) :
    socd_resolve_pair ts count pair ks = ks := by
  unfold socd_resolve_pair
  simp [h]

theorem socd_resolve_pair_other (ts : Nat → Nat) (count : Int) (pair : socd_pair_t)
    (ks : Nat → Bool) (k : Nat) (h1 : k ≠ pair.key1_idx) (h2 : k ≠ pair.key2_idx) :
    socd_resolve_pair ts count pair ks k = ks k := by
  unfold socd_resolve_pair
  simp only
  split_ifs <;>
    first
    | rfl
    | exact upd_other _ _ _ _ h1
    | exact upd_other _ _ _ _ h2
    | (rw [upd_other _ _ _ _ h2, upd_other _ _ _ _ h1])

theorem upd_false_mono (ks : Nat → Bool) (i k : Nat) (h : upd ks i false k = true) :
    ks k = true := by
  unfold upd at h
  by_cases e : k = i
  · simp [e] at h
  · simpa [e] using h

theorem socd_resolve_pair_mono (ts : Nat → Nat) (count : Int) (pair : socd_pair_t)
    (ks : Nat → Bool) (k : Nat) (h : socd_resolve_pair ts count pair ks k = true) :
    ks k = true := by
  unfold socd_resolve_pair at h
  simp only at h
  split_ifs at h <;>
    first
    | exact h
    | exact upd_false_mono _ _ _ h
    | exact upd_false_mono _ _ _ (upd_false_mono _ _ _ h)

/-- The pair loop only releases keys. -/
theorem socd_pair_loop_mono (st : SocdState) (count : Int) (ks : Nat → Bool) (k : Nat) :
    ∀ n, socd_pair_loop st count n ks k = true → ks k = true := by
  intro n
  induction n with
  | zero => intro h; exact h
  | succ n ih =>
    intro h
    exact ih (socd_resolve_pair_mono _ _ _ _ _ h)

/-- A key that no valid pair among the slots `0 .. n-1` names is left alone. -/
theorem socd_pair_loop_untouched (st : SocdState) (count : Int) (ks : Nat → Bool) (k : Nat) :
    ∀ n, (∀ q, q < n → (st.socd_pairs q).valid = true →
        (st.socd_pairs q).key1_idx ≠ k ∧ (st.socd_pairs q).key2_idx ≠ k) →
      socd_pair_loop st count n ks k = ks k := by
  intro n
  induction n with
  | zero => intro _; rfl
  | succ n ih =>
    intro h
    have hrec := ih (fun q hq hv => h q (Nat.lt_succ_of_lt hq) hv)
    show socd_resolve_pair st.key_timestamps count (st.socd_pairs n)
      (socd_pair_loop st count n ks) k = ks k
    cases hv : (st.socd_pairs n).valid
    · rw [socd_resolve_pair_invalid _ _ _ _ hv]
      exact hrec
    · have := h n (Nat.lt_succ_self n) hv
      rw [socd_resolve_pair_other _ _ _ _ k (fun e => this.1 e.symm) (fun e => this.2 e.symm)]
      exact hrec

/-- Slots after `p` that do not name the key leave the result of slot `p`. -/
theorem socd_pair_loop_later (st : SocdState) (count : Int) (ks : Nat → Bool) (k p : Nat) :
    ∀ d, (∀ q, p < q → q < p + 1 + d → (st.socd_pairs q).valid = true →
        (st.socd_pairs q).key1_idx ≠ k ∧ (st.socd_pairs q).key2_idx ≠ k) →
      socd_pair_loop st count (p + 1 + d) ks k = socd_pair_loop st count (p + 1) ks k := by
  intro d
  induction d with
  | zero => intro _; rfl
  | succ d ih =>
    intro h
    have hrec := ih (fun q h1 h2 hv => h q h1 (by omega) hv)
    show socd_resolve_pair st.key_timestamps count (st.socd_pairs (p + 1 + d))
      (socd_pair_loop st count (p + 1 + d) ks) k = _
    cases hv : (st.socd_pairs (p + 1 + d)).valid
    · rw [socd_resolve_pair_invalid _ _ _ _ hv]
      exact hrec
    · have := h (p + 1 + d) (by omega) (by omega) hv
      rw [socd_resolve_pair_other _ _ _ _ k (fun e => this.1 e.symm) (fun e => this.2 e.symm)]
      exact hrec

theorem socd_update_key_pairs (now : Nat) (st : SocdState) (i : Nat) (b : Bool) :
    (socd_update_key now st i b).socd_pairs = st.socd_pairs
    ∧ (socd_update_key now st i b).socd_enabled = st.socd_enabled := by
  unfold socd_update_key
  split_ifs <;> exact ⟨rfl, rfl⟩

theorem socd_update_loop_pairs (now_ms : Nat → Nat) (ks : Nat → Bool) (st : SocdState) :
    ∀ n, (socd_update_loop now_ms ks n st).socd_pairs = st.socd_pairs
      ∧ (socd_update_loop now_ms ks n st).socd_enabled = st.socd_enabled := by
  intro n
  induction n with
  | zero => exact ⟨rfl, rfl⟩
  | succ n ih =>
    have h := socd_update_key_pairs (now_ms n) (socd_update_loop now_ms ks n st) n (ks n)
    exact ⟨h.1.trans ih.1, h.2.trans ih.2⟩

/-- With SOCD enabled, the output vector is the pair loop run over the input
with the statics produced by the update loop. -/
theorem socd_process_keys_enabled (now_ms : Nat → Nat) (st : SocdState) (ks : Nat → Bool)
    (count : Int) (hen : st.socd_enabled = true) :
    socd_process_keys now_ms st ks count
      = (socd_update_loop now_ms ks (min count.toNat SENSOR_COUNT) st,
          socd_pair_loop (socd_update_loop now_ms ks (min count.toNat SENSOR_COUNT) st)
            count SOCD_MAX_PAIRS ks) := by
  unfold socd_process_keys
  simp [hen]

theorem socd_pair_loop_mono_later (st : SocdState) (count : Int) (ks : Nat → Bool) (k p : Nat) :
    ∀ d, socd_pair_loop st count (p + d) ks k = true → socd_pair_loop st count p ks k = true := by
  intro d
  induction d with
  | zero => intro h; exact h
  | succ d ih =>
    intro h
    exact ih (socd_resolve_pair_mono _ _ _ _ _ h)

/-- When the slots before `p` do not name the keys of slot `p`, the pair of
slot `p` is resolved on the input values of its two keys. -/
theorem socd_pair_loop_slot (st : SocdState) (count : Int) (ks : Nat → Bool) (p k1 k2 : Nat)
    (hvalid : (st.socd_pairs p).valid = true)
    (hk1 : (st.socd_pairs p).key1_idx = k1) (hk2 : (st.socd_pairs p).key2_idx = k2)
    (hc1 : (k1 : Int) < count) (hc2 : (k2 : Int) < count)
    (hp1 : ks k1 = true) (hp2 : ks k2 = true)
    (hearlier : ∀ q, q < p → (st.socd_pairs q).valid = true →
      (st.socd_pairs q).key1_idx ≠ k1 ∧ (st.socd_pairs q).key1_idx ≠ k2
      ∧ (st.socd_pairs q).key2_idx ≠ k1 ∧ (st.socd_pairs q).key2_idx ≠ k2) :
    socd_pair_loop st count (p + 1) ks
      = if (st.socd_pairs p).mode = SOCD_MODE_LAST_WINS then
          if st.key_timestamps k1 ≥ st.key_timestamps k2 then
            upd (socd_pair_loop st count p ks) k2 false
          else upd (socd_pair_loop st count p ks) k1 false
        else if (st.socd_pairs p).mode = SOCD_MODE_NEUTRAL then
          upd (upd (socd_pair_loop st count p ks) k1 false) k2 false
        else if (st.socd_pairs p).mode = SOCD_MODE_FIRST_WINS then
          if st.key_timestamps k1 ≤ st.key_timestamps k2 then
            upd (socd_pair_loop st count p ks) k2 false
          else upd (socd_pair_loop st count p ks) k1 false
        else socd_pair_loop st count p ks := by
  have hb1 : socd_pair_loop st count p ks k1 = true := by
    rw [socd_pair_loop_untouched st count ks k1 p
      (fun q hq hv => ⟨(hearlier q hq hv).1, (hearlier q hq hv).2.2.1⟩)]
    exact hp1
  have hb2 : socd_pair_loop st count p ks k2 = true := by
    rw [socd_pair_loop_untouched st count ks k2 p
      (fun q hq hv => ⟨(hearlier q hq hv).2.1, (hearlier q hq hv).2.2.2⟩)]
    exact hp2
  show socd_resolve_pair st.key_timestamps count (st.socd_pairs p)
    (socd_pair_loop st count p ks) = _
  unfold socd_resolve_pair
  have hc : ¬ ((k1 : Int) ≥ count ∨ (k2 : Int) ≥ count) := by omega
  simp only [hvalid, hk1, hk2, hc, hb1, hb2, Bool.not_true, Bool.or_self, if_false,
    Bool.false_eq_true]

/-- C9 (amended). With SOCD enabled, for every pair table, every pressed vector
and every valid Neutral-mode pair (k1, k2) with both indices < count whose two
keys are both pressed in the input vector, and neither of whose keys is named
by a valid pair in an earlier slot, the vector after `socd_process_keys` has
both k1 and k2 released. -/
theorem C9_neutral_releases_both (now_ms : Nat → Nat) (st : SocdState) (ks : Nat → Bool)
    (count : Int) (p k1 k2 : Nat)
    (hen : st.socd_enabled = true) (hp : p < SOCD_MAX_PAIRS)
    (hvalid : (st.socd_pairs p).valid = true)
    (hmode : (st.socd_pairs p).mode = SOCD_MODE_NEUTRAL)
    (hk1 : (st.socd_pairs p).key1_idx = k1) (hk2 : (st.socd_pairs p).key2_idx = k2)
    (hc1 : (k1 : Int) < count) (hc2 : (k2 : Int) < count)
    (hp1 : ks k1 = true) (hp2 : ks k2 = true)
    (hearlier : ∀ q, q < p → (st.socd_pairs q).valid = true →
      (st.socd_pairs q).key1_idx ≠ k1 ∧ (st.socd_pairs q).key1_idx ≠ k2
      ∧ (st.socd_pairs q).key2_idx ≠ k1 ∧ (st.socd_pairs q).key2_idx ≠ k2) :
    (socd_process_keys now_ms st ks count).2 k1 = false
    ∧ (socd_process_keys now_ms st ks count).2 k2 = false := by
  rw [socd_process_keys_enabled now_ms st ks count hen]
  generalize hst1 : socd_update_loop now_ms ks (min count.toNat SENSOR_COUNT) st = st1
  have hpairs : st1.socd_pairs = st.socd_pairs := by
    rw [← hst1]
    exact (socd_update_loop_pairs now_ms ks st _).1
  have hslot := socd_pair_loop_slot st1 count ks p k1 k2 (by rw [hpairs]; exact hvalid)
    (by rw [hpairs]; exact hk1) (by rw [hpairs]; exact hk2) hc1 hc2 hp1 hp2
    (by rw [hpairs]; exact hearlier)
  have hm : (st1.socd_pairs p).mode = SOCD_MODE_NEUTRAL := by rw [hpairs]; exact hmode
  have hne : ¬ (SOCD_MODE_NEUTRAL = SOCD_MODE_LAST_WINS) := by decide
  rw [hm, if_neg hne, if_pos rfl] at hslot
  have hd : SOCD_MAX_PAIRS = (p + 1) + (SOCD_MAX_PAIRS - (p + 1)) := by omega
  have hfalse : ∀ k, socd_pair_loop st1 count (p + 1) ks k = false →
      socd_pair_loop st1 count SOCD_MAX_PAIRS ks k = false := by
    intro k hk
    cases hfin : socd_pair_loop st1 count SOCD_MAX_PAIRS ks k
    · rfl
    · rw [hd] at hfin
      have := socd_pair_loop_mono_later st1 count ks k (p + 1) _ hfin
      rw [hk] at this
      exact absurd this (by decide)
  constructor
  · apply hfalse
    rw [hslot]
    by_cases e : k1 = k2
    · rw [e]; exact upd_same _ _ _
    · rw [upd_other _ _ _ _ e]; exact upd_same _ _ _
  · apply hfalse
    rw [hslot]
    exact upd_same _ _ _

/-- C9 on a table whose slot 2 holds the Neutral pair (3, 4), all keys pressed. -/
theorem C9_neutral_releases_both_witness :
    (socd_process_keys (fun _ => 7)
        (socd_state_with (fun q =>
          if q = 2 then { key1_idx := 3, key2_idx := 4, mode := SOCD_MODE_NEUTRAL, valid := true }
          else { key1_idx := 0, key2_idx := 0, mode := 0, valid := false }))
        (fun _ => true) 64).2 3 = false
    ∧ (socd_process_keys (fun _ => 7)
        (socd_state_with (fun q =>
          if q = 2 then { key1_idx := 3, key2_idx := 4, mode := SOCD_MODE_NEUTRAL, valid := true }
          else { key1_idx := 0, key2_idx := 0, mode := 0, valid := false }))
        (fun _ => true) 64).2 4 = false :=
  C9_neutral_releases_both (fun _ => 7)
    (socd_state_with (fun q =>
      if q = 2 then { key1_idx := 3, key2_idx := 4, mode := SOCD_MODE_NEUTRAL, valid := true }
      else { key1_idx := 0, key2_idx := 0, mode := 0, valid := false }))
    (fun _ => true) 64 2 3 4 (by decide) (by decide) (by decide) (by decide) (by decide)
    (by decide) (by decide) (by decide) (by decide) (by decide) (by decide)

/-- C9 as stated fails when a key belongs to two valid pairs: with slot 0 =
(1, 0, LastWins) and slot 1 = (0, 2, Neutral), both satisfying the pair
invariant, and keys 0, 1, 2 all pressed at the same time, slot 0 releases key
0, the Neutral pair is then skipped and its key 2 stays pressed. -/
theorem C9_counterexample :
    (example_pairs_overlap_neutral 1).valid = true
    ∧ (example_pairs_overlap_neutral 1).mode = SOCD_MODE_NEUTRAL
    ∧ (example_pairs_overlap_neutral 1).key1_idx = 0
    ∧ (example_pairs_overlap_neutral 1).key2_idx = 2
    ∧ (socd_process_keys (fun _ => 7) (socd_state_with example_pairs_overlap_neutral)
        (fun i => decide (i < 3)) 64).2 2 = true := by
  decide

theorem socd_update_loop_state (now_ms : Nat → Nat) (ks : Nat → Bool) (st : SocdState) :
    ∀ n, n ≤ SENSOR_COUNT → ∀ k,
      (socd_update_loop now_ms ks n st).key_timestamps k
        = (if k < n ∧ ks k = true ∧ st.key_raw_states k = false then now_ms k
            else st.key_timestamps k)
      ∧ (socd_update_loop now_ms ks n st).key_raw_states k
        = (if k < n then ks k else st.key_raw_states k) := by
  intro n
  induction n with
  | zero =>
    intro _ k
    simp [socd_update_loop]
  | succ n ih =>
    intro hn k
    have ihk := ih (by omega) k
    have ihn := ih (by omega) n
    have hlt : ¬ n ≥ SENSOR_COUNT := by omega
    show (socd_update_key (now_ms n) (socd_update_loop now_ms ks n st) n (ks n)).key_timestamps k
        = _ ∧ (socd_update_key (now_ms n) (socd_update_loop now_ms ks n st) n
          (ks n)).key_raw_states k = _
    unfold socd_update_key
    simp only [hlt, if_false]
    have hrn : (socd_update_loop now_ms ks n st).key_raw_states n = st.key_raw_states n := by
      rw [ihn.2]
      simp
    rw [hrn]
    by_cases hk : k = n
    · subst hk
      constructor
      · cases hks : ks k <;> cases hr : st.key_raw_states k <;>
          simp [hks, hr, upd_same, ihk.1]
      · simp [upd_same]
    · have hk' : k < n + 1 ↔ k < n := by omega
      constructor
      · have : (if (ks n && !st.key_raw_states n) = true then
            upd (socd_update_loop now_ms ks n st).key_timestamps n (now_ms n)
            else (socd_update_loop now_ms ks n st).key_timestamps) k
            = (socd_update_loop now_ms ks n st).key_timestamps k := by
          split_ifs
          · exact upd_other _ _ _ _ hk
          · rfl
        rw [this, ihk.1]
        simp only [hk']
      · rw [upd_other _ _ _ _ hk, ihk.2]
        simp only [hk']

/-- With SOCD enabled, the outcome for a valid pair in slot `p` whose two
distinct keys are pressed in the input and are named by no other valid pair. -/
theorem socd_process_keys_pair (now_ms : Nat → Nat) (st : SocdState) (ks : Nat → Bool)
    (count : Int) (p k1 k2 : Nat)
    (hen : st.socd_enabled = true) (hp : p < SOCD_MAX_PAIRS)
    (hvalid : (st.socd_pairs p).valid = true)
    (hk1 : (st.socd_pairs p).key1_idx = k1) (hk2 : (st.socd_pairs p).key2_idx = k2)
    (hne : k1 ≠ k2)
    (hc1 : (k1 : Int) < count) (hc2 : (k2 : Int) < count)
    (hp1 : ks k1 = true) (hp2 : ks k2 = true)
    (hdisj : ∀ q, q < SOCD_MAX_PAIRS → q ≠ p → (st.socd_pairs q).valid = true →
      (st.socd_pairs q).key1_idx ≠ k1 ∧ (st.socd_pairs q).key1_idx ≠ k2
      ∧ (st.socd_pairs q).key2_idx ≠ k1 ∧ (st.socd_pairs q).key2_idx ≠ k2) :
    ((socd_process_keys now_ms st ks count).2 k1, (socd_process_keys now_ms st ks count).2 k2)
      = if (st.socd_pairs p).mode = SOCD_MODE_LAST_WINS then
          if (socd_process_keys now_ms st ks count).1.key_timestamps k1
              ≥ (socd_process_keys now_ms st ks count).1.key_timestamps k2 then (true, false)
          else (false, true)
        else if (st.socd_pairs p).mode = SOCD_MODE_NEUTRAL then (false, false)
        else if (st.socd_pairs p).mode = SOCD_MODE_FIRST_WINS then
          if (socd_process_keys now_ms st ks count).1.key_timestamps k1
              ≤ (socd_process_keys now_ms st ks count).1.key_timestamps k2 then (true, false)
          else (false, true)
        else (true, true) := by
  rw [socd_process_keys_enabled now_ms st ks count hen]
  generalize hst1 : socd_update_loop now_ms ks (min count.toNat SENSOR_COUNT) st = st1
  have hpairs : st1.socd_pairs = st.socd_pairs := by
    rw [← hst1]
    exact (socd_update_loop_pairs now_ms ks st _).1
  have hearlier : ∀ q, q < p → (st1.socd_pairs q).valid = true →
      (st1.socd_pairs q).key1_idx ≠ k1 ∧ (st1.socd_pairs q).key1_idx ≠ k2
      ∧ (st1.socd_pairs q).key2_idx ≠ k1 ∧ (st1.socd_pairs q).key2_idx ≠ k2 := by
    rw [hpairs]
    exact fun q hq hv => hdisj q (by omega) (by omega) hv
  have hslot := socd_pair_loop_slot st1 count ks p k1 k2 (by rw [hpairs]; exact hvalid)
    (by rw [hpairs]; exact hk1) (by rw [hpairs]; exact hk2) hc1 hc2 hp1 hp2 hearlier
  have hb1 : socd_pair_loop st1 count p ks k1 = true := by
    rw [socd_pair_loop_untouched st1 count ks k1 p
      (fun q hq hv => ⟨(hearlier q hq hv).1, (hearlier q hq hv).2.2.1⟩)]
    exact hp1
  have hb2 : socd_pair_loop st1 count p ks k2 = true := by
    rw [socd_pair_loop_untouched st1 count ks k2 p
      (fun q hq hv => ⟨(hearlier q hq hv).2.1, (hearlier q hq hv).2.2.2⟩)]
    exact hp2
  have hd : SOCD_MAX_PAIRS = p + 1 + (SOCD_MAX_PAIRS - (p + 1)) := by omega
  have hl1 : socd_pair_loop st1 count SOCD_MAX_PAIRS ks k1
      = socd_pair_loop st1 count (p + 1) ks k1 := by
    rw [hd]
    apply socd_pair_loop_later
    rw [hpairs]
    intro q h1 h2 hv
    have := hdisj q (by omega) (by omega) hv
    exact ⟨this.1, this.2.2.1⟩
  have hl2 : socd_pair_loop st1 count SOCD_MAX_PAIRS ks k2
      = socd_pair_loop st1 count (p + 1) ks k2 := by
    rw [hd]
    apply socd_pair_loop_later
    rw [hpairs]
    intro q h1 h2 hv
    have := hdisj q (by omega) (by omega) hv
    exact ⟨this.2.1, this.2.2.2⟩
  have hne' : k2 ≠ k1 := fun e => hne e.symm
  simp only [hl1, hl2, hslot, hpairs]
  split_ifs <;>
    simp only [upd_same, upd_other _ _ _ _ hne, upd_other _ _ _ _ hne', hb1, hb2]

theorem socd_process_keys_statics (now_ms : Nat → Nat) (st : SocdState) (ks : Nat → Bool)
    (count : Int) (hen : st.socd_enabled = true) (k : Nat)
    (hs : k < SENSOR_COUNT) (hc : (k : Int) < count) :
    (socd_process_keys now_ms st ks count).1.socd_enabled = true
    ∧ (socd_process_keys now_ms st ks count).1.socd_pairs = st.socd_pairs
    ∧ (socd_process_keys now_ms st ks count).1.key_raw_states k = ks k
    ∧ (socd_process_keys now_ms st ks count).1.key_timestamps k
        = (if ks k = true ∧ st.key_raw_states k = false then now_ms k
            else st.key_timestamps k) := by
  rw [socd_process_keys_enabled now_ms st ks count hen]
  have hn : min count.toNat SENSOR_COUNT ≤ SENSOR_COUNT := Nat.min_le_right _ _
  have hk : k < min count.toNat SENSOR_COUNT := by
    rw [Nat.lt_min]
    exact ⟨by omega, hs⟩
  have h := socd_update_loop_state now_ms ks st _ hn k
  have hp := socd_update_loop_pairs now_ms ks st (min count.toNat SENSOR_COUNT)
  refine ⟨hp.2.trans hen, hp.1, ?_, ?_⟩
  · rw [h.2, if_pos hk]
  · rw [h.1]
    simp only [hk, true_and]

/-- A call made while both keys of a LastWins pair are held, the second pressed
later, keeps the second and releases the first, and leaves that situation. -/
theorem socd_held_step (now_ms : Nat → Nat) (pairs : Nat → socd_pair_t) (s : SocdState)
    (ks : Nat → Bool) (count : Int) (p k1 k2 : Nat)
    (hp : p < SOCD_MAX_PAIRS)
    (hvalid : (pairs p).valid = true) (hmode : (pairs p).mode = SOCD_MODE_LAST_WINS)
    (hk1 : (pairs p).key1_idx = k1) (hk2 : (pairs p).key2_idx = k2)
    (hne : k1 ≠ k2) (hs1 : k1 < SENSOR_COUNT) (hs2 : k2 < SENSOR_COUNT)
    (hc1 : (k1 : Int) < count) (hc2 : (k2 : Int) < count)
    (hdisj : ∀ q, q < SOCD_MAX_PAIRS → q ≠ p → (pairs q).valid = true →
      (pairs q).key1_idx ≠ k1 ∧ (pairs q).key1_idx ≠ k2
      ∧ (pairs q).key2_idx ≠ k1 ∧ (pairs q).key2_idx ≠ k2)
    (hinv : socd_held_after pairs k1 k2 s) (hp1 : ks k1 = true) (hp2 : ks k2 = true) :
    socd_held_after pairs k1 k2 (socd_process_keys now_ms s ks count).1
    ∧ (socd_process_keys now_ms s ks count).2 k2 = true
    ∧ (socd_process_keys now_ms s ks count).2 k1 = false := by
  obtain ⟨hen, hpairs, hr1, hr2, hts⟩ := hinv
  have h1 := socd_process_keys_statics now_ms s ks count hen k1 hs1 hc1
  have h2 := socd_process_keys_statics now_ms s ks count hen k2 hs2 hc2
  have e1 : (socd_process_keys now_ms s ks count).1.key_timestamps k1 = s.key_timestamps k1 := by
    rw [h1.2.2.2]
    simp [hr1]
  have e2 : (socd_process_keys now_ms s ks count).1.key_timestamps k2 = s.key_timestamps k2 := by
    rw [h2.2.2.2]
    simp [hr2]
  have hres := socd_process_keys_pair now_ms s ks count p k1 k2 hen hp
    (by rw [hpairs]; exact hvalid) (by rw [hpairs]; exact hk1) (by rw [hpairs]; exact hk2)
    hne hc1 hc2 hp1 hp2 (by rw [hpairs]; exact hdisj)
  have hm : (s.socd_pairs p).mode = SOCD_MODE_LAST_WINS := by rw [hpairs]; exact hmode
  have hlt : ¬ (s.key_timestamps k1 ≥ s.key_timestamps k2) := by omega
  rw [hm, if_pos rfl, e1, e2, if_neg hlt] at hres
  refine ⟨⟨h1.1, h1.2.1.trans hpairs, ?_, ?_, ?_⟩, ?_, ?_⟩
  · rw [h1.2.2.1]; exact hp1
  · rw [h2.2.2.1]; exact hp2
  · rw [e1, e2]; exact hts
  · exact congrArg Prod.snd hres
  · exact congrArg Prod.fst hres

theorem socd_held_run (pairs : Nat → socd_pair_t) (count : Int) (p k1 k2 : Nat)
    (hp : p < SOCD_MAX_PAIRS)
    (hvalid : (pairs p).valid = true) (hmode : (pairs p).mode = SOCD_MODE_LAST_WINS)
    (hk1 : (pairs p).key1_idx = k1) (hk2 : (pairs p).key2_idx = k2)
    (hne : k1 ≠ k2) (hs1 : k1 < SENSOR_COUNT) (hs2 : k2 < SENSOR_COUNT)
    (hc1 : (k1 : Int) < count) (hc2 : (k2 : Int) < count)
    (hdisj : ∀ q, q < SOCD_MAX_PAIRS → q ≠ p → (pairs q).valid = true →
      (pairs q).key1_idx ≠ k1 ∧ (pairs q).key1_idx ≠ k2
      ∧ (pairs q).key2_idx ≠ k1 ∧ (pairs q).key2_idx ≠ k2) :
    ∀ (calls : List ((Nat → Nat) × (Nat → Bool))) (s : SocdState),
      socd_held_after pairs k1 k2 s →
      (∀ c ∈ calls, c.2 k1 = true ∧ c.2 k2 = true) →
      socd_held_after pairs k1 k2 (socd_run count s calls) := by
  intro calls
  induction calls with
  | nil => intro s hinv _; exact hinv
  | cons c calls ih =>
    intro s hinv hall
    have hc := hall c (List.mem_cons_self _ _)
    have hstep := socd_held_step c.1 pairs s c.2 count p k1 k2 hp hvalid hmode hk1 hk2 hne
      hs1 hs2 hc1 hc2 hdisj hinv hc.1 hc.2
    exact ih _ hstep.1 (fun c' hc' => hall c' (List.mem_cons_of_mem _ hc'))

/-- C4 (amended). With SOCD enabled, for every valid LastWins pair (k1, k2) of
distinct sensor indices, both < count, whose two keys are both pressed in the
input vector and which shares no key with another valid pair,
`socd_process_keys` keeps pressed the key whose last raw rising-edge timestamp
is more recent and releases the other, keeping k1 when the timestamps are
equal. Timestamps change only on a rising edge of the input vector, so if k1 is
pressed at one time and k2 at a later time (t = 0 and t = 5), that call and
every later call made with both still held keeps k2 pressed and k1 released. -/
theorem C4_last_wins_keeps_most_recent (now_ms : Nat → Nat) (st : SocdState)
    (ks : Nat → Bool) (count : Int) (p k1 k2 : Nat)
    (hen : st.socd_enabled = true) (hp : p < SOCD_MAX_PAIRS)
    (hvalid : (st.socd_pairs p).valid = true)
    (hmode : (st.socd_pairs p).mode = SOCD_MODE_LAST_WINS)
    (hk1 : (st.socd_pairs p).key1_idx = k1) (hk2 : (st.socd_pairs p).key2_idx = k2)
    (hne : k1 ≠ k2) (hs1 : k1 < SENSOR_COUNT) (hs2 : k2 < SENSOR_COUNT)
    (hc1 : (k1 : Int) < count) (hc2 : (k2 : Int) < count)
    (hp1 : ks k1 = true) (hp2 : ks k2 = true)
    (hdisj : ∀ q, q < SOCD_MAX_PAIRS → q ≠ p → (st.socd_pairs q).valid = true →
      (st.socd_pairs q).key1_idx ≠ k1 ∧ (st.socd_pairs q).key1_idx ≠ k2
      ∧ (st.socd_pairs q).key2_idx ≠ k1 ∧ (st.socd_pairs q).key2_idx ≠ k2) :
    ((socd_process_keys now_ms st ks count).1.key_timestamps k2
        ≤ (socd_process_keys now_ms st ks count).1.key_timestamps k1 →
      (socd_process_keys now_ms st ks count).2 k1 = true
      ∧ (socd_process_keys now_ms st ks count).2 k2 = false)
    ∧ ((socd_process_keys now_ms st ks count).1.key_timestamps k1
        < (socd_process_keys now_ms st ks count).1.key_timestamps k2 →
      (socd_process_keys now_ms st ks count).2 k2 = true
      ∧ (socd_process_keys now_ms st ks count).2 k1 = false)
    ∧ (∀ k, (socd_process_keys now_ms st ks count).1.key_timestamps k ≠ st.key_timestamps k →
        ks k = true ∧ st.key_raw_states k = false)
    ∧ (∀ (nowA nowB : Nat → Nat) (ksA ksB : Nat → Bool),
        st.key_raw_states k1 = false → st.key_raw_states k2 = false →
        ksA k1 = true → ksA k2 = false → ksB k1 = true → ksB k2 = true →
        nowA k1 < nowB k2 →
        (socd_process_keys nowB (socd_process_keys nowA st ksA count).1 ksB count).2 k2 = true
        ∧ (socd_process_keys nowB (socd_process_keys nowA st ksA count).1 ksB count).2 k1 = false
        ∧ ∀ (calls : List ((Nat → Nat) × (Nat → Bool))) (nowF : Nat → Nat) (ksF : Nat → Bool),
            (∀ c ∈ calls, c.2 k1 = true ∧ c.2 k2 = true) → ksF k1 = true → ksF k2 = true →
            (socd_process_keys nowF
              (socd_run count
                (socd_process_keys nowB (socd_process_keys nowA st ksA count).1 ksB count).1
                calls) ksF count).2 k2 = true
            ∧ (socd_process_keys nowF
              (socd_run count
                (socd_process_keys nowB (socd_process_keys nowA st ksA count).1 ksB count).1
                calls) ksF count).2 k1 = false) := by
  have hres := socd_process_keys_pair now_ms st ks count p k1 k2 hen hp hvalid hk1 hk2 hne
    hc1 hc2 hp1 hp2 hdisj
  rw [hmode, if_pos rfl] at hres
  refine ⟨fun hle => ?_, fun hlt => ?_, fun k hk => ?_, ?_⟩
  · rw [if_pos hle] at hres
    exact ⟨congrArg Prod.fst hres, congrArg Prod.snd hres⟩
  · have hn : ¬ ((socd_process_keys now_ms st ks count).1.key_timestamps k1
        ≥ (socd_process_keys now_ms st ks count).1.key_timestamps k2) := by omega
    rw [if_neg hn] at hres
    exact ⟨congrArg Prod.snd hres, congrArg Prod.fst hres⟩
  · rw [socd_process_keys_enabled now_ms st ks count hen] at hk
    have h := (socd_update_loop_state now_ms ks st (min count.toNat SENSOR_COUNT)
      (Nat.min_le_right _ _) k).1
    simp only at hk
    rw [h] at hk
    by_cases hcnd : k < min count.toNat SENSOR_COUNT ∧ ks k = true ∧ st.key_raw_states k = false
    · exact hcnd.2
    · rw [if_neg hcnd] at hk
      exact absurd rfl hk
  · intro nowA nowB ksA ksB hr1 hr2 hA1 hA2 hB1 hB2 hlt
    -- the call at which k1 is pressed
    have a1 := socd_process_keys_statics nowA st ksA count hen k1 hs1 hc1
    have a2 := socd_process_keys_statics nowA st ksA count hen k2 hs2 hc2
    generalize (socd_process_keys nowA st ksA count).1 = sA at a1 a2 ⊢
    have haen : sA.socd_enabled = true := a1.1
    have hapairs : sA.socd_pairs = st.socd_pairs := a1.2.1
    have har1 : sA.key_raw_states k1 = true := by rw [a1.2.2.1]; exact hA1
    have har2 : sA.key_raw_states k2 = false := by rw [a2.2.2.1]; exact hA2
    have hat1 : sA.key_timestamps k1 = nowA k1 := by
      rw [a1.2.2.2]; simp [hA1, hr1]
    -- the call at which k2 is pressed
    have b1 := socd_process_keys_statics nowB sA ksB count haen k1 hs1 hc1
    have b2 := socd_process_keys_statics nowB sA ksB count haen k2 hs2 hc2
    have hbt1 : (socd_process_keys nowB sA ksB count).1.key_timestamps k1 = nowA k1 := by
      rw [b1.2.2.2]; simp [har1, hat1]
    have hbt2 : (socd_process_keys nowB sA ksB count).1.key_timestamps k2 = nowB k2 := by
      rw [b2.2.2.2]; simp [hB2, har2]
    have hB := socd_process_keys_pair nowB sA ksB count p k1 k2 haen hp
      (by rw [hapairs]; exact hvalid) (by rw [hapairs]; exact hk1) (by rw [hapairs]; exact hk2)
      hne hc1 hc2 hB1 hB2 (by rw [hapairs]; exact hdisj)
    have hm : (sA.socd_pairs p).mode = SOCD_MODE_LAST_WINS := by rw [hapairs]; exact hmode
    have hn : ¬ (nowA k1 ≥ nowB k2) := by omega
    rw [hm, if_pos rfl, hbt1, hbt2, if_neg hn] at hB
    have hheld : socd_held_after st.socd_pairs k1 k2 (socd_process_keys nowB sA ksB count).1 :=
      ⟨b1.1, b1.2.1.trans hapairs, by rw [b1.2.2.1]; exact hB1, by rw [b2.2.2.1]; exact hB2,
        by rw [hbt1, hbt2]; exact hlt⟩
    refine ⟨congrArg Prod.snd hB, congrArg Prod.fst hB, ?_⟩
    intro calls nowF ksF hall hF1 hF2
    have hrun := socd_held_run st.socd_pairs count p k1 k2 hp hvalid hmode hk1 hk2 hne hs1 hs2
      hc1 hc2 hdisj calls _ hheld hall
    have hfin := socd_held_step nowF st.socd_pairs _ ksF count p k1 k2 hp hvalid hmode hk1 hk2
      hne hs1 hs2 hc1 hc2 hdisj hrun hF1 hF2
    exact hfin.2

/-- C4 on the single-pair table (0, 1, LastWins): key 0 pressed at t = 0, key
1 at t = 5, then a later call at t = 9 with both held. -/
theorem C4_last_wins_keeps_most_recent_witness :
    (socd_process_keys (fun _ => 9)
        (socd_run 64
          (socd_process_keys (fun _ => 5)
            (socd_process_keys (fun _ => 0)
              (socd_state_with (example_pairs_single SOCD_MODE_LAST_WINS))
              (fun i => decide (i = 0)) 64).1
            (fun i => decide (i < 2)) 64).1
          []) (fun i => decide (i < 2)) 64).2 1 = true
    ∧ (socd_process_keys (fun _ => 9)
        (socd_run 64
          (socd_process_keys (fun _ => 5)
            (socd_process_keys (fun _ => 0)
              (socd_state_with (example_pairs_single SOCD_MODE_LAST_WINS))
              (fun i => decide (i = 0)) 64).1
            (fun i => decide (i < 2)) 64).1
          []) (fun i => decide (i < 2)) 64).2 0 = false :=
  ((C4_last_wins_keeps_most_recent (fun _ => 7)
    (socd_state_with (example_pairs_single SOCD_MODE_LAST_WINS)) (fun _ => true) 64 0 0 1
    (by decide) (by decide) (by decide) (by decide) (by decide) (by decide) (by decide)
    (by decide) (by decide) (by decide) (by decide) (by decide) (by decide)
    (by decide)).2.2.2
      (fun _ => 0) (fun _ => 5) (fun i => decide (i = 0)) (fun i => decide (i < 2))
      (by decide) (by decide) (by decide) (by decide) (by decide) (by decide)
      (by decide)).2.2 [] (fun _ => 9) (fun i => decide (i < 2))
      (fun c hc => absurd hc (List.not_mem_nil c)) (by decide) (by decide)

/-- C4 as stated fails when a key belongs to two valid pairs: with slot 0 =
(0, 1, LastWins) and slot 1 = (0, 2, Neutral) and keys 0, 1, 2 pressed in the
same call (equal timestamps, so the claim keeps key 0 of the LastWins pair),
the Neutral pair of slot 1 releases key 0 as well. -/
theorem C4_counterexample :
    (example_pairs_overlap_last 0).valid = true
    ∧ (example_pairs_overlap_last 0).mode = SOCD_MODE_LAST_WINS
    ∧ (example_pairs_overlap_last 0).key1_idx = 0
    ∧ (example_pairs_overlap_last 0).key2_idx = 1
    ∧ (socd_process_keys (fun _ => 7) (socd_state_with example_pairs_overlap_last)
        (fun i => decide (i < 3)) 64).1.key_timestamps 0
      = (socd_process_keys (fun _ => 7) (socd_state_with example_pairs_overlap_last)
        (fun i => decide (i < 3)) 64).1.key_timestamps 1
    ∧ (socd_process_keys (fun _ => 7) (socd_state_with example_pairs_overlap_last)
        (fun i => decide (i < 3)) 64).2 0 = false := by
  decide

/-- C10 (amended). With SOCD enabled, for every valid FirstWins pair (k1, k2)
of distinct indices, both < count, whose two keys are both pressed in the input
vector and which shares no key with another valid pair, `socd_process_keys`
keeps pressed the key with the smaller last raw rising-edge timestamp and
releases the other, keeping k1 when the timestamps are equal. -/
theorem C10_first_wins_keeps_earliest (now_ms : Nat → Nat) (st : SocdState)
    (ks : Nat → Bool) (count : Int) (p k1 k2 : Nat)
    (hen : st.socd_enabled = true) (hp : p < SOCD_MAX_PAIRS)
    (hvalid : (st.socd_pairs p).valid = true)
    (hmode : (st.socd_pairs p).mode = SOCD_MODE_FIRST_WINS)
    (hk1 : (st.socd_pairs p).key1_idx = k1) (hk2 : (st.socd_pairs p).key2_idx = k2)
    (hne : k1 ≠ k2)
    (hc1 : (k1 : Int) < count) (hc2 : (k2 : Int) < count)
    (hp1 : ks k1 = true) (hp2 : ks k2 = true)
    (hdisj : ∀ q, q < SOCD_MAX_PAIRS → q ≠ p → (st.socd_pairs q).valid = true →
      (st.socd_pairs q).key1_idx ≠ k1 ∧ (st.socd_pairs q).key1_idx ≠ k2
      ∧ (st.socd_pairs q).key2_idx ≠ k1 ∧ (st.socd_pairs q).key2_idx ≠ k2) :
    ((socd_process_keys now_ms st ks count).1.key_timestamps k1
        ≤ (socd_process_keys now_ms st ks count).1.key_timestamps k2 →
      (socd_process_keys now_ms st ks count).2 k1 = true
      ∧ (socd_process_keys now_ms st ks count).2 k2 = false)
    ∧ ((socd_process_keys now_ms st ks count).1.key_timestamps k2
        < (socd_process_keys now_ms st ks count).1.key_timestamps k1 →
      (socd_process_keys now_ms st ks count).2 k2 = true
      ∧ (socd_process_keys now_ms st ks count).2 k1 = false) := by
  have hres := socd_process_keys_pair now_ms st ks count p k1 k2 hen hp hvalid hk1 hk2 hne
    hc1 hc2 hp1 hp2 hdisj
  have h1 : ¬ (SOCD_MODE_FIRST_WINS = SOCD_MODE_LAST_WINS) := by decide
  have h2 : ¬ (SOCD_MODE_FIRST_WINS = SOCD_MODE_NEUTRAL) := by decide
  rw [hmode, if_neg h1, if_neg h2, if_pos rfl] at hres
  refine ⟨fun hle => ?_, fun hlt => ?_⟩
  · rw [if_pos hle] at hres
    exact ⟨congrArg Prod.fst hres, congrArg Prod.snd hres⟩
  · have hn : ¬ ((socd_process_keys now_ms st ks count).1.key_timestamps k1
        ≤ (socd_process_keys now_ms st ks count).1.key_timestamps k2) := by omega
    rw [if_neg hn] at hres
    exact ⟨congrArg Prod.snd hres, congrArg Prod.fst hres⟩

/-- C10 on the single-pair table (0, 1, FirstWins): key 0 was pressed at t = 3
in an earlier call, key 1 joins at t = 8; key 0 stays pressed. -/
theorem C10_first_wins_keeps_earliest_witness :
    (socd_process_keys (fun _ => 8)
        (socd_process_keys (fun _ => 3)
          (socd_state_with (example_pairs_single SOCD_MODE_FIRST_WINS))
          (fun i => decide (i = 0)) 64).1
        (fun i => decide (i < 2)) 64).2 0 = true
    ∧ (socd_process_keys (fun _ => 8)
        (socd_process_keys (fun _ => 3)
          (socd_state_with (example_pairs_single SOCD_MODE_FIRST_WINS))
          (fun i => decide (i = 0)) 64).1
        (fun i => decide (i < 2)) 64).2 1 = false :=
  (C10_first_wins_keeps_earliest (fun _ => 8)
    (socd_process_keys (fun _ => 3)
      (socd_state_with (example_pairs_single SOCD_MODE_FIRST_WINS))
      (fun i => decide (i = 0)) 64).1
    (fun i => decide (i < 2)) 64 0 0 1
    (by decide) (by decide) (by decide) (by decide) (by decide) (by decide) (by decide)
    (by decide) (by decide) (by decide) (by decide) (by decide)).1 (by decide)

/-- C10 as stated fails when a key belongs to two valid pairs: with slot 0 =
(0, 1, FirstWins) and slot 1 = (0, 2, Neutral), key 0 pressed first (t = 3) and
keys 1 and 2 joining at t = 8, key 0 has the smaller timestamp in the FirstWins
pair but is released by the Neutral pair of slot 1. -/
theorem C10_counterexample :
    (example_pairs_overlap_first 0).valid = true
    ∧ (example_pairs_overlap_first 0).mode = SOCD_MODE_FIRST_WINS
    ∧ (example_pairs_overlap_first 0).key1_idx = 0
    ∧ (example_pairs_overlap_first 0).key2_idx = 1
    ∧ (socd_process_keys (fun _ => 8)
        (socd_process_keys (fun _ => 3) (socd_state_with example_pairs_overlap_first)
          (fun i => decide (i = 0)) 64).1
        (fun i => decide (i < 3)) 64).1.key_timestamps 0 = 3
    ∧ (socd_process_keys (fun _ => 8)
        (socd_process_keys (fun _ => 3) (socd_state_with example_pairs_overlap_first)
          (fun i => decide (i = 0)) 64).1
        (fun i => decide (i < 3)) 64).1.key_timestamps 1 = 8
    ∧ (socd_process_keys (fun _ => 8)
        (socd_process_keys (fun _ => 3) (socd_state_with example_pairs_overlap_first)
          (fun i => decide (i = 0)) 64).1
        (fun i => decide (i < 3)) 64).2 0 = false := by
  decide

/-! ### SOCD configuration API -/

theorem socd_add_pair_rejected (st : SocdState) (pair_idx key1 key2 mode : Nat)
    (hbad : pair_idx ≥ SOCD_MAX_PAIRS ∨ key1 ≥ SENSOR_COUNT ∨ key2 ≥ SENSOR_COUNT
      ∨ key1 = key2) :
    socd_add_pair st pair_idx key1 key2 mode = (false, st) := by
  unfold socd_add_pair
  by_cases h1 : pair_idx ≥ SOCD_MAX_PAIRS
  · rw [if_pos h1]
  · rw [if_neg h1]
    by_cases h2 : key1 ≥ SENSOR_COUNT ∨ key2 ≥ SENSOR_COUNT
    · rw [if_pos h2]
    · rw [if_neg h2]
      have h3 : key1 = key2 := by
        rcases hbad with h | h | h | h
        · exact absurd h h1
        · exact absurd (Or.inl h) h2
        · exact absurd (Or.inr h) h2
        · exact h
      rw [if_pos h3]

theorem socd_add_pair_accepted (st : SocdState) (pair_idx key1 key2 mode : Nat)
    (hi : pair_idx < SOCD_MAX_PAIRS) (h1 : key1 < SENSOR_COUNT) (h2 : key2 < SENSOR_COUNT)
    (hne : key1 ≠ key2) :
    socd_add_pair st pair_idx key1 key2 mode
      = (true,
          { st with
            socd_pairs := upd st.socd_pairs pair_idx
              { key1_idx := key1, key2_idx := key2, mode := mode, valid := true } }) := by
  unfold socd_add_pair
  have a : ¬ pair_idx ≥ SOCD_MAX_PAIRS := by omega
  have b : ¬ (key1 ≥ SENSOR_COUNT ∨ key2 ≥ SENSOR_COUNT) := by omega
  rw [if_neg a, if_neg b, if_neg hne]

/-- Either outcome of `socd_add_pair`: the table is unchanged, or one slot
holds the accepted pair. -/
theorem socd_add_pair_cases (st : SocdState) (pair_idx key1 key2 mode : Nat) :
    socd_add_pair st pair_idx key1 key2 mode = (false, st)
    ∨ (pair_idx < SOCD_MAX_PAIRS ∧ key1 < SENSOR_COUNT ∧ key2 < SENSOR_COUNT ∧ key1 ≠ key2
      ∧ socd_add_pair st pair_idx key1 key2 mode
        = (true,
            { st with
              socd_pairs := upd st.socd_pairs pair_idx
                { key1_idx := key1, key2_idx := key2, mode := mode, valid := true } })) := by
  by_cases hbad : pair_idx ≥ SOCD_MAX_PAIRS ∨ key1 ≥ SENSOR_COUNT ∨ key2 ≥ SENSOR_COUNT
      ∨ key1 = key2
  · exact Or.inl (socd_add_pair_rejected st pair_idx key1 key2 mode hbad)
  · have hi : pair_idx < SOCD_MAX_PAIRS := by omega
    have h1 : key1 < SENSOR_COUNT := by omega
    have h2 : key2 < SENSOR_COUNT := by omega
    have hne : key1 ≠ key2 := fun e => hbad (Or.inr (Or.inr (Or.inr e)))
    exact Or.inr ⟨hi, h1, h2, hne, socd_add_pair_accepted st pair_idx key1 key2 mode hi h1 h2 hne⟩

theorem socd_add_pair_ok (st : SocdState) (pair_idx key1 key2 mode : Nat)
    (hok : socd_pairs_ok st.socd_pairs) :
    socd_pairs_ok (socd_add_pair st pair_idx key1 key2 mode).2.socd_pairs := by
  rcases socd_add_pair_cases st pair_idx key1 key2 mode with h | ⟨_, h1, h2, hne, h⟩
  · rw [h]; exact hok
  · rw [h]
    intro q hq hv
    by_cases e : q = pair_idx
    · subst e
      simp only [upd_same]
      exact ⟨hne, h1, h2⟩
    · simp only [upd_other _ _ _ _ e] at hv ⊢
      exact hok q hq hv

/-- C15. `socd_add_pair` returns false and leaves the statics (the whole pair
table) unchanged when pair_idx >= SOCD_MAX_PAIRS, a key index is >=
SENSOR_COUNT or the two keys are equal; otherwise it returns true, sets slot
pair_idx to (key1, key2, mode, valid = true) and leaves every other slot
unchanged. -/
theorem C15_socd_add_pair_contract (st : SocdState) (idxB k1B k2B modeB : Nat)
    (pair_idx key1 key2 mode : Nat)
    (hbad : idxB ≥ SOCD_MAX_PAIRS ∨ k1B ≥ SENSOR_COUNT ∨ k2B ≥ SENSOR_COUNT ∨ k1B = k2B)
    (hi : pair_idx < SOCD_MAX_PAIRS) (h1 : key1 < SENSOR_COUNT) (h2 : key2 < SENSOR_COUNT)
    (hne : key1 ≠ key2) :
    socd_add_pair st idxB k1B k2B modeB = (false, st)
    ∧ (socd_add_pair st pair_idx key1 key2 mode).1 = true
    ∧ (socd_add_pair st pair_idx key1 key2 mode).2.socd_pairs pair_idx
        = { key1_idx := key1, key2_idx := key2, mode := mode, valid := true }
    ∧ (∀ q, q ≠ pair_idx →
        (socd_add_pair st pair_idx key1 key2 mode).2.socd_pairs q = st.socd_pairs q) := by
  refine ⟨socd_add_pair_rejected st idxB k1B k2B modeB hbad, ?_, ?_, ?_⟩
  · rw [socd_add_pair_accepted st pair_idx key1 key2 mode hi h1 h2 hne]
  · rw [socd_add_pair_accepted st pair_idx key1 key2 mode hi h1 h2 hne]
    exact upd_same _ _ _
  · intro q hq
    rw [socd_add_pair_accepted st pair_idx key1 key2 mode hi h1 h2 hne]
    exact upd_other _ _ _ _ hq

/-- C15 at the boot statics: slot 8 is rejected, the pair (3, 4) with mode 1
is accepted in slot 2. -/
theorem C15_socd_add_pair_contract_witness :
    socd_add_pair socd_boot 8 3 4 1 = (false, socd_boot)
    ∧ (socd_add_pair socd_boot 2 3 4 1).1 = true
    ∧ (socd_add_pair socd_boot 2 3 4 1).2.socd_pairs 2
        = { key1_idx := 3, key2_idx := 4, mode := 1, valid := true }
    ∧ (∀ q, q ≠ 2 → (socd_add_pair socd_boot 2 3 4 1).2.socd_pairs q = socd_boot.socd_pairs q) :=
  C15_socd_add_pair_contract socd_boot 8 3 4 1 2 3 4 1 (Or.inl (by decide)) (by decide)
    (by decide) (by decide) (by decide)

theorem socd_add_wasd_preset_ok (S_A S_D S_W S_S : Nat) (st : SocdState)
    (hok : socd_pairs_ok st.socd_pairs) :
    socd_pairs_ok (socd_add_wasd_preset S_A S_D S_W S_S st).socd_pairs := by
  unfold socd_add_wasd_preset
  exact socd_add_pair_ok _ _ _ _ _ (socd_add_pair_ok _ _ _ _ _ hok)

theorem socd_init_ok (S_A S_D S_W S_S : Nat) (st : SocdState) :
    socd_pairs_ok (socd_init S_A S_D S_W S_S st).socd_pairs := by
  unfold socd_init
  apply socd_add_wasd_preset_ok
  intro q hq hv
  simp only [hq, if_true] at hv
  exact absurd hv (by decide)

/-- C16 (amended). Pair-table invariant: in every valid slot key1 != key2 and
both key indices are < SENSOR_COUNT. It holds after `socd_init` and is
preserved by `socd_add_pair`, `socd_delete_pair`, `socd_set_global_mode`,
`socd_clear_all_pairs`, `socd_add_wasd_preset` and `socd_add_arrows_preset`
for every argument; `socd_set_all_pairs` installs its argument as it is, so the
invariant holds afterwards exactly when the argument table satisfies it. -/
theorem C16_pair_table_invariant (st st0 : SocdState) (pair_idx key1 key2 mode : Nat)
    (S_A S_D S_W S_S S_LEFT S_RGHT S_UP S_DOWN : Nat) (pairs : Nat → socd_pair_t)
    (hok : socd_pairs_ok st.socd_pairs) :
    socd_pairs_ok (socd_init S_A S_D S_W S_S st0).socd_pairs
    ∧ socd_pairs_ok (socd_add_pair st pair_idx key1 key2 mode).2.socd_pairs
    ∧ socd_pairs_ok (socd_delete_pair st pair_idx).2.socd_pairs
    ∧ socd_pairs_ok (socd_set_global_mode st mode).socd_pairs
    ∧ socd_pairs_ok (socd_clear_all_pairs st).socd_pairs
    ∧ socd_pairs_ok (socd_add_wasd_preset S_A S_D S_W S_S st).socd_pairs
    ∧ socd_pairs_ok (socd_add_arrows_preset S_LEFT S_RGHT S_UP S_DOWN st).socd_pairs
    ∧ (socd_pairs_ok (socd_set_all_pairs st pairs).socd_pairs ↔ socd_pairs_ok pairs) := by
  refine ⟨socd_init_ok S_A S_D S_W S_S st0, socd_add_pair_ok st pair_idx key1 key2 mode hok,
    ?_, ?_, ?_, socd_add_wasd_preset_ok S_A S_D S_W S_S st hok, ?_, ?_⟩
  · unfold socd_delete_pair
    by_cases h : pair_idx ≥ SOCD_MAX_PAIRS
    · rw [if_pos h]; exact hok
    · rw [if_neg h]
      intro q hq hv
      by_cases e : q = pair_idx
      · subst e
        simp only [upd_same] at hv
        exact absurd hv (by decide)
      · simp only [upd_other _ _ _ _ e] at hv ⊢
        exact hok q hq hv
  · intro q hq hv
    unfold socd_set_global_mode at hv ⊢
    simp only [hq, true_and] at hv ⊢
    by_cases hvq : (st.socd_pairs q).valid = true
    · simp only [hvq, if_true]
      exact hok q hq hvq
    · simp only [hvq, if_false] at hv
      exact absurd hv hvq
  · intro q hq hv
    unfold socd_clear_all_pairs at hv
    simp only [hq, if_true] at hv
    exact absurd hv (by decide)
  · unfold socd_add_arrows_preset
    exact socd_add_pair_ok _ _ _ _ _ (socd_add_pair_ok _ _ _ _ _ hok)
  · unfold socd_set_all_pairs
    constructor
    · intro h q hq hv
      have := h q hq
      simp only [hq, if_true] at this
      exact this hv
    · intro h q hq hv
      simp only [hq, if_true] at hv ⊢
      exact h q hq hv

/-- C16 at the statics produced by `socd_init` on the example board (A = 30,
D = 32, W = 17, S = 31): the invariant still holds after a global-mode change. -/
theorem C16_pair_table_invariant_witness :
    socd_pairs_ok (socd_set_global_mode (socd_init 30 32 17 31 socd_boot) 2).socd_pairs :=
  (C16_pair_table_invariant (socd_init 30 32 17 31 socd_boot) socd_boot 0 0 1 2
    30 32 17 31 60 62 56 61 (fun _ => { key1_idx := 0, key2_idx := 0, mode := 0, valid := false })
    (socd_init_ok 30 32 17 31 socd_boot)).2.2.2.1

/-- C16 as stated fails for `socd_set_all_pairs`: the boot table satisfies the
invariant, and after installing a table whose slots all hold the valid pair
(5, 5) slot 0 is valid with key1 = key2. -/
theorem C16_counterexample :
    socd_pairs_ok socd_boot.socd_pairs
    ∧ ¬ socd_pairs_ok (socd_set_all_pairs socd_boot
        (fun _ => { key1_idx := 5, key2_idx := 5, mode := 0, valid := true })).socd_pairs := by
  constructor
  · intro q _ hv
    simp [socd_boot] at hv
  · intro h
    exact (h 0 (by decide) rfl).1 rfl

theorem socd_resolve_pair_exclusive (ts : Nat → Nat) (count : Int) (pair : socd_pair_t)
    (ks : Nat → Bool) (hv : pair.valid = true) (hm : pair.mode ≤ SOCD_MODE_FIRST_WINS)
    (hc1 : (pair.key1_idx : Int) < count) (hc2 : (pair.key2_idx : Int) < count) :
    ¬ (socd_resolve_pair ts count pair ks pair.key1_idx = true
      ∧ socd_resolve_pair ts count pair ks pair.key2_idx = true) := by
  unfold socd_resolve_pair
  have hc : ¬ ((pair.key1_idx : Int) ≥ count ∨ (pair.key2_idx : Int) ≥ count) := by omega
  simp only [hv, hc, Bool.not_true, if_false, Bool.false_eq_true]
  by_cases hp : (!ks pair.key1_idx || !ks pair.key2_idx) = true
  · rw [if_pos hp]
    rintro ⟨a, b⟩
    simp [a, b] at hp
  · rw [if_neg hp]
    unfold SOCD_MODE_FIRST_WINS at hm
    have hmode : pair.mode = SOCD_MODE_LAST_WINS ∨ pair.mode = SOCD_MODE_NEUTRAL
        ∨ pair.mode = SOCD_MODE_FIRST_WINS := by
      unfold SOCD_MODE_LAST_WINS SOCD_MODE_NEUTRAL SOCD_MODE_FIRST_WINS
      omega
    have n1 : ¬ (SOCD_MODE_NEUTRAL = SOCD_MODE_LAST_WINS) := by decide
    have n2 : ¬ (SOCD_MODE_FIRST_WINS = SOCD_MODE_LAST_WINS) := by decide
    have n3 : ¬ (SOCD_MODE_FIRST_WINS = SOCD_MODE_NEUTRAL) := by decide
    rcases hmode with e | e | e
    · rw [e, if_pos rfl]
      split_ifs
      · rintro ⟨_, b⟩
        rw [upd_same] at b
        exact absurd b (by decide)
      · rintro ⟨a, _⟩
        rw [upd_same] at a
        exact absurd a (by decide)
    · rw [e, if_neg n1, if_pos rfl]
      rintro ⟨_, b⟩
      rw [upd_same] at b
      exact absurd b (by decide)
    · rw [e, if_neg n2, if_neg n3, if_pos rfl]
      split_ifs
      · rintro ⟨_, b⟩
        rw [upd_same] at b
        exact absurd b (by decide)
      · rintro ⟨a, _⟩
        rw [upd_same] at a
        exact absurd a (by decide)

/-- Mutual exclusion for the three defined modes: with SOCD enabled, a valid
pair whose mode is LastWins, Neutral or FirstWins and whose key indices are
below `count` never has both keys pressed in the output vector, whatever the
other slots hold. -/
theorem socd_process_keys_exclusive (now_ms : Nat → Nat) (st : SocdState) (ks : Nat → Bool)
    (count : Int) (p : Nat) (hen : st.socd_enabled = true) (hp : p < SOCD_MAX_PAIRS)
    (hv : (st.socd_pairs p).valid = true)
    (hm : (st.socd_pairs p).mode ≤ SOCD_MODE_FIRST_WINS)
    (hc1 : ((st.socd_pairs p).key1_idx : Int) < count)
    (hc2 : ((st.socd_pairs p).key2_idx : Int) < count) :
    ¬ ((socd_process_keys now_ms st ks count).2 (st.socd_pairs p).key1_idx = true
      ∧ (socd_process_keys now_ms st ks count).2 (st.socd_pairs p).key2_idx = true) := by
  rw [socd_process_keys_enabled now_ms st ks count hen]
  generalize hst1 : socd_update_loop now_ms ks (min count.toNat SENSOR_COUNT) st = st1
  have hpairs : st1.socd_pairs = st.socd_pairs := by
    rw [← hst1]
    exact (socd_update_loop_pairs now_ms ks st _).1
  have hd : SOCD_MAX_PAIRS = (p + 1) + (SOCD_MAX_PAIRS - (p + 1)) := by omega
  rintro ⟨a, b⟩
  simp only at a b
  rw [hd] at a b
  have a' := socd_pair_loop_mono_later st1 count ks _ (p + 1) _ a
  have b' := socd_pair_loop_mono_later st1 count ks _ (p + 1) _ b
  have hex := socd_resolve_pair_exclusive st1.key_timestamps count (st1.socd_pairs p)
    (socd_pair_loop st1 count p ks) (by rw [hpairs]; exact hv) (by rw [hpairs]; exact hm)
    (by rw [hpairs]; exact hc1) (by rw [hpairs]; exact hc2)
  rw [← hpairs] at a' b'
  exact hex ⟨a', b'⟩

/-- C11 at the failing input: after `socd_init` (example board ids) the call
`socd_add_pair(0, 0, 1, 3)` is accepted although 3 is no resolution mode; with
SOCD enabled, count = SENSOR_COUNT and keys 0 and 1 pressed, the valid pair
(0, 1) of slot 0 still has both keys pressed after `socd_process_keys`. -/
theorem C11_unknown_mode_not_resolved :
    (socd_add_pair (socd_init 30 32 17 31 socd_boot) 0 0 1 3).1 = true
    ∧ (socd_add_pair (socd_init 30 32 17 31 socd_boot) 0 0 1 3).2.socd_enabled = true
    ∧ ((socd_add_pair (socd_init 30 32 17 31 socd_boot) 0 0 1 3).2.socd_pairs 0).valid = true
    ∧ ((socd_add_pair (socd_init 30 32 17 31 socd_boot) 0 0 1 3).2.socd_pairs 0).key1_idx = 0
    ∧ ((socd_add_pair (socd_init 30 32 17 31 socd_boot) 0 0 1 3).2.socd_pairs 0).key2_idx = 1
    ∧ (socd_process_keys (fun _ => 7)
        (socd_add_pair (socd_init 30 32 17 31 socd_boot) 0 0 1 3).2
        (fun i => decide (i < 2)) 64).2 0 = true
    ∧ (socd_process_keys (fun _ => 7)
        (socd_add_pair (socd_init 30 32 17 31 socd_boot) 0 0 1 3).2
        (fun i => decide (i < 2)) 64).2 1 = true := by
  decide

/-! ### The layer state across ticks -/

theorem int8_cast_sensor (s : Nat) (hs : s < SENSOR_COUNT) :
    int8_cast (((s + 1 : Nat) : Int) - 1) = (s : Int) := by
  have : (((s + 1 : Nat) : Int) - 1) = (s : Int) := by push_cast; ring
  rw [this]
  apply int8_cast_small
  · omega
  · unfold SENSOR_COUNT at hs; omega

theorem release_holder_not_found (mo : Nat → Int) (v : Int)
    (h : ∀ L, 1 ≤ L → L ≤ 3 → mo L ≠ v) :
    release_holder 3 1 v mo = (mo, false) := by
  have h1 := h 1 (by omega) (by omega)
  have h2 := h 2 (by omega) (by omega)
  have h3 := h 3 (by omega) (by omega)
  simp [release_holder, h1, h2, h3]

theorem layer_step_no_edge (keymap : Nat → Nat → Nat) (l1 dflt : List Nat)
    (cur prev : Nat → Bool) (st : LayerState) (i : Nat) (h : cur i = prev i) :
    layer_step keymap l1 dflt cur prev st i = st := by
  unfold layer_step
  simp [h]

/-- The press edge of a sensor whose keycode on the current layer is `TG(n)`. -/
theorem layer_step_tg_press (keymap : Nat → Nat → Nat) (l1 dflt : List Nat)
    (cur prev : Nat → Bool) (st : LayerState) (s n : Nat)
    (hn1 : 1 ≤ n) (hn3 : n ≤ 3)
    (hcur : cur (s + 1) = true) (hprev : prev (s + 1) = false)
    (hkc : get_keycode keymap l1 dflt st.current_layer s = TG n) :
    layer_step keymap l1 dflt cur prev st (s + 1)
      = { current_layer := if st.current_layer = n then 0 else n
          mo_held_sensors := st.mo_held_sensors } := by
  have hmo : is_mo_keycode (TG n) = false := by
    unfold is_mo_keycode TG
    simp
    omega
  have htg : is_tg_keycode (TG n) = true := by
    unfold is_tg_keycode TG
    simp
    omega
  have ht : (TG n - 0xAB + 1) % 256 = n := by
    unfold TG
    omega
  unfold layer_step
  simp only [hcur, hprev, Nat.add_sub_cancel, hkc, hmo, htg, ht]
  simp

/-- The release edge of a sensor that is recorded in no holder slot. -/
theorem layer_step_release_not_holder (keymap : Nat → Nat → Nat) (l1 dflt : List Nat)
    (cur prev : Nat → Bool) (st : LayerState) (s : Nat) (hs : s < SENSOR_COUNT)
    (hcur : cur (s + 1) = false) (hprev : prev (s + 1) = true) (hnh : not_holder st s) :
    layer_step keymap l1 dflt cur prev st (s + 1) = st := by
  have hrel := release_holder_not_found st.mo_held_sensors (s : Int) hnh
  unfold layer_step
  simp only [hcur, hprev, int8_cast_sensor s hs, MAX_LAYERS, hrel]
  simp

/-- What one pass of the loop body does to the holder table: nothing, or an
MO press records the sensor, or its release clears the slot that names it. -/
theorem layer_step_effect (keymap : Nat → Nat → Nat) (l1 dflt : List Nat)
    (cur prev : Nat → Bool) (st : LayerState) (s : Nat) (hs : s < SENSOR_COUNT) :
    ((layer_step keymap l1 dflt cur prev st (s + 1)).mo_held_sensors = st.mo_held_sensors
      ∧ (cur (s + 1) = prev (s + 1) ∨ cur (s + 1) = true ∨ not_holder st s))
    ∨ (cur (s + 1) = true ∧ prev (s + 1) = false
      ∧ ∃ t, 1 ≤ t ∧ t ≤ 3
        ∧ (layer_step keymap l1 dflt cur prev st (s + 1)).mo_held_sensors
          = upd st.mo_held_sensors t (s : Int))
    ∨ (cur (s + 1) = false ∧ prev (s + 1) = true
      ∧ ∃ L, 1 ≤ L ∧ L ≤ 3 ∧ st.mo_held_sensors L = (s : Int)
        ∧ (layer_step keymap l1 dflt cur prev st (s + 1)).mo_held_sensors
          = upd st.mo_held_sensors L (-1)) := by
  by_cases hedge : cur (s + 1) = prev (s + 1)
  · left
    rw [layer_step_no_edge keymap l1 dflt cur prev st (s + 1) hedge]
    exact ⟨rfl, Or.inl hedge⟩
  · cases hcur : cur (s + 1)
    · -- release edge
      have hprev : prev (s + 1) = true := by
        cases hp : prev (s + 1)
        · rw [hcur, hp] at hedge
          exact absurd rfl hedge
        · rfl
      by_cases hh : ∃ L, 1 ≤ L ∧ L ≤ 3 ∧ st.mo_held_sensors L = (s : Int)
      · right; right
        obtain ⟨L, h1, h3, hL, -, hstep⟩ :=
          layer_step_release keymap l1 dflt cur prev st s hs hcur hprev hh
        exact ⟨rfl, hprev, L, h1, h3, hL, by rw [hstep]⟩
      · left
        have hnh : not_holder st s := fun L h1 h3 e => hh ⟨L, h1, h3, e⟩
        rw [layer_step_release_not_holder keymap l1 dflt cur prev st s hs hcur hprev hnh]
        exact ⟨rfl, Or.inr (Or.inr hnh)⟩
    · -- press edge
      have hprev : prev (s + 1) = false := by
        cases hp : prev (s + 1)
        · rfl
        · rw [hcur, hp] at hedge
          exact absurd rfl hedge
      cases hmo : is_mo_keycode (get_keycode keymap l1 dflt st.current_layer s)
      · left
        refine ⟨?_, Or.inr (Or.inl rfl)⟩
        unfold layer_step
        simp only [hcur, hprev, Nat.add_sub_cancel, hmo]
        simp only [Bool.and_false, Bool.true_and, Bool.not_true, Bool.false_and]
        split_ifs <;> rfl
      · right; left
        refine ⟨rfl, hprev, (get_keycode keymap l1 dflt st.current_layer s - 0xA8 + 1) % 256,
          ?_, ?_, ?_⟩
        · unfold is_mo_keycode at hmo
          simp at hmo
          omega
        · unfold is_mo_keycode at hmo
          simp at hmo
          omega
        · unfold layer_step
          simp only [hcur, hprev, Nat.add_sub_cancel, hmo, int8_cast_sensor s hs]
          simp

theorem int_cast_ne_neg_one (s : Nat) : (-1 : Int) ≠ (s : Int) := by omega

/-- The loop body keeps the holder-table invariant, relative to the pressed
vector in which the processed sensor takes its new state. -/
theorem layer_step_holders_ok (keymap : Nat → Nat → Nat) (l1 dflt : List Nat)
    (cur prev : Nat → Bool) (st : LayerState) (h : Nat → Bool) (s : Nat)
    (hs : s < SENSOR_COUNT) (hh : h (s + 1) = prev (s + 1)) (hok : holders_ok st h) :
    holders_ok (layer_step keymap l1 dflt cur prev st (s + 1)) (upd h (s + 1) (cur (s + 1))) := by
  obtain ⟨hok1, hok2⟩ := hok
  rcases layer_step_effect keymap l1 dflt cur prev st s hs with
    ⟨hmo, hc⟩ | ⟨hcur, hprev, t, ht1, ht3, hmo⟩ | ⟨hcur, hprev, L0, hL1, hL3, hL0, hmo⟩
  · constructor
    · intro s' hs' L h1 h3 e
      rw [hmo] at e
      by_cases es : s' = s
      · subst es
        rw [upd_same]
        rcases hc with hc | hc | hc
        · rw [hc, ← hh]; exact hok1 s' hs' L h1 h3 e
        · exact hc
        · exact absurd e (hc L h1 h3)
      · rw [upd_other _ _ _ _ (by omega)]
        exact hok1 s' hs' L h1 h3 e
    · intro s' hs' L L' h1 h3 h1' h3' e e'
      rw [hmo] at e e'
      exact hok2 s' hs' L L' h1 h3 h1' h3' e e'
  · have hnh : not_holder st s := by
      intro L h1 h3 e
      have := hok1 s hs L h1 h3 e
      rw [hh, hprev] at this
      exact absurd this (by decide)
    constructor
    · intro s' hs' L h1 h3 e
      rw [hmo] at e
      by_cases eL : L = t
      · subst eL
        rw [upd_same] at e
        have es : s' = s := by omega
        subst es
        rw [upd_same]
        exact hcur
      · rw [upd_other _ _ _ _ eL] at e
        have es : s' ≠ s := fun c => hnh L h1 h3 (c ▸ e)
        rw [upd_other _ _ _ _ (by omega)]
        exact hok1 s' hs' L h1 h3 e
    · intro s' hs' L L' h1 h3 h1' h3' e e'
      rw [hmo] at e e'
      by_cases eL : L = t
      · by_cases eL' : L' = t
        · rw [eL, eL']
        · exfalso
          subst eL
          rw [upd_same] at e
          rw [upd_other _ _ _ _ eL'] at e'
          have es : s' = s := by omega
          subst es
          exact hnh L' h1' h3' e'
      · by_cases eL' : L' = t
        · exfalso
          subst eL'
          rw [upd_same] at e'
          rw [upd_other _ _ _ _ eL] at e
          have es : s' = s := by omega
          subst es
          exact hnh L h1 h3 e
        · rw [upd_other _ _ _ _ eL] at e
          rw [upd_other _ _ _ _ eL'] at e'
          exact hok2 s' hs' L L' h1 h3 h1' h3' e e'
  · constructor
    · intro s' hs' L h1 h3 e
      rw [hmo] at e
      by_cases eL : L = L0
      · subst eL
        rw [upd_same] at e
        exact absurd e (int_cast_ne_neg_one s')
      · rw [upd_other _ _ _ _ eL] at e
        have es : s' ≠ s := by
          intro c
          subst c
          exact eL (hok2 s' hs' L L0 h1 h3 hL1 hL3 e hL0)
        rw [upd_other _ _ _ _ (by omega)]
        exact hok1 s' hs' L h1 h3 e
    · intro s' hs' L L' h1 h3 h1' h3' e e'
      rw [hmo] at e e'
      by_cases eL : L = L0
      · subst eL
        rw [upd_same] at e
        exact absurd e (int_cast_ne_neg_one s')
      · by_cases eL' : L' = L0
        · subst eL'
          rw [upd_same] at e'
          exact absurd e' (int_cast_ne_neg_one s')
        · rw [upd_other _ _ _ _ eL] at e
          rw [upd_other _ _ _ _ eL'] at e'
          exact hok2 s' hs' L L' h1 h3 h1' h3' e e'

theorem pressed_upto_zero (cur prev : Nat → Bool) : pressed_upto cur prev 0 = prev := by
  funext i
  unfold pressed_upto
  have : ¬ (1 ≤ i ∧ i ≤ 0) := by omega
  rw [if_neg this]

theorem pressed_upto_succ (cur prev : Nat → Bool) (n : Nat) :
    pressed_upto cur prev (n + 1) = upd (pressed_upto cur prev n) (n + 1) (cur (n + 1)) := by
  funext i
  unfold pressed_upto upd
  by_cases e : i = n + 1
  · subst e
    simp
  · rw [if_neg e]
    by_cases h : 1 ≤ i ∧ i ≤ n
    · have h' : 1 ≤ i ∧ i ≤ n + 1 := by omega
      simp only [if_pos h, if_pos h']
    · have h' : ¬ (1 ≤ i ∧ i ≤ n + 1) := by omega
      simp only [if_neg h, if_neg h']

theorem pressed_upto_next (cur prev : Nat → Bool) (n : Nat) :
    pressed_upto cur prev n (n + 1) = prev (n + 1) := by
  unfold pressed_upto
  have : ¬ (1 ≤ n + 1 ∧ n + 1 ≤ n) := by omega
  rw [if_neg this]

/-- The layer loop keeps the holder-table invariant while it walks the sensors. -/
theorem layer_loop_holders_ok (keymap : Nat → Nat → Nat) (l1 dflt : List Nat)
    (cur prev : Nat → Bool) (st : LayerState) (hok : holders_ok st prev) :
    ∀ n, n ≤ SENSOR_COUNT →
      holders_ok (layer_loop keymap l1 dflt cur prev st n) (pressed_upto cur prev n) := by
  intro n
  induction n with
  | zero =>
    intro _
    rw [pressed_upto_zero]
    exact hok
  | succ n ih =>
    intro hn
    rw [pressed_upto_succ]
    exact layer_step_holders_ok keymap l1 dflt cur prev _ _ n (by omega)
      (pressed_upto_next cur prev n) (ih (by omega))

theorem layer_sys_step_holders_ok (l1 dflt : List Nat) (sys : LayerSys) (ev : LayerEvent)
    (hok : holders_ok sys.st sys.prev_pressed) :
    holders_ok (layer_sys_step l1 dflt sys ev).st (layer_sys_step l1 dflt sys ev).prev_pressed := by
  cases ev with
  | tick keymap cur =>
    exact layer_loop_holders_ok keymap l1 dflt cur sys.prev_pressed sys.st hok SENSOR_COUNT
      (le_refl _)
  | set_layer l => exact hok

theorem layer_sys_run_holders_ok (l1 dflt : List Nat) :
    ∀ (evs : List LayerEvent) (sys : LayerSys), holders_ok sys.st sys.prev_pressed →
      holders_ok (layer_sys_run l1 dflt sys evs).st
        (layer_sys_run l1 dflt sys evs).prev_pressed := by
  intro evs
  induction evs with
  | nil => intro sys h; exact h
  | cons ev evs ih =>
    intro sys h
    exact ih _ (layer_sys_step_holders_ok l1 dflt sys ev h)

theorem layer_sys_boot_holders_ok : holders_ok layer_sys_boot.st layer_sys_boot.prev_pressed := by
  constructor
  · intro s _ L _ _ e
    exact absurd e (int_cast_ne_neg_one s)
  · intro s _ L L' _ _ _ _ e _
    exact absurd e (int_cast_ne_neg_one s)

/-- In every state reached from boot, a sensor that is not pressed is recorded
in no holder slot. -/
theorem reachable_released_not_holder (l1 dflt : List Nat) (evs : List LayerEvent) (s : Nat)
    (hs : s < SENSOR_COUNT)
    (hrel : (layer_sys_run l1 dflt layer_sys_boot evs).prev_pressed (s + 1) = false) :
    not_holder (layer_sys_run l1 dflt layer_sys_boot evs).st s := by
  intro L h1 h3 e
  have := (layer_sys_run_holders_ok l1 dflt evs layer_sys_boot layer_sys_boot_holders_ok).1
    s hs L h1 h3 e
  rw [hrel] at this
  exact absurd this (by decide)

theorem layer_step_frame (keymap : Nat → Nat → Nat) (l1 dflt : List Nat)
    (cur prev : Nat → Bool) (st : LayerState) (s s' : Nat) (hs' : s' < SENSOR_COUNT)
    (hne : s' ≠ s) (hnh : not_holder st s) :
    not_holder (layer_step keymap l1 dflt cur prev st (s' + 1)) s := by
  intro L h1 h3
  rcases layer_step_effect keymap l1 dflt cur prev st s' hs' with
    ⟨hmo, _⟩ | ⟨_, _, t, _, _, hmo⟩ | ⟨_, _, L0, _, _, _, hmo⟩
  · rw [hmo]; exact hnh L h1 h3
  · rw [hmo]
    by_cases e : L = t
    · subst e
      rw [upd_same]
      omega
    · rw [upd_other _ _ _ _ e]; exact hnh L h1 h3
  · rw [hmo]
    by_cases e : L = L0
    · subst e
      rw [upd_same]
      exact int_cast_ne_neg_one s
    · rw [upd_other _ _ _ _ e]; exact hnh L h1 h3

/-- The sensors processed before `s` do not record `s` as a holder. -/
theorem layer_loop_prefix_not_holder (keymap : Nat → Nat → Nat) (l1 dflt : List Nat)
    (cur prev : Nat → Bool) (st : LayerState) (s : Nat) (hs : s < SENSOR_COUNT)
    (hnh : not_holder st s) :
    ∀ n, n ≤ s → not_holder (layer_loop keymap l1 dflt cur prev st n) s := by
  intro n
  induction n with
  | zero => intro _; exact hnh
  | succ n ih =>
    intro hn
    exact layer_step_frame keymap l1 dflt cur prev _ s n (by omega) (by omega) (ih (by omega))

/-- The sensors processed after `s` do not record `s` as a holder. -/
theorem layer_loop_suffix_not_holder (keymap : Nat → Nat → Nat) (l1 dflt : List Nat)
    (cur prev : Nat → Bool) (st : LayerState) (s : Nat)
    (hnh : not_holder (layer_loop keymap l1 dflt cur prev st (s + 1)) s) :
    ∀ d, s + 1 + d ≤ SENSOR_COUNT →
      not_holder (layer_loop keymap l1 dflt cur prev st (s + 1 + d)) s := by
  intro d
  induction d with
  | zero => intro _; exact hnh
  | succ d ih =>
    intro hd
    exact layer_step_frame keymap l1 dflt cur prev _ s (s + 1 + d) (by omega) (by omega)
      (ih (by omega))

/-- A tick in which the step of sensor `s` leaves `s` unrecorded leaves it
unrecorded at the end of the tick. -/
theorem layer_handling_not_holder (keymap : Nat → Nat → Nat) (l1 dflt : List Nat)
    (cur prev : Nat → Bool) (st : LayerState) (s : Nat) (hs : s < SENSOR_COUNT)
    (hstep : not_holder (layer_loop keymap l1 dflt cur prev st (s + 1)) s) :
    not_holder (layer_handling keymap l1 dflt cur prev st) s := by
  unfold layer_handling
  have hd : SENSOR_COUNT = s + 1 + (SENSOR_COUNT - (s + 1)) := by omega
  rw [hd]
  exact layer_loop_suffix_not_holder keymap l1 dflt cur prev st s hstep _ (by omega)

/-- While a sensor that is recorded in no holder slot stays pressed, no event
records it. -/
theorem layer_sys_run_keeps_not_holder (l1 dflt : List Nat) (s : Nat) (hs : s < SENSOR_COUNT) :
    ∀ (evs : List LayerEvent) (sys : LayerSys),
      not_holder sys.st s → sys.prev_pressed (s + 1) = true →
      (∀ e ∈ evs, event_keeps_pressed s e) →
      not_holder (layer_sys_run l1 dflt sys evs).st s
      ∧ (layer_sys_run l1 dflt sys evs).prev_pressed (s + 1) = true := by
  intro evs
  induction evs with
  | nil => intro sys h1 h2 _; exact ⟨h1, h2⟩
  | cons ev evs ih =>
    intro sys hnh hpr hall
    have hev := hall ev (List.mem_cons_self _ _)
    have hrest : ∀ e ∈ evs, event_keeps_pressed s e :=
      fun e he => hall e (List.mem_cons_of_mem _ he)
    cases ev with
    | tick keymap cur =>
      have hc : cur (s + 1) = true := hev
      apply ih _ _ _ hrest
      · apply layer_handling_not_holder keymap l1 dflt cur sys.prev_pressed sys.st s hs
        show not_holder (layer_step keymap l1 dflt cur sys.prev_pressed
          (layer_loop keymap l1 dflt cur sys.prev_pressed sys.st s) (s + 1)) s
        rw [layer_step_no_edge _ _ _ _ _ _ _ (by rw [hc, hpr])]
        exact layer_loop_prefix_not_holder keymap l1 dflt cur sys.prev_pressed sys.st s hs hnh
          s (le_refl _)
      · show (if 1 ≤ s + 1 ∧ s + 1 ≤ SENSOR_COUNT then cur (s + 1)
          else sys.prev_pressed (s + 1)) = true
        rw [if_pos ⟨by omega, hs⟩]
        exact hc
    | set_layer l =>
      exact ih _ hnh hpr hrest

/-- A tick whose only change is the sensor with index `s`. -/
theorem layer_sys_step_single_edge (l1 dflt : List Nat) (keymap : Nat → Nat → Nat)
    (sys : LayerSys) (s : Nat) (v : Bool) (hs : s < SENSOR_COUNT) :
    layer_sys_step l1 dflt sys (LayerEvent.tick keymap (upd sys.prev_pressed (s + 1) v))
      = { st := layer_step keymap l1 dflt (upd sys.prev_pressed (s + 1) v) sys.prev_pressed
            sys.st (s + 1)
          prev_pressed := upd sys.prev_pressed (s + 1) v } := by
  show ({ st := layer_handling keymap l1 dflt (upd sys.prev_pressed (s + 1) v)
            sys.prev_pressed sys.st
          prev_pressed := fun i =>
            if 1 ≤ i ∧ i ≤ SENSOR_COUNT then upd sys.prev_pressed (s + 1) v i
            else sys.prev_pressed i } : LayerSys) = _
  rw [layer_handling_single_edge keymap l1 dflt sys.prev_pressed sys.st s v hs]
  congr 1
  funext i
  by_cases h : 1 ≤ i ∧ i ≤ SENSOR_COUNT
  · rw [if_pos h]
  · rw [if_neg h]
    have : i ≠ s + 1 := by omega
    rw [upd_other _ _ _ _ this]

/-- C12. On the press edge of a sensor whose keycode resolved on the current
layer is TG(n), n in 1..3, current_layer becomes 0 if it was n and n otherwise,
and no holder slot changes. The release edge of that sensor changes nothing:
in every run from boot, after a tick in which the sensor was pressed with a
TG(n) keycode and any further events during which it stays pressed, the loop
body at its release edge leaves the layer state as it is. Consequently, from a
reached state on layer 0, pressing, releasing and pressing again a sensor that
resolves to TG(n) on layer 0 and on layer n gives layer n, n and 0. -/
theorem C12_toggle_layer_press (keymap : Nat → Nat → Nat) (l1 dflt : List Nat)
    (cur prev : Nat → Bool) (st : LayerState) (s n : Nat)
    (evs : List LayerEvent) (kmA : Nat → Nat → Nat) (curA : Nat → Bool)
    (mid : List LayerEvent) (kmR : Nat → Nat → Nat) (curR : Nat → Bool)
    (hs : s < SENSOR_COUNT) (hn1 : 1 ≤ n) (hn3 : n ≤ 3)
    (hcur : cur (s + 1) = true) (hprev : prev (s + 1) = false)
    (hkc : get_keycode keymap l1 dflt st.current_layer s = TG n)
    (hrel0 : (layer_sys_run l1 dflt layer_sys_boot evs).prev_pressed (s + 1) = false)
    (hA : curA (s + 1) = true)
    (hkA : get_keycode kmA l1 dflt
      (layer_state_at kmA l1 dflt curA (layer_sys_run l1 dflt layer_sys_boot evs)
        s).current_layer s = TG n)
    (hmid : ∀ e ∈ mid, event_keeps_pressed s e)
    (hR : curR (s + 1) = false)
    (hcl0 : (layer_sys_run l1 dflt layer_sys_boot evs).st.current_layer = 0)
    (hk0 : get_keycode keymap l1 dflt 0 s = TG n)
    (hkn : get_keycode keymap l1 dflt n s = TG n) :
    layer_step keymap l1 dflt cur prev st (s + 1)
      = { current_layer := if st.current_layer = n then 0 else n
          mo_held_sensors := st.mo_held_sensors }
    ∧ layer_step kmR l1 dflt curR
        (layer_sys_run l1 dflt (layer_sys_run l1 dflt layer_sys_boot evs)
          (LayerEvent.tick kmA curA :: mid)).prev_pressed
        (layer_state_at kmR l1 dflt curR
          (layer_sys_run l1 dflt (layer_sys_run l1 dflt layer_sys_boot evs)
            (LayerEvent.tick kmA curA :: mid)) s) (s + 1)
      = layer_state_at kmR l1 dflt curR
          (layer_sys_run l1 dflt (layer_sys_run l1 dflt layer_sys_boot evs)
            (LayerEvent.tick kmA curA :: mid)) s
    ∧ (layer_sys_run l1 dflt (layer_sys_run l1 dflt layer_sys_boot evs)
        [LayerEvent.tick keymap
          (upd (layer_sys_run l1 dflt layer_sys_boot evs).prev_pressed (s + 1) true)]
        ).st.current_layer = n
    ∧ (layer_sys_run l1 dflt (layer_sys_run l1 dflt layer_sys_boot evs)
        [LayerEvent.tick keymap
          (upd (layer_sys_run l1 dflt layer_sys_boot evs).prev_pressed (s + 1) true),
         LayerEvent.tick keymap
          (upd (upd (layer_sys_run l1 dflt layer_sys_boot evs).prev_pressed (s + 1) true)
            (s + 1) false)]
        ).st.current_layer = n
    ∧ (layer_sys_run l1 dflt (layer_sys_run l1 dflt layer_sys_boot evs)
        [LayerEvent.tick keymap
          (upd (layer_sys_run l1 dflt layer_sys_boot evs).prev_pressed (s + 1) true),
         LayerEvent.tick keymap
          (upd (upd (layer_sys_run l1 dflt layer_sys_boot evs).prev_pressed (s + 1) true)
            (s + 1) false),
         LayerEvent.tick keymap
          (upd (upd (upd (layer_sys_run l1 dflt layer_sys_boot evs).prev_pressed (s + 1) true)
            (s + 1) false) (s + 1) true)]
        ).st.current_layer = 0 := by
  have hnh0 := reachable_released_not_holder l1 dflt evs s hs hrel0
  generalize layer_sys_run l1 dflt layer_sys_boot evs = sys0 at hrel0 hkA hcl0 hnh0 ⊢
  unfold layer_state_at at hkA ⊢
  refine ⟨layer_step_tg_press keymap l1 dflt cur prev st s n hn1 hn3 hcur hprev hkc, ?_, ?_⟩
  · -- the release edge after a TG press
    have hrunA : layer_sys_run l1 dflt sys0 (LayerEvent.tick kmA curA :: mid)
        = layer_sys_run l1 dflt (layer_sys_step l1 dflt sys0 (LayerEvent.tick kmA curA)) mid :=
      rfl
    rw [hrunA]
    have hprefA := layer_loop_prefix_not_holder kmA l1 dflt curA sys0.prev_pressed sys0.st s hs
      hnh0 s (le_refl _)
    have hnhA : not_holder (layer_sys_step l1 dflt sys0 (LayerEvent.tick kmA curA)).st s := by
      apply layer_handling_not_holder kmA l1 dflt curA sys0.prev_pressed sys0.st s hs
      show not_holder (layer_step kmA l1 dflt curA sys0.prev_pressed
        (layer_loop kmA l1 dflt curA sys0.prev_pressed sys0.st s) (s + 1)) s
      rw [layer_step_tg_press kmA l1 dflt curA sys0.prev_pressed _ s n hn1 hn3 hA hrel0 hkA]
      exact hprefA
    have hprA : (layer_sys_step l1 dflt sys0 (LayerEvent.tick kmA curA)).prev_pressed (s + 1)
        = true := by
      show (if 1 ≤ s + 1 ∧ s + 1 ≤ SENSOR_COUNT then curA (s + 1)
        else sys0.prev_pressed (s + 1)) = true
      rw [if_pos ⟨by omega, hs⟩]
      exact hA
    obtain ⟨hnhB, hprB⟩ := layer_sys_run_keeps_not_holder l1 dflt s hs mid _ hnhA hprA hmid
    generalize layer_sys_run l1 dflt (layer_sys_step l1 dflt sys0 (LayerEvent.tick kmA curA)) mid
      = sysB at hnhB hprB ⊢
    have hprefR := layer_loop_prefix_not_holder kmR l1 dflt curR sysB.prev_pressed sysB.st s hs
      hnhB s (le_refl _)
    exact layer_step_release_not_holder kmR l1 dflt curR sysB.prev_pressed _ s hs hR hprB hprefR
  · -- press, release, press from layer 0
    have e1 : layer_sys_step l1 dflt sys0
        (LayerEvent.tick keymap (upd sys0.prev_pressed (s + 1) true))
        = { st := { current_layer := n, mo_held_sensors := sys0.st.mo_held_sensors }
            prev_pressed := upd sys0.prev_pressed (s + 1) true } := by
      rw [layer_sys_step_single_edge l1 dflt keymap sys0 s true hs,
        layer_step_tg_press keymap l1 dflt _ sys0.prev_pressed sys0.st s n hn1 hn3
          (upd_same _ _ _) hrel0 (by rw [hcl0]; exact hk0), hcl0]
      have : ¬ (0 = n) := by omega
      rw [if_neg this]
    have e2 : layer_sys_step l1 dflt
        { st := { current_layer := n, mo_held_sensors := sys0.st.mo_held_sensors }
          prev_pressed := upd sys0.prev_pressed (s + 1) true }
        (LayerEvent.tick keymap (upd (upd sys0.prev_pressed (s + 1) true) (s + 1) false))
        = { st := { current_layer := n, mo_held_sensors := sys0.st.mo_held_sensors }
            prev_pressed := upd (upd sys0.prev_pressed (s + 1) true) (s + 1) false } := by
      have h := layer_sys_step_single_edge l1 dflt keymap
        { st := { current_layer := n, mo_held_sensors := sys0.st.mo_held_sensors }
          prev_pressed := upd sys0.prev_pressed (s + 1) true } s false hs
      rw [h]
      rw [layer_step_release_not_holder keymap l1 dflt _ _
        { current_layer := n, mo_held_sensors := sys0.st.mo_held_sensors } s hs
        (upd_same _ _ _) (upd_same _ _ _) hnh0]
    have e3 : layer_sys_step l1 dflt
        { st := { current_layer := n, mo_held_sensors := sys0.st.mo_held_sensors }
          prev_pressed := upd (upd sys0.prev_pressed (s + 1) true) (s + 1) false }
        (LayerEvent.tick keymap
          (upd (upd (upd sys0.prev_pressed (s + 1) true) (s + 1) false) (s + 1) true))
        = { st := { current_layer := 0, mo_held_sensors := sys0.st.mo_held_sensors }
            prev_pressed :=
              upd (upd (upd sys0.prev_pressed (s + 1) true) (s + 1) false) (s + 1) true } := by
      have h := layer_sys_step_single_edge l1 dflt keymap
        { st := { current_layer := n, mo_held_sensors := sys0.st.mo_held_sensors }
          prev_pressed := upd (upd sys0.prev_pressed (s + 1) true) (s + 1) false } s true hs
      rw [h]
      rw [layer_step_tg_press keymap l1 dflt _ _ _ s n hn1 hn3 (upd_same _ _ _)
        (upd_same _ _ _) hkn]
      simp
    refine ⟨?_, ?_, ?_⟩
    · simp only [layer_sys_run, List.foldl_cons, List.foldl_nil]
      rw [e1]
    · simp only [layer_sys_run, List.foldl_cons, List.foldl_nil]
      rw [e1, e2]
    · simp only [layer_sys_run, List.foldl_cons, List.foldl_nil]
      rw [e1, e2, e3]

/-- C12 with sensor index 5 mapped to TG(2) on every layer, from boot. -/
theorem C12_toggle_layer_press_witness :
    (layer_sys_run [] [] (layer_sys_run [] [] layer_sys_boot [])
        [LayerEvent.tick (fun _ i => if i = 5 then TG 2 else 0)
          (upd (layer_sys_run [] [] layer_sys_boot []).prev_pressed (5 + 1) true),
         LayerEvent.tick (fun _ i => if i = 5 then TG 2 else 0)
          (upd (upd (layer_sys_run [] [] layer_sys_boot []).prev_pressed (5 + 1) true)
            (5 + 1) false),
         LayerEvent.tick (fun _ i => if i = 5 then TG 2 else 0)
          (upd (upd (upd (layer_sys_run [] [] layer_sys_boot []).prev_pressed (5 + 1) true)
            (5 + 1) false) (5 + 1) true)]
        ).st.current_layer = 0 :=
  (C12_toggle_layer_press (fun _ i => if i = 5 then TG 2 else 0) [] []
    (fun _ => true) (fun _ => false) layer_init 5 2
    [] (fun _ i => if i = 5 then TG 2 else 0) (fun _ => true) []
    (fun _ i => if i = 5 then TG 2 else 0) (fun _ => false)
    (by decide) (by decide) (by decide) (by decide) (by decide) (by decide) (by decide)
    (by decide) (by decide) (fun e he => absurd he (List.not_mem_nil e)) (by decide)
    (by decide) (by decide) (by decide)).2.2.2.2

/-- Sensors without an edge do not move the layer state. -/
theorem layer_loop_no_edges_between (keymap : Nat → Nat → Nat) (l1 dflt : List Nat)
    (cur prev : Nat → Bool) (st : LayerState) (m : Nat) :
    ∀ d, (∀ i, m < i → i ≤ m + d → cur i = prev i) →
      layer_loop keymap l1 dflt cur prev st (m + d) = layer_loop keymap l1 dflt cur prev st m := by
  intro d
  induction d with
  | zero => intro _; rfl
  | succ d ih =>
    intro h
    show layer_step keymap l1 dflt cur prev (layer_loop keymap l1 dflt cur prev st (m + d))
      (m + d + 1) = _
    rw [layer_step_no_edge _ _ _ _ _ _ _ (h (m + d + 1) (by omega) (by omega))]
    exact ih (fun i h1 h2 => h i h1 (by omega))

/-- C13 (amended). Within one scan tick the edges are processed in ascending
sensor order and each edge is classified against current_layer as it stands
when its sensor is reached. The lowest-numbered edge of a tick is classified
against the layer left by the previous tick; but when a lower-numbered sensor
`a` has an MO(n) press in the tick, a higher-numbered sensor `b` (no other edge
before it) is classified against layer n, not against the previous layer. -/
theorem C13_edges_classified_in_order (keymap : Nat → Nat → Nat) (l1 dflt : List Nat)
    (cur prev : Nat → Bool) (st : LayerState) (a b n : Nat)
    (hab : a < b) (hb : b < SENSOR_COUNT) (hn1 : 1 ≤ n) (hn3 : n ≤ 3)
    (hlow : ∀ i, i ≤ b → i ≠ a + 1 → cur i = prev i)
    (hcur : cur (a + 1) = true) (hprev : prev (a + 1) = false)
    (hkc : get_keycode keymap l1 dflt st.current_layer a = MO n) :
    layer_state_at keymap l1 dflt cur { st := st, prev_pressed := prev } a = st
    ∧ layer_state_at keymap l1 dflt cur { st := st, prev_pressed := prev } b
        = { current_layer := n, mo_held_sensors := upd st.mo_held_sensors n (a : Int) }
    ∧ layer_state_at keymap l1 dflt cur { st := st, prev_pressed := prev } (b + 1)
        = layer_step keymap l1 dflt cur prev
            { current_layer := n, mo_held_sensors := upd st.mo_held_sensors n (a : Int) }
            (b + 1) := by
  unfold layer_state_at
  simp only
  have h1 : layer_loop keymap l1 dflt cur prev st a = st := by
    have := layer_loop_no_edges_between keymap l1 dflt cur prev st 0 a
      (fun i _ h2 => hlow i (by omega) (by omega))
    rw [Nat.zero_add] at this
    exact this
  have h2 : layer_loop keymap l1 dflt cur prev st (a + 1)
      = { current_layer := n, mo_held_sensors := upd st.mo_held_sensors n (a : Int) } := by
    show layer_step keymap l1 dflt cur prev (layer_loop keymap l1 dflt cur prev st a) (a + 1) = _
    rw [h1]
    exact layer_step_mo_press keymap l1 dflt cur prev st a n (by omega) hn1 hn3 hcur hprev hkc
  have h3 : layer_loop keymap l1 dflt cur prev st b
      = { current_layer := n, mo_held_sensors := upd st.mo_held_sensors n (a : Int) } := by
    have hd : b = (a + 1) + (b - (a + 1)) := by omega
    rw [hd, layer_loop_no_edges_between keymap l1 dflt cur prev st (a + 1) (b - (a + 1))
      (fun i h1 h2 => hlow i (by omega) (by omega))]
    exact h2
  refine ⟨h1, h3, ?_⟩
  show layer_step keymap l1 dflt cur prev (layer_loop keymap l1 dflt cur prev st b) (b + 1) = _
  rw [h3]

/-- C13 on the same-tick example from boot: sensor index 0 is pressed with
MO(1), and sensor index 1 is then reached on layer 1. -/
theorem C13_edges_classified_in_order_witness :
    layer_state_at example_keymap_same_tick [] [] (fun i => decide (i = 1 ∨ i = 2))
        { st := layer_init, prev_pressed := fun _ => false } 1
      = { current_layer := 1
          mo_held_sensors := upd layer_init.mo_held_sensors 1 ((0 : Nat) : Int) } :=
  (C13_edges_classified_in_order example_keymap_same_tick [] []
    (fun i => decide (i = 1 ∨ i = 2)) (fun _ => false) layer_init 0 1 1
    (by decide) (by decide) (by decide) (by decide) (by decide) (by decide) (by decide)
    (by decide)).2.1

/-- C13 as stated fails: from boot (layer 0), sensors 0 and 1 are pressed in
the same tick. On layer 0, the layer of the previous tick, the keycode of
sensor 1 is the plain key 0x04, no layer key; the loop classifies its edge with
the keycode MO(2) of layer 1, which the MO(1) press of sensor 0 has just
activated, and the tick ends on layer 2 with sensor 1 recorded as a holder. -/
theorem C13_counterexample :
    get_keycode example_keymap_same_tick [] [] layer_init.current_layer 1 = 0x04
    ∧ is_mo_keycode 0x04 = false ∧ is_tg_keycode 0x04 = false
    ∧ get_keycode example_keymap_same_tick [] []
        (layer_state_at example_keymap_same_tick [] [] (fun i => decide (i = 1 ∨ i = 2))
          { st := layer_init, prev_pressed := fun _ => false } 1).current_layer 1 = MO 2
    ∧ (layer_handling example_keymap_same_tick [] [] (fun i => decide (i = 1 ∨ i = 2))
        (fun _ => false) layer_init).current_layer = 2
    ∧ (layer_handling example_keymap_same_tick [] [] (fun i => decide (i = 1 ∨ i = 2))
        (fun _ => false) layer_init).mo_held_sensors 2 = 1 := by
  decide

/-- C14. For n in 1..3, MO(n) = 0xA7 + n satisfies `is_mo_keycode` and the
layer step decodes it to target layer n (kc - 0xA8 + 1): an MO(n) press sets
current_layer to n and records the sensor in slot n; TG(n) = 0xAA + n
satisfies `is_tg_keycode` and decodes to target n (kc - 0xAB + 1): a TG(n)
press toggles between n and 0. For every keycode, `is_mo_keycode` holds iff
0xA8 <= kc <= 0xAA and `is_tg_keycode` iff 0xAB <= kc <= 0xAD, no keycode is
both, and every decoded target is an index 1..3 of the holder table. -/
theorem C14_layer_keycode_ranges (keymap : Nat → Nat → Nat) (l1 dflt : List Nat)
    (cur prev : Nat → Bool) (st : LayerState) (s n : Nat)
    (hs : s < SENSOR_COUNT) (hn1 : 1 ≤ n) (hn3 : n ≤ 3)
    (hcur : cur (s + 1) = true) (hprev : prev (s + 1) = false) :
    (MO n = 0xA7 + n ∧ is_mo_keycode (MO n) = true ∧ (MO n - 0xA8 + 1) % 256 = n)
    ∧ (get_keycode keymap l1 dflt st.current_layer s = MO n →
        layer_step keymap l1 dflt cur prev st (s + 1)
          = { current_layer := n, mo_held_sensors := upd st.mo_held_sensors n (s : Int) })
    ∧ (TG n = 0xAA + n ∧ is_tg_keycode (TG n) = true ∧ (TG n - 0xAB + 1) % 256 = n)
    ∧ (get_keycode keymap l1 dflt st.current_layer s = TG n →
        layer_step keymap l1 dflt cur prev st (s + 1)
          = { current_layer := if st.current_layer = n then 0 else n
              mo_held_sensors := st.mo_held_sensors })
    ∧ (∀ kc, is_mo_keycode kc = true ↔ (0xA8 ≤ kc ∧ kc ≤ 0xAA))
    ∧ (∀ kc, is_tg_keycode kc = true ↔ (0xAB ≤ kc ∧ kc ≤ 0xAD))
    ∧ (∀ kc, ¬ (is_mo_keycode kc = true ∧ is_tg_keycode kc = true))
    ∧ (∀ kc, is_mo_keycode kc = true →
        1 ≤ (kc - 0xA8 + 1) % 256 ∧ (kc - 0xA8 + 1) % 256 ≤ 3)
    ∧ (∀ kc, is_tg_keycode kc = true →
        1 ≤ (kc - 0xAB + 1) % 256 ∧ (kc - 0xAB + 1) % 256 ≤ 3) := by
  have hmo : ∀ kc, is_mo_keycode kc = true ↔ (0xA8 ≤ kc ∧ kc ≤ 0xAA) := by
    intro kc
    unfold is_mo_keycode
    simp
  have htg : ∀ kc, is_tg_keycode kc = true ↔ (0xAB ≤ kc ∧ kc ≤ 0xAD) := by
    intro kc
    unfold is_tg_keycode
    simp
  refine ⟨⟨rfl, ?_, ?_⟩, ?_, ⟨rfl, ?_, ?_⟩, ?_, hmo, htg, ?_, ?_, ?_⟩
  · rw [hmo]; unfold MO; omega
  · unfold MO; omega
  · exact layer_step_mo_press keymap l1 dflt cur prev st s n hs hn1 hn3 hcur hprev
  · rw [htg]; unfold TG; omega
  · unfold TG; omega
  · exact layer_step_tg_press keymap l1 dflt cur prev st s n hn1 hn3 hcur hprev
  · intro kc ⟨a, b⟩
    rw [hmo] at a
    rw [htg] at b
    omega
  · intro kc a
    rw [hmo] at a
    omega
  · intro kc a
    rw [htg] at a
    omega

/-- C14 at n = 3: the keycode 0xAA pressed at sensor index 7 on layer 0. -/
theorem C14_layer_keycode_ranges_witness :
    layer_step (fun _ _ => 0xAA) [] [] (fun _ => true) (fun _ => false) layer_init (7 + 1)
      = { current_layer := 3
          mo_held_sensors := upd layer_init.mo_held_sensors 3 ((7 : Nat) : Int) } :=
  (C14_layer_keycode_ranges (fun _ _ => 0xAA) [] [] (fun _ => true) (fun _ => false)
    layer_init 7 3 (by decide) (by decide) (by decide) (by decide) (by decide)).2.1
    (by decide)

/-! ### Calibration tables: overwrite, overrides, invariants -/

theorem foldl_invariant {σ P : Type} (f : σ → P → σ) (Inv : σ → Prop)
    (hstep : ∀ st q, Inv st → Inv (f st q)) :
    ∀ (l : List P) (init : σ), Inv init → Inv (l.foldl f init) := by
  intro l
  induction l with
  | nil => intro init h; exact h
  | cons q l ih => intro init h; exact ih (f init q) (hstep init q h)

theorem foldl_rel {σ P : Type} (f : σ → P → σ) (R : σ → σ → Prop)
    (hstep : ∀ a b q, R a b → R (f a q) (f b q)) :
    ∀ (l : List P) (a b : σ), R a b → R (l.foldl f a) (l.foldl f b) := by
  intro l
  induction l with
  | nil => intro a b h; exact h
  | cons q l ih => intro a b h; exact ih (f a q) (f b q) (hstep a b q h)

theorem calibrate_clear_agree (a b : CalState) :
    cal_agree (calibrate_clear a) (calibrate_clear b) := by
  intro i hi
  simp [calibrate_clear, hi]

theorem calibrate_channel_agree (mux_maps : Nat → Nat → Nat) (reads : Nat → Nat → Nat → Nat)
    (a b : CalState) (q : Nat × Nat) (h : cal_agree a b) :
    cal_agree (calibrate_channel mux_maps reads a q) (calibrate_channel mux_maps reads b q) := by
  unfold calibrate_channel
  by_cases h1 : mux_maps q.1 q.2 = 0 ∨ mux_maps q.1 q.2 > SENSOR_COUNT
  · simp only [h1, if_true]; exact h
  · simp only [h1, if_false]
    by_cases h2 : sample_adc_avg (reads q.1 q.2) < ADC_MIN_VALID
    · simp only [h2, if_true]; exact h
    · simp only [h2, if_false]
      intro i hi
      by_cases e : i = (mux_maps q.1 q.2 - 1) % 256
      · rw [e]
        exact ⟨(upd_same _ _ _).trans (upd_same _ _ _).symm,
          (upd_same _ _ _).trans (upd_same _ _ _).symm⟩
      · simp only [upd_other _ _ _ _ e]
        exact h i hi

/-- A calibration run over `n` multiplexers does not depend on the tables it
starts from. -/
theorem calibrate_run_agree (n : Nat) (mux_maps : Nat → Nat → Nat)
    (reads : Nat → Nat → Nat → Nat) (a b : CalState) :
    cal_agree
      ((mux_positions n).foldl (calibrate_channel mux_maps reads) (calibrate_clear a))
      ((mux_positions n).foldl (calibrate_channel mux_maps reads) (calibrate_clear b)) :=
  foldl_rel (calibrate_channel mux_maps reads) cal_agree
    (fun x y q h => calibrate_channel_agree mux_maps reads x y q h)
    (mux_positions n) _ _ (calibrate_clear_agree a b)

/-- C19. The baseline and threshold tables after a calibration run (main.c and
hallscan.c alike) are determined by the samples of that run: two runs with the
same samples from any two prior table contents give the same tables, also when
the prior thresholds were changed by an actuation override or a settings load,
and running the calibration twice with the same samples gives the same tables
as running it once. -/
theorem C19_calibration_overwrites (mux_maps : Nat → Nat → Nat)
    (reads : Nat → Nat → Nat → Nat) (st st2 : CalState) (k p : Nat) (acts : Nat → Nat) :
    cal_agree (mcp3208_hallscan_calibrate mux_maps reads st)
      (mcp3208_hallscan_calibrate mux_maps reads st2)
    ∧ cal_agree (hallscan_calibrate mux_maps reads st) (hallscan_calibrate mux_maps reads st2)
    ∧ cal_agree (mcp3208_hallscan_calibrate mux_maps reads (apply_actuation_set st k p))
        (mcp3208_hallscan_calibrate mux_maps reads st)
    ∧ cal_agree (mcp3208_hallscan_calibrate mux_maps reads (restore_thresholds st acts))
        (mcp3208_hallscan_calibrate mux_maps reads st)
    ∧ cal_agree
        (mcp3208_hallscan_calibrate mux_maps reads
          (mcp3208_hallscan_calibrate mux_maps reads st))
        (mcp3208_hallscan_calibrate mux_maps reads st)
    ∧ cal_agree
        (hallscan_calibrate mux_maps reads (hallscan_calibrate mux_maps reads st))
        (hallscan_calibrate mux_maps reads st) :=
  ⟨calibrate_run_agree MUX_COUNT mux_maps reads st st2,
    calibrate_run_agree 4 mux_maps reads st st2,
    calibrate_run_agree MUX_COUNT mux_maps reads _ st,
    calibrate_run_agree MUX_COUNT mux_maps reads _ st,
    calibrate_run_agree MUX_COUNT mux_maps reads _ st,
    calibrate_run_agree 4 mux_maps reads _ st⟩

theorem threshold_from_le (b p : Nat) (hb : b < 65536) (hp : p ≤ 100) :
    threshold_from b p = b * (100 - p) / 100 ∧ threshold_from b p ≤ b := by
  unfold threshold_from
  have h1 : (100 + 2 ^ 32 - p % 2 ^ 32) % 2 ^ 32 = 100 - p := by omega
  rw [h1]
  have hle : b * (100 - p) ≤ b * 100 := Nat.mul_le_mul_left b (by omega)
  have h2 : b * (100 - p) % 2 ^ 32 = b * (100 - p) := Nat.mod_eq_of_lt (by omega)
  rw [h2]
  have h3 : b * (100 - p) / 100 ≤ b := by
    calc b * (100 - p) / 100 ≤ b * 100 / 100 := Nat.div_le_div_right hle
      _ = b := Nat.mul_div_cancel b (by decide)
  have h4 : ¬ (b * (100 - p) / 100 > 0xFFFF) := by omega
  simp only [h4, if_false]
  rw [Nat.mod_eq_of_lt (by omega)]
  exact ⟨rfl, h3⟩

/-- After a calibration run every threshold is at most its baseline, for every
wiring table. -/
theorem calibrate_run_threshold_le (n : Nat) (mux_maps : Nat → Nat → Nat)
    (reads : Nat → Nat → Nat → Nat) (st : CalState) :
    ∀ i, i < SENSOR_COUNT →
      ((mux_positions n).foldl (calibrate_channel mux_maps reads)
          (calibrate_clear st)).sensor_thresholds i
        ≤ ((mux_positions n).foldl (calibrate_channel mux_maps reads)
          (calibrate_clear st)).sensor_baseline i := by
  apply foldl_invariant (calibrate_channel mux_maps reads)
    (fun c : CalState => ∀ i, i < SENSOR_COUNT → c.sensor_thresholds i ≤ c.sensor_baseline i)
  · intro c q hc i hi
    unfold calibrate_channel
    by_cases h1 : mux_maps q.1 q.2 = 0 ∨ mux_maps q.1 q.2 > SENSOR_COUNT
    · simp only [h1, if_true]; exact hc i hi
    · simp only [h1, if_false]
      by_cases h2 : sample_adc_avg (reads q.1 q.2) < ADC_MIN_VALID
      · simp only [h2, if_true]; exact hc i hi
      · simp only [h2, if_false]
        by_cases e : i = (mux_maps q.1 q.2 - 1) % 256
        · rw [e]
          simp only [upd_same]
          exact (threshold_from_le _ _ (sample_adc_avg_lt _) (by decide)).2
        · simp only [upd_other _ _ _ _ e]
          exact hc i hi
  · intro i hi
    simp [calibrate_clear, hi]

/-- The set-actuation override keeps `threshold <= baseline` when the
percentage is at most 100. -/
theorem apply_actuation_set_threshold_le (cal : CalState) (k p : Nat) (hp : p ≤ 100)
    (hb : ∀ i, i < SENSOR_COUNT → cal.sensor_baseline i < 65536)
    (hinv : ∀ i, i < SENSOR_COUNT → cal.sensor_thresholds i ≤ cal.sensor_baseline i) :
    ∀ i, i < SENSOR_COUNT →
      (apply_actuation_set cal k p).sensor_thresholds i
        ≤ (apply_actuation_set cal k p).sensor_baseline i := by
  intro i hi
  unfold apply_actuation_set
  by_cases hk : k < SENSOR_COUNT
  · rw [if_pos hk]
    by_cases e : i = k
    · subst e
      simp only [upd_same]
      exact (threshold_from_le _ _ (hb i hi) hp).2
    · simp only [upd_other _ _ _ _ e]
      exact hinv i hi
  · rw [if_neg hk]
    exact hinv i hi

/-- C17 at the failing inputs: after a calibration of the example board in
which every sensor reads 1000 (baseline 1000, threshold 930), draining a
set-actuation request for key 0 with the percentage byte 101 stores the
threshold 65535 > 1000, and so does a settings load whose stored actuation
for key 0 is 101. -/
theorem C17_percentage_above_100 :
    (mcp3208_hallscan_calibrate example_mux_maps (fun _ _ _ => 1000) cal_boot).sensor_baseline 0
      = 1000
    ∧ (mcp3208_hallscan_calibrate example_mux_maps (fun _ _ _ => 1000)
        cal_boot).sensor_thresholds 0 = 930
    ∧ (apply_actuation_set
        (mcp3208_hallscan_calibrate example_mux_maps (fun _ _ _ => 1000) cal_boot)
        0 101).sensor_baseline 0 = 1000
    ∧ (apply_actuation_set
        (mcp3208_hallscan_calibrate example_mux_maps (fun _ _ _ => 1000) cal_boot)
        0 101).sensor_thresholds 0 = 65535
    ∧ (restore_thresholds
        (mcp3208_hallscan_calibrate example_mux_maps (fun _ _ _ => 1000) cal_boot)
        (fun _ => 101)).sensor_thresholds 0 = 65535 := by
  decide

theorem threshold_from_zero (p : Nat) : threshold_from 0 p = 0 := by
  unfold threshold_from
  simp

/-- In the tables of main.c a zero baseline always comes with a zero
threshold: this holds at program start and after every calibration run,
set-actuation request and settings load. -/
theorem cal_step_zero_baseline (mux_maps : Nat → Nat → Nat) (cal : CalState) (ev : CalEvent)
    (hz : ∀ i, cal.sensor_baseline i = 0 → cal.sensor_thresholds i = 0) :
    ∀ i, (cal_step mux_maps cal ev).sensor_baseline i = 0 →
      (cal_step mux_maps cal ev).sensor_thresholds i = 0 := by
  cases ev with
  | calibrate reads =>
    show ∀ i, (mcp3208_hallscan_calibrate mux_maps reads cal).sensor_baseline i = 0 →
      (mcp3208_hallscan_calibrate mux_maps reads cal).sensor_thresholds i = 0
    unfold mcp3208_hallscan_calibrate
    apply foldl_invariant (calibrate_channel mux_maps reads)
      (fun c : CalState => ∀ i, c.sensor_baseline i = 0 → c.sensor_thresholds i = 0)
    · intro c q hc i
      unfold calibrate_channel
      by_cases h1 : mux_maps q.1 q.2 = 0 ∨ mux_maps q.1 q.2 > SENSOR_COUNT
      · simp only [h1, if_true]; exact hc i
      · simp only [h1, if_false]
        by_cases h2 : sample_adc_avg (reads q.1 q.2) < ADC_MIN_VALID
        · simp only [h2, if_true]; exact hc i
        · simp only [h2, if_false]
          by_cases e : i = (mux_maps q.1 q.2 - 1) % 256
          · rw [e]
            simp only [upd_same]
            intro h0
            unfold ADC_MIN_VALID at h2
            omega
          · simp only [upd_other _ _ _ _ e]
            exact hc i
    · intro i
      unfold calibrate_clear
      by_cases hi : i < SENSOR_COUNT
      · simp [hi]
      · simp only [hi, if_false]
        exact hz i
  | set_actuation k p =>
    show ∀ i, (apply_actuation_set cal k p).sensor_baseline i = 0 →
      (apply_actuation_set cal k p).sensor_thresholds i = 0
    intro i
    unfold apply_actuation_set
    by_cases hk : k < SENSOR_COUNT
    · rw [if_pos hk]
      by_cases e : i = k
      · subst e
        simp only [upd_same]
        intro h0
        rw [h0]
        exact threshold_from_zero p
      · simp only [upd_other _ _ _ _ e]
        exact hz i
    · rw [if_neg hk]
      exact hz i
  | load acts =>
    show ∀ i, (restore_thresholds cal acts).sensor_baseline i = 0 →
      (restore_thresholds cal acts).sensor_thresholds i = 0
    intro i h0
    unfold restore_thresholds at h0 ⊢
    simp only at h0 ⊢
    have : ¬ (i < SENSOR_COUNT ∧ cal.sensor_baseline i > 0 ∧ acts i > 0) := by
      rintro ⟨_, hb, _⟩
      omega
    rw [if_neg this]
    exact hz i h0

theorem cal_run_zero_baseline (mux_maps : Nat → Nat → Nat) (evs : List CalEvent) :
    ∀ i, (cal_run mux_maps cal_boot evs).sensor_baseline i = 0 →
      (cal_run mux_maps cal_boot evs).sensor_thresholds i = 0 := by
  unfold cal_run
  apply foldl_invariant (cal_step mux_maps)
    (fun c : CalState => ∀ i, c.sensor_baseline i = 0 → c.sensor_thresholds i = 0)
  · intro c ev hc
    exact cal_step_zero_baseline mux_maps c ev hc
  · intro i _
    rfl

theorem cal_state_ext (a b : CalState) (h1 : a.sensor_baseline = b.sensor_baseline)
    (h2 : a.sensor_thresholds = b.sensor_thresholds) : a = b := by
  cases a
  cases b
  simp only at h1 h2
  rw [h1, h2]

/-- C18. Draining a set-actuation request for key k < SENSOR_COUNT with
percentage p <= 100 sets threshold[k] to floor(baseline[k] * (100 - p) / 100)
from the existing baseline and leaves every baseline and every other threshold
unchanged; in every table state reached from program start by calibration
runs, requests and settings loads, a request for a key whose baseline is 0
leaves the tables as they are; a request with k >= SENSOR_COUNT changes
nothing. -/
theorem C18_set_actuation_override (mux_maps : Nat → Nat → Nat) (cal : CalState)
    (k p k0 p0 kBig pBig : Nat) (evs : List CalEvent)
    (hk : k < SENSOR_COUNT) (hp : p ≤ 100) (hb : cal.sensor_baseline k < 65536)
    (h0 : (cal_run mux_maps cal_boot evs).sensor_baseline k0 = 0)
    (hbig : SENSOR_COUNT ≤ kBig) :
    (apply_actuation_set cal k p).sensor_thresholds k = cal.sensor_baseline k * (100 - p) / 100
    ∧ (apply_actuation_set cal k p).sensor_baseline = cal.sensor_baseline
    ∧ (∀ j, j ≠ k → (apply_actuation_set cal k p).sensor_thresholds j = cal.sensor_thresholds j)
    ∧ apply_actuation_set (cal_run mux_maps cal_boot evs) k0 p0 = cal_run mux_maps cal_boot evs
    ∧ apply_actuation_set cal kBig pBig = cal := by
  refine ⟨?_, ?_, ?_, ?_, ?_⟩
  · unfold apply_actuation_set
    rw [if_pos hk]
    simp only [upd_same]
    exact (threshold_from_le _ _ hb hp).1
  · unfold apply_actuation_set
    rw [if_pos hk]
  · intro j hj
    unfold apply_actuation_set
    rw [if_pos hk]
    exact upd_other _ _ _ _ hj
  · have hz := cal_run_zero_baseline mux_maps evs k0 h0
    generalize cal_run mux_maps cal_boot evs = c at h0 hz ⊢
    unfold apply_actuation_set
    by_cases hk0 : k0 < SENSOR_COUNT
    · rw [if_pos hk0]
      apply cal_state_ext
      · rfl
      · funext j
        show upd c.sensor_thresholds k0 (threshold_from (c.sensor_baseline k0) p0) j
          = c.sensor_thresholds j
        by_cases e : j = k0
        · subst e
          rw [upd_same, h0, threshold_from_zero, hz]
        · exact upd_other _ _ _ _ e
    · rw [if_neg hk0]
  · unfold apply_actuation_set
    have : ¬ kBig < SENSOR_COUNT := by omega
    rw [if_neg this]

/-- C18 on the example board: a calibration in which sensor 0 floats (reads
100) and the others read 2000; key 1 gets the percentage 25, key 0 is left
alone by a request. -/
theorem C18_set_actuation_override_witness :
    (apply_actuation_set
        (mcp3208_hallscan_calibrate example_mux_maps
          (fun m ch _ => if m = 0 ∧ ch = 0 then 100 else 2000) cal_boot)
        1 25).sensor_thresholds 1
      = (mcp3208_hallscan_calibrate example_mux_maps
          (fun m ch _ => if m = 0 ∧ ch = 0 then 100 else 2000) cal_boot).sensor_baseline 1
        * (100 - 25) / 100
    ∧ apply_actuation_set
        (cal_run example_mux_maps cal_boot
          [CalEvent.calibrate (fun m ch _ => if m = 0 ∧ ch = 0 then 100 else 2000)]) 0 40
      = cal_run example_mux_maps cal_boot
          [CalEvent.calibrate (fun m ch _ => if m = 0 ∧ ch = 0 then 100 else 2000)] :=
  ⟨(C18_set_actuation_override example_mux_maps
      (mcp3208_hallscan_calibrate example_mux_maps
        (fun m ch _ => if m = 0 ∧ ch = 0 then 100 else 2000) cal_boot)
      1 25 0 40 64 0
      [CalEvent.calibrate (fun m ch _ => if m = 0 ∧ ch = 0 then 100 else 2000)]
      (by decide) (by decide) (by decide) (by decide) (by decide)).1,
   (C18_set_actuation_override example_mux_maps
      (mcp3208_hallscan_calibrate example_mux_maps
        (fun m ch _ => if m = 0 ∧ ch = 0 then 100 else 2000) cal_boot)
      1 25 0 40 64 0
      [CalEvent.calibrate (fun m ch _ => if m = 0 ∧ ch = 0 then 100 else 2000)]
      (by decide) (by decide) (by decide) (by decide) (by decide)).2.2.2.1⟩

/-! ### Loading the persisted settings -/

/-- C20. `load_settings_from_flash` returns false and leaves the keymap, the
threshold table, the advanced-calibration tables, the SOCD enable flag and the
LED-enable flag (the whole state) unchanged whenever the stored magic is not
SETTINGS_MAGIC, the version is none of 1, 2, 3, or the stored checksum differs
from the 32-bit byte sum over the bytes preceding the checksum field in the
layout of the stored version; and whenever it returns true, the magic, the
version and that checksum check all passed. -/
theorem C20_load_settings_checks (v1 v2 v3 : settings_view) (st : MainState)
    (w1 w2 w3 : settings_view) (st2 : MainState)
    (hfail : v3.magic ≠ SETTINGS_MAGIC
      ∨ (v3.version ≠ 1 ∧ v3.version ≠ 2 ∧ v3.version ≠ 3)
      ∨ (v3.version = 1 ∧ v1.checksum ≠ checksum_bytes v1.bytes)
      ∨ (v3.version = 2 ∧ v2.checksum ≠ checksum_bytes v2.bytes)
      ∨ (v3.version = 3 ∧ v3.checksum ≠ checksum_bytes v3.bytes))
    (htrue : (load_settings_from_flash w1 w2 w3 st2).1 = true) :
    load_settings_from_flash v1 v2 v3 st = (false, st)
    ∧ w3.magic = SETTINGS_MAGIC
    ∧ ((w3.version = 1 ∧ w1.checksum = checksum_bytes w1.bytes)
      ∨ (w3.version = 2 ∧ w2.checksum = checksum_bytes w2.bytes)
      ∨ (w3.version = 3 ∧ w3.checksum = checksum_bytes w3.bytes)) := by
  constructor
  · unfold load_settings_from_flash SETTINGS_VERSION
    by_cases hm : v3.magic ≠ SETTINGS_MAGIC
    · rw [if_pos hm]
    · rw [if_neg hm]
      by_cases h1 : v3.version = 1
      · rw [if_pos h1]
        by_cases c1 : v1.checksum ≠ checksum_bytes v1.bytes
        · rw [if_pos c1]
        · exfalso
          rcases hfail with h | h | h | h | h
          · exact hm h
          · exact h.1 h1
          · exact c1 h.2
          · omega
          · omega
      · rw [if_neg h1]
        by_cases h2 : v3.version = 2
        · rw [if_pos h2]
          by_cases c2 : v2.checksum ≠ checksum_bytes v2.bytes
          · rw [if_pos c2]
          · exfalso
            rcases hfail with h | h | h | h | h
            · exact hm h
            · exact h.2.1 h2
            · exact h1 h.1
            · exact c2 h.2
            · omega
        · rw [if_neg h2]
          by_cases h3 : v3.version ≠ 3
          · rw [if_pos h3]
          · rw [if_neg h3]
            by_cases c3 : v3.checksum ≠ checksum_bytes v3.bytes
            · rw [if_pos c3]
            · exfalso
              rcases hfail with h | h | h | h | h
              · exact hm h
              · exact h3 h.2.2
              · exact h1 h.1
              · exact h2 h.1
              · exact c3 h.2
  · unfold load_settings_from_flash SETTINGS_VERSION at htrue
    by_cases hm : w3.magic ≠ SETTINGS_MAGIC
    · rw [if_pos hm] at htrue
      exact absurd htrue Bool.false_ne_true
    · rw [if_neg hm] at htrue
      refine ⟨not_not.mp hm, ?_⟩
      by_cases h1 : w3.version = 1
      · rw [if_pos h1] at htrue
        by_cases c1 : w1.checksum ≠ checksum_bytes w1.bytes
        · rw [if_pos c1] at htrue
          exact absurd htrue Bool.false_ne_true
        · exact Or.inl ⟨h1, not_not.mp c1⟩
      · rw [if_neg h1] at htrue
        by_cases h2 : w3.version = 2
        · rw [if_pos h2] at htrue
          by_cases c2 : w2.checksum ≠ checksum_bytes w2.bytes
          · rw [if_pos c2] at htrue
            exact absurd htrue Bool.false_ne_true
          · exact Or.inr (Or.inl ⟨h2, not_not.mp c2⟩)
        · rw [if_neg h2] at htrue
          by_cases h3 : w3.version ≠ 3
          · rw [if_pos h3] at htrue
            exact absurd htrue Bool.false_ne_true
          · rw [if_neg h3] at htrue
            by_cases c3 : w3.checksum ≠ checksum_bytes w3.bytes
            · rw [if_pos c3] at htrue
              exact absurd htrue Bool.false_ne_true
            · exact Or.inr (Or.inr ⟨not_not.mp h3, not_not.mp c3⟩)

/-- C20 on two blobs: a version-2 blob whose stored checksum 7 differs from the
byte sum 6 is rejected without any change; a version-3 blob with checksum 6 is
accepted. -/
theorem C20_load_settings_checks_witness :
    load_settings_from_flash (example_view SETTINGS_MAGIC 2 7) (example_view SETTINGS_MAGIC 2 7)
        (example_view SETTINGS_MAGIC 2 7) example_main_state = (false, example_main_state)
    ∧ (example_view SETTINGS_MAGIC 3 6).magic = SETTINGS_MAGIC
    ∧ (((example_view SETTINGS_MAGIC 3 6).version = 1
        ∧ (example_view SETTINGS_MAGIC 3 6).checksum
          = checksum_bytes (example_view SETTINGS_MAGIC 3 6).bytes)
      ∨ ((example_view SETTINGS_MAGIC 3 6).version = 2
        ∧ (example_view SETTINGS_MAGIC 3 6).checksum
          = checksum_bytes (example_view SETTINGS_MAGIC 3 6).bytes)
      ∨ ((example_view SETTINGS_MAGIC 3 6).version = 3
        ∧ (example_view SETTINGS_MAGIC 3 6).checksum
          = checksum_bytes (example_view SETTINGS_MAGIC 3 6).bytes)) :=
  C20_load_settings_checks (example_view SETTINGS_MAGIC 2 7) (example_view SETTINGS_MAGIC 2 7)
    (example_view SETTINGS_MAGIC 2 7) example_main_state
    (example_view SETTINGS_MAGIC 3 6) (example_view SETTINGS_MAGIC 3 6)
    (example_view SETTINGS_MAGIC 3 6) example_main_state
    (Or.inr (Or.inr (Or.inr (Or.inl ⟨by decide, by decide⟩)))) (by decide)

/-! ### Saving and re-loading the settings -/

/-- The percentage `save_settings_to_flash` stores for a sensor whose threshold
is `floor(b * (100 - p) / 100)` is `p` again, when the baseline is at least 100. -/
theorem saved_percentage (b p : Nat) (hb : 100 ≤ b) (hb16 : b < 65536) (hp : p ≤ 100) :
    ((b + 2 ^ 32 - b * (100 - p) / 100) % 2 ^ 32 * 100) % 2 ^ 32 / b % 65536 = p := by
  have hdm : 100 * (b * (100 - p) / 100) + b * (100 - p) % 100 = b * (100 - p) :=
    Nat.div_add_mod _ _
  have hr : b * (100 - p) % 100 < 100 := Nat.mod_lt _ (by decide)
  have hsum : b * (100 - p) + b * p = 100 * b := by
    rw [← Nat.mul_add, Nat.sub_add_cancel hp, Nat.mul_comm]
  have hbp : b * p ≤ b * 100 := Nat.mul_le_mul_left b hp
  have hdrop : (b + 2 ^ 32 - b * (100 - p) / 100) % 2 ^ 32 = b - b * (100 - p) / 100 := by
    omega
  rw [hdrop]
  have hmul : (b - b * (100 - p) / 100) * 100 = b * p + b * (100 - p) % 100 := by omega
  rw [hmul]
  have hlt : b * p + b * (100 - p) % 100 < 2 ^ 32 := by omega
  rw [Nat.mod_eq_of_lt hlt]
  have hdiv : (b * p + b * (100 - p) % 100) / b = p := by
    apply Nat.div_eq_of_lt_le
    · rw [Nat.mul_comm]; omega
    · rw [Nat.succ_mul, Nat.mul_comm p b]; omega
  rw [hdiv]
  omega

/-- A blob written by `save_settings_to_flash` passes the magic, version and
checksum checks of the loader, whatever the state it is loaded into. -/
theorem load_saved_accepted (image : List Nat) (saved boot : MainState) (w1 w2 : settings_view) :
    load_settings_from_flash w1 w2 (save_settings_to_flash image saved) boot
      = (true,
          { keymap := copy_keymap boot.keymap (save_settings_to_flash image saved).keymap
            cal := restore_thresholds boot.cal (save_settings_to_flash image saved).actuations
            adv_cal_enabled := saved.adv_cal_enabled
            adv_cal_release := copy_sensors boot.adv_cal_release
              (save_settings_to_flash image saved).adv_cal_release
            adv_cal_press := copy_sensors boot.adv_cal_press
              (save_settings_to_flash image saved).adv_cal_press
            socd := socd_set_enabled boot.socd saved.socd.socd_enabled
            leds_enabled := saved.leds_enabled }) := by
  simp [load_settings_from_flash, save_settings_to_flash, SETTINGS_VERSION]

/-- C21 (amended). For a calibrated sensor (baseline b >= 200) whose threshold
was derived from an integer percentage p in 1..100 as floor(b * (100 - p) / 100),
the blob of `save_settings_to_flash` stores the percentage p, is accepted by
`load_settings_from_flash`, and the load into a state whose calibration
measured the same baseline b restores exactly that threshold. For a sensor
whose threshold equals its baseline (p = 0) the stored percentage is 0 and the
load leaves the threshold the calibration computed. -/
theorem C21_percentage_round_trip (image : List Nat) (saved boot : MainState)
    (w1 w2 : settings_view) (i b p j : Nat)
    (hi : i < SENSOR_COUNT) (hb : 200 ≤ b) (hb16 : b < 65536) (hp1 : 1 ≤ p) (hp : p ≤ 100)
    (hsb : saved.cal.sensor_baseline i = b)
    (hst : saved.cal.sensor_thresholds i = b * (100 - p) / 100)
    (hbb : boot.cal.sensor_baseline i = b)
    (hj : j < SENSOR_COUNT) (hjb : 200 ≤ saved.cal.sensor_baseline j)
    (hjb16 : saved.cal.sensor_baseline j < 65536)
    (hjt : saved.cal.sensor_thresholds j = saved.cal.sensor_baseline j) :
    (save_settings_to_flash image saved).actuations i = p
    ∧ (load_settings_from_flash w1 w2 (save_settings_to_flash image saved) boot).1 = true
    ∧ (load_settings_from_flash w1 w2 (save_settings_to_flash image saved)
        boot).2.cal.sensor_thresholds i = b * (100 - p) / 100
    ∧ (save_settings_to_flash image saved).actuations j = 0
    ∧ (load_settings_from_flash w1 w2 (save_settings_to_flash image saved)
        boot).2.cal.sensor_thresholds j = boot.cal.sensor_thresholds j := by
  have hact : (save_settings_to_flash image saved).actuations i = p := by
    have hpos : saved.cal.sensor_baseline i > 0 := by omega
    simp only [save_settings_to_flash, if_pos hi, if_pos hpos]
    rw [hsb, hst]
    exact saved_percentage b p (by omega) hb16 hp
  have hactj : (save_settings_to_flash image saved).actuations j = 0 := by
    have hpos : saved.cal.sensor_baseline j > 0 := by omega
    simp only [save_settings_to_flash, if_pos hj, if_pos hpos]
    rw [hjt]
    have h0 : (saved.cal.sensor_baseline j + 2 ^ 32 - saved.cal.sensor_baseline j) % 2 ^ 32
        = 0 := by omega
    rw [h0]
    simp
  rw [load_saved_accepted]
  refine ⟨hact, rfl, ?_, hactj, ?_⟩
  · have hcond : i < SENSOR_COUNT ∧ boot.cal.sensor_baseline i > 0
        ∧ (save_settings_to_flash image saved).actuations i > 0 := by
      refine ⟨hi, by omega, by omega⟩
    simp only [restore_thresholds, if_pos hcond]
    rw [hact, hbb]
    exact (threshold_from_le b p hb16 hp).1
  · have hcond : ¬ (j < SENSOR_COUNT ∧ boot.cal.sensor_baseline j > 0
        ∧ (save_settings_to_flash image saved).actuations j > 0) := by
      rw [hactj]
      omega
    simp only [restore_thresholds, if_neg hcond]

/-- C21 on the example board: sensor 0 has baseline 1000 and threshold 500
(percentage 50), sensor 1 has its threshold at the baseline; after save and
load into the freshly calibrated state the threshold of sensor 0 is 500 and
that of sensor 1 is the one of the calibration. -/
theorem C21_percentage_round_trip_witness :
    (save_settings_to_flash [1, 2, 3] (example_state_with_actuation 50)).actuations 0 = 50
    ∧ (load_settings_from_flash (example_view 0 0 0) (example_view 0 0 0)
        (save_settings_to_flash [1, 2, 3] (example_state_with_actuation 50))
        (example_calibrated_state socd_boot)).1 = true
    ∧ (load_settings_from_flash (example_view 0 0 0) (example_view 0 0 0)
        (save_settings_to_flash [1, 2, 3] (example_state_with_actuation 50))
        (example_calibrated_state socd_boot)).2.cal.sensor_thresholds 0 = 1000 * (100 - 50) / 100
    ∧ (save_settings_to_flash [1, 2, 3] (example_state_with_actuation 50)).actuations 1 = 0
    ∧ (load_settings_from_flash (example_view 0 0 0) (example_view 0 0 0)
        (save_settings_to_flash [1, 2, 3] (example_state_with_actuation 50))
        (example_calibrated_state socd_boot)).2.cal.sensor_thresholds 1
        = (example_calibrated_state socd_boot).cal.sensor_thresholds 1 :=
  C21_percentage_round_trip [1, 2, 3] (example_state_with_actuation 50)
    (example_calibrated_state socd_boot) (example_view 0 0 0) (example_view 0 0 0) 0 1000 50 1
    (by decide) (by decide) (by decide) (by decide) (by decide)
    (by decide) (by decide) (by decide) (by decide) (by decide) (by decide) (by decide)

/-- C21 as stated fails for p = 0: on the example board (every sensor reads
1000) the threshold of sensor 0 is set to the baseline 1000 = floor(1000 * 100 /
100); the saved percentage is 0, the blob is accepted after a fresh calibration
with the same baseline, but the threshold of sensor 0 is then the calibration
default 930, not 1000. -/
theorem C21_counterexample :
    (example_state_with_actuation 0).cal.sensor_baseline 0 = 1000
    ∧ (example_state_with_actuation 0).cal.sensor_thresholds 0 = 1000 * (100 - 0) / 100
    ∧ (example_calibrated_state socd_boot).cal.sensor_baseline 0 = 1000
    ∧ (load_settings_from_flash (example_view 0 0 0) (example_view 0 0 0)
        (save_settings_to_flash [1, 2, 3] (example_state_with_actuation 0))
        (example_calibrated_state socd_boot)).1 = true
    ∧ (load_settings_from_flash (example_view 0 0 0) (example_view 0 0 0)
        (save_settings_to_flash [1, 2, 3] (example_state_with_actuation 0))
        (example_calibrated_state socd_boot)).2.cal.sensor_thresholds 0 = 930 := by
  decide

/-- The loader never writes the SOCD pair table: after a load, accepted or not,
the table is the one of the state the blob was loaded into. -/
theorem load_keeps_pairs (v1 v2 v3 : settings_view) (st : MainState) :
    (load_settings_from_flash v1 v2 v3 st).2.socd.socd_pairs = st.socd.socd_pairs := by
  unfold load_settings_from_flash
  split_ifs
  all_goals rfl

/-- An accepted load of a saved blob restores the SOCD enable flag of the saved
state. -/
theorem load_saved_socd_enabled (image : List Nat) (saved boot : MainState)
    (w1 w2 : settings_view) :
    (load_settings_from_flash w1 w2 (save_settings_to_flash image saved)
      boot).2.socd.socd_enabled = saved.socd.socd_enabled := by
  rw [load_saved_accepted]
  rfl

/-- C22 at the failing input: after `socd_init` (example board ids) the pair
(5, 6, Neutral) is added in slot 2 and the settings are saved; after a reboot
(`socd_init`, calibration) the saved blob is accepted and the enable flag is
the saved one, but slot 2 of the pair table, valid at save time, is not valid
after the load, and the table is the one `socd_init` installed. -/
theorem C22_pairs_not_restored :
    (socd_add_pair (socd_init 30 32 17 31 socd_boot) 2 5 6 1).1 = true
    ∧ ((socd_add_pair (socd_init 30 32 17 31 socd_boot) 2 5 6 1).2.socd_pairs 2).valid = true
    ∧ (load_settings_from_flash (example_view 0 0 0) (example_view 0 0 0)
        (save_settings_to_flash [1, 2, 3]
          (example_calibrated_state (socd_add_pair (socd_init 30 32 17 31 socd_boot) 2 5 6 1).2))
        (example_calibrated_state (socd_init 30 32 17 31 socd_boot))).1 = true
    ∧ (load_settings_from_flash (example_view 0 0 0) (example_view 0 0 0)
        (save_settings_to_flash [1, 2, 3]
          (example_calibrated_state (socd_add_pair (socd_init 30 32 17 31 socd_boot) 2 5 6 1).2))
        (example_calibrated_state (socd_init 30 32 17 31 socd_boot))).2.socd.socd_enabled
      = (socd_add_pair (socd_init 30 32 17 31 socd_boot) 2 5 6 1).2.socd_enabled
    ∧ ((load_settings_from_flash (example_view 0 0 0) (example_view 0 0 0)
        (save_settings_to_flash [1, 2, 3]
          (example_calibrated_state (socd_add_pair (socd_init 30 32 17 31 socd_boot) 2 5 6 1).2))
        (example_calibrated_state (socd_init 30 32 17 31 socd_boot))).2.socd.socd_pairs 2).valid
      = false := by
  decide

/-! ### The keyboard report -/

theorem modifier_bit_small (hc : hid_constants) (kc : Nat)
    (hlo : hc.HID_KEY_CONTROL_LEFT = 0xE0) (hhi : hc.HID_KEY_GUI_RIGHT = 0xE7)
    (hmod : is_modifier_keycode hc kc = true) :
    get_modifier_bit hc kc = 1 <<< (kc - 0xE0) ∧ 1 <<< (kc - 0xE0) < 256 := by
  unfold is_modifier_keycode at hmod
  rw [hlo, hhi] at hmod
  simp only [Bool.and_eq_true, decide_eq_true_eq] at hmod
  unfold get_modifier_bit
  rw [hlo]
  have hd : kc - 0xE0 ≤ 7 := by omega
  have hlt : 1 <<< (kc - 0xE0) < 256 := by
    generalize kc - 0xE0 = d at hd
    interval_cases d <;> decide
  exact ⟨Nat.mod_eq_of_lt hlt, hlt⟩

theorem not_modifier_of_layer_key (hc : hid_constants) (kc : Nat)
    (hlo : hc.HID_KEY_CONTROL_LEFT = 0xE0)
    (h : kc = 0 ∨ is_mo_keycode kc = true ∨ is_tg_keycode kc = true) :
    is_modifier_keycode hc kc = false := by
  unfold is_modifier_keycode
  rw [hlo]
  unfold is_mo_keycode is_tg_keycode at h
  simp only [Bool.and_eq_true, decide_eq_true_eq] at h
  simp only [Bool.and_eq_false_imp, decide_eq_true_eq, decide_eq_false_iff_not]
  intro h1
  omega

theorem report_inv_skip (acc : ReportAcc) (F : List Nat) (M : Nat) (fired : List Nat)
    (cu : Nat) (h : report_inv acc F M) :
    report_inv { acc with fired := fired, new_consumer_usage := cu } F M := h

theorem report_inv_push (acc : ReportAcc) (F : List Nat) (M : Nat) (k : Nat)
    (h : report_inv acc F M) :
    report_inv (if acc.ki < 6 then { acc with keys := upd acc.keys acc.ki k, ki := acc.ki + 1 }
      else acc) (F ++ [k]) M := by
  obtain ⟨hki, hkeys, hm, hM⟩ := h
  by_cases hlt : acc.ki < 6
  · rw [if_pos hlt]
    have hlen : F.length < 6 := by omega
    have hki2 : acc.ki = F.length := by omega
    have ht : F.take 6 = F := List.take_of_length_le (by omega)
    have ht2 : (F ++ [k]).take 6 = F ++ [k] :=
      List.take_of_length_le (by simp; omega)
    refine ⟨by simp; omega, ?_, hm, hM⟩
    intro j
    simp only
    rw [ht2, hki2]
    by_cases hj : j = F.length
    · subst hj
      simp [upd]
    · have := hkeys j
      rw [ht] at this
      simp only [upd, if_neg hj, this]
      by_cases hj2 : j < F.length
      · rw [List.getElem?_append_left hj2]
      · rw [List.getElem?_eq_none (by omega), List.getElem?_eq_none (by simp; omega)]
  · rw [if_neg hlt]
    have hlen : 6 ≤ F.length := by omega
    refine ⟨by simp; omega, ?_, hm, hM⟩
    intro j
    rw [List.take_append_of_le_length hlen]
    exact hkeys j

theorem report_step_inv (hc : hid_constants) (keymap : Nat → Nat → Nat) (l1 dflt : List Nat)
    (L : Nat) (ks prev : Nat → Bool) (acc r : ReportAcc) (n : Nat) (F : List Nat) (M : Nat)
    (hlo : hc.HID_KEY_CONTROL_LEFT = 0xE0) (hhi : hc.HID_KEY_GUI_RIGHT = 0xE7)
    (hinv : report_inv acc F M)
    (hstep : report_step hc keymap l1 dflt L ks prev acc n = some r) :
    report_inv r
      (F ++ (([n].filter ks).map (get_keycode keymap l1 dflt L)).filter
        (fun k => !report_excluded hc k))
      ((([n].filter ks).map (get_keycode keymap l1 dflt L)).foldl
        (fun m k => if is_modifier_keycode hc k then m ||| (1 <<< (k - 0xE0)) else m) M) := by
  unfold report_step at hstep
  by_cases hks : ks n = true
  · simp only [hks, Bool.not_true, Bool.false_eq_true, if_false] at hstep
    simp only [List.filter_cons, hks, if_true, List.filter_nil, List.map_cons, List.map_nil,
      List.foldl_cons, List.foldl_nil]
    generalize get_keycode keymap l1 dflt L n = kc at hstep ⊢
    by_cases h0 : kc = 0
    · simp only [h0, if_true, Option.some.injEq] at hstep
      subst hstep
      have hnm := not_modifier_of_layer_key hc 0 hlo (Or.inl rfl)
      have hex : report_excluded hc kc = true := by simp [report_excluded, h0]
      subst h0
      simp only [hex, hnm, Bool.not_true, Bool.false_eq_true, if_false, List.append_nil]
      exact hinv
    · simp only [h0, if_false] at hstep
      by_cases hl : (is_mo_keycode kc || is_tg_keycode kc) = true
      · simp only [hl, if_true, Option.some.injEq] at hstep
        subst hstep
        have hnm := not_modifier_of_layer_key hc kc hlo
          (Or.inr (by simpa [Bool.or_eq_true] using hl))
        have hex : report_excluded hc kc = true := by
          simp only [Bool.or_eq_true] at hl
          rcases hl with hl | hl <;> simp [report_excluded, hl]
        simp only [hex, hnm, Bool.not_true, Bool.false_eq_true, if_false, List.append_nil]
        exact hinv
      · simp only [hl, Bool.false_eq_true, if_false] at hstep
        by_cases hmod : is_modifier_keycode hc kc = true
        · simp only [hmod, if_true, Option.some.injEq] at hstep
          subst hstep
          have hex : report_excluded hc kc = true := by simp [report_excluded, hmod]
          simp only [hex, hmod, Bool.not_true, Bool.false_eq_true, if_false, if_true,
            List.append_nil]
          obtain ⟨hki, hkeys, hm, hM⟩ := hinv
          obtain ⟨hb1, hb2⟩ := modifier_bit_small hc kc hlo hhi hmod
          have hor : M ||| 1 <<< (kc - 0xE0) < 2 ^ 8 := Nat.or_lt_two_pow hM hb2
          refine ⟨hki, hkeys, ?_, hor⟩
          simp only
          rw [hb1, hm]
          exact Nat.mod_eq_of_lt hor
        · simp only [hmod, Bool.false_eq_true, if_false] at hstep
          cases hcu : keycode_to_consumer_usage hc kc with
          | some cu =>
            simp only [hcu, Option.some.injEq] at hstep
            subst hstep
            have hex : report_excluded hc kc = true := by simp [report_excluded, hcu]
            simp only [hex, hmod, Bool.not_true, Bool.false_eq_true, if_false, List.append_nil]
            exact hinv
          | none =>
            simp only [hcu] at hstep
            by_cases hboot : (!prev (n + 1) && decide (kc = KC_BOOTLOADER)) = true
            · simp [hboot] at hstep
            · simp only [hboot, Bool.false_eq_true, if_false] at hstep
              by_cases hsp : kc = KC_BOOTLOADER ∨ kc = KC_REBOOT ∨ kc = KC_CALIBRATE
                  ∨ kc = KC_LED_TOG ∨ kc = KC_SOCD_TOG
              · simp only [hsp, if_true, Option.some.injEq] at hstep
                subst hstep
                have hex : report_excluded hc kc = true := by
                  unfold KC_BOOTLOADER KC_REBOOT KC_CALIBRATE KC_LED_TOG KC_SOCD_TOG at hsp
                  rcases hsp with h | h | h | h | h <;> simp [report_excluded, h]
                simp only [hex, hmod, Bool.not_true, Bool.false_eq_true, if_false,
                  List.append_nil]
                split_ifs
                · exact hinv
                · exact hinv
              · simp only [hsp, if_false] at hstep
                have hex : report_excluded hc kc = false := by
                  unfold KC_BOOTLOADER KC_REBOOT KC_CALIBRATE KC_LED_TOG KC_SOCD_TOG at hsp
                  simp only [not_or] at hsp
                  simp only [Bool.or_eq_true, not_or, Bool.not_eq_true] at hl
                  simp [report_excluded, h0, hl.1, hl.2, hmod, hcu, hsp.1, hsp.2.1, hsp.2.2.1,
                    hsp.2.2.2.1, hsp.2.2.2.2]
                simp only [hex, hmod, Bool.not_false, Bool.false_eq_true, if_false,
                  List.filter_cons, if_true, List.filter_nil]
                have hfire : (!prev (n + 1)
                    && (decide (kc = KC_REBOOT) || decide (kc = KC_CALIBRATE)
                      || decide (kc = KC_LED_TOG) || decide (kc = KC_SOCD_TOG))) = false := by
                  simp only [not_or] at hsp
                  simp [hsp.2.1, hsp.2.2.1, hsp.2.2.2.1, hsp.2.2.2.2]
                simp only [hfire, Bool.false_eq_true, if_false] at hstep
                have := report_inv_push acc F M kc hinv
                by_cases hlt : acc.ki < 6
                · simp only [hlt, if_true, Option.some.injEq] at hstep this
                  subst hstep
                  exact this
                · simp only [hlt, if_false, Option.some.injEq] at hstep this
                  subst hstep
                  exact this
  · simp only [Bool.not_eq_true] at hks
    simp only [hks, Bool.not_false, if_true, Option.some.injEq] at hstep
    subst hstep
    simp only [List.filter_cons, hks, Bool.false_eq_true, if_false, List.filter_nil,
      List.map_nil, List.foldl_nil, List.append_nil]
    exact hinv

theorem report_loop_inv (hc : hid_constants) (keymap : Nat → Nat → Nat) (l1 dflt : List Nat)
    (L : Nat) (ks prev : Nat → Bool)
    (hlo : hc.HID_KEY_CONTROL_LEFT = 0xE0) (hhi : hc.HID_KEY_GUI_RIGHT = 0xE7) :
    ∀ n r, report_loop hc keymap l1 dflt L ks prev n = some r →
      report_inv r
        ((((List.range n).filter ks).map (get_keycode keymap l1 dflt L)).filter
          (fun k => !report_excluded hc k))
        (report_modifiers_spec hc (get_keycode keymap l1 dflt L) ks n) := by
  intro n
  induction n with
  | zero =>
    intro r h
    simp only [report_loop, Option.some.injEq] at h
    subst h
    refine ⟨rfl, fun j => ?_, rfl, ?_⟩
    · simp [report_acc_init]
    · simp [report_modifiers_spec]
  | succ n ih =>
    intro r h
    simp only [report_loop] at h
    cases hprev : report_loop hc keymap l1 dflt L ks prev n with
    | none => simp [hprev] at h
    | some acc =>
      simp only [hprev] at h
      have := report_step_inv hc keymap l1 dflt L ks prev acc r n _ _ hlo hhi (ih acc hprev) h
      unfold report_modifiers_spec at this ⊢
      rw [List.range_succ, List.filter_append, List.map_append, List.filter_append,
        List.foldl_append]
      exact this

theorem report_step_total (hc : hid_constants) (keymap : Nat → Nat → Nat) (l1 dflt : List Nat)
    (L : Nat) (ks prev : Nat → Bool) (acc : ReportAcc) (n : Nat)
    (h : ks n = true → prev (n + 1) = false → get_keycode keymap l1 dflt L n ≠ KC_BOOTLOADER) :
    ∃ r, report_step hc keymap l1 dflt L ks prev acc n = some r := by
  unfold report_step
  by_cases hks : ks n = true
  · simp only [hks, Bool.not_true, Bool.false_eq_true, if_false]
    by_cases h0 : get_keycode keymap l1 dflt L n = 0
    · simp only [h0, if_true]; exact ⟨_, rfl⟩
    · simp only [h0, if_false]
      by_cases h1 : (is_mo_keycode (get_keycode keymap l1 dflt L n)
          || is_tg_keycode (get_keycode keymap l1 dflt L n)) = true
      · simp only [h1, if_true]; exact ⟨_, rfl⟩
      · simp only [h1, Bool.false_eq_true, if_false]
        by_cases h2 : is_modifier_keycode hc (get_keycode keymap l1 dflt L n) = true
        · simp only [h2, if_true]; exact ⟨_, rfl⟩
        · simp only [h2, Bool.false_eq_true, if_false]
          cases hcu : keycode_to_consumer_usage hc (get_keycode keymap l1 dflt L n) with
          | some cu => exact ⟨_, rfl⟩
          | none =>
            simp only
            have hb : (!prev (n + 1)
                && decide (get_keycode keymap l1 dflt L n = KC_BOOTLOADER)) = false := by
              cases hp : prev (n + 1) with
              | true => simp
              | false =>
                have := h hks hp
                simp [this]
            simp only [hb, Bool.false_eq_true, if_false]
            by_cases hsp : get_keycode keymap l1 dflt L n = KC_BOOTLOADER
                ∨ get_keycode keymap l1 dflt L n = KC_REBOOT
                ∨ get_keycode keymap l1 dflt L n = KC_CALIBRATE
                ∨ get_keycode keymap l1 dflt L n = KC_LED_TOG
                ∨ get_keycode keymap l1 dflt L n = KC_SOCD_TOG
            · simp only [hsp, if_true]; exact ⟨_, rfl⟩
            · simp only [hsp, if_false]
              split_ifs
              all_goals exact ⟨_, rfl⟩
  · simp only [Bool.not_eq_true] at hks
    simp only [hks, Bool.not_false, if_true]
    exact ⟨_, rfl⟩

/-- The report loop returns unless the bootloader is entered: when no pressed
sensor has `KC_BOOTLOADER` on a press edge, the locals are produced. -/
theorem report_loop_total (hc : hid_constants) (keymap : Nat → Nat → Nat) (l1 dflt : List Nat)
    (L : Nat) (ks prev : Nat → Bool) :
    ∀ n, (∀ i, i < n → ks i = true → prev (i + 1) = false →
        get_keycode keymap l1 dflt L i ≠ KC_BOOTLOADER) →
      ∃ r, report_loop hc keymap l1 dflt L ks prev n = some r := by
  intro n
  induction n with
  | zero => intro _; exact ⟨_, rfl⟩
  | succ n ih =>
    intro h
    obtain ⟨acc, hacc⟩ := ih (fun i hi => h i (by omega))
    simp only [report_loop, hacc]
    exact report_step_total hc keymap l1 dflt L ks prev acc n (h n (by omega))

/-- C23. In a tick where the keyboard report is built, the six key slots hold,
in ascending sensor order and truncated to the first six, the keycodes
`get_keycode(current_layer, i)` of the sensors pressed after the SOCD block,
resolved on the layer left by the layer handling of this tick, without the
sensors whose keycode is 0, an MO/TG keycode, a modifier, a consumer-control
keycode or one of 0xF8, 0xEC, 0xF9, 0xFA, 0xFB; the slots beyond the list are
0; the modifier byte is the bitwise OR of `1 << (kc - 0xE0)` over the pressed
sensors whose keycode is a modifier. The report is built in every tick in
which some sensor changed and no pressed sensor has the bootloader keycode
0xF8 on its press edge. -/
theorem C23_report_contents (hc : hid_constants) (keymap : Nat → Nat → Nat) (l1 dflt : List Nat)
    (now_ms : Nat → Nat) (socd : SocdState) (st : LayerState) (cur prev : Nat → Bool)
    (hlo : hc.HID_KEY_CONTROL_LEFT = 0xE0) (hhi : hc.HID_KEY_GUI_RIGHT = 0xE7) :
    (∀ r, report_tick hc keymap l1 dflt now_ms socd st cur prev = some r →
      (∀ j, j < 6 → r.keys j
        = ((report_keys_spec hc
            (get_keycode keymap l1 dflt (layer_handling keymap l1 dflt cur prev st).current_layer)
            (post_socd_states now_ms socd cur) SENSOR_COUNT)[j]?).getD 0)
      ∧ (∀ j, (report_keys_spec hc
            (get_keycode keymap l1 dflt (layer_handling keymap l1 dflt cur prev st).current_layer)
            (post_socd_states now_ms socd cur) SENSOR_COUNT).length ≤ j → r.keys j = 0)
      ∧ r.modifiers
        = report_modifiers_spec hc
            (get_keycode keymap l1 dflt (layer_handling keymap l1 dflt cur prev st).current_layer)
            (post_socd_states now_ms socd cur) SENSOR_COUNT
      ∧ kbd_report r
        = [report_modifiers_spec hc
            (get_keycode keymap l1 dflt (layer_handling keymap l1 dflt cur prev st).current_layer)
            (post_socd_states now_ms socd cur) SENSOR_COUNT, 0]
          ++ (List.range 6).map (fun j => ((report_keys_spec hc
            (get_keycode keymap l1 dflt (layer_handling keymap l1 dflt cur prev st).current_layer)
            (post_socd_states now_ms socd cur) SENSOR_COUNT)[j]?).getD 0))
    ∧ ((∃ k, k < SENSOR_COUNT ∧ cur (k + 1) ≠ prev (k + 1)) →
        (∀ i, i < SENSOR_COUNT → post_socd_states now_ms socd cur i = true →
          prev (i + 1) = false →
          get_keycode keymap l1 dflt (layer_handling keymap l1 dflt cur prev st).current_layer i
            ≠ KC_BOOTLOADER) →
        ∃ r, report_tick hc keymap l1 dflt now_ms socd st cur prev = some r) := by
  constructor
  · intro r hr
    unfold report_tick at hr
    by_cases hch : scan_changed cur prev = true
    · rw [if_pos hch] at hr
      obtain ⟨_, hkeys, hm, _⟩ := report_loop_inv hc keymap l1 dflt _ _ prev hlo hhi _ r hr
      have hk6 : ∀ j, r.keys j
          = ((report_keys_spec hc
              (get_keycode keymap l1 dflt
                (layer_handling keymap l1 dflt cur prev st).current_layer)
              (post_socd_states now_ms socd cur) SENSOR_COUNT)[j]?).getD 0 := hkeys
      refine ⟨fun j _ => hk6 j, fun j hj => ?_, hm, ?_⟩
      · rw [hk6 j, List.getElem?_eq_none hj]
        rfl
      · unfold kbd_report
        rw [hm]
        congr 1
        exact List.map_congr_left (fun j _ => hk6 j)
    · rw [if_neg hch] at hr
      exact absurd hr (by simp)
  · intro hchanged hboot
    obtain ⟨k, hk, hne⟩ := hchanged
    have hch : scan_changed cur prev = true := by
      unfold scan_changed
      rw [List.any_eq_true]
      exact ⟨k, List.mem_range.mpr hk, by simpa using hne⟩
    unfold report_tick
    rw [if_pos hch]
    exact report_loop_total hc keymap l1 dflt _ _ prev SENSOR_COUNT hboot

/-- C23 on the example: sensors 1 and 2 are pressed in one tick, sensor index 0
carries the modifier 0xE0 and sensor index 1 the key 0x04. -/
theorem C23_report_contents_witness :
    (∀ r, report_tick usb_hid_constants (example_keymap_media 0xE0) [] [] (fun _ => 7)
        (socd_init 30 32 17 31 socd_boot) layer_init (fun i => decide (i = 1 ∨ i = 2))
        (fun _ => false) = some r →
      (∀ j, j < 6 → r.keys j
        = ((report_keys_spec usb_hid_constants
            (get_keycode (example_keymap_media 0xE0) [] []
              (layer_handling (example_keymap_media 0xE0) [] []
                (fun i => decide (i = 1 ∨ i = 2)) (fun _ => false) layer_init).current_layer)
            (post_socd_states (fun _ => 7) (socd_init 30 32 17 31 socd_boot)
              (fun i => decide (i = 1 ∨ i = 2))) SENSOR_COUNT)[j]?).getD 0)
      ∧ (∀ j, (report_keys_spec usb_hid_constants
            (get_keycode (example_keymap_media 0xE0) [] []
              (layer_handling (example_keymap_media 0xE0) [] []
                (fun i => decide (i = 1 ∨ i = 2)) (fun _ => false) layer_init).current_layer)
            (post_socd_states (fun _ => 7) (socd_init 30 32 17 31 socd_boot)
              (fun i => decide (i = 1 ∨ i = 2))) SENSOR_COUNT).length ≤ j → r.keys j = 0)
      ∧ r.modifiers
        = report_modifiers_spec usb_hid_constants
            (get_keycode (example_keymap_media 0xE0) [] []
              (layer_handling (example_keymap_media 0xE0) [] []
                (fun i => decide (i = 1 ∨ i = 2)) (fun _ => false) layer_init).current_layer)
            (post_socd_states (fun _ => 7) (socd_init 30 32 17 31 socd_boot)
              (fun i => decide (i = 1 ∨ i = 2))) SENSOR_COUNT
      ∧ kbd_report r
        = [report_modifiers_spec usb_hid_constants
            (get_keycode (example_keymap_media 0xE0) [] []
              (layer_handling (example_keymap_media 0xE0) [] []
                (fun i => decide (i = 1 ∨ i = 2)) (fun _ => false) layer_init).current_layer)
            (post_socd_states (fun _ => 7) (socd_init 30 32 17 31 socd_boot)
              (fun i => decide (i = 1 ∨ i = 2))) SENSOR_COUNT, 0]
          ++ (List.range 6).map (fun j => ((report_keys_spec usb_hid_constants
            (get_keycode (example_keymap_media 0xE0) [] []
              (layer_handling (example_keymap_media 0xE0) [] []
                (fun i => decide (i = 1 ∨ i = 2)) (fun _ => false) layer_init).current_layer)
            (post_socd_states (fun _ => 7) (socd_init 30 32 17 31 socd_boot)
              (fun i => decide (i = 1 ∨ i = 2))) SENSOR_COUNT)[j]?).getD 0))
    ∧ ((∃ k, k < SENSOR_COUNT
          ∧ (fun i => decide (i = 1 ∨ i = 2)) (k + 1) ≠ (fun _ => false) (k + 1)) →
        (∀ i, i < SENSOR_COUNT →
          post_socd_states (fun _ => 7) (socd_init 30 32 17 31 socd_boot)
            (fun i => decide (i = 1 ∨ i = 2)) i = true →
          (fun _ => false) (i + 1) = false →
          get_keycode (example_keymap_media 0xE0) [] []
            (layer_handling (example_keymap_media 0xE0) [] []
              (fun i => decide (i = 1 ∨ i = 2)) (fun _ => false) layer_init).current_layer i
            ≠ KC_BOOTLOADER) →
        ∃ r, report_tick usb_hid_constants (example_keymap_media 0xE0) [] [] (fun _ => 7)
          (socd_init 30 32 17 31 socd_boot) layer_init (fun i => decide (i = 1 ∨ i = 2))
          (fun _ => false) = some r) :=
  C23_report_contents usb_hid_constants (example_keymap_media 0xE0) [] [] (fun _ => 7)
    (socd_init 30 32 17 31 socd_boot) layer_init (fun i => decide (i = 1 ∨ i = 2))
    (fun _ => false) rfl rfl

/-- C24 at the failing input: sensor 1 (index 0) carries the media keycode
KC_MUTE = 0xE0 and is pressed together with sensor 2 (plain key 0x04). The
report built in that tick has the modifier byte 1 (bit 0, left control) and
the key 0x04, and the consumer usage of the tick stays 0; the same happens
with KC_VOLU = 0xE2 (modifier bit 2) and KC_EJCT = 0xE7 (bit 7). -/
theorem C24_media_key_sets_modifier :
    (report_tick usb_hid_constants (example_keymap_media 0xE0) [] [] (fun _ => 7)
        (socd_init 30 32 17 31 socd_boot) layer_init (fun i => decide (i = 1 ∨ i = 2))
        (fun _ => false)).map kbd_report = some [1, 0, 4, 0, 0, 0, 0, 0]
    ∧ (report_tick usb_hid_constants (example_keymap_media 0xE0) [] [] (fun _ => 7)
        (socd_init 30 32 17 31 socd_boot) layer_init (fun i => decide (i = 1 ∨ i = 2))
        (fun _ => false)).map (fun r => r.new_consumer_usage) = some 0
    ∧ keycode_to_consumer_usage usb_hid_constants 0xE0 = none
    ∧ (report_tick usb_hid_constants (example_keymap_media 0xE2) [] [] (fun _ => 7)
        (socd_init 30 32 17 31 socd_boot) layer_init (fun i => decide (i = 1 ∨ i = 2))
        (fun _ => false)).map (fun r => (r.modifiers, r.new_consumer_usage)) = some (4, 0)
    ∧ (report_tick usb_hid_constants (example_keymap_media 0xE7) [] [] (fun _ => 7)
        (socd_init 30 32 17 31 socd_boot) layer_init (fun i => decide (i = 1 ∨ i = 2))
        (fun _ => false)).map (fun r => (r.modifiers, r.new_consumer_usage)) = some (128, 0) := by
  decide

/-! ### The raw HID handler -/

theorem ite_ind {α : Type} (P : α → Prop) (c : Prop) [Decidable c] (a b : α)
    (ha : c → P a) (hb : ¬ c → P b) : P (if c then a else b) := by
  by_cases h : c
  · rw [if_pos h]; exact ha h
  · rw [if_neg h]; exact hb h

theorem hid_raw_receive_eq (inst : Nat) (buffer : List Nat) (w : HidWorld) :
    hid_raw_receive inst buffer w
      = match hid_report_cmd buffer with
        | none => { w with hid := { w.hid with last_raw_instance := inst % 256 } }
        | some cmd =>
          hid_command cmd (hid_report_data buffer)
            { w with hid := { w.hid with last_raw_instance := inst % 256 } } := by
  unfold hid_raw_receive hid_report_cmd hid_report_data
  by_cases h0 : buffer.length = 0
  · simp [h0]
  · by_cases h1 : byte_at buffer 0 = REPORT_ID_RAW
    · by_cases h2 : buffer.length ≤ 1
      · simp [h0, h1, h2]
      · simp [h0, h1, h2]
    · simp [h0, h1]

theorem hid_command_layer_flag_ok (cmd : Nat) (data : List Nat) (w : HidWorld)
    (h : layer_flag_ok w.hid) : layer_flag_ok (hid_command cmd data w).hid := by
  unfold hid_command
  simp only []
  repeat' first
    | exact h
    | refine ite_ind (fun x : HidWorld => layer_flag_ok x.hid) _ _ _ (fun hc => ?_) (fun hc => ?_)
  right
  show (0 : Int) ≤ (byte_at data 0 : Int) ∧ (byte_at data 0 : Int) ≤ 3
  omega

theorem hid_raw_receive_layer_flag_ok (inst : Nat) (buffer : List Nat) (w : HidWorld)
    (h : layer_flag_ok w.hid) : layer_flag_ok (hid_raw_receive inst buffer w).hid := by
  rw [hid_raw_receive_eq]
  cases hid_report_cmd buffer with
  | none => exact h
  | some cmd => exact hid_command_layer_flag_ok cmd _ _ h

/-- A command other than `CMD_SET_KEYMAP` leaves the live keymap as it is. -/
theorem hid_command_keymap (cmd : Nat) (data : List Nat) (w : HidWorld)
    (hne : cmd ≠ CMD_SET_KEYMAP) : (hid_command cmd data w).keymap = w.keymap := by
  unfold hid_command
  simp only []
  repeat' first
    | rfl
    | exact absurd ‹cmd = CMD_SET_KEYMAP› hne
    | refine ite_ind (fun x : HidWorld => x.keymap = w.keymap) _ _ _ (fun hc => ?_) (fun hc => ?_)

/-- A command other than the three SOCD configuration commands leaves the
statics of socd.c as they are. -/
theorem hid_command_socd (cmd : Nat) (data : List Nat) (w : HidWorld)
    (h1 : cmd ≠ CMD_SET_SOCD_PAIR) (h2 : cmd ≠ CMD_DELETE_SOCD_PAIR)
    (h3 : cmd ≠ CMD_SET_SOCD_MODE) : (hid_command cmd data w).socd = w.socd := by
  unfold hid_command
  simp only []
  repeat' first
    | rfl
    | exact absurd ‹cmd = CMD_SET_SOCD_PAIR› h1
    | exact absurd ‹cmd = CMD_DELETE_SOCD_PAIR› h2
    | exact absurd ‹cmd = CMD_SET_SOCD_MODE› h3
    | refine ite_ind (fun x : HidWorld => x.socd = w.socd) _ _ _ (fun hc => ?_) (fun hc => ?_)

/-- C27 (amended). For every received report whose command byte is not
CMD_SET_KEYMAP the live keymap after `hid_raw_receive` is the one before the
call, and for every report whose command byte is none of CMD_SET_SOCD_PAIR,
CMD_DELETE_SOCD_PAIR, CMD_SET_SOCD_MODE the SOCD statics (pair table included)
are the ones before the call. Those four commands are carried out inside the
handler: CMD_SET_KEYMAP writes the row of the named layer, the three SOCD
commands call `socd_add_pair`, `socd_delete_pair` and `socd_set_global_mode`. -/
theorem C27_handler_direct_writes (inst : Nat) (bufK bufS : List Nat) (data : List Nat)
    (w : HidWorld)
    (hk : hid_report_cmd bufK ≠ some CMD_SET_KEYMAP)
    (hs : hid_report_cmd bufS ≠ some CMD_SET_SOCD_PAIR
      ∧ hid_report_cmd bufS ≠ some CMD_DELETE_SOCD_PAIR
      ∧ hid_report_cmd bufS ≠ some CMD_SET_SOCD_MODE) :
    (hid_raw_receive inst bufK w).keymap = w.keymap
    ∧ (hid_raw_receive inst bufS w).socd = w.socd
    ∧ (hid_raw_receive inst bufS w).socd.socd_pairs = w.socd.socd_pairs
    ∧ (hid_command CMD_SET_KEYMAP data w).keymap
      = (if data.length ≥ 2 ∧ byte_at data 0 < MAX_LAYERS then
          write_keymap_row w.keymap (byte_at data 0)
            (if data.length - 1 > SENSOR_COUNT then SENSOR_COUNT else data.length - 1) data
        else w.keymap)
    ∧ (hid_command CMD_SET_SOCD_PAIR data w).socd
      = (if data.length ≥ 4 then
          (socd_add_pair w.socd (byte_at data 0) (byte_at data 1) (byte_at data 2)
            (byte_at data 3)).2
        else w.socd)
    ∧ (hid_command CMD_DELETE_SOCD_PAIR data w).socd
      = (if data.length ≥ 1 then (socd_delete_pair w.socd (byte_at data 0)).2 else w.socd)
    ∧ (hid_command CMD_SET_SOCD_MODE data w).socd
      = (if data.length ≥ 1 then socd_set_global_mode w.socd (byte_at data 0) else w.socd) := by
  have e1 : (hid_raw_receive inst bufK w).keymap = w.keymap := by
    rw [hid_raw_receive_eq]
    cases hc : hid_report_cmd bufK with
    | none => rfl
    | some cmd =>
      rw [hc] at hk
      exact hid_command_keymap cmd _ _ (fun e => hk (by rw [e]))
  have e2 : (hid_raw_receive inst bufS w).socd = w.socd := by
    rw [hid_raw_receive_eq]
    cases hc : hid_report_cmd bufS with
    | none => rfl
    | some cmd =>
      rw [hc] at hs
      exact hid_command_socd cmd _ _ (fun e => hs.1 (by rw [e])) (fun e => hs.2.1 (by rw [e]))
        (fun e => hs.2.2 (by rw [e]))
  refine ⟨e1, e2, by rw [e2], ?_, ?_, ?_, ?_⟩
  · by_cases h1 : data.length ≥ 2
    · by_cases h2 : byte_at data 0 < MAX_LAYERS
      · simp [hid_command, CMD_SET_KEYMAP, CMD_TOGGLE_LED_POWER, CMD_SET_LED_POWER,
          CMD_TOGGLE_SOCD, CMD_SET_SOCD, CMD_SET_SOCD_PAIR, CMD_DELETE_SOCD_PAIR,
          CMD_SET_SOCD_MODE, CMD_SET_ACTUATION, CMD_SET_KEYMAP_LEGACY, h1, h2,
          mark_settings_changed]
      · simp [hid_command, CMD_SET_KEYMAP, CMD_TOGGLE_LED_POWER, CMD_SET_LED_POWER,
          CMD_TOGGLE_SOCD, CMD_SET_SOCD, CMD_SET_SOCD_PAIR, CMD_DELETE_SOCD_PAIR,
          CMD_SET_SOCD_MODE, CMD_SET_ACTUATION, CMD_SET_KEYMAP_LEGACY, h1, h2]
    · simp [hid_command, CMD_SET_KEYMAP, CMD_TOGGLE_LED_POWER, CMD_SET_LED_POWER,
        CMD_TOGGLE_SOCD, CMD_SET_SOCD, CMD_SET_SOCD_PAIR, CMD_DELETE_SOCD_PAIR,
        CMD_SET_SOCD_MODE, CMD_SET_ACTUATION, CMD_SET_KEYMAP_LEGACY, h1]
  · by_cases h1 : data.length ≥ 4
    · simp [hid_command, CMD_SET_SOCD_PAIR, CMD_TOGGLE_LED_POWER, CMD_SET_LED_POWER,
        CMD_TOGGLE_SOCD, CMD_SET_SOCD, h1, mark_settings_changed]
    · simp [hid_command, CMD_SET_SOCD_PAIR, CMD_TOGGLE_LED_POWER, CMD_SET_LED_POWER,
        CMD_TOGGLE_SOCD, CMD_SET_SOCD, h1]
  · by_cases h1 : data.length ≥ 1
    · simp [hid_command, CMD_SET_SOCD_PAIR, CMD_DELETE_SOCD_PAIR, CMD_TOGGLE_LED_POWER,
        CMD_SET_LED_POWER, CMD_TOGGLE_SOCD, CMD_SET_SOCD, h1, mark_settings_changed]
    · simp [hid_command, CMD_SET_SOCD_PAIR, CMD_DELETE_SOCD_PAIR, CMD_TOGGLE_LED_POWER,
        CMD_SET_LED_POWER, CMD_TOGGLE_SOCD, CMD_SET_SOCD, h1]
  · by_cases h1 : data.length ≥ 1
    · simp [hid_command, CMD_SET_SOCD_PAIR, CMD_DELETE_SOCD_PAIR, CMD_SET_SOCD_MODE,
        CMD_TOGGLE_LED_POWER, CMD_SET_LED_POWER, CMD_TOGGLE_SOCD, CMD_SET_SOCD, h1,
        mark_settings_changed]
    · simp [hid_command, CMD_SET_SOCD_PAIR, CMD_DELETE_SOCD_PAIR, CMD_SET_SOCD_MODE,
        CMD_TOGGLE_LED_POWER, CMD_SET_LED_POWER, CMD_TOGGLE_SOCD, CMD_SET_SOCD, h1]

/-- C27 on two reports: a set-keycode request (command 0x25) and a set-layer
request (command 0x23) reach the handler of the example world. -/
theorem C27_handler_direct_writes_witness :
    (hid_raw_receive 2 [0x25, 0, 3, 4] example_hid_world).keymap = example_hid_world.keymap
    ∧ (hid_raw_receive 2 [0x23, 1] example_hid_world).socd = example_hid_world.socd
    ∧ (hid_raw_receive 2 [0x23, 1] example_hid_world).socd.socd_pairs
      = example_hid_world.socd.socd_pairs
    ∧ (hid_command CMD_SET_KEYMAP [0, 4, 5] example_hid_world).keymap
      = (if [0, 4, 5].length ≥ 2 ∧ byte_at [0, 4, 5] 0 < MAX_LAYERS then
          write_keymap_row example_hid_world.keymap (byte_at [0, 4, 5] 0)
            (if [0, 4, 5].length - 1 > SENSOR_COUNT then SENSOR_COUNT else [0, 4, 5].length - 1)
            [0, 4, 5]
        else example_hid_world.keymap)
    ∧ (hid_command CMD_SET_SOCD_PAIR [0, 4, 5] example_hid_world).socd
      = (if [0, 4, 5].length ≥ 4 then
          (socd_add_pair example_hid_world.socd (byte_at [0, 4, 5] 0) (byte_at [0, 4, 5] 1)
            (byte_at [0, 4, 5] 2) (byte_at [0, 4, 5] 3)).2
        else example_hid_world.socd)
    ∧ (hid_command CMD_DELETE_SOCD_PAIR [0, 4, 5] example_hid_world).socd
      = (if [0, 4, 5].length ≥ 1 then
          (socd_delete_pair example_hid_world.socd (byte_at [0, 4, 5] 0)).2
        else example_hid_world.socd)
    ∧ (hid_command CMD_SET_SOCD_MODE [0, 4, 5] example_hid_world).socd
      = (if [0, 4, 5].length ≥ 1 then
          socd_set_global_mode example_hid_world.socd (byte_at [0, 4, 5] 0)
        else example_hid_world.socd) :=
  C27_handler_direct_writes 2 [0x25, 0, 3, 4] [0x23, 1] [0, 4, 5] example_hid_world
    (by decide) (by decide)

/-- C27 as stated fails: in the example world (empty keymap, WASD pairs in
slots 0 and 1) a CMD_SET_KEYMAP report changes the keymap entry of layer 0,
sensor 0 from 0 to 4; a CMD_SET_SOCD_PAIR report makes slot 2 of the pair table
valid; a CMD_DELETE_SOCD_PAIR report makes slot 0 invalid; a CMD_SET_SOCD_MODE
report changes the mode of slot 0 from 0 to 1. -/
theorem C27_counterexample :
    example_hid_world.keymap 0 0 = 0
    ∧ (hid_raw_receive 2 [CMD_SET_KEYMAP, 0, 4, 5] example_hid_world).keymap 0 0 = 4
    ∧ (example_hid_world.socd.socd_pairs 2).valid = false
    ∧ ((hid_raw_receive 2 [CMD_SET_SOCD_PAIR, 2, 5, 6, 1] example_hid_world).socd.socd_pairs
        2).valid = true
    ∧ (example_hid_world.socd.socd_pairs 0).valid = true
    ∧ ((hid_raw_receive 2 [CMD_DELETE_SOCD_PAIR, 0] example_hid_world).socd.socd_pairs 0).valid
      = false
    ∧ (example_hid_world.socd.socd_pairs 0).mode = 0
    ∧ ((hid_raw_receive 2 [CMD_SET_SOCD_MODE, 1] example_hid_world).socd.socd_pairs 0).mode
      = 1 := by
  decide

/-- A command that is not a set-layer command leaves the set-layer mailbox as
it is. -/
theorem hid_command_keeps_layer_set (cmd : Nat) (data : List Nat) (w : HidWorld)
    (hne : ¬ (cmd = CMD_SET_LAYER ∨ cmd = CMD_SET_LAYER_LEGACY)) :
    (hid_command cmd data w).hid.flag_layer_set = w.hid.flag_layer_set := by
  unfold hid_command
  simp only []
  repeat' first
    | rfl
    | exact absurd ‹cmd = CMD_SET_LAYER ∨ cmd = CMD_SET_LAYER_LEGACY› hne
    | refine ite_ind (fun x : HidWorld => x.hid.flag_layer_set = w.hid.flag_layer_set)
        _ _ _ (fun hc => ?_) (fun hc => ?_)

theorem hid_consume_keymap_set_fst (h : HidState) :
    (hid_consume_keymap_set h).1
      = if h.flag_keymap_set then some (h.keymap_layer, h.keymap_key_idx, h.keymap_keycode)
        else none := by
  unfold hid_consume_keymap_set
  split_ifs <;> rfl

theorem hid_consume_actuation_set_fst (h : HidState) :
    (hid_consume_actuation_set h).1
      = if h.flag_actuation_set then some (h.actuation_key_idx, h.actuation_threshold)
        else none := by
  unfold hid_consume_actuation_set
  split_ifs <;> rfl

/-- A command that is neither of the two set-keycode commands leaves the
set-keycode mailbox as it is. -/
theorem hid_command_keeps_keymap_set (cmd : Nat) (data : List Nat) (w : HidWorld)
    (h1 : cmd ≠ CMD_SET_KEYCODE) (h2 : cmd ≠ CMD_SET_KEYMAP_LEGACY) :
    (hid_consume_keymap_set (hid_command cmd data w).hid).1
      = (hid_consume_keymap_set w.hid).1 := by
  have h : (hid_command cmd data w).hid.flag_keymap_set = w.hid.flag_keymap_set
      ∧ (hid_command cmd data w).hid.keymap_layer = w.hid.keymap_layer
      ∧ (hid_command cmd data w).hid.keymap_key_idx = w.hid.keymap_key_idx
      ∧ (hid_command cmd data w).hid.keymap_keycode = w.hid.keymap_keycode := by
    unfold hid_command
    simp only []
    repeat' first
      | exact ⟨rfl, rfl, rfl, rfl⟩
      | exact absurd ‹cmd = CMD_SET_KEYCODE› h1
      | exact absurd ‹cmd = CMD_SET_KEYMAP_LEGACY› h2
      | refine ite_ind (fun x : HidWorld =>
          x.hid.flag_keymap_set = w.hid.flag_keymap_set
          ∧ x.hid.keymap_layer = w.hid.keymap_layer
          ∧ x.hid.keymap_key_idx = w.hid.keymap_key_idx
          ∧ x.hid.keymap_keycode = w.hid.keymap_keycode)
          _ _ _ (fun hc => ?_) (fun hc => ?_)
  rw [hid_consume_keymap_set_fst, hid_consume_keymap_set_fst, h.1, h.2.1, h.2.2.1, h.2.2.2]

/-- A command other than `CMD_SET_ACTUATION` leaves the set-actuation mailbox
as it is. -/
theorem hid_command_keeps_actuation_set (cmd : Nat) (data : List Nat) (w : HidWorld)
    (h1 : cmd ≠ CMD_SET_ACTUATION) :
    (hid_consume_actuation_set (hid_command cmd data w).hid).1
      = (hid_consume_actuation_set w.hid).1 := by
  have h : (hid_command cmd data w).hid.flag_actuation_set = w.hid.flag_actuation_set
      ∧ (hid_command cmd data w).hid.actuation_key_idx = w.hid.actuation_key_idx
      ∧ (hid_command cmd data w).hid.actuation_threshold = w.hid.actuation_threshold := by
    unfold hid_command
    simp only []
    repeat' first
      | exact ⟨rfl, rfl, rfl⟩
      | exact absurd ‹cmd = CMD_SET_ACTUATION› h1
      | refine ite_ind (fun x : HidWorld =>
          x.hid.flag_actuation_set = w.hid.flag_actuation_set
          ∧ x.hid.actuation_key_idx = w.hid.actuation_key_idx
          ∧ x.hid.actuation_threshold = w.hid.actuation_threshold)
          _ _ _ (fun hc => ?_) (fun hc => ?_)
  rw [hid_consume_actuation_set_fst, hid_consume_actuation_set_fst, h.1, h.2.1, h.2.2]

/-- A property of the world that every report outside a set of command bytes
preserves still holds after a sequence of such reports. -/
theorem hid_receive_all_keeps (P : HidWorld → Prop) (ok : Option Nat → Prop) (inst : Nat)
    (hstep : ∀ buffer w, ok (hid_report_cmd buffer) → P w → P (hid_raw_receive inst buffer w)) :
    ∀ (reports : List (List Nat)) (w : HidWorld),
      (∀ buffer, buffer ∈ reports → ok (hid_report_cmd buffer)) → P w →
      P (hid_receive_all inst w reports) := by
  intro reports
  induction reports with
  | nil => intro w _ h; exact h
  | cons b bs ih =>
    intro w hok h
    exact ih _ (fun x hx => hok x (List.mem_cons_of_mem _ hx))
      (hstep b w (hok b (List.mem_cons_self _ _)) h)

/-- The set-layer, set-keycode and set-actuation mailboxes are single-slot,
last-write-wins and taken by their consume function: after an accepted request
and any later reports of other kinds, the consume function returns the payload
of that request, and a second call returns nothing. -/
theorem hid_mailbox_scalar_kinds (inst : Nat) (w : HidWorld) (rest : List (List Nat))
    (p l k c a t : Nat) (hp : p < 4) (hl : l < 256) (hk : k < 256) (hcode : c < 256)
    (ha : a < 256) (ht : t < 256)
    (hrest : ∀ buffer, buffer ∈ rest →
      hid_report_cmd buffer ≠ some CMD_SET_LAYER
      ∧ hid_report_cmd buffer ≠ some CMD_SET_LAYER_LEGACY
      ∧ hid_report_cmd buffer ≠ some CMD_SET_KEYCODE
      ∧ hid_report_cmd buffer ≠ some CMD_SET_KEYMAP_LEGACY
      ∧ hid_report_cmd buffer ≠ some CMD_SET_ACTUATION) :
    (hid_consume_layer_set
        (hid_receive_all inst (hid_raw_receive inst [CMD_SET_LAYER, p] w) rest).hid).1 = (p : Int)
    ∧ (hid_consume_layer_set (hid_consume_layer_set
        (hid_receive_all inst (hid_raw_receive inst [CMD_SET_LAYER, p] w) rest).hid).2).1 = -1
    ∧ (hid_consume_keymap_set
        (hid_receive_all inst (hid_raw_receive inst [CMD_SET_KEYCODE, l, k, c] w) rest).hid).1
      = some (l, k, c)
    ∧ (hid_consume_keymap_set (hid_consume_keymap_set
        (hid_receive_all inst (hid_raw_receive inst [CMD_SET_KEYCODE, l, k, c] w) rest).hid).2).1
      = none
    ∧ (hid_consume_actuation_set
        (hid_receive_all inst (hid_raw_receive inst [CMD_SET_ACTUATION, a, t] w) rest).hid).1
      = some (a, t)
    ∧ (hid_consume_actuation_set (hid_consume_actuation_set
        (hid_receive_all inst (hid_raw_receive inst [CMD_SET_ACTUATION, a, t] w) rest).hid).2).1
      = none := by
  have h1 : (hid_receive_all inst (hid_raw_receive inst [CMD_SET_LAYER, p] w) rest).hid.flag_layer_set
      = (p : Int) := by
    apply hid_receive_all_keeps (fun x => x.hid.flag_layer_set = (p : Int))
      (fun o => o ≠ some CMD_SET_LAYER ∧ o ≠ some CMD_SET_LAYER_LEGACY) inst
    · intro buffer x hok hx
      rw [hid_raw_receive_eq]
      cases hc : hid_report_cmd buffer with
      | none => exact hx
      | some cmd =>
        rw [hc] at hok
        simp only
        rw [hid_command_keeps_layer_set cmd _ _ (by
          intro e
          rcases e with e | e
          · exact hok.1 (by rw [e])
          · exact hok.2 (by rw [e]))]
        exact hx
    · intro b hb
      exact ⟨(hrest b hb).1, (hrest b hb).2.1⟩
    · have : byte_at [CMD_SET_LAYER, p] 1 = p := by
        simp [byte_at, Nat.mod_eq_of_lt (by omega : p < 256)]
      simp [hid_raw_receive, hid_command, byte_at, CMD_SET_LAYER, REPORT_ID_RAW,
        CMD_TOGGLE_LED_POWER, CMD_SET_LED_POWER, CMD_TOGGLE_SOCD, CMD_SET_SOCD,
        CMD_SET_SOCD_PAIR, CMD_DELETE_SOCD_PAIR, CMD_SET_SOCD_MODE, CMD_SET_ACTUATION,
        CMD_SET_KEYMAP_LEGACY, CMD_SET_KEYMAP, CMD_SET_KEYCODE,
        Nat.mod_eq_of_lt (by omega : p < 256), hp]
  have h2 : (hid_consume_keymap_set
      (hid_receive_all inst (hid_raw_receive inst [CMD_SET_KEYCODE, l, k, c] w) rest).hid).1
      = some (l, k, c) := by
    apply hid_receive_all_keeps (fun x => (hid_consume_keymap_set x.hid).1 = some (l, k, c))
      (fun o => o ≠ some CMD_SET_KEYCODE ∧ o ≠ some CMD_SET_KEYMAP_LEGACY) inst
    · intro buffer x hok hx
      rw [hid_raw_receive_eq]
      cases hc : hid_report_cmd buffer with
      | none =>
        simp only
        rw [hid_consume_keymap_set_fst] at hx ⊢
        exact hx
      | some cmd =>
        rw [hc] at hok
        simp only
        rw [hid_command_keeps_keymap_set cmd _ _ (fun e => hok.1 (by rw [e]))
          (fun e => hok.2 (by rw [e]))]
        rw [hid_consume_keymap_set_fst] at hx ⊢
        exact hx
    · intro b hb
      exact ⟨(hrest b hb).2.2.1, (hrest b hb).2.2.2.1⟩
    · simp [hid_raw_receive, hid_command, byte_at, CMD_SET_LAYER, REPORT_ID_RAW,
        CMD_TOGGLE_LED_POWER, CMD_SET_LED_POWER, CMD_TOGGLE_SOCD, CMD_SET_SOCD,
        CMD_SET_SOCD_PAIR, CMD_DELETE_SOCD_PAIR, CMD_SET_SOCD_MODE, CMD_SET_ACTUATION,
        CMD_SET_KEYMAP_LEGACY, CMD_SET_KEYMAP, CMD_SET_KEYCODE, hid_consume_keymap_set,
        Nat.mod_eq_of_lt hl, Nat.mod_eq_of_lt hk, Nat.mod_eq_of_lt hcode]
  have h3 : (hid_consume_actuation_set
      (hid_receive_all inst (hid_raw_receive inst [CMD_SET_ACTUATION, a, t] w) rest).hid).1
      = some (a, t) := by
    apply hid_receive_all_keeps (fun x => (hid_consume_actuation_set x.hid).1 = some (a, t))
      (fun o => o ≠ some CMD_SET_ACTUATION) inst
    · intro buffer x hok hx
      rw [hid_raw_receive_eq]
      cases hc : hid_report_cmd buffer with
      | none =>
        simp only
        rw [hid_consume_actuation_set_fst] at hx ⊢
        exact hx
      | some cmd =>
        rw [hc] at hok
        simp only
        rw [hid_command_keeps_actuation_set cmd _ _ (fun e => hok (by rw [e]))]
        rw [hid_consume_actuation_set_fst] at hx ⊢
        exact hx
    · intro b hb
      exact (hrest b hb).2.2.2.2
    · simp [hid_raw_receive, hid_command, byte_at, REPORT_ID_RAW,
        CMD_TOGGLE_LED_POWER, CMD_SET_LED_POWER, CMD_TOGGLE_SOCD, CMD_SET_SOCD,
        CMD_SET_SOCD_PAIR, CMD_DELETE_SOCD_PAIR, CMD_SET_SOCD_MODE, CMD_SET_ACTUATION,
        hid_consume_actuation_set, Nat.mod_eq_of_lt ha, Nat.mod_eq_of_lt ht]
  refine ⟨h1, rfl, h2, ?_, h3, ?_⟩
  · unfold hid_consume_keymap_set
    split_ifs <;> simp_all
  · unfold hid_consume_actuation_set
    split_ifs <;> simp_all

/-- C25 at the failing input: from the statics at program start the handler
accepts CMD_SAVE_PROFILE for slot 3 and then CMD_LOAD_PROFILE for slot 5 before
the main loop drains. `hid_consume_profile_save` then returns slot 5, not the
slot 3 of the save request; the drain block of the main loop saves the live
keymap into slot 5, and slot 3 is not valid afterwards. -/
theorem C25_profile_slot_shared :
    (hid_consume_profile_save
      (hid_receive_all 2 example_hid_world
        [[CMD_SAVE_PROFILE, 3], [CMD_LOAD_PROFILE, 5]]).hid).1 = some 5
    ∧ (hid_consume_profile_load
      (hid_receive_all 2 example_hid_world
        [[CMD_SAVE_PROFILE, 3], [CMD_LOAD_PROFILE, 5]]).hid).1 = some 5
    ∧ (hid_consume_profile_save (hid_consume_profile_save
      (hid_receive_all 2 example_hid_world
        [[CMD_SAVE_PROFILE, 3], [CMD_LOAD_PROFILE, 5]]).hid).2).1 = none
    ∧ profiles_slot_valid (drain_profile_commands
      (hid_receive_all 2 example_hid_world
        [[CMD_SAVE_PROFILE, 3], [CMD_LOAD_PROFILE, 5]])).prof 3 = false
    ∧ profiles_slot_valid (drain_profile_commands
      (hid_receive_all 2 example_hid_world
        [[CMD_SAVE_PROFILE, 3], [CMD_LOAD_PROFILE, 5]])).prof 5 = true
    ∧ (drain_profile_commands
      (hid_receive_all 2 example_hid_world
        [[CMD_SAVE_PROFILE, 3], [CMD_LOAD_PROFILE, 5]])).prof.g_current_slot = 5 := by
  decide

/-! ### The range of the layer -/

theorem highest_held_le (mo : Nat → Int) (n : Nat) : highest_held mo n ≤ n := by
  rcases highest_held_spec mo n with ⟨h0, _⟩ | ⟨_, h2, _, _⟩
  · omega
  · exact h2

/-- The layer after one step of the layer loop is the layer before it or a
layer 0..3: an MO press gives 1..3, a holder release the highest held layer or
0, a TG press 1..3 or 0. -/
theorem layer_step_layer_cases (keymap : Nat → Nat → Nat) (l1 dflt : List Nat)
    (cur prev : Nat → Bool) (st : LayerState) (i : Nat) :
    (layer_step keymap l1 dflt cur prev st i).current_layer = st.current_layer
    ∨ (layer_step keymap l1 dflt cur prev st i).current_layer < MAX_LAYERS := by
  unfold layer_step
  simp only []
  by_cases he : cur i = prev i
  · left; simp [he]
  · simp only [he, if_false]
    generalize get_keycode keymap l1 dflt st.current_layer (i - 1) = kc
    by_cases hmo : (cur i && is_mo_keycode kc) = true
    · right
      simp only [hmo, if_true]
      simp only [Bool.and_eq_true, is_mo_keycode, decide_eq_true_eq] at hmo
      unfold MAX_LAYERS
      omega
    · simp only [hmo, Bool.false_eq_true, if_false]
      by_cases hrel : (!cur i && (if (!cur i) = true then
          release_holder (MAX_LAYERS - 1) 1 (int8_cast ((i : Int) - 1)) st.mo_held_sensors
          else (st.mo_held_sensors, false)).2) = true
      · right
        simp only [hrel, if_true]
        have := highest_held_le (if (!cur i) = true then
          release_holder (MAX_LAYERS - 1) 1 (int8_cast ((i : Int) - 1)) st.mo_held_sensors
          else (st.mo_held_sensors, false)).1 (MAX_LAYERS - 1)
        unfold MAX_LAYERS at this ⊢
        omega
      · simp only [hrel, Bool.false_eq_true, if_false]
        by_cases htg : (cur i && is_tg_keycode kc) = true
        · right
          simp only [htg, if_true]
          simp only [Bool.and_eq_true, is_tg_keycode, decide_eq_true_eq] at htg
          unfold MAX_LAYERS
          split_ifs <;> omega
        · left
          simp only [htg, Bool.false_eq_true, if_false]

theorem layer_loop_layer_lt (keymap : Nat → Nat → Nat) (l1 dflt : List Nat)
    (cur prev : Nat → Bool) (st : LayerState) (h : st.current_layer < MAX_LAYERS) :
    ∀ n, (layer_loop keymap l1 dflt cur prev st n).current_layer < MAX_LAYERS := by
  intro n
  induction n with
  | zero => exact h
  | succ n ih =>
    simp only [layer_loop]
    rcases layer_step_layer_cases keymap l1 dflt cur prev
      (layer_loop keymap l1 dflt cur prev st n) (n + 1) with e | e
    · rw [e]; exact ih
    · exact e

theorem main_sys_step_inv (l1 dflt : List Nat) (s : MainSys) (ev : MainEvent)
    (h : s.layer.st.current_layer < MAX_LAYERS ∧ layer_flag_ok s.world.hid) :
    (main_sys_step l1 dflt s ev).layer.st.current_layer < MAX_LAYERS
    ∧ layer_flag_ok (main_sys_step l1 dflt s ev).world.hid := by
  cases ev with
  | receive inst buffer =>
    exact ⟨h.1, hid_raw_receive_layer_flag_ok inst buffer s.world h.2⟩
  | drain_layer_set =>
    refine ⟨?_, Or.inl rfl⟩
    simp only [main_sys_step, hid_consume_layer_set]
    by_cases hge : s.world.hid.flag_layer_set ≥ 0
    · rw [if_pos hge]
      simp only [layer_sys_step]
      rcases h.2 with e | ⟨e1, e2⟩
      · omega
      · unfold MAX_LAYERS
        omega
    · rw [if_neg hge]
      exact h.1
  | tick keymap cur =>
    exact ⟨layer_loop_layer_lt keymap l1 dflt cur _ _ h.1 SENSOR_COUNT, h.2⟩

theorem main_sys_run_inv (l1 dflt : List Nat) :
    ∀ (evs : List MainEvent) (s : MainSys),
      s.layer.st.current_layer < MAX_LAYERS ∧ layer_flag_ok s.world.hid →
      (main_sys_run l1 dflt s evs).layer.st.current_layer < MAX_LAYERS
      ∧ layer_flag_ok (main_sys_run l1 dflt s evs).world.hid := by
  intro evs
  induction evs with
  | nil => intro s h; exact h
  | cons ev evs ih =>
    intro s h
    exact ih _ (main_sys_step_inv l1 dflt s ev h)

/-- C30. `current_layer` is always in 0..3: it starts at 0; in every state the
main loop reaches from program start through received reports, drains of the
set-layer request and scan ticks (with any keymap) it is below MAX_LAYERS, and
`hid_consume_layer_set` returns -1 or a value 0..3 there. Every step of the
layer loop leaves the layer as it is or sets it to a layer 0..3, and a
set-layer report is recorded by `hid_raw_receive` only when the byte is < 4. -/
theorem C30_current_layer_range (l1 dflt : List Nat) (w0 : HidWorld) (evs : List MainEvent)
    (keymap : Nat → Nat → Nat) (cur prev : Nat → Bool) (st : LayerState) (i : Nat)
    (inst b : Nat) (w : HidWorld)
    (hboot : w0.hid.flag_layer_set = -1) (hb : 4 ≤ b) (hb8 : b < 256) :
    layer_sys_boot.st.current_layer = 0
    ∧ (main_sys_run l1 dflt { world := w0, layer := layer_sys_boot } evs).layer.st.current_layer
        < MAX_LAYERS
    ∧ ((hid_consume_layer_set
          (main_sys_run l1 dflt { world := w0, layer := layer_sys_boot } evs).world.hid).1 = -1
      ∨ (0 ≤ (hid_consume_layer_set
          (main_sys_run l1 dflt { world := w0, layer := layer_sys_boot } evs).world.hid).1
        ∧ (hid_consume_layer_set
          (main_sys_run l1 dflt { world := w0, layer := layer_sys_boot } evs).world.hid).1 ≤ 3))
    ∧ ((layer_step keymap l1 dflt cur prev st i).current_layer = st.current_layer
      ∨ (layer_step keymap l1 dflt cur prev st i).current_layer < MAX_LAYERS)
    ∧ (hid_raw_receive inst [CMD_SET_LAYER, b] w).hid.flag_layer_set = w.hid.flag_layer_set := by
  have h0 : layer_sys_boot.st.current_layer < MAX_LAYERS := by decide
  have hinv := main_sys_run_inv l1 dflt evs { world := w0, layer := layer_sys_boot }
    ⟨h0, Or.inl hboot⟩
  have hnb : ¬ b < 4 := by omega
  refine ⟨rfl, hinv.1, hinv.2, layer_step_layer_cases keymap l1 dflt cur prev st i, ?_⟩
  simp [hid_raw_receive, hid_command, byte_at, CMD_SET_LAYER, REPORT_ID_RAW,
    CMD_TOGGLE_LED_POWER, CMD_SET_LED_POWER, CMD_TOGGLE_SOCD, CMD_SET_SOCD,
    CMD_SET_SOCD_PAIR, CMD_DELETE_SOCD_PAIR, CMD_SET_SOCD_MODE, CMD_SET_ACTUATION,
    CMD_SET_KEYMAP_LEGACY, CMD_SET_KEYMAP, CMD_SET_KEYCODE, Nat.mod_eq_of_lt hb8, hnb]

/-- C30 on the example world: a set-layer report for layer 2 is received and
drained; a set-layer report with the byte 7 is not recorded. -/
theorem C30_current_layer_range_witness :
    layer_sys_boot.st.current_layer = 0
    ∧ (main_sys_run [] [] { world := example_hid_world, layer := layer_sys_boot }
        [MainEvent.receive 2 [CMD_SET_LAYER, 2], MainEvent.drain_layer_set]).layer.st.current_layer
        < MAX_LAYERS
    ∧ ((hid_consume_layer_set
          (main_sys_run [] [] { world := example_hid_world, layer := layer_sys_boot }
            [MainEvent.receive 2 [CMD_SET_LAYER, 2], MainEvent.drain_layer_set]).world.hid).1 = -1
      ∨ (0 ≤ (hid_consume_layer_set
          (main_sys_run [] [] { world := example_hid_world, layer := layer_sys_boot }
            [MainEvent.receive 2 [CMD_SET_LAYER, 2], MainEvent.drain_layer_set]).world.hid).1
        ∧ (hid_consume_layer_set
          (main_sys_run [] [] { world := example_hid_world, layer := layer_sys_boot }
            [MainEvent.receive 2 [CMD_SET_LAYER, 2], MainEvent.drain_layer_set]).world.hid).1
          ≤ 3))
    ∧ ((layer_step (fun _ _ => 0) [] [] (fun _ => false) (fun _ => false) layer_init
          1).current_layer = layer_init.current_layer
      ∨ (layer_step (fun _ _ => 0) [] [] (fun _ => false) (fun _ => false) layer_init
          1).current_layer < MAX_LAYERS)
    ∧ (hid_raw_receive 2 [CMD_SET_LAYER, 7] example_hid_world).hid.flag_layer_set
      = example_hid_world.hid.flag_layer_set :=
  C30_current_layer_range [] [] example_hid_world
    [MainEvent.receive 2 [CMD_SET_LAYER, 2], MainEvent.drain_layer_set]
    (fun _ _ => 0) (fun _ => false) (fun _ => false) layer_init 1 2 7 example_hid_world
    (by decide) (by decide) (by decide)


/-! ### The main-loop scan with its bounds -/

theorem scan_channel_checked_some (mux_maps : Nat → Nat → Nat) (cal : CalState)
    (mux_vals : Nat → Nat → Nat) (prev cur : Nat → Bool) (pos : Nat × Nat)
    (h : mux_maps pos.1 pos.2 ≤ SENSOR_COUNT) :
    scan_channel_checked mux_maps cal mux_vals prev (some cur) pos
      = some (scan_channel mux_maps cal mux_vals prev cur pos) := by
  unfold scan_channel_checked scan_channel
  simp only []
  by_cases h0 : mux_maps pos.1 pos.2 ≠ 0
  · have h1 : ¬ ((mux_maps pos.1 pos.2 - 1) % 256 ≥ SENSOR_COUNT) := by
      unfold SENSOR_COUNT at h ⊢
      omega
    have h2 : ¬ (mux_maps pos.1 pos.2 ≥ SENSOR_COUNT + 1) := by omega
    simp only [h0, h1, h2, if_true, if_false, ne_eq, not_false_eq_true]
    split_ifs <;> rfl
  · simp only [h0, if_false]

/-- When every entry of the wiring table is at most `SENSOR_COUNT`, the scan
stays inside its arrays and computes the vector of `scan_cur_pressed`. -/
theorem scan_checked_in_range (mux_maps : Nat → Nat → Nat) (cal : CalState)
    (mux_vals : Nat → Nat → Nat) (prev : Nat → Bool)
    (h : ∀ m ch, mux_maps m ch ≤ SENSOR_COUNT) :
    scan_cur_pressed_checked mux_maps cal mux_vals prev
      = some (scan_cur_pressed mux_maps cal mux_vals prev) := by
  unfold scan_cur_pressed_checked scan_cur_pressed
  generalize (fun _ : Nat => false) = init
  generalize mux_positions MUX_COUNT = l
  induction l generalizing init with
  | nil => rfl
  | cons q qs ih =>
    simp only [List.foldl_cons]
    rw [scan_channel_checked_some mux_maps cal mux_vals prev init q (h q.1 q.2)]
    exact ih _

theorem scan_checked_none_stays (mux_maps : Nat → Nat → Nat) (cal : CalState)
    (mux_vals : Nat → Nat → Nat) (prev : Nat → Bool) (l : List (Nat × Nat)) :
    l.foldl (scan_channel_checked mux_maps cal mux_vals prev) none = none := by
  induction l with
  | nil => rfl
  | cons q qs ih => simp only [List.foldl_cons, scan_channel_checked]; exact ih

/-- C28 at the failing input: in the wiring table of the example board the
entry of multiplexer 0, channel 0 is the sensor id 65 = SENSOR_COUNT + 1.
The main-loop scan indexes `sensor_thresholds` (64 elements) at 64, outside
the array, whatever the tables and raw values are, so the tick has no defined
result; the calibration loop of the same file skips that entry. -/
theorem C28_scan_out_of_bounds :
    example_mux_maps_stale 0 0 = SENSOR_COUNT + 1
    ∧ (example_mux_maps_stale 0 0 - 1) % 256 = SENSOR_COUNT
    ∧ (∀ (cal : CalState) (mux_vals : Nat → Nat → Nat) (prev : Nat → Bool),
        scan_cur_pressed_checked example_mux_maps_stale cal mux_vals prev = none)
    ∧ (∀ (reads : Nat → Nat → Nat → Nat) (st : CalState),
        calibrate_channel example_mux_maps_stale reads st (0, 0) = st) := by
  refine ⟨by decide, by decide, ?_, ?_⟩
  · intro cal mux_vals prev
    unfold scan_cur_pressed_checked
    have hl : mux_positions MUX_COUNT = (0, 0) :: (mux_positions MUX_COUNT).tail := by decide
    rw [hl, List.foldl_cons]
    have h1 : scan_channel_checked example_mux_maps_stale cal mux_vals prev
        (some fun _ => false) (0, 0) = none := by
      simp [scan_channel_checked, example_mux_maps_stale, SENSOR_COUNT]
    rw [h1]
    exact scan_checked_none_stays _ _ _ _ _
  · intro reads st
    simp [calibrate_channel, example_mux_maps_stale, SENSOR_COUNT]

/-! ### The holder table -/

/-- C29. In every state reached from the initial state (no holders, no key
pressed) by scan ticks with any keymap and by set-layer requests with any
layer, each sensor is recorded in at most one momentary-holder slot 1..3 and
every recorded holder was pressed at the end of the last tick; the same holds
at every point inside a tick. Therefore the release branch, which clears only
the first slot holding the released sensor, leaves no slot holding it. -/
theorem C29_holder_table_invariant (l1 dflt : List Nat) (evs : List LayerEvent)
    (keymap : Nat → Nat → Nat) (cur : Nat → Bool) (s : Nat) (hs : s < SENSOR_COUNT) :
    holders_ok (layer_sys_run l1 dflt layer_sys_boot evs).st
      (layer_sys_run l1 dflt layer_sys_boot evs).prev_pressed
    ∧ holders_ok (layer_state_at keymap l1 dflt cur (layer_sys_run l1 dflt layer_sys_boot evs) s)
      (pressed_upto cur (layer_sys_run l1 dflt layer_sys_boot evs).prev_pressed s)
    ∧ ∀ L, 1 ≤ L → L ≤ 3 →
      (release_holder (MAX_LAYERS - 1) 1 (int8_cast (((s + 1 : Nat) : Int) - 1))
        (layer_state_at keymap l1 dflt cur (layer_sys_run l1 dflt layer_sys_boot evs)
          s).mo_held_sensors).1 L ≠ (s : Int) := by
  have hrun := layer_sys_run_holders_ok l1 dflt evs layer_sys_boot layer_sys_boot_holders_ok
  have hmid := layer_loop_holders_ok keymap l1 dflt cur
    (layer_sys_run l1 dflt layer_sys_boot evs).prev_pressed
    (layer_sys_run l1 dflt layer_sys_boot evs).st hrun s (by omega)
  refine ⟨hrun, hmid, ?_⟩
  intro L hL1 hL3
  rw [int8_cast_sensor s hs]
  show (release_holder 3 1 (s : Int) _).1 L ≠ (s : Int)
  unfold layer_state_at at hmid ⊢
  generalize layer_loop keymap l1 dflt cur (layer_sys_run l1 dflt layer_sys_boot evs).prev_pressed
    (layer_sys_run l1 dflt layer_sys_boot evs).st s = stm at hmid ⊢
  by_cases hex : ∃ L0, 1 ≤ L0 ∧ L0 ≤ 3 ∧ stm.mo_held_sensors L0 = (s : Int)
  · obtain ⟨L0, h1, h3, hv, _, hr⟩ := release_holder_found stm.mo_held_sensors (s : Int) hex
    rw [hr]
    simp only
    by_cases e : L = L0
    · subst e
      rw [upd_same]
      exact int_cast_ne_neg_one s
    · rw [upd_other _ _ _ _ e]
      intro hL
      exact e (hmid.2 s hs L L0 hL1 hL3 h1 h3 hL hv)
  · have hnone : ∀ L', 1 ≤ L' → L' ≤ 3 → stm.mo_held_sensors L' ≠ (s : Int) :=
      fun L' a b c => hex ⟨L', a, b, c⟩
    rw [release_holder_not_found stm.mo_held_sensors (s : Int) hnone]
    exact hnone L hL1 hL3

/-- C29 on the example of the same-tick keymap: after a tick in which sensors
1 and 2 are pressed, at sensor index 0 of a further tick with no key pressed. -/
theorem C29_holder_table_invariant_witness :
    holders_ok
      (layer_sys_run [] [] layer_sys_boot
        [LayerEvent.tick example_keymap_same_tick (fun i => decide (i = 1 ∨ i = 2))]).st
      (layer_sys_run [] [] layer_sys_boot
        [LayerEvent.tick example_keymap_same_tick (fun i => decide (i = 1 ∨ i = 2))]).prev_pressed
    ∧ holders_ok
      (layer_state_at example_keymap_same_tick [] [] (fun _ => false)
        (layer_sys_run [] [] layer_sys_boot
          [LayerEvent.tick example_keymap_same_tick (fun i => decide (i = 1 ∨ i = 2))]) 0)
      (pressed_upto (fun _ => false)
        (layer_sys_run [] [] layer_sys_boot
          [LayerEvent.tick example_keymap_same_tick
            (fun i => decide (i = 1 ∨ i = 2))]).prev_pressed 0)
    ∧ ∀ L, 1 ≤ L → L ≤ 3 →
      (release_holder (MAX_LAYERS - 1) 1 (int8_cast (((0 + 1 : Nat) : Int) - 1))
        (layer_state_at example_keymap_same_tick [] [] (fun _ => false)
          (layer_sys_run [] [] layer_sys_boot
            [LayerEvent.tick example_keymap_same_tick (fun i => decide (i = 1 ∨ i = 2))])
          0).mo_held_sensors).1 L ≠ ((0 : Nat) : Int) :=
  C29_holder_table_invariant [] []
    [LayerEvent.tick example_keymap_same_tick (fun i => decide (i = 1 ∨ i = 2))]
    example_keymap_same_tick (fun _ => false) 0 (by decide)

/-! ### Keymap profiles -/


theorem and_bit_ne_zero_iff (mask slot : Nat) (hs : slot < 32) :
    (mask &&& (1 <<< slot) % 2 ^ 32) ≠ 0 ↔ mask.testBit slot = true := by
  have hb : (1 <<< slot) % 2 ^ 32 = 2 ^ slot := by
    rw [Nat.one_shiftLeft]
    exact Nat.mod_eq_of_lt (Nat.pow_lt_pow_right (by decide) hs)
  rw [hb]
  constructor
  · intro h
    by_contra hc
    apply h
    apply Nat.eq_of_testBit_eq
    intro i
    rw [Nat.testBit_and, Nat.testBit_two_pow, Nat.zero_testBit]
    by_cases e : slot = i
    · subst e
      simp only [Bool.not_eq_true] at hc
      simp [hc]
    · simp [e]
  · intro h e
    have := congrArg (fun x => Nat.testBit x slot) e
    simp only [Nat.testBit_and, Nat.testBit_two_pow_self, h, Bool.and_self,
      Nat.zero_testBit] at this
    exact absurd this (by decide)

theorem slot_valid_iff (ps : ProfileState) (slot : Nat) :
    slot_valid ps slot = true
      ↔ slot < PROFILE_COUNT ∧ (slot = 0 ∨ ps.g_valid_mask.testBit slot = true) := by
  unfold slot_valid
  by_cases h1 : slot ≥ PROFILE_COUNT
  · simp only [h1, if_true]
    constructor
    · intro h; exact absurd h (by decide)
    · intro h; omega
  · simp only [h1, if_false]
    by_cases h0 : slot = 0
    · simp only [h0, if_true]
      unfold PROFILE_COUNT
      simp
    · simp only [h0, if_false, decide_eq_true_eq, false_or]
      unfold PROFILE_COUNT at h1
      rw [and_bit_ne_zero_iff _ _ (by omega)]
      unfold PROFILE_COUNT
      constructor
      · intro h; exact ⟨by omega, h⟩
      · intro h; exact h.2

theorem mask_set_bit (mask slot : Nat) (hs : slot < PROFILE_COUNT) :
    ((mask ||| ((1 <<< slot) % 2 ^ 32) % 65536) % 65536).testBit slot = true := by
  unfold PROFILE_COUNT at hs
  have hb : ((1 <<< slot) % 2 ^ 32) % 65536 = 2 ^ slot := by
    rw [Nat.one_shiftLeft]
    have h1 : 2 ^ slot < 2 ^ 16 := Nat.pow_lt_pow_right (by decide) (by omega)
    have h2 : 2 ^ slot < 2 ^ 32 := Nat.pow_lt_pow_right (by decide) (by omega)
    rw [Nat.mod_eq_of_lt h2]
    exact Nat.mod_eq_of_lt h1
  rw [hb]
  have : (65536 : Nat) = 2 ^ 16 := by decide
  rw [this, Nat.testBit_mod_two_pow, Nat.testBit_or, Nat.testBit_two_pow_self]
  simp
  omega

theorem mask_clear_bit_other :
    ∀ slot, slot < 10 → ∀ cur, cur < 10 → cur ≠ slot →
      Nat.testBit ((2 ^ 32 - 1 - (1 <<< slot) % 2 ^ 32) % 65536) cur = true := by
  decide

theorem mask_clear_keeps (mask slot cur : Nat) (hs : slot < PROFILE_COUNT)
    (hc : cur < PROFILE_COUNT) (hne : cur ≠ slot) (h : mask.testBit cur = true) :
    ((mask &&& ((2 ^ 32 - 1 - (1 <<< slot) % 2 ^ 32) % 65536)) % 65536).testBit cur = true := by
  unfold PROFILE_COUNT at hs hc
  have : (65536 : Nat) = 2 ^ 16 := by decide
  rw [this, Nat.testBit_mod_two_pow, Nat.testBit_and, h, ← this,
    mask_clear_bit_other slot hs cur hc hne]
  simp
  omega

theorem slot_valid_zero (ps : ProfileState) : slot_valid ps 0 = true := by
  simp [slot_valid, PROFILE_COUNT]

theorem slot_valid_mask (ps ps2 : ProfileState) (slot : Nat)
    (h : ps2.g_valid_mask = ps.g_valid_mask) : slot_valid ps2 slot = slot_valid ps slot := by
  unfold slot_valid
  rw [h]

theorem profiles_init_inv (v : profiles_view) (ps : ProfileState) (km : Nat → Nat → Nat) :
    profile_inv (profiles_init v ps km).1 := by
  unfold profiles_init
  simp only []
  split_ifs with h
  · exact h
  · exact slot_valid_zero _

theorem profile_step_inv (x : ProfileState × (Nat → Nat → Nat)) (call : ProfileCall)
    (h : profile_inv x.1) : profile_inv (profile_step x call).1 := by
  cases call with
  | save_slot slot r g b si =>
    simp only [profile_step, profiles_save_slot]
    by_cases h1 : slot ≥ PROFILE_COUNT
    · simp only [h1, if_true]; exact h
    · simp only [h1, if_false]
      exact (slot_valid_iff _ _).mpr ⟨Nat.lt_of_not_le h1, Or.inr (mask_set_bit _ _ (by omega))⟩
  | load_slot slot =>
    simp only [profile_step, profiles_load_slot]
    by_cases h1 : slot ≥ PROFILE_COUNT
    · simp only [h1, if_true]; exact h
    · simp only [h1, if_false]
      by_cases h2 : slot_valid x.1 slot = true
      · simp only [h2, Bool.not_true, Bool.false_eq_true, if_false]
        exact (slot_valid_mask x.1 _ slot rfl).trans h2
      · simp only [Bool.not_eq_true] at h2
        simp only [h2, Bool.not_false, if_true]
        exact h
  | delete_slot slot =>
    simp only [profile_step, profiles_delete_slot]
    by_cases h0 : slot = 0
    · simp only [h0, if_true]; exact h
    · simp only [h0, if_false]
      by_cases h1 : slot ≥ PROFILE_COUNT
      · simp only [h1, if_true]; exact h
      · simp only [h1, if_false]
        by_cases hc : x.1.g_current_slot = slot
        · simp only [hc, if_true]
          exact slot_valid_zero _
        · simp only [hc, if_false]
          have hv := (slot_valid_iff _ _).mp h
          refine (slot_valid_iff _ _).mpr ⟨hv.1, ?_⟩
          rcases hv.2 with e | e
          · exact Or.inl e
          · exact Or.inr (mask_clear_keeps _ _ _ (by omega) hv.1 hc e)
  | create_blank_slot slot =>
    simp only [profile_step, profiles_create_blank_slot]
    by_cases h0 : slot = 0
    · simp only [h0, if_true]; exact h
    · simp only [h0, if_false]
      by_cases h1 : slot ≥ PROFILE_COUNT
      · simp only [h1, if_true]; exact h
      · simp only [h1, if_false]
        exact (slot_valid_iff _ _).mpr ⟨Nat.lt_of_not_le h1, Or.inr (mask_set_bit _ _ (by omega))⟩
  | set_slot_color slot r g b =>
    simp only [profile_step, profiles_set_slot_color]
    by_cases h1 : slot ≥ PROFILE_COUNT
    · simp only [h1, if_true]; exact h
    · simp only [h1, if_false]
      exact (slot_valid_mask x.1 _ _ rfl).trans h
  | set_static_indicator enabled =>
    simp only [profile_step, profiles_set_static_indicator]
    exact (slot_valid_mask x.1 _ _ rfl).trans h
  | task =>
    simp only [profile_step, profiles_task]
    split_ifs
    · exact (slot_valid_mask x.1 _ _ rfl).trans h
    · exact h

theorem profile_run_inv (calls : List ProfileCall) :
    ∀ x : ProfileState × (Nat → Nat → Nat), profile_inv x.1 →
      profile_inv (profile_run x calls).1 := by
  induction calls with
  | nil => intro x h; exact h
  | cons c cs ih =>
    intro x h
    exact ih _ (profile_step_inv x c h)

/-- C26. In every state reached from `profiles_init` (any flash contents, any
prior statics and live keymap) through `profiles_save_slot`,
`profiles_load_slot`, `profiles_delete_slot`, `profiles_create_blank_slot`,
`profiles_set_slot_color`, `profiles_set_static_indicator` and `profiles_task`
with any arguments: slot 0 is valid, bit 0 of `profiles_get_valid_mask()` is
set, `profiles_delete_slot(0)` returns false and changes nothing, and the
current slot is below 10 and is a valid slot. -/
theorem C26_profile_slot_invariant (v : profiles_view) (ps0 : ProfileState)
    (km0 : Nat → Nat → Nat) (calls : List ProfileCall) :
    profiles_slot_valid (profile_run (profiles_init v ps0 km0) calls).1 0 = true
    ∧ profiles_get_valid_mask (profile_run (profiles_init v ps0 km0) calls).1 % 2 = 1
    ∧ profiles_delete_slot (profile_run (profiles_init v ps0 km0) calls).1
        (profile_run (profiles_init v ps0 km0) calls).2 0
      = (false, (profile_run (profiles_init v ps0 km0) calls).1,
          (profile_run (profiles_init v ps0 km0) calls).2)
    ∧ profiles_get_current_slot (profile_run (profiles_init v ps0 km0) calls).1 < 10
    ∧ profiles_slot_valid (profile_run (profiles_init v ps0 km0) calls).1
        (profiles_get_current_slot (profile_run (profiles_init v ps0 km0) calls).1) = true := by
  have hinv := profile_run_inv calls (profiles_init v ps0 km0) (profiles_init_inv v ps0 km0)
  refine ⟨slot_valid_zero _, ?_, ?_, ((slot_valid_iff _ _).mp hinv).1, hinv⟩
  · unfold profiles_get_valid_mask
    have h0 : Nat.testBit (((profile_run (profiles_init v ps0 km0) calls).1.g_valid_mask
        ||| 0x0001) % 65536) 0 = true := by
      have : (65536 : Nat) = 2 ^ 16 := by decide
      rw [this, Nat.testBit_mod_two_pow, Nat.testBit_or]
      simp
    rw [Nat.testBit_zero] at h0
    exact of_decide_eq_true h0
  · simp [profiles_delete_slot]

end Pmk
